import Mathlib

/-!
# Direct3D11 pipeline resource signature: bind-point layout

A shallow embedding of `PipelineResourceSignatureD3D11Impl.cpp` (validation of the
signature description, the range classifier, `CreateLayout`,
`UpdateShaderResourceBindingMap`, `CopyStaticResources` and `InitSRBResourceCache`) and of the
pretransform block of the constructor of `SwapChainGLImpl`, together with the properties of the
layout that is built, of the binding map that is exported and of the caches that are filled.

Conventions of the embedding:
* machine integers are natural numbers, reduced modulo `2 ^ w` where the C++ type wraps;
* raw arrays addressed through a pointer (`m_pResourceAttribs`,
  `m_pImmutableSamplerAttribs`) and per-stage tables are functions of the index;
* an index sentinel (`InvalidImmutableSamplerIndex`, `InvalidSamplerInd`) is `none`;
* a failed `DEV_CHECK_ERR` or `VERIFY` does not stop the run, it is appended to a log.
-/

namespace Diligent

/-! ## Enumerations and descriptors -/

/-- The shader resource kinds; `SHADER_RESOURCE_TYPE_LAST == 8` is `ACCEL_STRUCT`. -/
inductive SHADER_RESOURCE_TYPE
  | UNKNOWN
  | CONSTANT_BUFFER
  | TEXTURE_SRV
  | BUFFER_SRV
  | TEXTURE_UAV
  | BUFFER_UAV
  | SAMPLER
  | INPUT_ATTACHMENT
  | ACCEL_STRUCT
  deriving DecidableEq, Repr, Inhabited

/-- The four D3D11 binding ranges and the `UNKNOWN` value returned for unsupported kinds. -/
inductive D3D11_RESOURCE_RANGE
  | CBV
  | SRV
  | SAMPLER
  | UAV
  | UNKNOWN
  deriving DecidableEq, Repr, Inhabited

/-- The mutability class of a shader variable, in ascending order. -/
inductive SHADER_RESOURCE_VARIABLE_TYPE
  | STATIC
  | MUTABLE
  | DYNAMIC
  deriving DecidableEq, Repr, Inhabited

/-- The numeric value of a mutability class (`STATIC = 0`, `MUTABLE = 1`, `DYNAMIC = 2`). -/
def SHADER_RESOURCE_VARIABLE_TYPE.toNat : SHADER_RESOURCE_VARIABLE_TYPE → Nat
  | .STATIC => 0
  | .MUTABLE => 1
  | .DYNAMIC => 2

/-- Modelled from the spec: the empty stage mask (`GraphicsTypes.h` is not part of the
excerpt); a visibility mask is a bit set over the shader stages. -/
def SHADER_TYPE_UNKNOWN : Nat := 0

/-- Modelled from the spec: the vertex stage bit (stage index 0). -/
def SHADER_TYPE_VERTEX : Nat := 0x0001

/-- Modelled from the spec: the pixel stage bit (stage index 1). -/
def SHADER_TYPE_PIXEL : Nat := 0x0002

/-- Modelled from the spec: the compute stage bit (stage index 5). -/
def SHADER_TYPE_COMPUTE : Nat := 0x0020

/-- Stage index of the vertex stage. -/
def VSInd : Nat := 0

/-- Stage index of the pixel stage. -/
def PSInd : Nat := 1

/-- Stage index of the compute stage. -/
def CSInd : Nat := 5

/-- Modelled from the spec: the "never dynamically offset" resource flag bit. -/
def PIPELINE_RESOURCE_FLAG_NO_DYNAMIC_BUFFERS : Nat := 0x01

/-- One entry of the resource descriptor table. -/
structure PipelineResourceDesc where
  Name : String
  ShaderStages : Nat
  ArraySize : Nat
  ResourceType : SHADER_RESOURCE_TYPE
  VarType : SHADER_RESOURCE_VARIABLE_TYPE
  Flags : Nat
  deriving DecidableEq, Repr, Inhabited

/-- One immutable sampler descriptor (the sampler state itself plays no role in the layout). -/
structure ImmutableSamplerDesc where
  ShaderStages : Nat
  SamplerOrTextureName : String
  deriving DecidableEq, Repr, Inhabited

/-- The signature description: the resource table and the immutable sampler list. -/
structure PipelineResourceSignatureDesc where
  Resources : List PipelineResourceDesc
  ImmutableSamplers : List ImmutableSamplerDesc
  UseCombinedTextureSamplers : Bool
  CombinedSamplerSuffix : String
  deriving Repr, Inhabited

/-- The number of entries of the resource table. -/
def PipelineResourceSignatureDesc.NumResources (Desc : PipelineResourceSignatureDesc) : Nat :=
  Desc.Resources.length

/-- The number of immutable sampler descriptors. -/
def PipelineResourceSignatureDesc.NumImmutableSamplers (Desc : PipelineResourceSignatureDesc) :
    Nat :=
  Desc.ImmutableSamplers.length

/-- The resource descriptor at index `i`. -/
def PipelineResourceSignatureDesc.GetResourceDesc (Desc : PipelineResourceSignatureDesc)
    (i : Nat) : PipelineResourceDesc :=
  Desc.Resources.getD i default

/-- The immutable sampler descriptor at index `i`. -/
def PipelineResourceSignatureDesc.GetImmutableSamplerDesc (Desc : PipelineResourceSignatureDesc)
    (i : Nat) : ImmutableSamplerDesc :=
  Desc.ImmutableSamplers.getD i default

/-! ## Range classifier and description validation -/

/-- The range classifier: `PipelineResourceSignatureD3D11Impl::ShaderResourceTypeToRange`. -/
def ShaderResourceTypeToRange : SHADER_RESOURCE_TYPE → D3D11_RESOURCE_RANGE
  | .CONSTANT_BUFFER => .CBV
  | .TEXTURE_SRV => .SRV
  | .BUFFER_SRV => .SRV
  | .TEXTURE_UAV => .UAV
  | .BUFFER_UAV => .UAV
  | .SAMPLER => .SAMPLER
  | .INPUT_ATTACHMENT => .SRV
  | _ => .UNKNOWN

/-- The bits of `a` that are not in `b`: the C++ expression `a & ~b`. -/
def andNot (a b : Nat) : Nat := a ^^^ (a &&& b)

/-- The stages in which D3D11 supports UAVs: `SHADER_TYPE_PIXEL | SHADER_TYPE_COMPUTE`. -/
def UAVStages : Nat := SHADER_TYPE_PIXEL ||| SHADER_TYPE_COMPUTE

/-- The loop of `ValidatePipelineResourceSignatureDescD3D11` from index `i` on: the first
UAV resource visible outside the pixel and compute stages throws, the error carries its index. -/
def ValidateResourcesFrom : List PipelineResourceDesc → Nat → Except Nat Unit
  | [], _ => .ok ()
  | ResDesc :: rest, i =>
    if ShaderResourceTypeToRange ResDesc.ResourceType = .UAV ∧
        andNot ResDesc.ShaderStages UAVStages ≠ 0 then
      .error i
    else
      ValidateResourcesFrom rest (i + 1)

/-- The validation run by both constructors before the layout is built. -/
def ValidatePipelineResourceSignatureDescD3D11 (Desc : PipelineResourceSignatureDesc) :
    Except Nat Unit :=
  ValidateResourcesFrom Desc.Resources 0

/-! ## Stage iteration -/

/-- The index of the lowest set bit of `m`, searched with `fuel` halvings. -/
def lowestSetBit : Nat → Nat → Nat
  | 0, _ => 0
  | fuel + 1, m => if m % 2 = 1 then 0 else lowestSetBit fuel (m / 2) + 1

/-- Modelled from the spec: `ExtractFirstShaderStageIndex` (declared in a header outside the
excerpt), the "extract first set bit and clear it" idiom: returns the index of the first
stage of the mask and the mask without that stage. -/
def ExtractFirstShaderStageIndex (Stages : Nat) : Nat × Nat :=
  (lowestSetBit Stages Stages, Stages ^^^ (1 <<< lowestSetBit Stages Stages))

/-- The loop `while (Stages != SHADER_TYPE_UNKNOWN) { i = ExtractFirstShaderStageIndex(Stages);
body(i); }` with at most `fuel` iterations. -/
def forEachStageFuel {σ : Type} (body : Nat → σ → σ) : Nat → Nat → σ → σ
  | 0, _, s => s
  | fuel + 1, Stages, s =>
    if Stages = SHADER_TYPE_UNKNOWN then s
    else
      forEachStageFuel body fuel (ExtractFirstShaderStageIndex Stages).2
        (body (ExtractFirstShaderStageIndex Stages).1 s)

/-- The stage loop run to completion: every iteration clears one bit, so `Stages` iterations
suffice. -/
def forEachStage {σ : Type} (body : Nat → σ → σ) (Stages : Nat) (s : σ) : σ :=
  forEachStageFuel body Stages Stages s

/-- The stage indices visited by the stage loop, in the order of the visits. -/
def stagesOf (Stages : Nat) : List Nat :=
  forEachStage (fun i acc => acc ++ [i]) Stages []

/-- A counted loop `for (i = 0; i < n; ++i) body(i)`. -/
def forLoop {σ : Type} (body : Nat → σ → σ) : Nat → σ → σ
  | 0, s => s
  | n + 1, s => body n (forLoop body n s)

/-! ## Bind points and counters -/

/-- Modelled from the spec: the number of shader stages of the D3D11 backend
(`D3D11ResourceBindPoints::NumShaderTypes`: vertex, pixel, geometry, hull, domain, compute);
the header declaring it is outside the excerpt. -/
def NumShaderTypes : Nat := 6

/-- Modelled from the spec: the sentinel held by the unallocated stages of a bind-point table;
slots are 8 bits wide. -/
def InvalidBindPoint : Nat := 0xFF

/-- Modelled from the spec: the width in bits of a per-(range, stage) counter. The header
declaring `D3D11ResourceRangeCounters` is outside the excerpt; the static-counter loop of
`CreateLayout` reads a counter as `Uint8`. -/
def CounterBits : Nat := 8

/-- Modelled from the spec: the width in bits of one entry of `m_DynamicCBSlotsMask`
(`sizeof(m_DynamicCBSlotsMask[0]) * 8`). -/
def DynamicCBSlotsMaskBits : Nat := 16

/-- Modelled from the spec: the bind-point table `D3D11ResourceBindPoints` (its header is
outside the excerpt): one slot per shader stage, the unallocated stages hold the sentinel,
and the set of active stages. -/
structure D3D11ResourceBindPoints where
  Bindings : Nat → Nat
  ActiveStages : Nat

/-- The default-constructed bind-point table: no stage is active. -/
def D3D11ResourceBindPoints.empty : D3D11ResourceBindPoints :=
  { Bindings := fun _ => InvalidBindPoint, ActiveStages := SHADER_TYPE_UNKNOWN }

instance : Inhabited D3D11ResourceBindPoints := ⟨D3D11ResourceBindPoints.empty⟩

/-- The assignment `BindPoints[ShaderInd] = BindPoint`: stores the slot and activates the
stage. -/
def D3D11ResourceBindPoints.Set (bp : D3D11ResourceBindPoints) (ShaderInd BindPoint : Nat) :
    D3D11ResourceBindPoints :=
  { Bindings := fun s => if s = ShaderInd then BindPoint else bp.Bindings s
    ActiveStages := bp.ActiveStages ||| (1 <<< ShaderInd) }

/-- The test `BindPoints.IsEmpty()`: no stage is active. -/
def D3D11ResourceBindPoints.IsEmpty (bp : D3D11ResourceBindPoints) : Bool :=
  bp.ActiveStages == SHADER_TYPE_UNKNOWN

/-- The test `BindPoints.IsStageActive(ShaderInd)`. -/
def D3D11ResourceBindPoints.IsStageActive (bp : D3D11ResourceBindPoints) (ShaderInd : Nat) :
    Bool :=
  bp.ActiveStages.testBit ShaderInd

/-- The comparison `lhs == rhs` of two bind-point tables: the same active stages and the same
slot in every stage of the backend. -/
def D3D11ResourceBindPoints.eqb (lhs rhs : D3D11ResourceBindPoints) : Bool :=
  (lhs.ActiveStages == rhs.ActiveStages) &&
    (List.range NumShaderTypes).all (fun s => lhs.Bindings s == rhs.Bindings s)

/-- Modelled from the spec: the counter matrix `D3D11ShaderResourceCounters`, one next-free-slot
counter per (range, stage). -/
abbrev D3D11ShaderResourceCounters : Type := D3D11_RESOURCE_RANGE → Nat → Nat

/-- The zero-initialised counter matrix. -/
def D3D11ShaderResourceCounters.zero : D3D11ShaderResourceCounters := fun _ _ => 0

/-- The assignment `Counters[Range][ShaderInd] = Value`. -/
def setCounter (c : D3D11ShaderResourceCounters) (Range : D3D11_RESOURCE_RANGE)
    (ShaderInd Value : Nat) : D3D11ShaderResourceCounters :=
  fun r s => if r = Range ∧ s = ShaderInd then Value else c r s

/-- The derived attributes of one resource (`PipelineResourceAttribsD3D11`). -/
structure PipelineResourceAttribsD3D11 where
  BindPoints : D3D11ResourceBindPoints
  SamplerInd : Option Nat
  ImtblSamplerAssigned : Bool
  deriving Inhabited

/-- The accessor `IsImmutableSamplerAssigned()`. -/
def PipelineResourceAttribsD3D11.IsImmutableSamplerAssigned (a : PipelineResourceAttribsD3D11) :
    Bool :=
  a.ImtblSamplerAssigned

/-- The derived attributes of one immutable sampler (`ImmutableSamplerAttribsD3D11`). -/
structure ImmutableSamplerAttribsD3D11 where
  ArraySize : Nat
  BindPoints : D3D11ResourceBindPoints

/-- Modelled from the spec: the default-constructed immutable sampler attributes of a fresh
signature: array length 1 (the smallest legal array length) and no bind points. -/
def ImmutableSamplerAttribsD3D11.fresh : ImmutableSamplerAttribsD3D11 :=
  { ArraySize := 1, BindPoints := D3D11ResourceBindPoints.empty }

instance : Inhabited ImmutableSamplerAttribsD3D11 := ⟨ImmutableSamplerAttribsD3D11.fresh⟩

/-! ## The signature and its layout state -/

/-- The failed development-build checks (`DEV_CHECK_ERR`) of the restore path, with the index
of the immutable sampler or resource. -/
inductive DevCheckError
  | ImtblSamplerBindPoints (i : Nat)
  | BindPoints (i : Nat)
  | SamplerInd (i : Nat)
  | ImtblSamplerFlag (i : Nat)
  deriving DecidableEq, Repr

/-- The failed debug assertions (`VERIFY`, `VERIFY_EXPR`) of `CreateLayout`. -/
inductive VerifyFailure
  | NotSortedByVarType (i : Nat)
  | TexSRVHasImmutableSampler (i : Nat)
  | DynamicCBSlotOutOfRange (i ShaderInd elem : Nat)
  | SamplerAssignedToSampler (i : Nat)
  | EmptyBindPoints (i : Nat)
  deriving DecidableEq, Repr

/-- The inputs of the layout: the description and the search for the sampler assigned to a
texture, a naming convention of the base class that is taken as given. -/
structure PipelineResourceSignatureD3D11Impl where
  m_Desc : PipelineResourceSignatureDesc
  FindAssignedSampler : PipelineResourceDesc → Option Nat

/-- The search loop of `FindImmutableSampler` over the descriptors from index `s` on. -/
def FindImmutableSamplerFrom (UseCombined : Bool) (Suffix : String) (ShaderStages : Nat)
    (ResourceName : String) : List ImmutableSamplerDesc → Nat → Option Nat
  | [], _ => none
  | Sam :: rest, s =>
    if (Sam.ShaderStages &&& ShaderStages ≠ 0) ∧
        (ResourceName = Sam.SamplerOrTextureName ∨
          (UseCombined = true ∧ ResourceName = Sam.SamplerOrTextureName ++ Suffix)) then
      some s
    else
      FindImmutableSamplerFrom UseCombined Suffix ShaderStages ResourceName rest (s + 1)

/-- Modelled from the spec: `FindImmutableSampler` (a member of the base class, outside the
excerpt): the index of the first immutable sampler descriptor with an overlapping visibility
mask and the exact name or the combined-sampler-suffixed name, or none. -/
def PipelineResourceSignatureD3D11Impl.FindImmutableSampler
    (Sig : PipelineResourceSignatureD3D11Impl) (ShaderStages : Nat) (ResourceName : String) :
    Option Nat :=
  FindImmutableSamplerFrom Sig.m_Desc.UseCombinedTextureSamplers Sig.m_Desc.CombinedSamplerSuffix
    ShaderStages ResourceName Sig.m_Desc.ImmutableSamplers 0

/-- The members of the signature that `CreateLayout` reads and writes, its two local tables
(`ResourceToImmutableSamplerInd`, `StaticResCounters`, the latter handed to the static cache
at the end) and the logs of failed checks. -/
structure LayoutState where
  m_ResourceCounters : D3D11ShaderResourceCounters
  m_pImmutableSamplerAttribs : Nat → ImmutableSamplerAttribsD3D11
  m_pResourceAttribs : Nat → PipelineResourceAttribsD3D11
  m_DynamicCBSlotsMask : Nat → Nat
  ResourceToImmutableSamplerInd : Nat → Option Nat
  StaticResCounters : D3D11ShaderResourceCounters
  DevCheckErrors : List DevCheckError
  VerifyFailures : List VerifyFailure

/-! ## `CreateLayout` -/

/-- The lambda `AllocBindPoints` of `CreateLayout`: every stage of the mask gets the current
counter of (`Range`, stage) as its slot, and the counter advances by `ArraySize` within its
8-bit width. -/
def AllocBindPoints (ResCounters : D3D11ShaderResourceCounters)
    (BindPoints : D3D11ResourceBindPoints) (ShaderStages ArraySize : Nat)
    (Range : D3D11_RESOURCE_RANGE) : D3D11ShaderResourceCounters × D3D11ResourceBindPoints :=
  forEachStage
    (fun ShaderInd acc =>
      (setCounter acc.1 Range ShaderInd ((acc.1 Range ShaderInd + ArraySize) % 2 ^ CounterBits),
        acc.2.Set ShaderInd (acc.1 Range ShaderInd)))
    ShaderStages (ResCounters, BindPoints)

/-- One iteration of the first loop of `CreateLayout`: a sampler resource that matches an
immutable sampler records its index and raises the array size of that immutable sampler to its
own array size. -/
def ResolveImmutableSamplerStep (Sig : PipelineResourceSignatureD3D11Impl) (i : Nat)
    (st : LayoutState) : LayoutState :=
  let ResDesc := Sig.m_Desc.GetResourceDesc i
  if ResDesc.ResourceType = .SAMPLER then
    match Sig.FindImmutableSampler ResDesc.ShaderStages ResDesc.Name with
    | some SrcImmutableSamplerInd =>
      { st with
        ResourceToImmutableSamplerInd := fun j =>
          if j = i then some SrcImmutableSamplerInd else st.ResourceToImmutableSamplerInd j
        m_pImmutableSamplerAttribs := fun k =>
          if k = SrcImmutableSamplerInd then
            { st.m_pImmutableSamplerAttribs k with
              ArraySize := max (st.m_pImmutableSamplerAttribs k).ArraySize ResDesc.ArraySize }
          else st.m_pImmutableSamplerAttribs k }
    | none => st
  else st

/-- One iteration of the second loop of `CreateLayout`: registers are allocated for immutable
sampler `i`; the fresh path stores the bind points, the restore path compares them with the
deserialized ones. -/
def AllocImmutableSamplerStep (Sig : PipelineResourceSignatureD3D11Impl) (IsSerialized : Bool)
    (i : Nat) (st : LayoutState) : LayoutState :=
  let ImtblSamp := Sig.m_Desc.GetImmutableSamplerDesc i
  let ImtblSampAttribs := st.m_pImmutableSamplerAttribs i
  let alloc := AllocBindPoints st.m_ResourceCounters D3D11ResourceBindPoints.empty
    ImtblSamp.ShaderStages ImtblSampAttribs.ArraySize .SAMPLER
  if IsSerialized = false then
    { st with
      m_ResourceCounters := alloc.1
      m_pImmutableSamplerAttribs := fun k =>
        if k = i then { ImtblSampAttribs with BindPoints := alloc.2 }
        else st.m_pImmutableSamplerAttribs k }
  else
    { st with
      m_ResourceCounters := alloc.1
      DevCheckErrors :=
        if ImtblSampAttribs.BindPoints.eqb alloc.2 then st.DevCheckErrors
        else st.DevCheckErrors ++ [.ImtblSamplerBindPoints i] }

/-- The loop that raises the static counters of `Range` in every stage of the mask to the main
counters (`SrcCounters`). -/
def RaiseStaticCounters (SrcCounters DstCounters : D3D11ShaderResourceCounters)
    (Range : D3D11_RESOURCE_RANGE) (ShaderStages : Nat) : D3D11ShaderResourceCounters :=
  forEachStage
    (fun ShaderInd Dst =>
      setCounter Dst Range ShaderInd (max (Dst Range ShaderInd) (SrcCounters Range ShaderInd)))
    ShaderStages DstCounters

/-- The loop that sets the bits of `m_DynamicCBSlotsMask` for every (stage, slot) pair of a
constant buffer that may be dynamic; `1u << n` shifts a 32-bit value and a mask entry keeps its
low `DynamicCBSlotsMaskBits` bits. For a count `n` of 32 or more the C++ shift is undefined; the
shift instruction takes the count modulo 32, and that is what the definition does: the
properties of the mask are stated for counts below 32. A slot beyond the mask width fails the
`VERIFY_EXPR`. -/
def SetDynamicCBSlots (i : Nat) (BindPoints : D3D11ResourceBindPoints)
    (ShaderStages ArraySize : Nat) (Mask : Nat → Nat) (Failures : List VerifyFailure) :
    (Nat → Nat) × List VerifyFailure :=
  forEachStage
    (fun ShaderInd acc =>
      forLoop
        (fun elem acc =>
          ((fun s =>
              if s = ShaderInd then
                (acc.1 s ||| 1 <<< ((BindPoints.Bindings ShaderInd + elem) % 32)) %
                  2 ^ DynamicCBSlotsMaskBits
              else acc.1 s),
            if BindPoints.Bindings ShaderInd + elem < DynamicCBSlotsMaskBits then acc.2
            else acc.2 ++ [.DynamicCBSlotOutOfRange i ShaderInd elem]))
        ArraySize acc)
    ShaderStages (Mask, Failures)

/-- The branch of `CreateLayout` that allocates the slots of resource `i` itself: the main
counters advance, a static resource raises the static counters, and a constant buffer without
the `NO_DYNAMIC_BUFFERS` flag marks its slots in the dynamic-buffer mask. Returns the new state
and the bind points of the resource. -/
def AllocateResource (i : Nat) (ResDesc : PipelineResourceDesc) (st : LayoutState) :
    LayoutState × D3D11ResourceBindPoints :=
  let Range := ShaderResourceTypeToRange ResDesc.ResourceType
  let alloc := AllocBindPoints st.m_ResourceCounters D3D11ResourceBindPoints.empty
    ResDesc.ShaderStages ResDesc.ArraySize Range
  let StaticResCounters :=
    if ResDesc.VarType = .STATIC then
      RaiseStaticCounters alloc.1 st.StaticResCounters Range ResDesc.ShaderStages
    else st.StaticResCounters
  let dyn :=
    if Range = .CBV ∧ ResDesc.Flags &&& PIPELINE_RESOURCE_FLAG_NO_DYNAMIC_BUFFERS = 0 then
      SetDynamicCBSlots i alloc.2 ResDesc.ShaderStages ResDesc.ArraySize
        st.m_DynamicCBSlotsMask st.VerifyFailures
    else (st.m_DynamicCBSlotsMask, st.VerifyFailures)
  ({ st with
      m_ResourceCounters := alloc.1
      StaticResCounters := StaticResCounters
      m_DynamicCBSlotsMask := dyn.1
      VerifyFailures := dyn.2 },
    alloc.2)

/-- The branch of `CreateLayout` for a sampler that is also defined as an immutable sampler:
no slot is allocated, the bind points are those of the immutable sampler. -/
def UseImmutableSamplerBindPoints (i : Nat) (AssignedSamplerInd : Option Nat)
    (SrcImmutableSamplerInd : Nat) (st : LayoutState) :
    LayoutState × D3D11ResourceBindPoints :=
  let BindPoints := (st.m_pImmutableSamplerAttribs SrcImmutableSamplerInd).BindPoints
  ({ st with
      VerifyFailures :=
        (st.VerifyFailures ++
          (if AssignedSamplerInd = none then [] else [.SamplerAssignedToSampler i])) ++
          (if BindPoints.IsEmpty then [.EmptyBindPoints i] else []) },
    BindPoints)

/-- The end of an iteration of the resource loop: the fresh path constructs the attributes of
resource `i` in place, the restore path compares the deserialized attributes with the computed
values. -/
def StoreOrCheckAttribs (IsSerialized : Bool) (i : Nat) (BindPoints : D3D11ResourceBindPoints)
    (AssignedSamplerInd SrcImmutableSamplerInd : Option Nat) (st : LayoutState) : LayoutState :=
  if IsSerialized = false then
    { st with
      m_pResourceAttribs := fun j =>
        if j = i then
          { BindPoints := BindPoints
            SamplerInd := AssignedSamplerInd
            ImtblSamplerAssigned := SrcImmutableSamplerInd.isSome }
        else st.m_pResourceAttribs j }
  else
    { st with
      DevCheckErrors :=
        ((st.DevCheckErrors ++
          (if (st.m_pResourceAttribs i).BindPoints.eqb BindPoints then []
            else [.BindPoints i])) ++
          (if (st.m_pResourceAttribs i).SamplerInd = AssignedSamplerInd then []
            else [.SamplerInd i])) ++
          (if (st.m_pResourceAttribs i).IsImmutableSamplerAssigned =
              SrcImmutableSamplerInd.isSome then []
            else [.ImtblSamplerFlag i]) }

/-- The sampler assigned to resource `i`: searched for texture SRVs only. -/
def AssignedSamplerIndOf (Sig : PipelineResourceSignatureD3D11Impl) (i : Nat) : Option Nat :=
  if (Sig.m_Desc.GetResourceDesc i).ResourceType = .TEXTURE_SRV then
    Sig.FindAssignedSampler (Sig.m_Desc.GetResourceDesc i)
  else none

/-- The immutable sampler index of resource `i` in the resource loop: the entry of
`ResourceToImmutableSamplerInd` of the resource itself or, for a texture SRV with an assigned
sampler, the entry of that sampler. -/
def SrcImmutableSamplerIndOf (Sig : PipelineResourceSignatureD3D11Impl)
    (ResourceToImmutableSamplerInd : Nat → Option Nat) (i : Nat) : Option Nat :=
  if (Sig.m_Desc.GetResourceDesc i).ResourceType = .TEXTURE_SRV then
    match Sig.FindAssignedSampler (Sig.m_Desc.GetResourceDesc i) with
    | some AssignedSamplerInd => ResourceToImmutableSamplerInd AssignedSamplerInd
    | none => ResourceToImmutableSamplerInd i
  else ResourceToImmutableSamplerInd i

/-- The two debug assertions at the head of an iteration of the resource loop: the resources
are sorted by variable type, and a texture SRV has no immutable sampler index of its own. -/
def VerifyResourceHead (Sig : PipelineResourceSignatureD3D11Impl) (i : Nat)
    (st : LayoutState) : LayoutState :=
  { st with
    VerifyFailures :=
      (st.VerifyFailures ++
        (if i = 0 ∨ (Sig.m_Desc.GetResourceDesc (i - 1)).VarType.toNat ≤
            (Sig.m_Desc.GetResourceDesc i).VarType.toNat then []
          else [.NotSortedByVarType i])) ++
        (if (Sig.m_Desc.GetResourceDesc i).ResourceType = .TEXTURE_SRV ∧
            st.ResourceToImmutableSamplerInd i ≠ none then [.TexSRVHasImmutableSampler i]
          else []) }

/-- The slots of resource `i`: allocated directly unless the resource is a sampler that is also
defined as an immutable sampler. -/
def ResourceBindPointsStep (Sig : PipelineResourceSignatureD3D11Impl) (i : Nat)
    (st : LayoutState) : LayoutState × D3D11ResourceBindPoints :=
  match SrcImmutableSamplerIndOf Sig st.ResourceToImmutableSamplerInd i with
  | some SrcImmutableSamplerInd =>
    if (Sig.m_Desc.GetResourceDesc i).ResourceType = .SAMPLER then
      UseImmutableSamplerBindPoints i (AssignedSamplerIndOf Sig i) SrcImmutableSamplerInd st
    else AllocateResource i (Sig.m_Desc.GetResourceDesc i) st
  | none => AllocateResource i (Sig.m_Desc.GetResourceDesc i) st

/-- One iteration of the resource loop of `CreateLayout`. -/
def CreateLayoutResourceStep (Sig : PipelineResourceSignatureD3D11Impl) (IsSerialized : Bool)
    (i : Nat) (st : LayoutState) : LayoutState :=
  let r := ResourceBindPointsStep Sig i (VerifyResourceHead Sig i st)
  StoreOrCheckAttribs IsSerialized i r.2 (AssignedSamplerIndOf Sig i)
    (SrcImmutableSamplerIndOf Sig st.ResourceToImmutableSamplerInd i) r.1

/-- The state in which the first loop of `CreateLayout` starts: the local tables are new. -/
def LayoutState.enter (st : LayoutState) : LayoutState :=
  { st with
    ResourceToImmutableSamplerInd := fun _ => none
    StaticResCounters := D3D11ShaderResourceCounters.zero }

/-- The state after the first `n` iterations of the first loop (immutable sampler lookup). -/
def ResolvedState (Sig : PipelineResourceSignatureD3D11Impl) (st : LayoutState) (n : Nat) :
    LayoutState :=
  forLoop (ResolveImmutableSamplerStep Sig) n st.enter

/-- The state after the first loop and the first `n` iterations of the second loop (immutable
sampler registers). -/
def ImmutableSamplersState (Sig : PipelineResourceSignatureD3D11Impl) (IsSerialized : Bool)
    (st : LayoutState) (n : Nat) : LayoutState :=
  forLoop (AllocImmutableSamplerStep Sig IsSerialized) n
    (ResolvedState Sig st Sig.m_Desc.NumResources)

/-- The state after the first two loops and the first `n` iterations of the resource loop. -/
def ResourcesState (Sig : PipelineResourceSignatureD3D11Impl) (IsSerialized : Bool)
    (st : LayoutState) (n : Nat) : LayoutState :=
  forLoop (CreateLayoutResourceStep Sig IsSerialized) n
    (ImmutableSamplersState Sig IsSerialized st Sig.m_Desc.NumImmutableSamplers)

/-- The layout builder `PipelineResourceSignatureD3D11Impl::CreateLayout`: the immutable sampler
lookup, the registers of the immutable samplers, then the resources in the supplied order. The
final `StaticResCounters` are the counters that initialise the static resource cache. -/
def CreateLayout (Sig : PipelineResourceSignatureD3D11Impl) (IsSerialized : Bool)
    (st : LayoutState) : LayoutState :=
  ResourcesState Sig IsSerialized st Sig.m_Desc.NumResources

/-- Modelled from the spec: the state of a signature under fresh construction when
`CreateLayout` starts: zeroed counters and mask, default immutable sampler attributes, and
resource attributes that are not constructed yet (`Uninit` is the content of that memory). -/
def LayoutState.fresh (Uninit : Nat → PipelineResourceAttribsD3D11) : LayoutState :=
  { m_ResourceCounters := D3D11ShaderResourceCounters.zero
    m_pImmutableSamplerAttribs := fun _ => ImmutableSamplerAttribsD3D11.fresh
    m_pResourceAttribs := Uninit
    m_DynamicCBSlotsMask := fun _ => 0
    ResourceToImmutableSamplerInd := fun _ => none
    StaticResCounters := D3D11ShaderResourceCounters.zero
    DevCheckErrors := []
    VerifyFailures := [] }

/-- The serialized derived data (`PipelineResourceSignatureInternalDataD3D11`): the resource
attributes and the immutable sampler attributes. -/
structure PipelineResourceSignatureInternalDataD3D11 where
  pResourceAttribs : Nat → PipelineResourceAttribsD3D11
  pImmutableSamplers : Nat → ImmutableSamplerAttribsD3D11

/-- Modelled from the spec: the state of a signature under restore when `CreateLayout` starts:
zeroed counters and mask, and the attributes carried by the serialized data. -/
def LayoutState.restore (InternalData : PipelineResourceSignatureInternalDataD3D11) :
    LayoutState :=
  { m_ResourceCounters := D3D11ShaderResourceCounters.zero
    m_pImmutableSamplerAttribs := InternalData.pImmutableSamplers
    m_pResourceAttribs := InternalData.pResourceAttribs
    m_DynamicCBSlotsMask := fun _ => 0
    ResourceToImmutableSamplerInd := fun _ => none
    StaticResCounters := D3D11ShaderResourceCounters.zero
    DevCheckErrors := []
    VerifyFailures := [] }

/-- The derived data of a built signature, as it is serialized. -/
def LayoutState.InternalData (st : LayoutState) : PipelineResourceSignatureInternalDataD3D11 :=
  { pResourceAttribs := st.m_pResourceAttribs
    pImmutableSamplers := st.m_pImmutableSamplerAttribs }

/-- Fresh construction: `CreateLayout(false)` on the state of a new signature. -/
def FreshLayout (Sig : PipelineResourceSignatureD3D11Impl)
    (Uninit : Nat → PipelineResourceAttribsD3D11) : LayoutState :=
  CreateLayout Sig false (LayoutState.fresh Uninit)

/-- Restore: `CreateLayout(true)` on the state built from the serialized data. -/
def RestoredLayout (Sig : PipelineResourceSignatureD3D11Impl)
    (InternalData : PipelineResourceSignatureInternalDataD3D11) : LayoutState :=
  CreateLayout Sig true (LayoutState.restore InternalData)

/-! ## Quantities the properties are stated with -/

/-- The entry of `ResourceToImmutableSamplerInd` for resource `i` once the first loop is over:
the immutable sampler found for a sampler resource, none for every other resource. -/
def ImmutableSamplerIndOf (Sig : PipelineResourceSignatureD3D11Impl) (i : Nat) : Option Nat :=
  if (Sig.m_Desc.GetResourceDesc i).ResourceType = .SAMPLER then
    Sig.FindImmutableSampler (Sig.m_Desc.GetResourceDesc i).ShaderStages
      (Sig.m_Desc.GetResourceDesc i).Name
  else none

/-- The array size of immutable sampler `k` after the first `n` resources were looked up,
starting from array size `a`: the running maximum over the sampler resources resolved to `k`. -/
def RaisedArraySize (Sig : PipelineResourceSignatureD3D11Impl) (k a : Nat) : Nat → Nat
  | 0 => a
  | n + 1 =>
    if ImmutableSamplerIndOf Sig n = some k then
      max (RaisedArraySize Sig k a n) (Sig.m_Desc.GetResourceDesc n).ArraySize
    else RaisedArraySize Sig k a n

/-- The sum `w 0 + ... + w (n - 1)`. -/
def sumTo (w : Nat → Nat) : Nat → Nat
  | 0 => 0
  | n + 1 => sumTo w n + w n

/-- The number of slots immutable sampler `k` takes in stage `s` when its array size is
`ArraySize k`: none when the stage is outside its visibility mask. -/
def ImmutableSamplerSlots (Sig : PipelineResourceSignatureD3D11Impl) (ArraySize : Nat → Nat)
    (s k : Nat) : Nat :=
  if (Sig.m_Desc.GetImmutableSamplerDesc k).ShaderStages.testBit s = true then ArraySize k else 0

/-- The number of slots resource `i` takes in (`Range`, `s`) by direct allocation: none when
the resource has another range, is not visible in `s`, or is a sampler that reuses the bind
points of an immutable sampler. -/
def ResourceSlots (Sig : PipelineResourceSignatureD3D11Impl) (Range : D3D11_RESOURCE_RANGE)
    (s i : Nat) : Nat :=
  if ImmutableSamplerIndOf Sig i = none ∧
      ShaderResourceTypeToRange (Sig.m_Desc.GetResourceDesc i).ResourceType = Range ∧
      (Sig.m_Desc.GetResourceDesc i).ShaderStages.testBit s = true then
    (Sig.m_Desc.GetResourceDesc i).ArraySize
  else 0

/-- The number of slots of (`Range`, `s`) taken by the immutable samplers: they live in the
sampler range only. -/
def ImmutableSamplerTotal (Sig : PipelineResourceSignatureD3D11Impl) (ArraySize : Nat → Nat)
    (Range : D3D11_RESOURCE_RANGE) (s : Nat) : Nat :=
  if Range = .SAMPLER then
    sumTo (ImmutableSamplerSlots Sig ArraySize s) Sig.m_Desc.NumImmutableSamplers
  else 0

/-- The array sizes of the immutable samplers of a fresh signature after the first loop. -/
def FreshArraySize (Sig : PipelineResourceSignatureD3D11Impl) (k : Nat) : Nat :=
  RaisedArraySize Sig k ImmutableSamplerAttribsD3D11.fresh.ArraySize Sig.m_Desc.NumResources

/-- The bind points of immutable sampler `k` in closed form, for array sizes `ArraySize` and
counters that start at zero: in every stage of its mask the slots of the immutable samplers
before it, within the 8-bit counter width. -/
def ImmutableSamplerBindPointsOf (Sig : PipelineResourceSignatureD3D11Impl)
    (ArraySize : Nat → Nat) (k : Nat) : D3D11ResourceBindPoints :=
  { Bindings := fun s =>
      if (Sig.m_Desc.GetImmutableSamplerDesc k).ShaderStages.testBit s = true then
        sumTo (ImmutableSamplerSlots Sig ArraySize s) k % 2 ^ CounterBits
      else InvalidBindPoint
    ActiveStages := (Sig.m_Desc.GetImmutableSamplerDesc k).ShaderStages }

/-- The bind points of a directly allocated resource `i` in closed form: in every stage of its
mask the slots of the immutable samplers (sampler range only) plus the slots of the directly
allocated resources of the same range before it, within the 8-bit counter width. -/
def ResourceBindPointsOf (Sig : PipelineResourceSignatureD3D11Impl) (ArraySize : Nat → Nat)
    (i : Nat) : D3D11ResourceBindPoints :=
  { Bindings := fun s =>
      if (Sig.m_Desc.GetResourceDesc i).ShaderStages.testBit s = true then
        (ImmutableSamplerTotal Sig ArraySize
            (ShaderResourceTypeToRange (Sig.m_Desc.GetResourceDesc i).ResourceType) s +
          sumTo (ResourceSlots Sig
            (ShaderResourceTypeToRange (Sig.m_Desc.GetResourceDesc i).ResourceType) s) i) %
          2 ^ CounterBits
      else InvalidBindPoint
    ActiveStages := (Sig.m_Desc.GetResourceDesc i).ShaderStages }

/-- The counter of (`Range`, `s`) in closed form after the immutable samplers and the first `n`
resources, for counters that start at zero. -/
def CounterOf (Sig : PipelineResourceSignatureD3D11Impl) (ArraySize : Nat → Nat)
    (Range : D3D11_RESOURCE_RANGE) (s n : Nat) : Nat :=
  (ImmutableSamplerTotal Sig ArraySize Range s + sumTo (ResourceSlots Sig Range s) n) %
    2 ^ CounterBits

/-- The array size of immutable sampler `k` after the first loop of `CreateLayout` started in
state `st`. -/
def ArraySizeOf (Sig : PipelineResourceSignatureD3D11Impl) (st : LayoutState) (k : Nat) : Nat :=
  RaisedArraySize Sig k (st.m_pImmutableSamplerAttribs k).ArraySize Sig.m_Desc.NumResources

/-- The static counter of (`Range`, `s`) in closed form after the first `n` resources: the
largest main counter reached right after a directly allocated static resource of that range
visible in `s`. -/
def StaticCounterOf (Sig : PipelineResourceSignatureD3D11Impl) (ArraySize : Nat → Nat)
    (Range : D3D11_RESOURCE_RANGE) (s : Nat) : Nat → Nat
  | 0 => 0
  | n + 1 =>
    if ImmutableSamplerIndOf Sig n = none ∧
        ShaderResourceTypeToRange (Sig.m_Desc.GetResourceDesc n).ResourceType = Range ∧
        (Sig.m_Desc.GetResourceDesc n).VarType = .STATIC ∧
        (Sig.m_Desc.GetResourceDesc n).ShaderStages.testBit s = true then
      max (StaticCounterOf Sig ArraySize Range s n) (CounterOf Sig ArraySize Range s (n + 1))
    else StaticCounterOf Sig ArraySize Range s n

/-- The inner loop of the dynamic-buffer mask update on one mask entry: the bits of the slots
`BindPoint`, ..., `BindPoint + ArraySize - 1` are set, within the width of the entry and with the
shift count taken modulo 32. -/
def SetSlotBits (BindPoint ArraySize Mask : Nat) : Nat :=
  forLoop
    (fun elem m => (m ||| 1 <<< ((BindPoint + elem) % 32)) % 2 ^ DynamicCBSlotsMaskBits)
    ArraySize Mask

/-- The dynamic-buffer mask of stage `s` in closed form after the first `n` resources, starting
from `Mask`: every constant buffer without the `NO_DYNAMIC_BUFFERS` flag that is visible in `s`
sets the bits of its slots. -/
def DynamicCBSlotsMaskOf (Sig : PipelineResourceSignatureD3D11Impl) (ArraySize : Nat → Nat)
    (s Mask : Nat) : Nat → Nat
  | 0 => Mask
  | n + 1 =>
    if ImmutableSamplerIndOf Sig n = none ∧
        ShaderResourceTypeToRange (Sig.m_Desc.GetResourceDesc n).ResourceType = .CBV ∧
        (Sig.m_Desc.GetResourceDesc n).Flags &&& PIPELINE_RESOURCE_FLAG_NO_DYNAMIC_BUFFERS = 0 ∧
        (Sig.m_Desc.GetResourceDesc n).ShaderStages.testBit s = true then
      SetSlotBits (CounterOf Sig ArraySize .CBV s n) (Sig.m_Desc.GetResourceDesc n).ArraySize
        (DynamicCBSlotsMaskOf Sig ArraySize s Mask n)
    else DynamicCBSlotsMaskOf Sig ArraySize s Mask n

/-- The bind points `CreateLayout` computes for resource `i` when the immutable samplers have
the attributes `Imm`: the bind points of its immutable sampler for a sampler resolved to one,
its own allocation otherwise. -/
def ComputedBindPoints (Sig : PipelineResourceSignatureD3D11Impl) (ArraySize : Nat → Nat)
    (Imm : Nat → ImmutableSamplerAttribsD3D11) (i : Nat) : D3D11ResourceBindPoints :=
  match ImmutableSamplerIndOf Sig i with
  | some k => (Imm k).BindPoints
  | none => ResourceBindPointsOf Sig ArraySize i

/-- The immutable sampler index `CreateLayout` computes for resource `i` (its own for a sampler,
that of the assigned sampler for a texture SRV). -/
def SrcImmutableSamplerInd (Sig : PipelineResourceSignatureD3D11Impl) (i : Nat) : Option Nat :=
  SrcImmutableSamplerIndOf Sig
    (fun j => if j < Sig.m_Desc.NumResources then ImmutableSamplerIndOf Sig j else none) i

/-- The attributes `CreateLayout` computes for resource `i`. -/
def ComputedAttribs (Sig : PipelineResourceSignatureD3D11Impl) (ArraySize : Nat → Nat)
    (Imm : Nat → ImmutableSamplerAttribsD3D11) (i : Nat) : PipelineResourceAttribsD3D11 :=
  { BindPoints := ComputedBindPoints Sig ArraySize Imm i
    SamplerInd := AssignedSamplerIndOf Sig i
    ImtblSamplerAssigned := (SrcImmutableSamplerInd Sig i).isSome }

/-- The check of the restore path on resource `i`: the deserialized attributes `a` agree with
the computed bind points `bp`, the computed sampler index and the computed immutable sampler
flag (the three `DEV_CHECK_ERR` at the end of an iteration of the resource loop). -/
def AttribsCheck (Sig : PipelineResourceSignatureD3D11Impl) (bp : D3D11ResourceBindPoints)
    (a : PipelineResourceAttribsD3D11) (i : Nat) : Prop :=
  a.BindPoints.eqb bp = true ∧ a.SamplerInd = AssignedSamplerIndOf Sig i ∧
    a.ImtblSamplerAssigned = (SrcImmutableSamplerInd Sig i).isSome

/-- The invariant asserted at the head of every iteration of the resource loop of `CreateLayout`
(`Resources must be sorted by variable type`): every resource but the first has a variable type
that is not below the variable type of the resource before it. -/
def SortedByVarType (Sig : PipelineResourceSignatureD3D11Impl) : Prop :=
  ∀ i, i < Sig.m_Desc.NumResources →
    i = 0 ∨ (Sig.m_Desc.GetResourceDesc (i - 1)).VarType.toNat ≤
      (Sig.m_Desc.GetResourceDesc i).VarType.toNat

instance (Sig : PipelineResourceSignatureD3D11Impl) : Decidable (SortedByVarType Sig) :=
  inferInstanceAs (Decidable (∀ i, i < Sig.m_Desc.NumResources →
    i = 0 ∨ (Sig.m_Desc.GetResourceDesc (i - 1)).VarType.toNat ≤
      (Sig.m_Desc.GetResourceDesc i).VarType.toNat))

/-- Resource `i` is a static resource of range `Range` that is visible in stage `s` and gets
slots of its own (it is not a sampler that reuses the bind points of an immutable sampler). -/
def IsDirectStatic (Sig : PipelineResourceSignatureD3D11Impl) (Range : D3D11_RESOURCE_RANGE)
    (s i : Nat) : Prop :=
  ImmutableSamplerIndOf Sig i = none ∧
    ShaderResourceTypeToRange (Sig.m_Desc.GetResourceDesc i).ResourceType = Range ∧
    (Sig.m_Desc.GetResourceDesc i).VarType = .STATIC ∧
    (Sig.m_Desc.GetResourceDesc i).ShaderStages.testBit s = true

instance (Sig : PipelineResourceSignatureD3D11Impl) (Range : D3D11_RESOURCE_RANGE) (s i : Nat) :
    Decidable (IsDirectStatic Sig Range s i) :=
  inferInstanceAs (Decidable (_ ∧ _))

/-- Resource `i` is a constant buffer without the `NO_DYNAMIC_BUFFERS` flag that is visible in
stage `s`. -/
def IsDynamicCB (Sig : PipelineResourceSignatureD3D11Impl) (s i : Nat) : Prop :=
  ShaderResourceTypeToRange (Sig.m_Desc.GetResourceDesc i).ResourceType = .CBV ∧
    (Sig.m_Desc.GetResourceDesc i).Flags &&& PIPELINE_RESOURCE_FLAG_NO_DYNAMIC_BUFFERS = 0 ∧
    (Sig.m_Desc.GetResourceDesc i).ShaderStages.testBit s = true

instance (Sig : PipelineResourceSignatureD3D11Impl) (s i : Nat) :
    Decidable (IsDynamicCB Sig s i) :=
  inferInstanceAs (Decidable (_ ∧ _))

/-! ## `UpdateShaderResourceBindingMap` -/

/-- Modelled from the spec: `GetShaderTypeIndex` (declared in a header outside the excerpt):
the index of the stage of a mask that holds a single stage. -/
def GetShaderTypeIndex (ShaderStage : Nat) : Nat :=
  lowestSetBit ShaderStage ShaderStage

/-- Modelled from the spec: `IsPowerOfTwo` (declared in a header outside the excerpt). -/
def IsPowerOfTwo (val : Nat) : Bool :=
  decide (0 < val) && (val &&& (val - 1) == 0)

/-- Modelled from the spec: the value type of the binding map, `ResourceBinding::BindInfo`
(declared outside the excerpt), with its members in the order of the brace initialisers of
`UpdateShaderResourceBindingMap`: bind point, register space, array size, resource type. -/
structure ResourceBinding.BindInfo where
  BindPoint : Nat
  Space : Nat
  ArraySize : Nat
  ResType : SHADER_RESOURCE_TYPE
  deriving DecidableEq, Repr

/-- Modelled from the spec: the binding map `ResourceBinding::TMap`, an unordered map from
resource names to `BindInfo`: a name is absent or has one value. -/
abbrev ResourceBinding.TMap : Type := String → Option ResourceBinding.BindInfo

/-- The call `ResourceMap.emplace(Key, Value)`: the value is inserted when the key is absent;
a present key keeps its value. Returns the map and whether the insertion took place. -/
def ResourceBinding.emplace (ResourceMap : ResourceBinding.TMap) (Key : String)
    (Value : ResourceBinding.BindInfo) : ResourceBinding.TMap × Bool :=
  match ResourceMap Key with
  | some _ => (ResourceMap, false)
  | none => (fun k => if k = Key then some Value else ResourceMap k, true)

/-- The failed debug assertions (`VERIFY`, `VERIFY_EXPR`) of `UpdateShaderResourceBindingMap`,
with the index of the resource or immutable sampler. -/
inductive BindingMapVerifyFailure
  | NotSingleStage
  | ResourceStageNotActive (r : Nat)
  | ResourceNotUnique (r : Nat)
  | SamplerNotAllocated (samp : Nat)
  | SamplerStageNotActive (samp : Nat)
  | SamplerBindPointInconsistent (samp : Nat)
  | SamplerArraySizeSmaller (samp : Nat)
  deriving DecidableEq, Repr

/-- The binding map under construction and the log of failed assertions. -/
structure BindingMapState where
  ResourceMap : ResourceBinding.TMap
  VerifyFailures : List BindingMapVerifyFailure

/-- Modelled from the spec: `IsAllocated()` of the immutable sampler attributes (declared
outside the excerpt): the bind points are not empty. -/
def ImmutableSamplerAttribsD3D11.IsAllocated (a : ImmutableSamplerAttribsD3D11) : Bool :=
  !a.BindPoints.IsEmpty

/-- Modelled from the spec: `IsUsingCombinedSamplers()` of the base class. -/
def PipelineResourceSignatureD3D11Impl.IsUsingCombinedSamplers
    (Sig : PipelineResourceSignatureD3D11Impl) : Bool :=
  Sig.m_Desc.UseCombinedTextureSamplers

/-- Modelled from the spec: `GetCombinedSamplerSuffix()` of the base class. -/
def PipelineResourceSignatureD3D11Impl.GetCombinedSamplerSuffix
    (Sig : PipelineResourceSignatureD3D11Impl) : String :=
  Sig.m_Desc.CombinedSamplerSuffix

/-- Modelled from the spec: `GetTotalResourceCount()` of the base class. -/
def PipelineResourceSignatureD3D11Impl.GetTotalResourceCount
    (Sig : PipelineResourceSignatureD3D11Impl) : Nat :=
  Sig.m_Desc.NumResources

/-- Modelled from the spec: `GetImmutableSamplerCount()` of the base class. -/
def PipelineResourceSignatureD3D11Impl.GetImmutableSamplerCount
    (Sig : PipelineResourceSignatureD3D11Impl) : Nat :=
  Sig.m_Desc.NumImmutableSamplers

/-- The entry `UpdateShaderResourceBindingMap` builds for resource `r` in the stage with index
`ShaderInd`. Both summands of the bind point are 8-bit values widened to 32 bits, so the sum
does not wrap. -/
def ResourceBindInfo (Sig : PipelineResourceSignatureD3D11Impl) (st : LayoutState)
    (BaseBindings : D3D11ShaderResourceCounters) (ShaderInd r : Nat) :
    ResourceBinding.BindInfo :=
  { BindPoint :=
      BaseBindings (ShaderResourceTypeToRange (Sig.m_Desc.GetResourceDesc r).ResourceType)
          ShaderInd +
        (st.m_pResourceAttribs r).BindPoints.Bindings ShaderInd
    Space := 0
    ArraySize := (Sig.m_Desc.GetResourceDesc r).ArraySize
    ResType := (Sig.m_Desc.GetResourceDesc r).ResourceType }

/-- One iteration of the first loop of `UpdateShaderResourceBindingMap`: a resource visible in
the stage is added under its name; a name that is already present fails the `VERIFY`. -/
def BindingMapResourceStep (Sig : PipelineResourceSignatureD3D11Impl) (st : LayoutState)
    (ShaderStage : Nat) (BaseBindings : D3D11ShaderResourceCounters) (r : Nat)
    (acc : BindingMapState) : BindingMapState :=
  let ShaderInd := GetShaderTypeIndex ShaderStage
  let ResDesc := Sig.m_Desc.GetResourceDesc r
  let ResAttr := st.m_pResourceAttribs r
  if ResDesc.ShaderStages &&& ShaderStage ≠ 0 then
    let e := ResourceBinding.emplace acc.ResourceMap ResDesc.Name
      (ResourceBindInfo Sig st BaseBindings ShaderInd r)
    { ResourceMap := e.1
      VerifyFailures :=
        (acc.VerifyFailures ++
          (if ResAttr.BindPoints.IsStageActive ShaderInd then []
            else [.ResourceStageNotActive r])) ++
          (if e.2 then [] else [.ResourceNotUnique r]) }
  else acc

/-- The name under which immutable sampler `samp` is exported: the combined sampler suffix is
appended when combined samplers are in use. -/
def SampName (Sig : PipelineResourceSignatureD3D11Impl) (samp : Nat) : String :=
  if Sig.IsUsingCombinedSamplers then
    (Sig.m_Desc.GetImmutableSamplerDesc samp).SamplerOrTextureName ++
      Sig.GetCombinedSamplerSuffix
  else (Sig.m_Desc.GetImmutableSamplerDesc samp).SamplerOrTextureName

/-- The entry `UpdateShaderResourceBindingMap` builds for immutable sampler `samp` in the stage
with index `ShaderInd`. -/
def ImmutableSamplerBindInfo (st : LayoutState) (BaseBindings : D3D11ShaderResourceCounters)
    (ShaderInd samp : Nat) : ResourceBinding.BindInfo :=
  { BindPoint :=
      BaseBindings .SAMPLER ShaderInd +
        (st.m_pImmutableSamplerAttribs samp).BindPoints.Bindings ShaderInd
    Space := 0
    ArraySize := (st.m_pImmutableSamplerAttribs samp).ArraySize
    ResType := .SAMPLER }

/-- One iteration of the second loop of `UpdateShaderResourceBindingMap`: an immutable sampler
visible in the stage is added under its exported name; when the name is already present the
existing entry is kept and, in debug builds, compared with the entry of the immutable
sampler. -/
def BindingMapImmutableSamplerStep (Sig : PipelineResourceSignatureD3D11Impl)
    (st : LayoutState) (ShaderStage : Nat) (BaseBindings : D3D11ShaderResourceCounters)
    (samp : Nat) (acc : BindingMapState) : BindingMapState :=
  let ShaderInd := GetShaderTypeIndex ShaderStage
  let ImtblSam := Sig.m_Desc.GetImmutableSamplerDesc samp
  let SampAttr := st.m_pImmutableSamplerAttribs samp
  let Failures :=
    acc.VerifyFailures ++ (if SampAttr.IsAllocated then [] else [.SamplerNotAllocated samp])
  if ImtblSam.ShaderStages &&& ShaderStage ≠ 0 then
    let BindInfo := ImmutableSamplerBindInfo st BaseBindings ShaderInd samp
    let Failures :=
      Failures ++
        (if SampAttr.BindPoints.IsStageActive ShaderInd then []
          else [.SamplerStageNotActive samp])
    let it_inserted := ResourceBinding.emplace acc.ResourceMap (SampName Sig samp) BindInfo
    { ResourceMap := it_inserted.1
      VerifyFailures :=
        if it_inserted.2 then Failures
        else
          match it_inserted.1 (SampName Sig samp) with
          | some ExistingBindInfo =>
            (Failures ++
              (if ExistingBindInfo.BindPoint = BindInfo.BindPoint then []
                else [.SamplerBindPointInconsistent samp])) ++
              (if BindInfo.ArraySize ≤ ExistingBindInfo.ArraySize then []
                else [.SamplerArraySizeSmaller samp])
          | none => Failures }
  else { acc with VerifyFailures := Failures }

/-- The state in which the first loop of `UpdateShaderResourceBindingMap` starts: the map of
the caller, and the assertion that a single stage is given. -/
def BindingMapState.enter (ResourceMap : ResourceBinding.TMap) (ShaderStage : Nat) :
    BindingMapState :=
  { ResourceMap := ResourceMap
    VerifyFailures :=
      if ShaderStage ≠ SHADER_TYPE_UNKNOWN ∧ IsPowerOfTwo ShaderStage = true then []
      else [.NotSingleStage] }

/-- The state after the first `n` iterations of the resource loop of
`UpdateShaderResourceBindingMap`. -/
def BindingMapResourcesState (Sig : PipelineResourceSignatureD3D11Impl) (st : LayoutState)
    (ResourceMap : ResourceBinding.TMap) (ShaderStage : Nat)
    (BaseBindings : D3D11ShaderResourceCounters) (n : Nat) : BindingMapState :=
  forLoop (BindingMapResourceStep Sig st ShaderStage BaseBindings) n
    (BindingMapState.enter ResourceMap ShaderStage)

/-- The state after the resource loop and the first `n` iterations of the immutable sampler
loop of `UpdateShaderResourceBindingMap`. -/
def BindingMapSamplersState (Sig : PipelineResourceSignatureD3D11Impl) (st : LayoutState)
    (ResourceMap : ResourceBinding.TMap) (ShaderStage : Nat)
    (BaseBindings : D3D11ShaderResourceCounters) (n : Nat) : BindingMapState :=
  forLoop (BindingMapImmutableSamplerStep Sig st ShaderStage BaseBindings) n
    (BindingMapResourcesState Sig st ResourceMap ShaderStage BaseBindings
      Sig.GetTotalResourceCount)

/-- The binding map exporter `PipelineResourceSignatureD3D11Impl::UpdateShaderResourceBindingMap`
of a signature whose attributes are those of `st`: the resources visible in the stage, then the
immutable samplers visible in the stage. -/
def UpdateShaderResourceBindingMap (Sig : PipelineResourceSignatureD3D11Impl) (st : LayoutState)
    (ResourceMap : ResourceBinding.TMap) (ShaderStage : Nat)
    (BaseBindings : D3D11ShaderResourceCounters) : BindingMapState :=
  BindingMapSamplersState Sig st ResourceMap ShaderStage BaseBindings
    Sig.GetImmutableSamplerCount

/-! ## `CopyStaticResources` -/

/-- Modelled from the spec: what a resource cache holds (`ResourceCacheContentType`): the static
resources of a signature, or all the resources of a shader resource binding (a draw-ready
cache). -/
inductive ResourceCacheContentType
  | Signature
  | SRB
  deriving DecidableEq, Repr

/-- Modelled from the spec: `BindPoints + value` (the operator is declared outside the excerpt):
the slot of every active stage is moved by `value`, within the 8-bit width of a slot. -/
def D3D11ResourceBindPoints.add (bp : D3D11ResourceBindPoints) (value : Nat) :
    D3D11ResourceBindPoints :=
  { Bindings := fun s =>
      if bp.ActiveStages.testBit s = true then (bp.Bindings s + value) % 2 ^ CounterBits
      else bp.Bindings s
    ActiveStages := bp.ActiveStages }

/-- Modelled from the spec: the members of `ShaderResourceCacheD3D11` (declared outside the
excerpt) that `CopyStaticResources` calls, for caches represented by the type `Cache`; what they
do is taken as given. `CopyResource Range Dst Src BindPoints` is the call
`Dst.CopyResource<Range>(Src, BindPoints)`: it returns the destination cache after the call and
whether a resource was copied. -/
structure ShaderResourceCacheD3D11 (Cache : Type) where
  GetContentType : Cache → ResourceCacheContentType
  CopyResource : D3D11_RESOURCE_RANGE → Cache → Cache → D3D11ResourceBindPoints → Cache × Bool
  IsResourceBound : D3D11_RESOURCE_RANGE → Cache → D3D11ResourceBindPoints → Bool

/-- Modelled from the spec: `GetResourceIndexRange` of the base class: the resources are sorted
by variable type, so the resources of `VarType` take the indices from the number of resources of
the lower variable types up to the number of resources of the variable types up to `VarType`. -/
def PipelineResourceSignatureD3D11Impl.GetResourceIndexRange
    (Sig : PipelineResourceSignatureD3D11Impl) (VarType : SHADER_RESOURCE_VARIABLE_TYPE) :
    Nat × Nat :=
  (Sig.m_Desc.Resources.countP (fun d => decide (d.VarType.toNat < VarType.toNat)),
    Sig.m_Desc.Resources.countP (fun d => decide (d.VarType.toNat ≤ VarType.toNat)))

/-- One call of `CopyResource` made by `CopyStaticResources`: the resource, the array element,
the range of the call and whether a resource was copied. -/
structure CopyResourceCall where
  Resource : Nat
  ArrInd : Nat
  Range : D3D11_RESOURCE_RANGE
  Copied : Bool
  deriving DecidableEq, Repr

/-- The failed debug assertions (`VERIFY`, `VERIFY_EXPR`, `UNEXPECTED`) of
`CopyStaticResources`. -/
inductive CopyVerifyFailure
  | SrcCacheNotSignature
  | NotStatic (r : Nat)
  | ImmutableSamplerNotBound (r ArrInd : Nat)
  | UnsupportedRange (r : Nat)
  deriving DecidableEq, Repr

/-- The destination cache while `CopyStaticResources` runs, the calls of `CopyResource` made so
far, the messages logged with `LOG_ERROR_MESSAGE` (resource and array element of the variable
they name) and the failed assertions. -/
structure CopyState (Cache : Type) where
  DstResourceCache : Cache
  CopyResourceCalls : List CopyResourceCall
  LoggedErrors : List (Nat × Nat)
  VerifyFailures : List CopyVerifyFailure

/-- The body of the four copy loops of `CopyStaticResources` for array element `ArrInd` of
resource `r`: one call of `CopyResource<Range>` at `ResAttr.BindPoints + ArrInd`; a failed copy
is logged when the destination is the cache of a shader resource binding. -/
def CopyStaticResourceElement {Cache : Type} (Ops : ShaderResourceCacheD3D11 Cache)
    (SrcResourceCache : Cache) (DstCacheType : ResourceCacheContentType)
    (Range : D3D11_RESOURCE_RANGE) (r : Nat) (ResAttr : PipelineResourceAttribsD3D11)
    (ArrInd : Nat) (cs : CopyState Cache) : CopyState Cache :=
  let c := Ops.CopyResource Range cs.DstResourceCache SrcResourceCache
    (ResAttr.BindPoints.add ArrInd)
  { cs with
    DstResourceCache := c.1
    CopyResourceCalls :=
      cs.CopyResourceCalls ++
        [{ Resource := r, ArrInd := ArrInd, Range := Range, Copied := c.2 }]
    LoggedErrors :=
      if c.2 = false ∧ DstCacheType = .SRB then cs.LoggedErrors ++ [(r, ArrInd)]
      else cs.LoggedErrors }

/-- The debug-build loop of `CopyStaticResources` for a sampler with an immutable sampler
assigned when the destination is the cache of a shader resource binding: every element must be
bound already. Nothing is copied. -/
def VerifyImmutableSamplerBound {Cache : Type} (Ops : ShaderResourceCacheD3D11 Cache) (r : Nat)
    (ResAttr : PipelineResourceAttribsD3D11) (ArrInd : Nat) (cs : CopyState Cache) :
    CopyState Cache :=
  { cs with
    VerifyFailures :=
      if Ops.IsResourceBound .SAMPLER cs.DstResourceCache (ResAttr.BindPoints.add ArrInd) then
        cs.VerifyFailures
      else cs.VerifyFailures ++ [.ImmutableSamplerNotBound r ArrInd] }

/-- One iteration of the loop of `CopyStaticResources` over the static resources: the switch
over the range of resource `r`. -/
def CopyStaticResourceStep {Cache : Type} (Ops : ShaderResourceCacheD3D11 Cache)
    (Sig : PipelineResourceSignatureD3D11Impl) (st : LayoutState) (SrcResourceCache : Cache)
    (DstCacheType : ResourceCacheContentType) (r : Nat) (cs : CopyState Cache) :
    CopyState Cache :=
  let ResDesc := Sig.m_Desc.GetResourceDesc r
  let ResAttr := st.m_pResourceAttribs r
  let cs :=
    { cs with
      VerifyFailures :=
        if ResDesc.VarType = .STATIC then cs.VerifyFailures
        else cs.VerifyFailures ++ [.NotStatic r] }
  match ShaderResourceTypeToRange ResDesc.ResourceType with
  | .CBV =>
    forLoop (CopyStaticResourceElement Ops SrcResourceCache DstCacheType .CBV r ResAttr)
      ResDesc.ArraySize cs
  | .SRV =>
    forLoop (CopyStaticResourceElement Ops SrcResourceCache DstCacheType .SRV r ResAttr)
      ResDesc.ArraySize cs
  | .SAMPLER =>
    if ResAttr.IsImmutableSamplerAssigned = false then
      forLoop (CopyStaticResourceElement Ops SrcResourceCache DstCacheType .SAMPLER r ResAttr)
        ResDesc.ArraySize cs
    else if DstCacheType = .SRB then
      forLoop (VerifyImmutableSamplerBound Ops r ResAttr) ResDesc.ArraySize cs
    else cs
  | .UAV =>
    forLoop (CopyStaticResourceElement Ops SrcResourceCache DstCacheType .UAV r ResAttr)
      ResDesc.ArraySize cs
  | .UNKNOWN => { cs with VerifyFailures := cs.VerifyFailures ++ [.UnsupportedRange r] }

/-- The state in which the loop of `CopyStaticResources` starts. -/
def CopyState.enter {Cache : Type} (Ops : ShaderResourceCacheD3D11 Cache)
    (SrcResourceCache DstResourceCache : Cache) : CopyState Cache :=
  { DstResourceCache := DstResourceCache
    CopyResourceCalls := []
    LoggedErrors := []
    VerifyFailures :=
      if Ops.GetContentType SrcResourceCache = .Signature then []
      else [.SrcCacheNotSignature] }

/-- The state after the first `n` iterations of the loop of `CopyStaticResources` over the
index range of the static resources. -/
def CopyStaticResourcesState {Cache : Type} (Ops : ShaderResourceCacheD3D11 Cache)
    (Sig : PipelineResourceSignatureD3D11Impl) (st : LayoutState)
    (SrcResourceCache DstResourceCache : Cache) (n : Nat) : CopyState Cache :=
  forLoop
    (fun k =>
      CopyStaticResourceStep Ops Sig st SrcResourceCache
        (Ops.GetContentType DstResourceCache) ((Sig.GetResourceIndexRange .STATIC).1 + k))
    n (CopyState.enter Ops SrcResourceCache DstResourceCache)

/-- The copy operation `PipelineResourceSignatureD3D11Impl::CopyStaticResources` of a signature
whose attributes are those of `st`: nothing happens without a static cache; otherwise every
resource of the static index range is copied element by element. The debug-only call
`DbgVerifyDynamicBufferMasks` at the end changes nothing and is left out. -/
def CopyStaticResources {Cache : Type} (Ops : ShaderResourceCacheD3D11 Cache)
    (Sig : PipelineResourceSignatureD3D11Impl) (st : LayoutState)
    (m_pStaticResCache : Option Cache) (DstResourceCache : Cache) : CopyState Cache :=
  match m_pStaticResCache with
  | none =>
    { DstResourceCache := DstResourceCache
      CopyResourceCalls := []
      LoggedErrors := []
      VerifyFailures := [] }
  | some SrcResourceCache =>
    CopyStaticResourcesState Ops Sig st SrcResourceCache DstResourceCache
      ((Sig.GetResourceIndexRange .STATIC).2 - (Sig.GetResourceIndexRange .STATIC).1)

/-- The destination cache after the calls of `CopyResource` listed in `Calls` are made in their
order on `DstResourceCache`, each at the bind points of its resource moved by its array
element. -/
def ReplayCopyResourceCalls {Cache : Type} (Ops : ShaderResourceCacheD3D11 Cache)
    (st : LayoutState) (SrcResourceCache : Cache) (Calls : List CopyResourceCall)
    (DstResourceCache : Cache) : Cache :=
  Calls.foldl
    (fun Dst c =>
      (Ops.CopyResource c.Range Dst SrcResourceCache
        ((st.m_pResourceAttribs c.Resource).BindPoints.add c.ArrInd)).1)
    DstResourceCache

/-- The resources whose elements `CopyStaticResources` copies: the static resources with a
supported range that are not samplers with an immutable sampler assigned. -/
def IsCopiedStatic (Sig : PipelineResourceSignatureD3D11Impl) (st : LayoutState) (r : Nat) :
    Prop :=
  r < Sig.m_Desc.NumResources ∧ (Sig.m_Desc.GetResourceDesc r).VarType = .STATIC ∧
    ShaderResourceTypeToRange (Sig.m_Desc.GetResourceDesc r).ResourceType ≠ .UNKNOWN ∧
    ¬ (ShaderResourceTypeToRange (Sig.m_Desc.GetResourceDesc r).ResourceType = .SAMPLER ∧
      (st.m_pResourceAttribs r).IsImmutableSamplerAssigned = true)

instance (Sig : PipelineResourceSignatureD3D11Impl) (st : LayoutState) (r : Nat) :
    Decidable (IsCopiedStatic Sig st r) :=
  inferInstanceAs (Decidable (_ ∧ _))

/-! ## The range classifier with its unreachable branch -/

/-- The range classifier `ShaderResourceTypeToRange` together with the signal of its `default`
branch: the second component tells whether `UNEXPECTED("Unsupported resource type")` is
reached. -/
def ShaderResourceTypeToRangeWithUnexpected :
    SHADER_RESOURCE_TYPE → D3D11_RESOURCE_RANGE × Bool
  | .CONSTANT_BUFFER => (.CBV, false)
  | .TEXTURE_SRV => (.SRV, false)
  | .BUFFER_SRV => (.SRV, false)
  | .TEXTURE_UAV => (.UAV, false)
  | .BUFFER_UAV => (.UAV, false)
  | .SAMPLER => (.SAMPLER, false)
  | .INPUT_ATTACHMENT => (.SRV, false)
  | _ => (.UNKNOWN, true)

/-! ## The OpenGL swap chain: pretransform -/

/-- Modelled from the spec: the surface transforms (`SURFACE_TRANSFORM`, declared outside the
excerpt). -/
inductive SURFACE_TRANSFORM
  | OPTIMAL
  | IDENTITY
  | ROTATE_90
  | ROTATE_180
  | ROTATE_270
  | HORIZONTAL_MIRROR
  | HORIZONTAL_MIRROR_ROTATE_90
  | HORIZONTAL_MIRROR_ROTATE_180
  | HORIZONTAL_MIRROR_ROTATE_270
  deriving DecidableEq, Repr, Inhabited

/-- The member of the swap chain description that the constructor of `SwapChainGLImpl` sets. -/
structure SwapChainDesc where
  PreTransform : SURFACE_TRANSFORM
  deriving DecidableEq, Repr, Inhabited

/-- The warnings logged with `LOG_WARNING_MESSAGE` about the pretransform. -/
inductive SwapChainWarning
  | PreTransformNotAllowed (t : SURFACE_TRANSFORM)
  deriving DecidableEq, Repr

/-- The members of `SwapChainGLImpl` that the pretransform block of its constructor reads and
writes, and the log of warnings. -/
structure SwapChainGLImpl where
  m_SwapChainDesc : SwapChainDesc
  m_DesiredPreTransform : SURFACE_TRANSFORM
  Warnings : List SwapChainWarning

/-- The pretransform block of the constructor `SwapChainGLImpl::SwapChainGLImpl`, applied to the
object the base class constructor built: a desired pretransform other than `OPTIMAL` and
`IDENTITY` is reported, then the desired pretransform becomes `OPTIMAL` and the pretransform of
the description becomes `IDENTITY`. The blocks before and after it (colour format, window size,
dummy buffers) do not touch these members and are left out. -/
def SwapChainGLImpl.SetPreTransform (sc : SwapChainGLImpl) : SwapChainGLImpl :=
  { m_SwapChainDesc := { sc.m_SwapChainDesc with PreTransform := .IDENTITY }
    m_DesiredPreTransform := .OPTIMAL
    Warnings :=
      if sc.m_DesiredPreTransform ≠ .OPTIMAL ∧ sc.m_DesiredPreTransform ≠ .IDENTITY then
        sc.Warnings ++ [.PreTransformNotAllowed sc.m_DesiredPreTransform]
      else sc.Warnings }

/-- Modelled from the spec: the object the base class constructor builds from the description
the application supplies: the description is stored and the desired pretransform is the one
requested in it. -/
def SwapChainGLImpl.fromDesc (SCDesc : SwapChainDesc) : SwapChainGLImpl :=
  { m_SwapChainDesc := SCDesc, m_DesiredPreTransform := SCDesc.PreTransform, Warnings := [] }

/-! ## Example signatures -/

/-- Resource attribute memory that holds default values before construction. -/
def UninitializedAttribs : Nat → PipelineResourceAttribsD3D11 := fun _ => default

/-- The end-to-end example: a static constant buffer visible in the vertex and pixel stages and
a sampler visible in the pixel stage that matches an immutable sampler declared for the pixel
stage. -/
def EndToEndSignature : PipelineResourceSignatureD3D11Impl :=
  { m_Desc :=
      { Resources :=
          [ { Name := "g_Constants", ShaderStages := SHADER_TYPE_VERTEX ||| SHADER_TYPE_PIXEL,
              ArraySize := 1, ResourceType := .CONSTANT_BUFFER, VarType := .STATIC, Flags := 0 },
            { Name := "g_Sampler", ShaderStages := SHADER_TYPE_PIXEL, ArraySize := 1,
              ResourceType := .SAMPLER, VarType := .STATIC, Flags := 0 } ]
        ImmutableSamplers :=
          [ { ShaderStages := SHADER_TYPE_PIXEL, SamplerOrTextureName := "g_Sampler" } ]
        UseCombinedTextureSamplers := false
        CombinedSamplerSuffix := "" }
    FindAssignedSampler := fun _ => none }

/-- Two samplers matching one immutable sampler: array size 1 in the vertex stage and array
size 4 in the pixel stage. -/
def TwoSamplersSignature : PipelineResourceSignatureD3D11Impl :=
  { m_Desc :=
      { Resources :=
          [ { Name := "g_Sampler", ShaderStages := SHADER_TYPE_VERTEX, ArraySize := 1,
              ResourceType := .SAMPLER, VarType := .MUTABLE, Flags := 0 },
            { Name := "g_Sampler", ShaderStages := SHADER_TYPE_PIXEL, ArraySize := 4,
              ResourceType := .SAMPLER, VarType := .MUTABLE, Flags := 0 } ]
        ImmutableSamplers :=
          [ { ShaderStages := SHADER_TYPE_VERTEX ||| SHADER_TYPE_PIXEL,
              SamplerOrTextureName := "g_Sampler" } ]
        UseCombinedTextureSamplers := false
        CombinedSamplerSuffix := "" }
    FindAssignedSampler := fun _ => none }

/-- The example of the comment in `CreateLayout`: an immutable sampler that is not defined as a
resource, declared for the texture `g_Texture`. -/
def TextureWithImmutableSamplerSignature : PipelineResourceSignatureD3D11Impl :=
  { m_Desc :=
      { Resources :=
          [ { Name := "g_Texture", ShaderStages := SHADER_TYPE_PIXEL, ArraySize := 1,
              ResourceType := .TEXTURE_SRV, VarType := .MUTABLE, Flags := 0 } ]
        ImmutableSamplers :=
          [ { ShaderStages := SHADER_TYPE_PIXEL, SamplerOrTextureName := "g_Texture" } ]
        UseCombinedTextureSamplers := false
        CombinedSamplerSuffix := "" }
    FindAssignedSampler := fun _ => none }

/-- A sampler array `g_SamplerA` of the given size in the pixel stage that matches the first of
two immutable samplers declared for the pixel stage. -/
def SamplerArraySignature (ArraySize : Nat) : PipelineResourceSignatureD3D11Impl :=
  { m_Desc :=
      { Resources :=
          [ { Name := "g_SamplerA", ShaderStages := SHADER_TYPE_PIXEL, ArraySize := ArraySize,
              ResourceType := .SAMPLER, VarType := .MUTABLE, Flags := 0 } ]
        ImmutableSamplers :=
          [ { ShaderStages := SHADER_TYPE_PIXEL, SamplerOrTextureName := "g_SamplerA" },
            { ShaderStages := SHADER_TYPE_PIXEL, SamplerOrTextureName := "g_SamplerB" } ]
        UseCombinedTextureSamplers := false
        CombinedSamplerSuffix := "" }
    FindAssignedSampler := fun _ => none }

/-- A static sampler that matches no immutable sampler, beside an immutable sampler declared
for the texture `g_Texture` that is not defined as a resource. -/
def StaticSamplerBesideImmutableSamplerSignature : PipelineResourceSignatureD3D11Impl :=
  { m_Desc :=
      { Resources :=
          [ { Name := "g_Sampler", ShaderStages := SHADER_TYPE_PIXEL, ArraySize := 1,
              ResourceType := .SAMPLER, VarType := .STATIC, Flags := 0 },
            { Name := "g_Texture", ShaderStages := SHADER_TYPE_PIXEL, ArraySize := 1,
              ResourceType := .TEXTURE_SRV, VarType := .MUTABLE, Flags := 0 } ]
        ImmutableSamplers :=
          [ { ShaderStages := SHADER_TYPE_PIXEL, SamplerOrTextureName := "g_Texture" } ]
        UseCombinedTextureSamplers := false
        CombinedSamplerSuffix := "" }
    FindAssignedSampler := fun _ => none }

/-- A texture with the separate sampler `g_Texture_sampler` assigned to it; the sampler matches
an immutable sampler. -/
def TextureWithAssignedSamplerSignature : PipelineResourceSignatureD3D11Impl :=
  { m_Desc :=
      { Resources :=
          [ { Name := "g_Texture", ShaderStages := SHADER_TYPE_PIXEL, ArraySize := 1,
              ResourceType := .TEXTURE_SRV, VarType := .MUTABLE, Flags := 0 },
            { Name := "g_Texture_sampler", ShaderStages := SHADER_TYPE_PIXEL, ArraySize := 1,
              ResourceType := .SAMPLER, VarType := .MUTABLE, Flags := 0 } ]
        ImmutableSamplers :=
          [ { ShaderStages := SHADER_TYPE_PIXEL, SamplerOrTextureName := "g_Texture" } ]
        UseCombinedTextureSamplers := true
        CombinedSamplerSuffix := "_sampler" }
    FindAssignedSampler := fun ResDesc => if ResDesc.Name = "g_Texture" then some 1 else none }

/-- The empty binding map. -/
def EmptyResourceMap : ResourceBinding.TMap := fun _ => none

/-- An example resource cache: its content type and the resource bound at every (range, stage,
slot). -/
structure ExampleCache where
  ContentType : ResourceCacheContentType
  Resources : D3D11_RESOURCE_RANGE → Nat → Nat → Option Nat

/-- An example of the cache operations: `CopyResource` copies, in every active stage of the
bind points, what the source holds at the slot and reports whether every copied entry is
bound. -/
def ExampleCacheOps : ShaderResourceCacheD3D11 ExampleCache :=
  { GetContentType := fun c => c.ContentType
    CopyResource := fun Range Dst Src BindPoints =>
      forEachStage
        (fun ShaderInd acc =>
          ({ acc.1 with
              Resources := fun r s b =>
                if r = Range ∧ s = ShaderInd ∧ b = BindPoints.Bindings ShaderInd then
                  Src.Resources r s b
                else acc.1.Resources r s b },
            acc.2 && (Src.Resources Range ShaderInd (BindPoints.Bindings ShaderInd)).isSome))
        BindPoints.ActiveStages (Dst, true)
    IsResourceBound := fun Range c BindPoints =>
      (stagesOf BindPoints.ActiveStages).all
        (fun ShaderInd => (c.Resources Range ShaderInd (BindPoints.Bindings ShaderInd)).isSome) }

/-- A cache of the given content type in which nothing is bound. -/
def EmptyCache (ContentType : ResourceCacheContentType) : ExampleCache :=
  { ContentType := ContentType, Resources := fun _ _ _ => none }

/-- A texture array of size 4 with the single separate sampler `g_Texture_sampler` assigned to
it; the sampler matches an immutable sampler. -/
def TextureArrayWithAssignedSamplerSignature : PipelineResourceSignatureD3D11Impl :=
  { m_Desc :=
      { Resources :=
          [ { Name := "g_Texture", ShaderStages := SHADER_TYPE_PIXEL, ArraySize := 4,
              ResourceType := .TEXTURE_SRV, VarType := .MUTABLE, Flags := 0 },
            { Name := "g_Texture_sampler", ShaderStages := SHADER_TYPE_PIXEL, ArraySize := 1,
              ResourceType := .SAMPLER, VarType := .MUTABLE, Flags := 0 } ]
        ImmutableSamplers :=
          [ { ShaderStages := SHADER_TYPE_PIXEL, SamplerOrTextureName := "g_Texture" } ]
        UseCombinedTextureSamplers := true
        CombinedSamplerSuffix := "_sampler" }
    FindAssignedSampler := fun ResDesc => if ResDesc.Name = "g_Texture" then some 1 else none }

/-- A constant buffer with an empty visibility mask between two constant buffers of the pixel
stage. -/
def EmptyMaskSignature : PipelineResourceSignatureD3D11Impl :=
  { m_Desc :=
      { Resources :=
          [ { Name := "g_First", ShaderStages := SHADER_TYPE_PIXEL, ArraySize := 1,
              ResourceType := .CONSTANT_BUFFER, VarType := .STATIC, Flags := 0 },
            { Name := "g_Unused", ShaderStages := SHADER_TYPE_UNKNOWN, ArraySize := 3,
              ResourceType := .CONSTANT_BUFFER, VarType := .STATIC, Flags := 0 },
            { Name := "g_Last", ShaderStages := SHADER_TYPE_PIXEL, ArraySize := 1,
              ResourceType := .CONSTANT_BUFFER, VarType := .MUTABLE, Flags := 0 } ]
        ImmutableSamplers := []
        UseCombinedTextureSamplers := false
        CombinedSamplerSuffix := "" }
    FindAssignedSampler := fun _ => none }

/-- Modelled from the spec: `SetResource<Range>(BindPoints, pResource)` of the resource cache
(declared outside the excerpt), on the example cache: the resource is bound at the slot of
every active stage of the bind points. -/
def ExampleCache.SetResource (c : ExampleCache) (Range : D3D11_RESOURCE_RANGE)
    (BindPoints : D3D11ResourceBindPoints) (pResource : Option Nat) : ExampleCache :=
  forEachStage
    (fun ShaderInd acc =>
      { acc with
        Resources := fun r s b =>
          if r = Range ∧ s = ShaderInd ∧ b = BindPoints.Bindings ShaderInd then pResource
          else acc.Resources r s b })
    BindPoints.ActiveStages c

/-- Modelled from the spec: `Initialize` of the resource cache (declared outside the excerpt),
on the example cache: the cells are created with nothing bound. -/
def ExampleCache.Initialize (c : ExampleCache) : ExampleCache :=
  { c with Resources := fun _ _ _ => none }

/-- The failed debug assertions (`VERIFY_EXPR`) of `InitSRBResourceCache`, with the index of
the immutable sampler. -/
inductive InitSRBVerifyFailure
  | NotAllocated (i : Nat)
  | NullSampler (i : Nat)
  | ZeroArraySize (i : Nat)
  deriving DecidableEq, Repr

/-- The cache while `InitSRBResourceCache` runs and the log of failed assertions. -/
structure InitSRBState where
  ResourceCache : ExampleCache
  VerifyFailures : List InitSRBVerifyFailure

/-- One iteration of the loop of `InitSRBResourceCache`: the sampler object of immutable sampler
`i` is bound at every element of its bind points. -/
def InitSRBImmutableSamplerStep (st : LayoutState) (m_pImmutableSamplers : Nat → Option Nat)
    (i : Nat) (acc : InitSRBState) : InitSRBState :=
  let ImtblSampAttr := st.m_pImmutableSamplerAttribs i
  { ResourceCache :=
      forLoop
        (fun ArrInd c =>
          c.SetResource .SAMPLER (ImtblSampAttr.BindPoints.add ArrInd) (m_pImmutableSamplers i))
        ImtblSampAttr.ArraySize acc.ResourceCache
    VerifyFailures :=
      ((acc.VerifyFailures ++ (if ImtblSampAttr.IsAllocated then [] else [.NotAllocated i])) ++
        (if (m_pImmutableSamplers i).isSome then [] else [.NullSampler i])) ++
        (if 0 < ImtblSampAttr.ArraySize then [] else [.ZeroArraySize i]) }

/-- The state after the cache is initialised and the first `n` immutable samplers are bound. -/
def InitSRBState.after (st : LayoutState) (m_pImmutableSamplers : Nat → Option Nat)
    (ResourceCache : ExampleCache) (n : Nat) : InitSRBState :=
  forLoop (InitSRBImmutableSamplerStep st m_pImmutableSamplers) n
    { ResourceCache := ResourceCache.Initialize, VerifyFailures := [] }

/-- The cache set-up `PipelineResourceSignatureD3D11Impl::InitSRBResourceCache` of a signature
whose attributes are those of `st` and whose immutable sampler objects are
`m_pImmutableSamplers`, on the example cache: the cache is initialised and the immutable
samplers are copied into it. -/
def InitSRBResourceCache (Sig : PipelineResourceSignatureD3D11Impl) (st : LayoutState)
    (m_pImmutableSamplers : Nat → Option Nat) (ResourceCache : ExampleCache) : InitSRBState :=
  InitSRBState.after st m_pImmutableSamplers ResourceCache Sig.m_Desc.NumImmutableSamplers

/-- Every slot of each of the first `n` immutable samplers of a signature whose attributes are
those of `st` is bound in the cache `c`: the slot of every element below the array size, in every
active stage of the bind points. -/
def ImmutableSamplersBound (st : LayoutState) (n : Nat) (c : ExampleCache) : Prop :=
  ∀ k a s, k < n → a < (st.m_pImmutableSamplerAttribs k).ArraySize →
    (st.m_pImmutableSamplerAttribs k).BindPoints.IsStageActive s = true →
    (c.Resources .SAMPLER s
      (((st.m_pImmutableSamplerAttribs k).BindPoints.add a).Bindings s)).isSome = true

/-- A static sampler that matches an immutable sampler, after a static sampler that matches
none. -/
def StaticSamplersSignature : PipelineResourceSignatureD3D11Impl :=
  { m_Desc :=
      { Resources :=
          [ { Name := "g_Direct", ShaderStages := SHADER_TYPE_PIXEL, ArraySize := 2,
              ResourceType := .SAMPLER, VarType := .STATIC, Flags := 0 },
            { Name := "g_Sampler", ShaderStages := SHADER_TYPE_PIXEL, ArraySize := 1,
              ResourceType := .SAMPLER, VarType := .STATIC, Flags := 0 } ]
        ImmutableSamplers :=
          [ { ShaderStages := SHADER_TYPE_PIXEL, SamplerOrTextureName := "g_Sampler" } ]
        UseCombinedTextureSamplers := false
        CombinedSamplerSuffix := "" }
    FindAssignedSampler := fun _ => none }

/-- Immutable sampler objects that all exist: sampler `i` is the object `i`. -/
def AllImmutableSamplers : Nat → Option Nat := fun i => some i

/-! ## The stage loop -/

theorem lowestSetBit_testBit (fuel : Nat) : ∀ m : Nat, m ≠ 0 → m ≤ fuel →
    m.testBit (lowestSetBit fuel m) = true := by
  induction fuel with
  | zero => intro m h0 hle; omega
  | succ f ih =>
    intro m h0 hle
    unfold lowestSetBit
    by_cases h : m % 2 = 1
    · simp [h, Nat.testBit_zero]
    · simp only [h, if_false]
      rw [Nat.testBit_succ]
      apply ih
      · omega
      · omega

theorem extract_testBit (m : Nat) (h0 : m ≠ 0) :
    m.testBit (ExtractFirstShaderStageIndex m).1 = true :=
  lowestSetBit_testBit m m h0 (Nat.le_refl m)

theorem extract_rest_testBit (m j : Nat) :
    (ExtractFirstShaderStageIndex m).2.testBit j =
      (m.testBit j ^^ decide ((ExtractFirstShaderStageIndex m).1 = j)) := by
  simp [ExtractFirstShaderStageIndex, Nat.testBit_xor, Nat.one_shiftLeft, Nat.testBit_two_pow]

theorem extract_rest_lt (m : Nat) (h0 : m ≠ 0) : (ExtractFirstShaderStageIndex m).2 < m := by
  apply Nat.lt_of_testBit (ExtractFirstShaderStageIndex m).1
  · rw [extract_rest_testBit, extract_testBit m h0]; simp
  · exact extract_testBit m h0
  · intro j hj
    rw [extract_rest_testBit]
    have : (ExtractFirstShaderStageIndex m).1 ≠ j := by omega
    simp [this]

theorem forEachStageFuel_irrel {σ : Type} (body : Nat → σ → σ) :
    ∀ (f g : Nat) (m : Nat) (s : σ), m ≤ f → m ≤ g →
      forEachStageFuel body f m s = forEachStageFuel body g m s := by
  intro f
  induction f with
  | zero =>
    intro g m s h _
    have : m = 0 := by omega
    subst this
    cases g <;> simp [forEachStageFuel, SHADER_TYPE_UNKNOWN]
  | succ f ih =>
    intro g m s h hg
    by_cases h0 : m = 0
    · subst h0
      cases g <;> simp [forEachStageFuel, SHADER_TYPE_UNKNOWN]
    · have hlt := extract_rest_lt m h0
      obtain ⟨g, rfl⟩ : ∃ k, g = k + 1 := ⟨g - 1, by omega⟩
      simp only [forEachStageFuel, SHADER_TYPE_UNKNOWN, h0, if_false]
      exact ih _ _ _ (by omega) (by omega)

theorem forEachStageFuel_eq {σ : Type} (body : Nat → σ → σ) (f m : Nat) (s : σ) (h : m ≤ f) :
    forEachStageFuel body f m s = forEachStage body m s :=
  forEachStageFuel_irrel body f m m s h (Nat.le_refl m)

theorem forEachStage_zero {σ : Type} (body : Nat → σ → σ) (s : σ) :
    forEachStage body 0 s = s := rfl

theorem forEachStage_step {σ : Type} (body : Nat → σ → σ) (m : Nat) (s : σ) (h0 : m ≠ 0) :
    forEachStage body m s =
      forEachStage body (ExtractFirstShaderStageIndex m).2
        (body (ExtractFirstShaderStageIndex m).1 s) := by
  obtain ⟨k, rfl⟩ : ∃ k, m = k + 1 := ⟨m - 1, by omega⟩
  have hlt := extract_rest_lt (k + 1) h0
  conv_lhs => simp only [forEachStage, forEachStageFuel, SHADER_TYPE_UNKNOWN, h0, if_false]
  rw [forEachStageFuel_eq _ _ _ _ (by omega)]

theorem forEachStage_record (m : Nat) : ∀ acc : List Nat,
    forEachStage (fun i acc => acc ++ [i]) m acc = acc ++ stagesOf m := by
  induction m using Nat.strong_induction_on with
  | _ m ih =>
    intro acc
    by_cases h0 : m = 0
    · subst h0; simp [stagesOf, forEachStage_zero]
    · unfold stagesOf
      rw [forEachStage_step _ m acc h0, forEachStage_step _ m [] h0]
      rw [ih _ (extract_rest_lt m h0), ih _ (extract_rest_lt m h0) ([] ++ _)]
      simp

theorem stagesOf_step (m : Nat) (h0 : m ≠ 0) :
    stagesOf m = (ExtractFirstShaderStageIndex m).1 :: stagesOf (ExtractFirstShaderStageIndex m).2 := by
  conv_lhs => unfold stagesOf
  rw [forEachStage_step _ m [] h0, forEachStage_record]
  simp

theorem stagesOf_zero : stagesOf 0 = [] := rfl

/-- The stage loop is the left fold of its body over the visited stage indices. -/
theorem forEachStage_eq_foldl {σ : Type} (body : Nat → σ → σ) (m : Nat) : ∀ s : σ,
    forEachStage body m s = (stagesOf m).foldl (fun s i => body i s) s := by
  induction m using Nat.strong_induction_on with
  | _ m ih =>
    intro s
    by_cases h0 : m = 0
    · subst h0; simp [stagesOf_zero, forEachStage_zero]
    · rw [forEachStage_step _ m s h0, stagesOf_step m h0, ih _ (extract_rest_lt m h0)]
      simp

theorem mem_stagesOf (m : Nat) : ∀ j : Nat, j ∈ stagesOf m ↔ m.testBit j = true := by
  induction m using Nat.strong_induction_on with
  | _ m ih =>
    intro j
    by_cases h0 : m = 0
    · subst h0; simp [stagesOf_zero]
    · rw [stagesOf_step m h0, List.mem_cons, ih _ (extract_rest_lt m h0), extract_rest_testBit]
      by_cases hj : (ExtractFirstShaderStageIndex m).1 = j
      · have := extract_testBit m h0
        rw [hj] at this
        simp [hj, this]
      · have hj2 : j ≠ (ExtractFirstShaderStageIndex m).1 := fun h => hj h.symm
        simp [hj, hj2]

theorem nodup_stagesOf (m : Nat) : (stagesOf m).Nodup := by
  induction m using Nat.strong_induction_on with
  | _ m ih =>
    by_cases h0 : m = 0
    · subst h0; simp [stagesOf_zero]
    · rw [stagesOf_step m h0, List.nodup_cons]
      refine ⟨?_, ih _ (extract_rest_lt m h0)⟩
      rw [mem_stagesOf, extract_rest_testBit, extract_testBit m h0]
      simp

/-! ### `AllocBindPoints` -/

theorem allocFold_spec (A : Nat) (R : D3D11_RESOURCE_RANGE) (L : List Nat) :
    ∀ (rc : D3D11ShaderResourceCounters) (bp : D3D11ResourceBindPoints), L.Nodup →
      (∀ r s, (L.foldl (fun (acc : D3D11ShaderResourceCounters × D3D11ResourceBindPoints) i =>
          (setCounter acc.1 R i ((acc.1 R i + A) % 2 ^ CounterBits), acc.2.Set i (acc.1 R i)))
          (rc, bp)).1 r s =
        if r = R ∧ s ∈ L then (rc r s + A) % 2 ^ CounterBits else rc r s) ∧
      (∀ s, (L.foldl (fun (acc : D3D11ShaderResourceCounters × D3D11ResourceBindPoints) i =>
          (setCounter acc.1 R i ((acc.1 R i + A) % 2 ^ CounterBits), acc.2.Set i (acc.1 R i)))
          (rc, bp)).2.Bindings s =
        if s ∈ L then rc R s else bp.Bindings s) ∧
      (∀ s, (L.foldl (fun (acc : D3D11ShaderResourceCounters × D3D11ResourceBindPoints) i =>
          (setCounter acc.1 R i ((acc.1 R i + A) % 2 ^ CounterBits), acc.2.Set i (acc.1 R i)))
          (rc, bp)).2.ActiveStages.testBit s =
        (bp.ActiveStages.testBit s || decide (s ∈ L))) := by
  induction L with
  | nil => intro rc bp _; simp
  | cons i L ih =>
    intro rc bp hnd
    rw [List.nodup_cons] at hnd
    obtain ⟨hi, hnd⟩ := hnd
    simp only [List.foldl_cons]
    obtain ⟨h1, h2, h3⟩ := ih (setCounter rc R i ((rc R i + A) % 2 ^ CounterBits))
      (bp.Set i (rc R i)) hnd
    refine ⟨?_, ?_, ?_⟩
    · intro r s
      rw [h1]
      by_cases hs : s ∈ L
      · have hne : s ≠ i := fun h => hi (h ▸ hs)
        by_cases hr : r = R <;> simp [setCounter, hs, hne, hr]
      · by_cases hsi : s = i
        · subst hsi
          by_cases hr : r = R <;> simp [setCounter, hs, hr]
        · simp [setCounter, hs, hsi]
    · intro s
      rw [h2]
      by_cases hs : s ∈ L
      · have hne : s ≠ i := fun h => hi (h ▸ hs)
        simp [setCounter, hs, hne]
      · by_cases hsi : s = i
        · subst hsi
          simp [hs, D3D11ResourceBindPoints.Set]
        · simp [hs, hsi, D3D11ResourceBindPoints.Set]
    · intro s
      rw [h3]
      simp only [D3D11ResourceBindPoints.Set, Nat.testBit_or, Nat.one_shiftLeft,
        Nat.testBit_two_pow, List.mem_cons]
      by_cases hsi : s = i
      · subst hsi; simp
      · have : i ≠ s := fun h => hsi h.symm
        simp [hsi, this]

theorem AllocBindPoints_counters (rc : D3D11ShaderResourceCounters)
    (bp : D3D11ResourceBindPoints) (M A : Nat) (R r : D3D11_RESOURCE_RANGE) (s : Nat) :
    (AllocBindPoints rc bp M A R).1 r s =
      if r = R ∧ M.testBit s = true then (rc r s + A) % 2 ^ CounterBits else rc r s := by
  unfold AllocBindPoints
  rw [forEachStage_eq_foldl]
  have h := (allocFold_spec A R (stagesOf M) rc bp (nodup_stagesOf M)).1 r s
  simp only [mem_stagesOf] at h
  exact h

theorem AllocBindPoints_bindings (rc : D3D11ShaderResourceCounters)
    (bp : D3D11ResourceBindPoints) (M A : Nat) (R : D3D11_RESOURCE_RANGE) (s : Nat) :
    (AllocBindPoints rc bp M A R).2.Bindings s =
      if M.testBit s = true then rc R s else bp.Bindings s := by
  unfold AllocBindPoints
  rw [forEachStage_eq_foldl]
  have h := (allocFold_spec A R (stagesOf M) rc bp (nodup_stagesOf M)).2.1 s
  simp only [mem_stagesOf] at h
  exact h

theorem AllocBindPoints_active (rc : D3D11ShaderResourceCounters)
    (bp : D3D11ResourceBindPoints) (M A : Nat) (R : D3D11_RESOURCE_RANGE) :
    (AllocBindPoints rc bp M A R).2.ActiveStages = bp.ActiveStages ||| M := by
  apply Nat.eq_of_testBit_eq
  intro s
  unfold AllocBindPoints
  rw [forEachStage_eq_foldl]
  have h := (allocFold_spec A R (stagesOf M) rc bp (nodup_stagesOf M)).2.2 s
  simp only [mem_stagesOf] at h
  rw [h, Nat.testBit_or]
  cases M.testBit s <;> simp

/-! ### The first loop: immutable sampler lookup -/

theorem resolveStep_none (Sig : PipelineResourceSignatureD3D11Impl) (i : Nat) (st : LayoutState)
    (h : ImmutableSamplerIndOf Sig i = none) : ResolveImmutableSamplerStep Sig i st = st := by
  unfold ImmutableSamplerIndOf at h
  unfold ResolveImmutableSamplerStep
  by_cases ht : (Sig.m_Desc.GetResourceDesc i).ResourceType = .SAMPLER
  · simp only [ht, if_true] at h ⊢
    rw [h]
  · simp [ht]

theorem resolveStep_some (Sig : PipelineResourceSignatureD3D11Impl) (i k : Nat) (st : LayoutState)
    (h : ImmutableSamplerIndOf Sig i = some k) :
    ResolveImmutableSamplerStep Sig i st =
      { st with
        ResourceToImmutableSamplerInd := fun j =>
          if j = i then some k else st.ResourceToImmutableSamplerInd j
        m_pImmutableSamplerAttribs := fun k' =>
          if k' = k then
            { st.m_pImmutableSamplerAttribs k' with
              ArraySize := max (st.m_pImmutableSamplerAttribs k').ArraySize
                (Sig.m_Desc.GetResourceDesc i).ArraySize }
          else st.m_pImmutableSamplerAttribs k' } := by
  unfold ImmutableSamplerIndOf at h
  unfold ResolveImmutableSamplerStep
  by_cases ht : (Sig.m_Desc.GetResourceDesc i).ResourceType = .SAMPLER
  · simp only [ht, if_true] at h ⊢
    rw [h]
  · simp [ht] at h

/-- The fields the first loop leaves alone, and the two tables it fills. -/
theorem resolvedState_spec (Sig : PipelineResourceSignatureD3D11Impl) (st : LayoutState)
    (n : Nat) :
    (ResolvedState Sig st n).m_ResourceCounters = st.m_ResourceCounters ∧
    (ResolvedState Sig st n).m_pResourceAttribs = st.m_pResourceAttribs ∧
    (ResolvedState Sig st n).m_DynamicCBSlotsMask = st.m_DynamicCBSlotsMask ∧
    (ResolvedState Sig st n).StaticResCounters = D3D11ShaderResourceCounters.zero ∧
    (ResolvedState Sig st n).DevCheckErrors = st.DevCheckErrors ∧
    (ResolvedState Sig st n).VerifyFailures = st.VerifyFailures ∧
    (∀ j, (ResolvedState Sig st n).ResourceToImmutableSamplerInd j =
      if j < n then ImmutableSamplerIndOf Sig j else none) ∧
    (∀ k, ((ResolvedState Sig st n).m_pImmutableSamplerAttribs k).BindPoints =
      (st.m_pImmutableSamplerAttribs k).BindPoints) ∧
    (∀ k, ((ResolvedState Sig st n).m_pImmutableSamplerAttribs k).ArraySize =
      RaisedArraySize Sig k (st.m_pImmutableSamplerAttribs k).ArraySize n) := by
  induction n with
  | zero =>
    simp [ResolvedState, forLoop, LayoutState.enter, RaisedArraySize]
  | succ n ih =>
    obtain ⟨h1, h2, h3, h4, h5, h6, h7, h8, h9⟩ := ih
    have hstep : ResolvedState Sig st (n + 1) =
        ResolveImmutableSamplerStep Sig n (ResolvedState Sig st n) := rfl
    rw [hstep]
    cases hk : ImmutableSamplerIndOf Sig n with
    | none =>
      rw [resolveStep_none Sig n _ hk]
      refine ⟨h1, h2, h3, h4, h5, h6, ?_, h8, ?_⟩
      · intro j
        rw [h7]
        by_cases hj : j < n
        · have : j < n + 1 := by omega
          simp [hj, this]
        · by_cases hjn : j = n
          · subst hjn; simp [hk]
          · have : ¬ j < n + 1 := by omega
            simp [hj, this]
      · intro k
        rw [h9]
        simp [RaisedArraySize, hk]
    | some k0 =>
      rw [resolveStep_some Sig n k0 _ hk]
      refine ⟨h1, h2, h3, h4, h5, h6, ?_, ?_, ?_⟩
      · intro j
        simp only []
        by_cases hjn : j = n
        · subst hjn; simp [hk]
        · rw [h7]
          by_cases hj : j < n
          · have : j < n + 1 := by omega
            simp [hj, this, hjn]
          · have : ¬ j < n + 1 := by omega
            simp [hj, this, hjn]
      · intro k
        simp only []
        by_cases hkk : k = k0
        · subst hkk; simp [h8]
        · simp [hkk, h8]
      · intro k
        simp only []
        by_cases hkk : k = k0
        · subst hkk
          simp [RaisedArraySize, hk, h9]
        · have : ¬ (k0 = k) := fun h => hkk h.symm
          simp [RaisedArraySize, hk, hkk, this, h9]

theorem bindPoints_ext (a b : D3D11ResourceBindPoints) (h1 : ∀ s, a.Bindings s = b.Bindings s)
    (h2 : a.ActiveStages = b.ActiveStages) : a = b := by
  cases a; cases b
  simp only [D3D11ResourceBindPoints.mk.injEq]
  exact ⟨funext h1, h2⟩

theorem AllocBindPoints_empty (rc : D3D11ShaderResourceCounters) (M A : Nat)
    (R : D3D11_RESOURCE_RANGE) :
    (AllocBindPoints rc D3D11ResourceBindPoints.empty M A R).2 =
      { Bindings := fun s => if M.testBit s = true then rc R s else InvalidBindPoint
        ActiveStages := M } := by
  apply bindPoints_ext
  · intro s
    rw [AllocBindPoints_bindings]
    rfl
  · rw [AllocBindPoints_active]
    simp [D3D11ResourceBindPoints.empty, SHADER_TYPE_UNKNOWN]

theorem sumTo_succ (w : Nat → Nat) (n : Nat) : sumTo w (n + 1) = sumTo w n + w n := rfl

theorem eqb_refl (a : D3D11ResourceBindPoints) : a.eqb a = true := by
  simp [D3D11ResourceBindPoints.eqb]

theorem eqb_iff (a b : D3D11ResourceBindPoints) :
    a.eqb b = true ↔
      a.ActiveStages = b.ActiveStages ∧ ∀ s, s < NumShaderTypes → a.Bindings s = b.Bindings s := by
  simp [D3D11ResourceBindPoints.eqb, List.all_eq_true]

/-- The state during the second loop (registers of the immutable samplers), for counters that
start at zero. -/
theorem immState_spec (Sig : PipelineResourceSignatureD3D11Impl) (b : Bool) (st : LayoutState)
    (hz : st.m_ResourceCounters = D3D11ShaderResourceCounters.zero) (n : Nat) :
    (ImmutableSamplersState Sig b st n).m_pResourceAttribs = st.m_pResourceAttribs ∧
    (ImmutableSamplersState Sig b st n).m_DynamicCBSlotsMask = st.m_DynamicCBSlotsMask ∧
    (ImmutableSamplersState Sig b st n).StaticResCounters = D3D11ShaderResourceCounters.zero ∧
    (ImmutableSamplersState Sig b st n).VerifyFailures = st.VerifyFailures ∧
    (∀ j, (ImmutableSamplersState Sig b st n).ResourceToImmutableSamplerInd j =
      if j < Sig.m_Desc.NumResources then ImmutableSamplerIndOf Sig j else none) ∧
    (∀ k, ((ImmutableSamplersState Sig b st n).m_pImmutableSamplerAttribs k).ArraySize =
      ArraySizeOf Sig st k) ∧
    (∀ r s, (ImmutableSamplersState Sig b st n).m_ResourceCounters r s =
      if r = .SAMPLER then
        sumTo (ImmutableSamplerSlots Sig (ArraySizeOf Sig st) s) n % 2 ^ CounterBits
      else 0) ∧
    (b = false →
      (∀ k, ((ImmutableSamplersState Sig b st n).m_pImmutableSamplerAttribs k).BindPoints =
        if k < n then ImmutableSamplerBindPointsOf Sig (ArraySizeOf Sig st) k
        else (st.m_pImmutableSamplerAttribs k).BindPoints) ∧
      (ImmutableSamplersState Sig b st n).DevCheckErrors = st.DevCheckErrors) ∧
    (b = true →
      (∀ k, ((ImmutableSamplersState Sig b st n).m_pImmutableSamplerAttribs k).BindPoints =
        (st.m_pImmutableSamplerAttribs k).BindPoints) ∧
      ((ImmutableSamplersState Sig b st n).DevCheckErrors = [] ↔
        st.DevCheckErrors = [] ∧
          ∀ k, k < n → (st.m_pImmutableSamplerAttribs k).BindPoints.eqb
            (ImmutableSamplerBindPointsOf Sig (ArraySizeOf Sig st) k) = true)) := by
  induction n with
  | zero =>
    obtain ⟨h1, h2, h3, h4, h5, h6, h7, h8, h9⟩ := resolvedState_spec Sig st Sig.m_Desc.NumResources
    have h0 : ImmutableSamplersState Sig b st 0 = ResolvedState Sig st Sig.m_Desc.NumResources :=
      rfl
    rw [h0]
    refine ⟨h2, h3, h4, h6, h7, h9, ?_, ?_, ?_⟩
    · intro r s
      rw [h1, hz]
      simp [D3D11ShaderResourceCounters.zero, sumTo]
    · intro _
      exact ⟨fun k => by simp [h8], h5⟩
    · intro _
      refine ⟨h8, ?_⟩
      rw [h5]
      simp
  | succ n ih =>
    obtain ⟨h1, h2, h3, h4, h5, h6, h7, h8, h9⟩ := ih
    have hstep : ImmutableSamplersState Sig b st (n + 1) =
        AllocImmutableSamplerStep Sig b n (ImmutableSamplersState Sig b st n) := rfl
    have hbp : (AllocBindPoints (ImmutableSamplersState Sig b st n).m_ResourceCounters
        D3D11ResourceBindPoints.empty (Sig.m_Desc.GetImmutableSamplerDesc n).ShaderStages
        ((ImmutableSamplersState Sig b st n).m_pImmutableSamplerAttribs n).ArraySize
        .SAMPLER).2 = ImmutableSamplerBindPointsOf Sig (ArraySizeOf Sig st) n := by
      rw [AllocBindPoints_empty]
      apply bindPoints_ext
      · intro s
        simp [ImmutableSamplerBindPointsOf, h7]
      · rfl
    have hc : ∀ r s, (AllocBindPoints (ImmutableSamplersState Sig b st n).m_ResourceCounters
        D3D11ResourceBindPoints.empty (Sig.m_Desc.GetImmutableSamplerDesc n).ShaderStages
        ((ImmutableSamplersState Sig b st n).m_pImmutableSamplerAttribs n).ArraySize
        .SAMPLER).1 r s =
        if r = .SAMPLER then
          sumTo (ImmutableSamplerSlots Sig (ArraySizeOf Sig st) s) (n + 1) % 2 ^ CounterBits
        else 0 := by
      intro r s
      rw [AllocBindPoints_counters, h7, h6, sumTo_succ]
      by_cases hr : r = .SAMPLER
      · by_cases ht : (Sig.m_Desc.GetImmutableSamplerDesc n).ShaderStages.testBit s = true
        · simp [hr, ht, ImmutableSamplerSlots, Nat.mod_add_mod]
        · simp [hr, ht, ImmutableSamplerSlots]
      · simp [hr]
    rw [hstep]
    cases b with
    | false =>
      simp only [AllocImmutableSamplerStep, if_true]
      refine ⟨h1, h2, h3, h4, h5, ?_, hc, ?_, ?_⟩
      · intro k
        by_cases hk : k = n
        · subst hk; simp [h6]
        · simp [hk, h6]
      · intro _
        obtain ⟨h8a, h8b⟩ := h8 rfl
        refine ⟨?_, h8b⟩
        intro k
        by_cases hk : k = n
        · subst hk
          simp only [if_true]
          rw [hbp]
          simp
        · simp only [hk, if_false]
          rw [h8a]
          by_cases hkn : k < n
          · have : k < n + 1 := by omega
            simp [hkn, this]
          · have : ¬ k < n + 1 := by omega
            simp [hkn, this]
      · intro h; cases h
    | true =>
      simp only [AllocImmutableSamplerStep, Bool.true_eq_false, if_false]
      refine ⟨h1, h2, h3, h4, h5, h6, hc, ?_, ?_⟩
      · intro h; cases h
      · intro _
        obtain ⟨h9a, h9b⟩ := h9 rfl
        refine ⟨h9a, ?_⟩
        rw [hbp, h9a]
        by_cases he : (st.m_pImmutableSamplerAttribs n).BindPoints.eqb
            (ImmutableSamplerBindPointsOf Sig (ArraySizeOf Sig st) n) = true
        · simp only [he, if_true]
          rw [h9b]
          constructor
          · rintro ⟨ha, hb⟩
            refine ⟨ha, ?_⟩
            intro k hk
            by_cases hkn : k = n
            · subst hkn; exact he
            · exact hb k (by omega)
          · rintro ⟨ha, hb⟩
            exact ⟨ha, fun k hk => hb k (by omega)⟩
        · simp only [he, if_false]
          constructor
          · intro h
            simp at h
          · rintro ⟨_, hb⟩
            exact absurd (hb n (by omega)) he

theorem raiseFold_spec (src : D3D11ShaderResourceCounters) (R : D3D11_RESOURCE_RANGE)
    (L : List Nat) : ∀ (dst : D3D11ShaderResourceCounters), L.Nodup → ∀ r s,
      (L.foldl (fun (Dst : D3D11ShaderResourceCounters) i =>
          setCounter Dst R i (max (Dst R i) (src R i))) dst) r s =
        if r = R ∧ s ∈ L then max (dst r s) (src R s) else dst r s := by
  induction L with
  | nil => intro dst _ r s; simp
  | cons i L ih =>
    intro dst hnd r s
    rw [List.nodup_cons] at hnd
    obtain ⟨hi, hnd⟩ := hnd
    simp only [List.foldl_cons]
    rw [ih _ hnd]
    by_cases hs : s ∈ L
    · have hne : s ≠ i := fun h => hi (h ▸ hs)
      by_cases hr : r = R <;> simp [setCounter, hs, hne, hr]
    · by_cases hsi : s = i
      · subst hsi
        by_cases hr : r = R <;> simp [setCounter, hs, hr]
      · simp [setCounter, hs, hsi]

theorem RaiseStaticCounters_apply (src dst : D3D11ShaderResourceCounters)
    (R r : D3D11_RESOURCE_RANGE) (M s : Nat) :
    RaiseStaticCounters src dst R M r s =
      if r = R ∧ M.testBit s = true then max (dst r s) (src R s) else dst r s := by
  unfold RaiseStaticCounters
  rw [forEachStage_eq_foldl]
  have h := raiseFold_spec src R (stagesOf M) dst (nodup_stagesOf M) r s
  simp only [mem_stagesOf] at h
  exact h

theorem slotLoop_fst (i ShaderInd BindPoint : Nat) (A : Nat) :
    ∀ (acc : (Nat → Nat) × List VerifyFailure) (s : Nat),
      (forLoop (fun elem (acc : (Nat → Nat) × List VerifyFailure) =>
          ((fun s =>
              if s = ShaderInd then
                (acc.1 s ||| 1 <<< ((BindPoint + elem) % 32)) % 2 ^ DynamicCBSlotsMaskBits
              else acc.1 s),
            if BindPoint + elem < DynamicCBSlotsMaskBits then acc.2
            else acc.2 ++ [VerifyFailure.DynamicCBSlotOutOfRange i ShaderInd elem]))
          A acc).1 s =
        if s = ShaderInd then SetSlotBits BindPoint A (acc.1 s) else acc.1 s := by
  induction A with
  | zero => intro acc s; simp [forLoop, SetSlotBits]
  | succ A ih =>
    intro acc s
    simp only [forLoop]
    by_cases hs : s = ShaderInd
    · subst hs
      simp only [if_true]
      rw [ih]
      simp [SetSlotBits, forLoop]
    · simp only [hs, if_false]
      rw [ih]
      simp [hs]

theorem dynFold_spec (i : Nat) (bp : D3D11ResourceBindPoints) (A : Nat) (L : List Nat) :
    ∀ (acc : (Nat → Nat) × List VerifyFailure), L.Nodup → ∀ s,
      (L.foldl (fun (acc : (Nat → Nat) × List VerifyFailure) ShaderInd =>
          forLoop (fun elem (acc : (Nat → Nat) × List VerifyFailure) =>
            ((fun s =>
                if s = ShaderInd then
                  (acc.1 s ||| 1 <<< ((bp.Bindings ShaderInd + elem) % 32)) %
                    2 ^ DynamicCBSlotsMaskBits
                else acc.1 s),
              if bp.Bindings ShaderInd + elem < DynamicCBSlotsMaskBits then acc.2
              else acc.2 ++ [VerifyFailure.DynamicCBSlotOutOfRange i ShaderInd elem]))
            A acc) acc).1 s =
        if s ∈ L then SetSlotBits (bp.Bindings s) A (acc.1 s) else acc.1 s := by
  induction L with
  | nil => intro acc _ s; simp
  | cons j L ih =>
    intro acc hnd s
    rw [List.nodup_cons] at hnd
    obtain ⟨hj, hnd⟩ := hnd
    simp only [List.foldl_cons]
    rw [ih _ hnd, slotLoop_fst]
    by_cases hs : s ∈ L
    · have hne : s ≠ j := fun h => hj (h ▸ hs)
      simp [hs, hne]
    · by_cases hsj : s = j
      · subst hsj; simp [hs]
      · simp [hs, hsj]

theorem SetDynamicCBSlots_mask (i : Nat) (bp : D3D11ResourceBindPoints) (M A : Nat)
    (Mask : Nat → Nat) (F : List VerifyFailure) (s : Nat) :
    (SetDynamicCBSlots i bp M A Mask F).1 s =
      if M.testBit s = true then SetSlotBits (bp.Bindings s) A (Mask s) else Mask s := by
  unfold SetDynamicCBSlots
  rw [forEachStage_eq_foldl]
  have h := dynFold_spec i bp A (stagesOf M) (Mask, F) (nodup_stagesOf M) s
  simp only [mem_stagesOf] at h
  exact h

theorem findFrom_bounds (uc : Bool) (suf : String) (M : Nat) (name : String) :
    ∀ (l : List ImmutableSamplerDesc) (s0 k : Nat),
      FindImmutableSamplerFrom uc suf M name l s0 = some k → s0 ≤ k ∧ k < s0 + l.length := by
  intro l
  induction l with
  | nil => intro s0 k h; simp [FindImmutableSamplerFrom] at h
  | cons Sam rest ih =>
    intro s0 k h
    unfold FindImmutableSamplerFrom at h
    split at h
    · simp only [Option.some.injEq] at h
      subst h
      simp
    · have := ih _ _ h
      simp only [List.length_cons]
      omega

theorem immutableSamplerIndOf_lt (Sig : PipelineResourceSignatureD3D11Impl) (i k : Nat)
    (h : ImmutableSamplerIndOf Sig i = some k) : k < Sig.m_Desc.NumImmutableSamplers := by
  unfold ImmutableSamplerIndOf at h
  split at h
  · have := findFrom_bounds _ _ _ _ _ _ _ h
    simp only [PipelineResourceSignatureDesc.NumImmutableSamplers]
    omega
  · cases h

theorem immutableSamplerIndOf_sampler (Sig : PipelineResourceSignatureD3D11Impl) (i k : Nat)
    (h : ImmutableSamplerIndOf Sig i = some k) :
    (Sig.m_Desc.GetResourceDesc i).ResourceType = .SAMPLER := by
  unfold ImmutableSamplerIndOf at h
  split at h
  · assumption
  · cases h

theorem storeOrCheck_fresh (i : Nat) (bp : D3D11ResourceBindPoints) (a s : Option Nat)
    (st : LayoutState) :
    StoreOrCheckAttribs false i bp a s st =
      { st with
        m_pResourceAttribs := fun j =>
          if j = i then { BindPoints := bp, SamplerInd := a, ImtblSamplerAssigned := s.isSome }
          else st.m_pResourceAttribs j } := by
  simp [StoreOrCheckAttribs]

theorem storeOrCheck_restore (Sig : PipelineResourceSignatureD3D11Impl) (i : Nat)
    (bp : D3D11ResourceBindPoints) (st : LayoutState) :
    (StoreOrCheckAttribs true i bp (AssignedSamplerIndOf Sig i) (SrcImmutableSamplerInd Sig i)
        st).m_ResourceCounters = st.m_ResourceCounters ∧
    (StoreOrCheckAttribs true i bp (AssignedSamplerIndOf Sig i) (SrcImmutableSamplerInd Sig i)
        st).m_pImmutableSamplerAttribs = st.m_pImmutableSamplerAttribs ∧
    (StoreOrCheckAttribs true i bp (AssignedSamplerIndOf Sig i) (SrcImmutableSamplerInd Sig i)
        st).m_pResourceAttribs = st.m_pResourceAttribs ∧
    (StoreOrCheckAttribs true i bp (AssignedSamplerIndOf Sig i) (SrcImmutableSamplerInd Sig i)
        st).m_DynamicCBSlotsMask = st.m_DynamicCBSlotsMask ∧
    (StoreOrCheckAttribs true i bp (AssignedSamplerIndOf Sig i) (SrcImmutableSamplerInd Sig i)
        st).ResourceToImmutableSamplerInd = st.ResourceToImmutableSamplerInd ∧
    (StoreOrCheckAttribs true i bp (AssignedSamplerIndOf Sig i) (SrcImmutableSamplerInd Sig i)
        st).StaticResCounters = st.StaticResCounters ∧
    ((StoreOrCheckAttribs true i bp (AssignedSamplerIndOf Sig i) (SrcImmutableSamplerInd Sig i)
        st).DevCheckErrors = [] ↔
      st.DevCheckErrors = [] ∧ AttribsCheck Sig bp (st.m_pResourceAttribs i) i) := by
  refine ⟨rfl, rfl, rfl, rfl, rfl, rfl, ?_⟩
  simp only [StoreOrCheckAttribs, Bool.true_eq_false, if_false, AttribsCheck,
    PipelineResourceAttribsD3D11.IsImmutableSamplerAssigned, List.append_eq_nil]
  constructor
  · rintro ⟨⟨⟨h1, h2⟩, h3⟩, h4⟩
    refine ⟨h1, ?_, ?_, ?_⟩
    · by_contra hc; simp [hc] at h2
    · by_contra hc; simp [hc] at h3
    · by_contra hc; simp [hc] at h4
  · rintro ⟨h1, h2, h3, h4⟩
    simp [h1, h2, h3, h4]

theorem srcInd_eq (Sig : PipelineResourceSignatureD3D11Impl) (R2I : Nat → Option Nat) (i : Nat)
    (h : ∀ j, R2I j = if j < Sig.m_Desc.NumResources then ImmutableSamplerIndOf Sig j else none) :
    SrcImmutableSamplerIndOf Sig R2I i = SrcImmutableSamplerInd Sig i := by
  have : R2I = fun j =>
      if j < Sig.m_Desc.NumResources then ImmutableSamplerIndOf Sig j else none := funext h
  rw [this]
  rfl

theorem srcInd_of_sampler (Sig : PipelineResourceSignatureD3D11Impl) (i : Nat)
    (hi : i < Sig.m_Desc.NumResources)
    (ht : (Sig.m_Desc.GetResourceDesc i).ResourceType = .SAMPLER) :
    SrcImmutableSamplerInd Sig i = ImmutableSamplerIndOf Sig i := by
  simp [SrcImmutableSamplerInd, SrcImmutableSamplerIndOf, ht, hi]

theorem assigned_of_sampler (Sig : PipelineResourceSignatureD3D11Impl) (i : Nat)
    (ht : (Sig.m_Desc.GetResourceDesc i).ResourceType = .SAMPLER) :
    AssignedSamplerIndOf Sig i = none := by
  simp [AssignedSamplerIndOf, ht]

theorem bindPointsStep_direct (Sig : PipelineResourceSignatureD3D11Impl) (i : Nat)
    (st : LayoutState) (hi : i < Sig.m_Desc.NumResources)
    (hR : ∀ j, st.ResourceToImmutableSamplerInd j =
      if j < Sig.m_Desc.NumResources then ImmutableSamplerIndOf Sig j else none)
    (hd : ImmutableSamplerIndOf Sig i = none) :
    ResourceBindPointsStep Sig i st = AllocateResource i (Sig.m_Desc.GetResourceDesc i) st := by
  unfold ResourceBindPointsStep
  rw [srcInd_eq Sig _ i hR]
  cases hs : SrcImmutableSamplerInd Sig i with
  | none => rfl
  | some k =>
    by_cases ht : (Sig.m_Desc.GetResourceDesc i).ResourceType = .SAMPLER
    · rw [srcInd_of_sampler Sig i hi ht, hd] at hs
      cases hs
    · simp [ht]

theorem bindPointsStep_reuse (Sig : PipelineResourceSignatureD3D11Impl) (i k : Nat)
    (st : LayoutState) (hi : i < Sig.m_Desc.NumResources)
    (hR : ∀ j, st.ResourceToImmutableSamplerInd j =
      if j < Sig.m_Desc.NumResources then ImmutableSamplerIndOf Sig j else none)
    (hd : ImmutableSamplerIndOf Sig i = some k) :
    ResourceBindPointsStep Sig i st =
      UseImmutableSamplerBindPoints i (AssignedSamplerIndOf Sig i) k st := by
  have ht := immutableSamplerIndOf_sampler Sig i k hd
  unfold ResourceBindPointsStep
  rw [srcInd_eq Sig _ i hR, srcInd_of_sampler Sig i hi ht, hd]
  simp [ht]

theorem counterOf_zero (Sig : PipelineResourceSignatureD3D11Impl) (sz : Nat → Nat)
    (r : D3D11_RESOURCE_RANGE) (s : Nat) :
    CounterOf Sig sz r s 0 =
      if r = .SAMPLER then
        sumTo (ImmutableSamplerSlots Sig sz s) Sig.m_Desc.NumImmutableSamplers % 2 ^ CounterBits
      else 0 := by
  unfold CounterOf ImmutableSamplerTotal
  by_cases hr : r = .SAMPLER <;> simp [hr, sumTo]

theorem counterOf_succ (Sig : PipelineResourceSignatureD3D11Impl) (sz : Nat → Nat)
    (r : D3D11_RESOURCE_RANGE) (s n : Nat) :
    CounterOf Sig sz r s (n + 1) =
      (CounterOf Sig sz r s n + ResourceSlots Sig r s n) % 2 ^ CounterBits := by
  unfold CounterOf
  rw [sumTo_succ, Nat.mod_add_mod, Nat.add_assoc]

/-- The state during the resource loop, for counters that start at zero. -/
theorem resState_spec (Sig : PipelineResourceSignatureD3D11Impl) (b : Bool) (st : LayoutState)
    (hz : st.m_ResourceCounters = D3D11ShaderResourceCounters.zero) (n : Nat)
    (hn : n ≤ Sig.m_Desc.NumResources) :
    (ResourcesState Sig b st n).m_pImmutableSamplerAttribs =
      (ImmutableSamplersState Sig b st Sig.m_Desc.NumImmutableSamplers).m_pImmutableSamplerAttribs ∧
    (∀ j, (ResourcesState Sig b st n).ResourceToImmutableSamplerInd j =
      if j < Sig.m_Desc.NumResources then ImmutableSamplerIndOf Sig j else none) ∧
    (∀ r s, (ResourcesState Sig b st n).m_ResourceCounters r s =
      CounterOf Sig (ArraySizeOf Sig st) r s n) ∧
    (∀ r s, (ResourcesState Sig b st n).StaticResCounters r s =
      StaticCounterOf Sig (ArraySizeOf Sig st) r s n) ∧
    (∀ s, (ResourcesState Sig b st n).m_DynamicCBSlotsMask s =
      DynamicCBSlotsMaskOf Sig (ArraySizeOf Sig st) s (st.m_DynamicCBSlotsMask s) n) ∧
    (b = false →
      (∀ i, (ResourcesState Sig b st n).m_pResourceAttribs i =
        if i < n then
          ComputedAttribs Sig (ArraySizeOf Sig st)
            (ImmutableSamplersState Sig b st
              Sig.m_Desc.NumImmutableSamplers).m_pImmutableSamplerAttribs i
        else st.m_pResourceAttribs i) ∧
      (ResourcesState Sig b st n).DevCheckErrors = st.DevCheckErrors) ∧
    (b = true →
      (ResourcesState Sig b st n).m_pResourceAttribs = st.m_pResourceAttribs ∧
      ((ResourcesState Sig b st n).DevCheckErrors = [] ↔
        (ImmutableSamplersState Sig b st Sig.m_Desc.NumImmutableSamplers).DevCheckErrors = [] ∧
          ∀ i, i < n →
            AttribsCheck Sig
              (ComputedBindPoints Sig (ArraySizeOf Sig st)
                (ImmutableSamplersState Sig b st
                  Sig.m_Desc.NumImmutableSamplers).m_pImmutableSamplerAttribs i)
              (st.m_pResourceAttribs i) i)) := by
  induction n with
  | zero =>
    obtain ⟨h1, h2, h3, h4, h5, h6, h7, h8, h9⟩ :=
      immState_spec Sig b st hz Sig.m_Desc.NumImmutableSamplers
    have h0 : ResourcesState Sig b st 0 =
        ImmutableSamplersState Sig b st Sig.m_Desc.NumImmutableSamplers := rfl
    rw [h0]
    refine ⟨rfl, h5, ?_, ?_, ?_, ?_, ?_⟩
    · intro r s; rw [h7, counterOf_zero]
    · intro r s; rw [h3]; rfl
    · intro s; rw [h2]; rfl
    · intro hb
      refine ⟨fun i => by simp [h1], ?_⟩
      exact (h8 hb).2
    · intro _
      refine ⟨h1, ?_⟩
      simp
  | succ n ih =>
    obtain ⟨h1, h2, h3, h4, h5, h6, h7⟩ := ih (by omega)
    have hlt : n < Sig.m_Desc.NumResources := by omega
    have hstep : ResourcesState Sig b st (n + 1) =
        CreateLayoutResourceStep Sig b n (ResourcesState Sig b st n) := rfl
    have hR' : ∀ j, (VerifyResourceHead Sig n
        (ResourcesState Sig b st n)).ResourceToImmutableSamplerInd j =
        if j < Sig.m_Desc.NumResources then ImmutableSamplerIndOf Sig j else none := h2
    have hsrc := srcInd_eq Sig _ n h2
    rw [hstep]
    unfold CreateLayoutResourceStep
    simp only []
    rw [hsrc]
    cases hd : ImmutableSamplerIndOf Sig n with
    | none =>
      rw [bindPointsStep_direct Sig n _ hlt hR' hd]
      have hbp : (AllocBindPoints (ResourcesState Sig b st n).m_ResourceCounters
          D3D11ResourceBindPoints.empty (Sig.m_Desc.GetResourceDesc n).ShaderStages
          (Sig.m_Desc.GetResourceDesc n).ArraySize
          (ShaderResourceTypeToRange (Sig.m_Desc.GetResourceDesc n).ResourceType)).2 =
          ComputedBindPoints Sig (ArraySizeOf Sig st)
            (ImmutableSamplersState Sig b st
              Sig.m_Desc.NumImmutableSamplers).m_pImmutableSamplerAttribs n := by
        rw [AllocBindPoints_empty]
        simp only [ComputedBindPoints, hd]
        apply bindPoints_ext
        · intro s
          simp only [ResourceBindPointsOf, h3]
          rfl
        · rfl
      have hc : ∀ r s, (AllocBindPoints (ResourcesState Sig b st n).m_ResourceCounters
          D3D11ResourceBindPoints.empty (Sig.m_Desc.GetResourceDesc n).ShaderStages
          (Sig.m_Desc.GetResourceDesc n).ArraySize
          (ShaderResourceTypeToRange (Sig.m_Desc.GetResourceDesc n).ResourceType)).1 r s =
          CounterOf Sig (ArraySizeOf Sig st) r s (n + 1) := by
        intro r s
        rw [AllocBindPoints_counters, counterOf_succ, h3]
        unfold ResourceSlots
        by_cases hr : r = ShaderResourceTypeToRange (Sig.m_Desc.GetResourceDesc n).ResourceType
        · subst hr
          by_cases ht : (Sig.m_Desc.GetResourceDesc n).ShaderStages.testBit s = true
          · simp [hd, ht]
          · simp [hd, ht]
            exact (Nat.mod_eq_of_lt (Nat.mod_lt _ (by decide))).symm
        · have hr' : ¬ (ShaderResourceTypeToRange (Sig.m_Desc.GetResourceDesc n).ResourceType = r) :=
            fun h => hr h.symm
          simp [hr, hr']
          exact (Nat.mod_eq_of_lt (Nat.mod_lt _ (by decide))).symm
      have hs : ∀ r s, (AllocateResource n (Sig.m_Desc.GetResourceDesc n)
          (VerifyResourceHead Sig n (ResourcesState Sig b st n))).1.StaticResCounters r s =
          StaticCounterOf Sig (ArraySizeOf Sig st) r s (n + 1) := by
        intro r s
        simp only [AllocateResource, VerifyResourceHead, StaticCounterOf, hd, true_and]
        by_cases hv : (Sig.m_Desc.GetResourceDesc n).VarType = .STATIC
        · simp only [hv, if_true, true_and]
          rw [RaiseStaticCounters_apply, h4]
          by_cases hr : r = ShaderResourceTypeToRange (Sig.m_Desc.GetResourceDesc n).ResourceType
          · subst hr
            rw [hc]
          · have hr' : ¬ (ShaderResourceTypeToRange
                (Sig.m_Desc.GetResourceDesc n).ResourceType = r) := fun h => hr h.symm
            simp [hr, hr']
        · simp [hv, h4]
      have hm : ∀ s, (AllocateResource n (Sig.m_Desc.GetResourceDesc n)
          (VerifyResourceHead Sig n (ResourcesState Sig b st n))).1.m_DynamicCBSlotsMask s =
          DynamicCBSlotsMaskOf Sig (ArraySizeOf Sig st) s (st.m_DynamicCBSlotsMask s) (n + 1) := by
        intro s
        simp only [AllocateResource, VerifyResourceHead, DynamicCBSlotsMaskOf, hd, true_and]
        by_cases hcb : ShaderResourceTypeToRange (Sig.m_Desc.GetResourceDesc n).ResourceType = .CBV ∧
            (Sig.m_Desc.GetResourceDesc n).Flags &&& PIPELINE_RESOURCE_FLAG_NO_DYNAMIC_BUFFERS = 0
        · simp only [hcb, and_self, if_true, true_and]
          rw [SetDynamicCBSlots_mask, h5, AllocBindPoints_bindings]
          by_cases ht : (Sig.m_Desc.GetResourceDesc n).ShaderStages.testBit s = true
          · simp only [ht, if_true]
            rw [h3]
          · simp [ht]
        · have hcb' : ¬ (ShaderResourceTypeToRange
              (Sig.m_Desc.GetResourceDesc n).ResourceType = .CBV ∧
              (Sig.m_Desc.GetResourceDesc n).Flags &&&
                PIPELINE_RESOURCE_FLAG_NO_DYNAMIC_BUFFERS = 0 ∧
              (Sig.m_Desc.GetResourceDesc n).ShaderStages.testBit s = true) :=
            fun h => hcb ⟨h.1, h.2.1⟩
          simp only [hcb, if_false, hcb']
          exact h5 s
      have hbp2 : (AllocateResource n (Sig.m_Desc.GetResourceDesc n)
          (VerifyResourceHead Sig n (ResourcesState Sig b st n))).2 =
          ComputedBindPoints Sig (ArraySizeOf Sig st)
            (ImmutableSamplersState Sig b st
              Sig.m_Desc.NumImmutableSamplers).m_pImmutableSamplerAttribs n := hbp
      have hc2 : ∀ r s, (AllocateResource n (Sig.m_Desc.GetResourceDesc n)
          (VerifyResourceHead Sig n (ResourcesState Sig b st n))).1.m_ResourceCounters r s =
          CounterOf Sig (ArraySizeOf Sig st) r s (n + 1) := hc
      have hi2 : (AllocateResource n (Sig.m_Desc.GetResourceDesc n)
          (VerifyResourceHead Sig n (ResourcesState Sig b st n))).1.m_pImmutableSamplerAttribs =
          (ResourcesState Sig b st n).m_pImmutableSamplerAttribs := rfl
      have hr2 : (AllocateResource n (Sig.m_Desc.GetResourceDesc n)
          (VerifyResourceHead Sig n (ResourcesState Sig b st n))).1.ResourceToImmutableSamplerInd =
          (ResourcesState Sig b st n).ResourceToImmutableSamplerInd := rfl
      have ha2 : (AllocateResource n (Sig.m_Desc.GetResourceDesc n)
          (VerifyResourceHead Sig n (ResourcesState Sig b st n))).1.m_pResourceAttribs =
          (ResourcesState Sig b st n).m_pResourceAttribs := rfl
      have hd2 : (AllocateResource n (Sig.m_Desc.GetResourceDesc n)
          (VerifyResourceHead Sig n (ResourcesState Sig b st n))).1.DevCheckErrors =
          (ResourcesState Sig b st n).DevCheckErrors := rfl
      rw [hbp2]
      cases b with
      | false =>
        rw [storeOrCheck_fresh]
        refine ⟨by rw [← h1]; exact hi2, fun j => by rw [← h2 j]; exact congrFun hr2 j,
          hc2, hs, hm, ?_, ?_⟩
        · intro _
          obtain ⟨h6a, h6b⟩ := h6 rfl
          refine ⟨?_, by rw [← h6b]; exact hd2⟩
          intro i
          simp only []
          by_cases hin : i = n
          · subst hin
            simp [ComputedAttribs]
          · simp only [hin, if_false]
            rw [ha2, h6a]
            by_cases hil : i < n
            · have : i < n + 1 := by omega
              simp [hil, this]
            · have : ¬ i < n + 1 := by omega
              simp [hil, this]
        · intro h; cases h
      | true =>
        obtain ⟨s1, s2, s3, s4, s5, s6, s7⟩ := storeOrCheck_restore Sig n
          (ComputedBindPoints Sig (ArraySizeOf Sig st)
            (ImmutableSamplersState Sig true st
              Sig.m_Desc.NumImmutableSamplers).m_pImmutableSamplerAttribs n)
          (AllocateResource n (Sig.m_Desc.GetResourceDesc n)
            (VerifyResourceHead Sig n (ResourcesState Sig true st n))).1
        refine ⟨by rw [s2, ← h1]; exact hi2, fun j => by rw [s5, ← h2 j]; exact congrFun hr2 j,
          fun r s => by rw [s1]; exact hc2 r s, fun r s => by rw [s6]; exact hs r s,
          fun s => by rw [s4]; exact hm s, ?_, ?_⟩
        · intro h; cases h
        · intro _
          obtain ⟨h7a, h7b⟩ := h7 rfl
          refine ⟨by rw [s3, ← h7a]; exact ha2, ?_⟩
          rw [s7, hd2, h7b, ha2, h7a]
          constructor
          · rintro ⟨⟨ha, hb⟩, hcn⟩
            refine ⟨ha, ?_⟩
            intro i hi
            by_cases hin : i = n
            · subst hin; exact hcn
            · exact hb i (by omega)
          · rintro ⟨ha, hb⟩
            exact ⟨⟨ha, fun i hi => hb i (by omega)⟩, hb n (by omega)⟩
    | some k =>
      rw [bindPointsStep_reuse Sig n k _ hlt hR' hd]
      have hbp2 : (UseImmutableSamplerBindPoints n (AssignedSamplerIndOf Sig n) k
          (VerifyResourceHead Sig n (ResourcesState Sig b st n))).2 =
          ComputedBindPoints Sig (ArraySizeOf Sig st)
            (ImmutableSamplersState Sig b st
              Sig.m_Desc.NumImmutableSamplers).m_pImmutableSamplerAttribs n := by
        simp only [UseImmutableSamplerBindPoints, VerifyResourceHead, ComputedBindPoints, hd]
        rw [h1]
      have hc2 : ∀ r s, (UseImmutableSamplerBindPoints n (AssignedSamplerIndOf Sig n) k
          (VerifyResourceHead Sig n (ResourcesState Sig b st n))).1.m_ResourceCounters r s =
          CounterOf Sig (ArraySizeOf Sig st) r s (n + 1) := by
        intro r s
        rw [counterOf_succ]
        simp only [UseImmutableSamplerBindPoints, VerifyResourceHead, ResourceSlots, hd]
        rw [h3]
        simp
        exact (Nat.mod_eq_of_lt (Nat.mod_lt _ (by decide))).symm
      have hs : ∀ r s, (UseImmutableSamplerBindPoints n (AssignedSamplerIndOf Sig n) k
          (VerifyResourceHead Sig n (ResourcesState Sig b st n))).1.StaticResCounters r s =
          StaticCounterOf Sig (ArraySizeOf Sig st) r s (n + 1) := by
        intro r s
        simp only [UseImmutableSamplerBindPoints, VerifyResourceHead, StaticCounterOf, hd]
        rw [h4]
        simp
      have hm : ∀ s, (UseImmutableSamplerBindPoints n (AssignedSamplerIndOf Sig n) k
          (VerifyResourceHead Sig n (ResourcesState Sig b st n))).1.m_DynamicCBSlotsMask s =
          DynamicCBSlotsMaskOf Sig (ArraySizeOf Sig st) s (st.m_DynamicCBSlotsMask s) (n + 1) := by
        intro s
        simp only [UseImmutableSamplerBindPoints, VerifyResourceHead, DynamicCBSlotsMaskOf, hd]
        rw [h5]
        simp
      have hi2 : (UseImmutableSamplerBindPoints n (AssignedSamplerIndOf Sig n) k
          (VerifyResourceHead Sig n (ResourcesState Sig b st n))).1.m_pImmutableSamplerAttribs =
          (ResourcesState Sig b st n).m_pImmutableSamplerAttribs := rfl
      have hr2 : (UseImmutableSamplerBindPoints n (AssignedSamplerIndOf Sig n) k
          (VerifyResourceHead Sig n (ResourcesState Sig b st n))).1.ResourceToImmutableSamplerInd =
          (ResourcesState Sig b st n).ResourceToImmutableSamplerInd := rfl
      have ha2 : (UseImmutableSamplerBindPoints n (AssignedSamplerIndOf Sig n) k
          (VerifyResourceHead Sig n (ResourcesState Sig b st n))).1.m_pResourceAttribs =
          (ResourcesState Sig b st n).m_pResourceAttribs := rfl
      have hd2 : (UseImmutableSamplerBindPoints n (AssignedSamplerIndOf Sig n) k
          (VerifyResourceHead Sig n (ResourcesState Sig b st n))).1.DevCheckErrors =
          (ResourcesState Sig b st n).DevCheckErrors := rfl
      rw [hbp2]
      cases b with
      | false =>
        rw [storeOrCheck_fresh]
        refine ⟨by rw [← h1]; exact hi2, fun j => by rw [← h2 j]; exact congrFun hr2 j,
          hc2, hs, hm, ?_, ?_⟩
        · intro _
          obtain ⟨h6a, h6b⟩ := h6 rfl
          refine ⟨?_, by rw [← h6b]; exact hd2⟩
          intro i
          simp only []
          by_cases hin : i = n
          · subst hin
            simp [ComputedAttribs]
          · simp only [hin, if_false]
            rw [ha2, h6a]
            by_cases hil : i < n
            · have : i < n + 1 := by omega
              simp [hil, this]
            · have : ¬ i < n + 1 := by omega
              simp [hil, this]
        · intro h; cases h
      | true =>
        obtain ⟨s1, s2, s3, s4, s5, s6, s7⟩ := storeOrCheck_restore Sig n
          (ComputedBindPoints Sig (ArraySizeOf Sig st)
            (ImmutableSamplersState Sig true st
              Sig.m_Desc.NumImmutableSamplers).m_pImmutableSamplerAttribs n)
          (UseImmutableSamplerBindPoints n (AssignedSamplerIndOf Sig n) k
            (VerifyResourceHead Sig n (ResourcesState Sig true st n))).1
        refine ⟨by rw [s2, ← h1]; exact hi2, fun j => by rw [s5, ← h2 j]; exact congrFun hr2 j,
          fun r s => by rw [s1]; exact hc2 r s, fun r s => by rw [s6]; exact hs r s,
          fun s => by rw [s4]; exact hm s, ?_, ?_⟩
        · intro h; cases h
        · intro _
          obtain ⟨h7a, h7b⟩ := h7 rfl
          refine ⟨by rw [s3, ← h7a]; exact ha2, ?_⟩
          rw [s7, hd2, h7b, ha2, h7a]
          constructor
          · rintro ⟨⟨ha, hb⟩, hcn⟩
            refine ⟨ha, ?_⟩
            intro i hi
            by_cases hin : i = n
            · subst hin; exact hcn
            · exact hb i (by omega)
          · rintro ⟨ha, hb⟩
            exact ⟨⟨ha, fun i hi => hb i (by omega)⟩, hb n (by omega)⟩

/-! ### Fresh construction in closed form -/

theorem fresh_state (Sig : PipelineResourceSignatureD3D11Impl)
    (U : Nat → PipelineResourceAttribsD3D11) (n : Nat) (hn : n ≤ Sig.m_Desc.NumResources) :
    (∀ k, ((ResourcesState Sig false (LayoutState.fresh U) n).m_pImmutableSamplerAttribs k).ArraySize =
      FreshArraySize Sig k) ∧
    (∀ k, ((ResourcesState Sig false (LayoutState.fresh U) n).m_pImmutableSamplerAttribs k).BindPoints =
      if k < Sig.m_Desc.NumImmutableSamplers then
        ImmutableSamplerBindPointsOf Sig (FreshArraySize Sig) k
      else D3D11ResourceBindPoints.empty) ∧
    (∀ r s, (ResourcesState Sig false (LayoutState.fresh U) n).m_ResourceCounters r s =
      CounterOf Sig (FreshArraySize Sig) r s n) ∧
    (∀ r s, (ResourcesState Sig false (LayoutState.fresh U) n).StaticResCounters r s =
      StaticCounterOf Sig (FreshArraySize Sig) r s n) ∧
    (∀ s, (ResourcesState Sig false (LayoutState.fresh U) n).m_DynamicCBSlotsMask s =
      DynamicCBSlotsMaskOf Sig (FreshArraySize Sig) s 0 n) ∧
    (∀ i, (ResourcesState Sig false (LayoutState.fresh U) n).m_pResourceAttribs i =
      if i < n then
        ComputedAttribs Sig (FreshArraySize Sig)
          (ResourcesState Sig false (LayoutState.fresh U) n).m_pImmutableSamplerAttribs i
      else U i) ∧
    (ResourcesState Sig false (LayoutState.fresh U) n).DevCheckErrors = [] := by
  obtain ⟨h1, h2, h3, h4, h5, h6, _⟩ := resState_spec Sig false (LayoutState.fresh U) rfl n hn
  obtain ⟨_, _, _, _, _, g6, _, g8, _⟩ :=
    immState_spec Sig false (LayoutState.fresh U) rfl Sig.m_Desc.NumImmutableSamplers
  obtain ⟨h6a, h6b⟩ := h6 rfl
  obtain ⟨g8a, _⟩ := g8 rfl
  refine ⟨?_, ?_, h3, h4, h5, ?_, h6b⟩
  · intro k; rw [h1, g6]; rfl
  · intro k; rw [h1, g8a]; rfl
  · intro i; rw [h6a, h1]; rfl

theorem fresh_bindPoints_direct (Sig : PipelineResourceSignatureD3D11Impl)
    (U : Nat → PipelineResourceAttribsD3D11) (i : Nat) (hi : i < Sig.m_Desc.NumResources)
    (hd : ImmutableSamplerIndOf Sig i = none) :
    ((FreshLayout Sig U).m_pResourceAttribs i).BindPoints =
      ResourceBindPointsOf Sig (FreshArraySize Sig) i := by
  obtain ⟨_, _, _, _, _, h6, _⟩ := fresh_state Sig U Sig.m_Desc.NumResources (Nat.le_refl _)
  have : (FreshLayout Sig U).m_pResourceAttribs i = _ := h6 i
  rw [this]
  simp [hi, ComputedAttribs, ComputedBindPoints, hd]

theorem fresh_bindPoints_reuse (Sig : PipelineResourceSignatureD3D11Impl)
    (U : Nat → PipelineResourceAttribsD3D11) (i k : Nat) (hi : i < Sig.m_Desc.NumResources)
    (hd : ImmutableSamplerIndOf Sig i = some k) :
    ((FreshLayout Sig U).m_pResourceAttribs i).BindPoints =
      ((FreshLayout Sig U).m_pImmutableSamplerAttribs k).BindPoints := by
  obtain ⟨_, _, _, _, _, h6, _⟩ := fresh_state Sig U Sig.m_Desc.NumResources (Nat.le_refl _)
  have : (FreshLayout Sig U).m_pResourceAttribs i = _ := h6 i
  rw [this]
  simp only [hi, if_true, ComputedAttribs, ComputedBindPoints, hd]
  rfl

/-- C1: in `CreateLayout` on a fresh signature, a directly allocated resource `i` (one that is
not a sampler resolved to an immutable sampler) gets, in every stage `s` of its visibility mask,
the value of the (range, `s`) counter immediately before the resource is processed as its slot,
and the counter immediately afterwards is that value plus the array length within the 8-bit
counter, hence exactly that sum whenever the sum fits the counter; a stage outside the mask
keeps the unallocated sentinel, stays inactive, and its counter is unchanged. -/
theorem CreateLayout_assigns_counter_then_advances (Sig : PipelineResourceSignatureD3D11Impl)
    (Uninit : Nat → PipelineResourceAttribsD3D11) (i s : Nat)
    (hi : i < Sig.m_Desc.NumResources) (hd : ImmutableSamplerIndOf Sig i = none) :
    ((Sig.m_Desc.GetResourceDesc i).ShaderStages.testBit s = true →
      ((FreshLayout Sig Uninit).m_pResourceAttribs i).BindPoints.Bindings s =
        (ResourcesState Sig false (LayoutState.fresh Uninit) i).m_ResourceCounters
          (ShaderResourceTypeToRange (Sig.m_Desc.GetResourceDesc i).ResourceType) s ∧
      ((FreshLayout Sig Uninit).m_pResourceAttribs i).BindPoints.IsStageActive s = true ∧
      (ResourcesState Sig false (LayoutState.fresh Uninit) (i + 1)).m_ResourceCounters
          (ShaderResourceTypeToRange (Sig.m_Desc.GetResourceDesc i).ResourceType) s =
        ((ResourcesState Sig false (LayoutState.fresh Uninit) i).m_ResourceCounters
            (ShaderResourceTypeToRange (Sig.m_Desc.GetResourceDesc i).ResourceType) s +
          (Sig.m_Desc.GetResourceDesc i).ArraySize) % 2 ^ CounterBits ∧
      ((ResourcesState Sig false (LayoutState.fresh Uninit) i).m_ResourceCounters
            (ShaderResourceTypeToRange (Sig.m_Desc.GetResourceDesc i).ResourceType) s +
          (Sig.m_Desc.GetResourceDesc i).ArraySize < 2 ^ CounterBits →
        (ResourcesState Sig false (LayoutState.fresh Uninit) (i + 1)).m_ResourceCounters
            (ShaderResourceTypeToRange (Sig.m_Desc.GetResourceDesc i).ResourceType) s =
          (ResourcesState Sig false (LayoutState.fresh Uninit) i).m_ResourceCounters
              (ShaderResourceTypeToRange (Sig.m_Desc.GetResourceDesc i).ResourceType) s +
            (Sig.m_Desc.GetResourceDesc i).ArraySize)) ∧
    ((Sig.m_Desc.GetResourceDesc i).ShaderStages.testBit s = false →
      ((FreshLayout Sig Uninit).m_pResourceAttribs i).BindPoints.Bindings s = InvalidBindPoint ∧
      ((FreshLayout Sig Uninit).m_pResourceAttribs i).BindPoints.IsStageActive s = false ∧
      (ResourcesState Sig false (LayoutState.fresh Uninit) (i + 1)).m_ResourceCounters
          (ShaderResourceTypeToRange (Sig.m_Desc.GetResourceDesc i).ResourceType) s =
        (ResourcesState Sig false (LayoutState.fresh Uninit) i).m_ResourceCounters
          (ShaderResourceTypeToRange (Sig.m_Desc.GetResourceDesc i).ResourceType) s) := by
  obtain ⟨_, _, c0, _⟩ := fresh_state Sig Uninit i (by omega)
  obtain ⟨_, _, c1, _⟩ := fresh_state Sig Uninit (i + 1) (by omega)
  rw [c0, c1, fresh_bindPoints_direct Sig Uninit i hi hd, counterOf_succ]
  constructor
  · intro ht
    have hw : ResourceSlots Sig
        (ShaderResourceTypeToRange (Sig.m_Desc.GetResourceDesc i).ResourceType) s i =
        (Sig.m_Desc.GetResourceDesc i).ArraySize := by
      simp [ResourceSlots, hd, ht]
    rw [hw]
    refine ⟨?_, ?_, rfl, fun h => Nat.mod_eq_of_lt h⟩
    · simp [ResourceBindPointsOf, ht, CounterOf]
    · simp [D3D11ResourceBindPoints.IsStageActive, ResourceBindPointsOf, ht]
  · intro ht
    have hw : ResourceSlots Sig
        (ShaderResourceTypeToRange (Sig.m_Desc.GetResourceDesc i).ResourceType) s i = 0 := by
      simp [ResourceSlots, ht]
    rw [hw]
    refine ⟨?_, ?_, ?_⟩
    · simp [ResourceBindPointsOf, ht]
    · simp [D3D11ResourceBindPoints.IsStageActive, ResourceBindPointsOf, ht]
    · rw [Nat.add_zero]
      exact Nat.mod_eq_of_lt (Nat.mod_lt _ (by decide))

theorem sumTo_le (w : Nat → Nat) (j : Nat) : ∀ k, j ≤ k → sumTo w j ≤ sumTo w k := by
  intro k
  induction k with
  | zero => intro h; have : j = 0 := by omega
            subst this; exact Nat.le_refl _
  | succ k ih =>
    intro h
    by_cases hj : j = k + 1
    · subst hj; exact Nat.le_refl _
    · have := ih (by omega)
      rw [sumTo_succ]
      omega

theorem sumTo_step_le (w : Nat → Nat) (j k : Nat) (h : j < k) :
    sumTo w j + w j ≤ sumTo w k := by
  have := sumTo_le w (j + 1) k h
  rw [sumTo_succ] at this
  exact this

theorem sumTo_cover (w : Nat → Nat) (n : Nat) : ∀ m, n < sumTo w m →
    ∃ k, k < m ∧ sumTo w k ≤ n ∧ n < sumTo w k + w k := by
  intro m
  induction m with
  | zero => intro h; simp [sumTo] at h
  | succ m ih =>
    intro h
    rw [sumTo_succ] at h
    by_cases hm : n < sumTo w m
    · obtain ⟨k, hk, h1, h2⟩ := ih hm
      exact ⟨k, by omega, h1, h2⟩
    · exact ⟨m, by omega, by omega, h⟩

theorem sumTo_congr (w w' : Nat → Nat) : ∀ n, (∀ j, j < n → w j = w' j) →
    sumTo w n = sumTo w' n := by
  intro n
  induction n with
  | zero => intro _; rfl
  | succ n ih =>
    intro h
    rw [sumTo_succ, sumTo_succ, ih (fun j hj => h j (by omega)), h n (by omega)]

/-- The slots of a fresh layout without the reduction modulo the counter width, when the slots
of (`R`, `s`) fit the counter. -/
theorem fresh_exact (Sig : PipelineResourceSignatureD3D11Impl)
    (U : Nat → PipelineResourceAttribsD3D11) (R : D3D11_RESOURCE_RANGE) (s : Nat)
    (h : ImmutableSamplerTotal Sig (FreshArraySize Sig) R s +
      sumTo (ResourceSlots Sig R s) Sig.m_Desc.NumResources < 2 ^ CounterBits) :
    (∀ n, n ≤ Sig.m_Desc.NumResources →
      (ResourcesState Sig false (LayoutState.fresh U) n).m_ResourceCounters R s =
        ImmutableSamplerTotal Sig (FreshArraySize Sig) R s + sumTo (ResourceSlots Sig R s) n) ∧
    (∀ i, i < Sig.m_Desc.NumResources → ImmutableSamplerIndOf Sig i = none →
      ShaderResourceTypeToRange (Sig.m_Desc.GetResourceDesc i).ResourceType = R →
      (Sig.m_Desc.GetResourceDesc i).ShaderStages.testBit s = true →
      ((FreshLayout Sig U).m_pResourceAttribs i).BindPoints.Bindings s =
          ImmutableSamplerTotal Sig (FreshArraySize Sig) R s + sumTo (ResourceSlots Sig R s) i ∧
        ResourceSlots Sig R s i = (Sig.m_Desc.GetResourceDesc i).ArraySize) ∧
    (R = .SAMPLER → ∀ k, k < Sig.m_Desc.NumImmutableSamplers →
      (Sig.m_Desc.GetImmutableSamplerDesc k).ShaderStages.testBit s = true →
      (((FreshLayout Sig U).m_pImmutableSamplerAttribs k).BindPoints.Bindings s =
          sumTo (ImmutableSamplerSlots Sig (FreshArraySize Sig) s) k ∧
        ImmutableSamplerSlots Sig (FreshArraySize Sig) s k =
          ((FreshLayout Sig U).m_pImmutableSamplerAttribs k).ArraySize)) := by
  refine ⟨?_, ?_, ?_⟩
  · intro n hn
    obtain ⟨_, _, c, _⟩ := fresh_state Sig U n hn
    rw [c]
    unfold CounterOf
    apply Nat.mod_eq_of_lt
    have := sumTo_le (ResourceSlots Sig R s) n _ hn
    omega
  · intro i hi hd hr ht
    rw [fresh_bindPoints_direct Sig U i hi hd]
    subst hr
    refine ⟨?_, ?_⟩
    · simp only [ResourceBindPointsOf, ht, if_true]
      apply Nat.mod_eq_of_lt
      have := sumTo_le (ResourceSlots Sig
        (ShaderResourceTypeToRange (Sig.m_Desc.GetResourceDesc i).ResourceType) s) i _ (Nat.le_of_lt hi)
      omega
    · simp [ResourceSlots, hd, ht]
  · intro hR k hk ht
    subst hR
    obtain ⟨a, bp, _⟩ := fresh_state Sig U Sig.m_Desc.NumResources (Nat.le_refl _)
    have ha : ((FreshLayout Sig U).m_pImmutableSamplerAttribs k).ArraySize = _ := a k
    have hb : ((FreshLayout Sig U).m_pImmutableSamplerAttribs k).BindPoints = _ := bp k
    rw [ha, hb]
    simp only [hk, if_true]
    refine ⟨?_, ?_⟩
    · simp only [ImmutableSamplerBindPointsOf, ht, if_true]
      apply Nat.mod_eq_of_lt
      have := sumTo_le (ImmutableSamplerSlots Sig (FreshArraySize Sig) s) k _ (Nat.le_of_lt hk)
      simp only [ImmutableSamplerTotal, if_true] at h
      omega
    · simp [ImmutableSamplerSlots, ht]

/-- C2 (amended): tight packing after `CreateLayout` on a fresh signature. When the slots
allocated in (`R`, `s`) fit the 8-bit counter, the intervals `[slot, slot + arraySize)` of the
immutable samplers visible in `s` (sampler range only, with their resolved array sizes) and of
the directly allocated resources of range `R` visible in `s` are pairwise disjoint, in
allocation order, and their union is exactly `[0, finalCounter)`: a slot lies below the final
counter if and only if it lies in one of these intervals. -/
theorem CreateLayout_tight_packing (Sig : PipelineResourceSignatureD3D11Impl)
    (Uninit : Nat → PipelineResourceAttribsD3D11) (R : D3D11_RESOURCE_RANGE) (s : Nat)
    (h : ImmutableSamplerTotal Sig (FreshArraySize Sig) R s +
      sumTo (ResourceSlots Sig R s) Sig.m_Desc.NumResources < 2 ^ CounterBits) :
    (∀ n, n < (FreshLayout Sig Uninit).m_ResourceCounters R s ↔
      ((R = .SAMPLER ∧ ∃ k, k < Sig.m_Desc.NumImmutableSamplers ∧
          (Sig.m_Desc.GetImmutableSamplerDesc k).ShaderStages.testBit s = true ∧
          ((FreshLayout Sig Uninit).m_pImmutableSamplerAttribs k).BindPoints.Bindings s ≤ n ∧
          n < ((FreshLayout Sig Uninit).m_pImmutableSamplerAttribs k).BindPoints.Bindings s +
            ((FreshLayout Sig Uninit).m_pImmutableSamplerAttribs k).ArraySize) ∨
        ∃ i, i < Sig.m_Desc.NumResources ∧ ImmutableSamplerIndOf Sig i = none ∧
          ShaderResourceTypeToRange (Sig.m_Desc.GetResourceDesc i).ResourceType = R ∧
          (Sig.m_Desc.GetResourceDesc i).ShaderStages.testBit s = true ∧
          ((FreshLayout Sig Uninit).m_pResourceAttribs i).BindPoints.Bindings s ≤ n ∧
          n < ((FreshLayout Sig Uninit).m_pResourceAttribs i).BindPoints.Bindings s +
            (Sig.m_Desc.GetResourceDesc i).ArraySize)) ∧
    (R = .SAMPLER → ∀ k₁ k₂, k₁ < k₂ → k₂ < Sig.m_Desc.NumImmutableSamplers →
      (Sig.m_Desc.GetImmutableSamplerDesc k₁).ShaderStages.testBit s = true →
      (Sig.m_Desc.GetImmutableSamplerDesc k₂).ShaderStages.testBit s = true →
      ((FreshLayout Sig Uninit).m_pImmutableSamplerAttribs k₁).BindPoints.Bindings s +
          ((FreshLayout Sig Uninit).m_pImmutableSamplerAttribs k₁).ArraySize ≤
        ((FreshLayout Sig Uninit).m_pImmutableSamplerAttribs k₂).BindPoints.Bindings s) ∧
    (R = .SAMPLER → ∀ k i, k < Sig.m_Desc.NumImmutableSamplers →
      (Sig.m_Desc.GetImmutableSamplerDesc k).ShaderStages.testBit s = true →
      i < Sig.m_Desc.NumResources → ImmutableSamplerIndOf Sig i = none →
      ShaderResourceTypeToRange (Sig.m_Desc.GetResourceDesc i).ResourceType = R →
      (Sig.m_Desc.GetResourceDesc i).ShaderStages.testBit s = true →
      ((FreshLayout Sig Uninit).m_pImmutableSamplerAttribs k).BindPoints.Bindings s +
          ((FreshLayout Sig Uninit).m_pImmutableSamplerAttribs k).ArraySize ≤
        ((FreshLayout Sig Uninit).m_pResourceAttribs i).BindPoints.Bindings s) ∧
    (∀ i₁ i₂, i₁ < i₂ → i₂ < Sig.m_Desc.NumResources →
      ImmutableSamplerIndOf Sig i₁ = none →
      ShaderResourceTypeToRange (Sig.m_Desc.GetResourceDesc i₁).ResourceType = R →
      (Sig.m_Desc.GetResourceDesc i₁).ShaderStages.testBit s = true →
      ImmutableSamplerIndOf Sig i₂ = none →
      ShaderResourceTypeToRange (Sig.m_Desc.GetResourceDesc i₂).ResourceType = R →
      (Sig.m_Desc.GetResourceDesc i₂).ShaderStages.testBit s = true →
      ((FreshLayout Sig Uninit).m_pResourceAttribs i₁).BindPoints.Bindings s +
          (Sig.m_Desc.GetResourceDesc i₁).ArraySize ≤
        ((FreshLayout Sig Uninit).m_pResourceAttribs i₂).BindPoints.Bindings s) := by
  obtain ⟨hc, hres, himm⟩ := fresh_exact Sig Uninit R s h
  have hfin : (FreshLayout Sig Uninit).m_ResourceCounters R s = _ :=
    hc Sig.m_Desc.NumResources (Nat.le_refl _)
  refine ⟨?_, ?_, ?_, ?_⟩
  · intro n
    rw [hfin]
    constructor
    · intro hn
      by_cases hT : n < ImmutableSamplerTotal Sig (FreshArraySize Sig) R s
      · left
        have hR : R = .SAMPLER := by
          by_contra hne
          simp [ImmutableSamplerTotal, hne] at hT
        refine ⟨hR, ?_⟩
        have hT' : n < sumTo (ImmutableSamplerSlots Sig (FreshArraySize Sig) s)
            Sig.m_Desc.NumImmutableSamplers := by
          simpa [ImmutableSamplerTotal, hR] using hT
        obtain ⟨k, hk, h1, h2⟩ := sumTo_cover _ n _ hT'
        have hv : (Sig.m_Desc.GetImmutableSamplerDesc k).ShaderStages.testBit s = true := by
          by_contra hv
          simp [ImmutableSamplerSlots, hv] at h2
          omega
        obtain ⟨e1, e2⟩ := himm hR k hk hv
        exact ⟨k, hk, hv, by rw [e1]; exact h1, by rw [e1, ← e2]; exact h2⟩
      · right
        have hn' : n - ImmutableSamplerTotal Sig (FreshArraySize Sig) R s <
            sumTo (ResourceSlots Sig R s) Sig.m_Desc.NumResources := by omega
        obtain ⟨i, hi, h1, h2⟩ := sumTo_cover _ _ _ hn'
        have hpos : ResourceSlots Sig R s i ≠ 0 := by omega
        have hcond : ImmutableSamplerIndOf Sig i = none ∧
            ShaderResourceTypeToRange (Sig.m_Desc.GetResourceDesc i).ResourceType = R ∧
            (Sig.m_Desc.GetResourceDesc i).ShaderStages.testBit s = true := by
          by_contra hcn
          apply hpos
          unfold ResourceSlots
          rw [if_neg hcn]
        obtain ⟨e1, e2⟩ := hres i hi hcond.1 hcond.2.1 hcond.2.2
        refine ⟨i, hi, hcond.1, hcond.2.1, hcond.2.2, ?_, ?_⟩
        · rw [e1]; omega
        · rw [e1, ← e2]; omega
    · rintro (⟨hR, k, hk, hv, h1, h2⟩ | ⟨i, hi, hd, hr, hv, h1, h2⟩)
      · obtain ⟨e1, e2⟩ := himm hR k hk hv
        rw [e1, ← e2] at h2
        have := sumTo_step_le (ImmutableSamplerSlots Sig (FreshArraySize Sig) s) k _ hk
        have hT : ImmutableSamplerTotal Sig (FreshArraySize Sig) R s =
            sumTo (ImmutableSamplerSlots Sig (FreshArraySize Sig) s)
              Sig.m_Desc.NumImmutableSamplers := by
          simp [ImmutableSamplerTotal, hR]
        omega
      · obtain ⟨e1, e2⟩ := hres i hi hd hr hv
        rw [e1, ← e2] at h2
        have := sumTo_step_le (ResourceSlots Sig R s) i _ hi
        omega
  · intro hR k₁ k₂ h12 hk2 hv1 hv2
    obtain ⟨e1, e2⟩ := himm hR k₁ (by omega) hv1
    obtain ⟨f1, _⟩ := himm hR k₂ hk2 hv2
    rw [e1, ← e2, f1]
    exact sumTo_step_le _ _ _ h12
  · intro hR k i hk hvk hi hd hr hvi
    obtain ⟨e1, e2⟩ := himm hR k hk hvk
    obtain ⟨f1, _⟩ := hres i hi hd hr hvi
    rw [e1, ← e2, f1]
    have := sumTo_step_le (ImmutableSamplerSlots Sig (FreshArraySize Sig) s) k _ hk
    have hT : ImmutableSamplerTotal Sig (FreshArraySize Sig) R s =
        sumTo (ImmutableSamplerSlots Sig (FreshArraySize Sig) s)
          Sig.m_Desc.NumImmutableSamplers := by
      simp [ImmutableSamplerTotal, hR]
    omega
  · intro i₁ i₂ h12 hi2 hd1 hr1 hv1 hd2 hr2 hv2
    obtain ⟨e1, e2⟩ := hres i₁ (by omega) hd1 hr1 hv1
    obtain ⟨f1, _⟩ := hres i₂ hi2 hd2 hr2 hv2
    rw [e1, ← e2, f1]
    have := sumTo_step_le (ResourceSlots Sig R s) _ _ h12
    omega

theorem fresh_arraySize_fun (Sig : PipelineResourceSignatureD3D11Impl)
    (U : Nat → PipelineResourceAttribsD3D11) :
    (fun k => ((FreshLayout Sig U).m_pImmutableSamplerAttribs k).ArraySize) =
      FreshArraySize Sig := by
  funext k
  exact (fresh_state Sig U Sig.m_Desc.NumResources (Nat.le_refl _)).1 k

/-- C7: immutable samplers are allocated before any ordinary resource and in descriptor order.
When the sampler slots of stage `s` fit the 8-bit counter, the slot of immutable sampler `i` in
a stage `s` of its visibility mask is the sum of the resolved array sizes of the immutable
samplers `j < i` visible in `s`, and the slot of every directly allocated sampler resource
visible in `s` is at least the total array size of all immutable samplers visible in `s`. -/
theorem immutable_samplers_allocated_first (Sig : PipelineResourceSignatureD3D11Impl)
    (Uninit : Nat → PipelineResourceAttribsD3D11) (s : Nat)
    (h : sumTo (ImmutableSamplerSlots Sig
          (fun k => ((FreshLayout Sig Uninit).m_pImmutableSamplerAttribs k).ArraySize) s)
          Sig.m_Desc.NumImmutableSamplers +
        sumTo (ResourceSlots Sig .SAMPLER s) Sig.m_Desc.NumResources < 2 ^ CounterBits) :
    (∀ i, i < Sig.m_Desc.NumImmutableSamplers →
      (Sig.m_Desc.GetImmutableSamplerDesc i).ShaderStages.testBit s = true →
      ((FreshLayout Sig Uninit).m_pImmutableSamplerAttribs i).BindPoints.Bindings s =
        sumTo (ImmutableSamplerSlots Sig
          (fun k => ((FreshLayout Sig Uninit).m_pImmutableSamplerAttribs k).ArraySize) s) i) ∧
    (∀ i, i < Sig.m_Desc.NumResources →
      (Sig.m_Desc.GetResourceDesc i).ResourceType = .SAMPLER →
      ImmutableSamplerIndOf Sig i = none →
      (Sig.m_Desc.GetResourceDesc i).ShaderStages.testBit s = true →
      sumTo (ImmutableSamplerSlots Sig
          (fun k => ((FreshLayout Sig Uninit).m_pImmutableSamplerAttribs k).ArraySize) s)
          Sig.m_Desc.NumImmutableSamplers ≤
        ((FreshLayout Sig Uninit).m_pResourceAttribs i).BindPoints.Bindings s) := by
  rw [fresh_arraySize_fun] at h ⊢
  have h' : ImmutableSamplerTotal Sig (FreshArraySize Sig) .SAMPLER s +
      sumTo (ResourceSlots Sig .SAMPLER s) Sig.m_Desc.NumResources < 2 ^ CounterBits := by
    simpa [ImmutableSamplerTotal] using h
  obtain ⟨_, hres, himm⟩ := fresh_exact Sig Uninit .SAMPLER s h'
  refine ⟨?_, ?_⟩
  · intro i hi hv
    exact (himm rfl i hi hv).1
  · intro i hi ht hd hv
    have hr : ShaderResourceTypeToRange (Sig.m_Desc.GetResourceDesc i).ResourceType =
        .SAMPLER := by rw [ht]; rfl
    obtain ⟨e1, _⟩ := hres i hi hd hr hv
    rw [e1]
    simp [ImmutableSamplerTotal]

theorem ne_zero_iff_exists_testBit (x : Nat) : x ≠ 0 ↔ ∃ j, x.testBit j = true := by
  constructor
  · intro h
    by_contra hn
    apply h
    apply Nat.eq_of_testBit_eq
    intro j
    rw [Nat.zero_testBit]
    by_contra hj
    exact hn ⟨j, by simpa using hj⟩
  · rintro ⟨j, hj⟩ h0
    subst h0
    simp at hj

theorem UAVStages_testBit (j : Nat) :
    UAVStages.testBit j = (decide (j = PSInd) || decide (j = CSInd)) := by
  have h1 : SHADER_TYPE_PIXEL = 2 ^ 1 := rfl
  have h2 : SHADER_TYPE_COMPUTE = 2 ^ 5 := rfl
  unfold UAVStages
  rw [Nat.testBit_or, h1, h2, Nat.testBit_two_pow, Nat.testBit_two_pow]
  simp [PSInd, CSInd, eq_comm]

theorem andNot_UAVStages_ne_zero (M : Nat) :
    andNot M UAVStages ≠ 0 ↔ ∃ j, M.testBit j = true ∧ j ≠ PSInd ∧ j ≠ CSInd := by
  rw [ne_zero_iff_exists_testBit]
  constructor
  · rintro ⟨j, hj⟩
    refine ⟨j, ?_⟩
    simp only [andNot, Nat.testBit_xor, Nat.testBit_and, UAVStages_testBit] at hj
    by_cases h1 : j = PSInd
    · simp [h1] at hj
    · by_cases h2 : j = CSInd
      · simp [h2] at hj
      · simp [h1, h2] at hj
        exact ⟨hj, h1, h2⟩
  · rintro ⟨j, hj, h1, h2⟩
    refine ⟨j, ?_⟩
    simp [andNot, Nat.testBit_xor, Nat.testBit_and, UAVStages_testBit, hj, h1, h2]

theorem validateFrom_error_iff (l : List PipelineResourceDesc) : ∀ i0,
    (∃ i, ValidateResourcesFrom l i0 = .error i) ↔
      ∃ ResDesc, ResDesc ∈ l ∧ ShaderResourceTypeToRange ResDesc.ResourceType = .UAV ∧
        ∃ j, ResDesc.ShaderStages.testBit j = true ∧ j ≠ PSInd ∧ j ≠ CSInd := by
  induction l with
  | nil => intro i0; simp [ValidateResourcesFrom]
  | cons d rest ih =>
    intro i0
    unfold ValidateResourcesFrom
    by_cases hc : ShaderResourceTypeToRange d.ResourceType = .UAV ∧ andNot d.ShaderStages UAVStages ≠ 0
    · rw [if_pos hc]
      constructor
      · intro _
        exact ⟨d, by simp, hc.1, (andNot_UAVStages_ne_zero _).1 hc.2⟩
      · intro _
        exact ⟨i0, rfl⟩
    · rw [if_neg hc, ih]
      constructor
      · rintro ⟨r, hr, h1, h2⟩
        exact ⟨r, by simp [hr], h1, h2⟩
      · rintro ⟨r, hr, h1, h2⟩
        rw [List.mem_cons] at hr
        rcases hr with rfl | hr
        · exact absurd ⟨h1, (andNot_UAVStages_ne_zero _).2 h2⟩ hc
        · exact ⟨r, hr, h1, h2⟩

theorem validateFrom_ok_or_error (l : List PipelineResourceDesc) : ∀ i0,
    ValidateResourcesFrom l i0 = .ok () ∨ ∃ i, ValidateResourcesFrom l i0 = .error i := by
  induction l with
  | nil => intro i0; left; rfl
  | cons d rest ih =>
    intro i0
    unfold ValidateResourcesFrom
    split
    · right; exact ⟨i0, rfl⟩
    · exact ih _

/-- C3: `ValidatePipelineResourceSignatureDescD3D11` throws if and only if some resource whose
range is UAV is visible in a stage other than pixel and compute; it accepts the description if
and only if every UAV resource is visible in the pixel and compute stages only, whatever the
visibility masks of the resources of the other ranges. -/
theorem Validate_fails_iff_UAV_outside_pixel_compute (Desc : PipelineResourceSignatureDesc) :
    ((∃ i, ValidatePipelineResourceSignatureDescD3D11 Desc = .error i) ↔
      ∃ ResDesc, ResDesc ∈ Desc.Resources ∧
        ShaderResourceTypeToRange ResDesc.ResourceType = .UAV ∧
        ∃ j, ResDesc.ShaderStages.testBit j = true ∧ j ≠ PSInd ∧ j ≠ CSInd) ∧
    (ValidatePipelineResourceSignatureDescD3D11 Desc = .ok () ↔
      ∀ ResDesc, ResDesc ∈ Desc.Resources →
        ShaderResourceTypeToRange ResDesc.ResourceType = .UAV →
        ∀ j, ResDesc.ShaderStages.testBit j = true → j = PSInd ∨ j = CSInd) := by
  have h1 := validateFrom_error_iff Desc.Resources 0
  refine ⟨h1, ?_⟩
  unfold ValidatePipelineResourceSignatureDescD3D11
  constructor
  · intro hok r hr hu j hj
    by_contra hn
    push_neg at hn
    obtain ⟨i, hi⟩ := h1.2 ⟨r, hr, hu, j, hj, hn.1, hn.2⟩
    rw [hok] at hi
    cases hi
  · intro hall
    rcases validateFrom_ok_or_error Desc.Resources 0 with h | h
    · exact h
    · obtain ⟨r, hr, hu, j, hj, hp, hc⟩ := h1.1 h
      rcases hall r hr hu j hj with h' | h'
      · exact absurd h' hp
      · exact absurd h' hc

/-- C4: `ShaderResourceTypeToRange` maps constant buffer to the CBV range, texture SRV and
buffer SRV to the SRV range, texture UAV and buffer UAV to the UAV range, sampler to the sampler
range, and input attachment to the SRV range. -/
theorem ShaderResourceTypeToRange_mapping :
    ShaderResourceTypeToRange .CONSTANT_BUFFER = .CBV ∧
    ShaderResourceTypeToRange .TEXTURE_SRV = .SRV ∧
    ShaderResourceTypeToRange .BUFFER_SRV = .SRV ∧
    ShaderResourceTypeToRange .TEXTURE_UAV = .UAV ∧
    ShaderResourceTypeToRange .BUFFER_UAV = .UAV ∧
    ShaderResourceTypeToRange .SAMPLER = .SAMPLER ∧
    ShaderResourceTypeToRange .INPUT_ATTACHMENT = .SRV :=
  ⟨rfl, rfl, rfl, rfl, rfl, rfl, rfl⟩

theorem counterOf_lt (Sig : PipelineResourceSignatureD3D11Impl) (sz : Nat → Nat)
    (r : D3D11_RESOURCE_RANGE) (s n : Nat) : CounterOf Sig sz r s n < 2 ^ CounterBits :=
  Nat.mod_lt _ (by decide)

/-- C5: for a sampler resource `i` for which `FindImmutableSampler` returns the index `k`,
the iteration of the resource loop for `i` (on either path, for counters that start at zero)
advances no main counter, no static counter and no bit of the dynamic-buffer mask, and after
fresh construction the bind-point table of the resource is the bind-point table of immutable
sampler `k`. -/
theorem immutable_sampler_resource_reuses_bind_points
    (Sig : PipelineResourceSignatureD3D11Impl) (IsSerialized : Bool) (st : LayoutState)
    (Uninit : Nat → PipelineResourceAttribsD3D11) (i k : Nat)
    (hz : st.m_ResourceCounters = D3D11ShaderResourceCounters.zero)
    (hi : i < Sig.m_Desc.NumResources)
    (ht : (Sig.m_Desc.GetResourceDesc i).ResourceType = .SAMPLER)
    (hf : Sig.FindImmutableSampler (Sig.m_Desc.GetResourceDesc i).ShaderStages
      (Sig.m_Desc.GetResourceDesc i).Name = some k) :
    (∀ r s, (ResourcesState Sig IsSerialized st (i + 1)).m_ResourceCounters r s =
      (ResourcesState Sig IsSerialized st i).m_ResourceCounters r s) ∧
    (∀ r s, (ResourcesState Sig IsSerialized st (i + 1)).StaticResCounters r s =
      (ResourcesState Sig IsSerialized st i).StaticResCounters r s) ∧
    (∀ s, (ResourcesState Sig IsSerialized st (i + 1)).m_DynamicCBSlotsMask s =
      (ResourcesState Sig IsSerialized st i).m_DynamicCBSlotsMask s) ∧
    ((FreshLayout Sig Uninit).m_pResourceAttribs i).BindPoints =
      ((FreshLayout Sig Uninit).m_pImmutableSamplerAttribs k).BindPoints := by
  have hd : ImmutableSamplerIndOf Sig i = some k := by
    simp [ImmutableSamplerIndOf, ht, hf]
  obtain ⟨_, _, c0, s0, m0, _⟩ := resState_spec Sig IsSerialized st hz i (by omega)
  obtain ⟨_, _, c1, s1, m1, _⟩ := resState_spec Sig IsSerialized st hz (i + 1) (by omega)
  refine ⟨?_, ?_, ?_, fresh_bindPoints_reuse Sig Uninit i k hi hd⟩
  · intro r s
    rw [c0, c1, counterOf_succ]
    simp only [ResourceSlots, hd]
    simp
    exact Nat.mod_eq_of_lt (counterOf_lt _ _ _ _ _)
  · intro r s
    rw [s0, s1]
    simp [StaticCounterOf, hd]
  · intro s
    rw [m0, m1]
    simp [DynamicCBSlotsMaskOf, hd]

theorem raised_spec (Sig : PipelineResourceSignatureD3D11Impl) (k a : Nat) : ∀ n,
    a ≤ RaisedArraySize Sig k a n ∧
    (∀ i, i < n → ImmutableSamplerIndOf Sig i = some k →
      (Sig.m_Desc.GetResourceDesc i).ArraySize ≤ RaisedArraySize Sig k a n) ∧
    (RaisedArraySize Sig k a n = a ∨
      ∃ i, i < n ∧ ImmutableSamplerIndOf Sig i = some k ∧
        (Sig.m_Desc.GetResourceDesc i).ArraySize = RaisedArraySize Sig k a n) := by
  intro n
  induction n with
  | zero => simp [RaisedArraySize]
  | succ n ih =>
    obtain ⟨h1, h2, h3⟩ := ih
    by_cases hd : ImmutableSamplerIndOf Sig n = some k
    · simp only [RaisedArraySize, hd, if_true]
      refine ⟨by omega, ?_, ?_⟩
      · intro i hi hik
        by_cases hin : i = n
        · subst hin; omega
        · have := h2 i (by omega) hik
          omega
      · by_cases hmax : RaisedArraySize Sig k a n ≤ (Sig.m_Desc.GetResourceDesc n).ArraySize
        · right
          exact ⟨n, by omega, hd, by omega⟩
        · rcases h3 with h3 | ⟨i, hi, hik, he⟩
          · left; omega
          · right
            exact ⟨i, by omega, hik, by omega⟩
    · simp only [RaisedArraySize, hd, if_false]
      refine ⟨h1, ?_, ?_⟩
      · intro i hi hik
        by_cases hin : i = n
        · subst hin; exact absurd hik hd
        · exact h2 i (by omega) hik
      · rcases h3 with h3 | ⟨i, hi, hik, he⟩
        · left; exact h3
        · right; exact ⟨i, by omega, hik, he⟩

/-- C6: after `CreateLayout` on a fresh signature whose array lengths are at least 1, the
array size of an immutable sampler `k` that at least one sampler resource resolves to is the
maximum of the array sizes of the sampler resources resolved to it: it bounds each of them and
it is the array size of one of them. -/
theorem immutable_sampler_array_size_is_max (Sig : PipelineResourceSignatureD3D11Impl)
    (Uninit : Nat → PipelineResourceAttribsD3D11) (k : Nat)
    (hsz : ∀ i, i < Sig.m_Desc.NumResources → 1 ≤ (Sig.m_Desc.GetResourceDesc i).ArraySize)
    (hk : ∃ i, i < Sig.m_Desc.NumResources ∧ ImmutableSamplerIndOf Sig i = some k) :
    (∀ i, i < Sig.m_Desc.NumResources → ImmutableSamplerIndOf Sig i = some k →
      (Sig.m_Desc.GetResourceDesc i).ArraySize ≤
        ((FreshLayout Sig Uninit).m_pImmutableSamplerAttribs k).ArraySize) ∧
    (∃ i, i < Sig.m_Desc.NumResources ∧ ImmutableSamplerIndOf Sig i = some k ∧
      (Sig.m_Desc.GetResourceDesc i).ArraySize =
        ((FreshLayout Sig Uninit).m_pImmutableSamplerAttribs k).ArraySize) := by
  have ha : ((FreshLayout Sig Uninit).m_pImmutableSamplerAttribs k).ArraySize =
      FreshArraySize Sig k :=
    (fresh_state Sig Uninit Sig.m_Desc.NumResources (Nat.le_refl _)).1 k
  rw [ha]
  obtain ⟨h1, h2, h3⟩ := raised_spec Sig k ImmutableSamplerAttribsD3D11.fresh.ArraySize
    Sig.m_Desc.NumResources
  refine ⟨h2, ?_⟩
  rcases h3 with h3 | h3
  · obtain ⟨i, hi, hik⟩ := hk
    refine ⟨i, hi, hik, ?_⟩
    have hle := h2 i hi hik
    have hge := hsz i hi
    have h3' : FreshArraySize Sig k = 1 := h3
    have hle' : (Sig.m_Desc.GetResourceDesc i).ArraySize ≤ FreshArraySize Sig k := hle
    omega
  · exact h3

theorem immBindPoints_congr (Sig : PipelineResourceSignatureD3D11Impl) (sz sz' : Nat → Nat)
    (h : ∀ k, k < Sig.m_Desc.NumImmutableSamplers → sz k = sz' k) (K : Nat)
    (hK : K < Sig.m_Desc.NumImmutableSamplers) :
    ImmutableSamplerBindPointsOf Sig sz K = ImmutableSamplerBindPointsOf Sig sz' K := by
  apply bindPoints_ext
  · intro s
    simp only [ImmutableSamplerBindPointsOf]
    rw [sumTo_congr (ImmutableSamplerSlots Sig sz s) (ImmutableSamplerSlots Sig sz' s) K]
    intro j hj
    simp only [ImmutableSamplerSlots]
    rw [h j (by omega)]
  · rfl

theorem immTotal_congr (Sig : PipelineResourceSignatureD3D11Impl) (sz sz' : Nat → Nat)
    (h : ∀ k, k < Sig.m_Desc.NumImmutableSamplers → sz k = sz' k) (R : D3D11_RESOURCE_RANGE)
    (s : Nat) : ImmutableSamplerTotal Sig sz R s = ImmutableSamplerTotal Sig sz' R s := by
  simp only [ImmutableSamplerTotal]
  rw [sumTo_congr (ImmutableSamplerSlots Sig sz s) (ImmutableSamplerSlots Sig sz' s)]
  intro j hj
  simp only [ImmutableSamplerSlots]
  rw [h j hj]

theorem resBindPoints_congr (Sig : PipelineResourceSignatureD3D11Impl) (sz sz' : Nat → Nat)
    (h : ∀ k, k < Sig.m_Desc.NumImmutableSamplers → sz k = sz' k) (i : Nat) :
    ResourceBindPointsOf Sig sz i = ResourceBindPointsOf Sig sz' i := by
  apply bindPoints_ext
  · intro s
    simp only [ResourceBindPointsOf]
    rw [immTotal_congr Sig sz sz' h]
  · rfl

theorem eqb_trans (a b c : D3D11ResourceBindPoints) (h1 : a.eqb b = true)
    (h2 : b.eqb c = true) : a.eqb c = true := by
  rw [eqb_iff] at h1 h2 ⊢
  exact ⟨h1.1.trans h2.1, fun s hs => (h1.2 s hs).trans (h2.2 s hs)⟩

/-- The restore run in closed form. -/
theorem restored_state (Sig : PipelineResourceSignatureD3D11Impl)
    (D : PipelineResourceSignatureInternalDataD3D11) :
    (∀ k, ((RestoredLayout Sig D).m_pImmutableSamplerAttribs k).ArraySize =
      ArraySizeOf Sig (LayoutState.restore D) k) ∧
    (∀ k, ((RestoredLayout Sig D).m_pImmutableSamplerAttribs k).BindPoints =
      (D.pImmutableSamplers k).BindPoints) ∧
    (RestoredLayout Sig D).m_pResourceAttribs = D.pResourceAttribs ∧
    (∀ r s, (RestoredLayout Sig D).m_ResourceCounters r s =
      CounterOf Sig (ArraySizeOf Sig (LayoutState.restore D)) r s Sig.m_Desc.NumResources) ∧
    (∀ r s, (RestoredLayout Sig D).StaticResCounters r s =
      StaticCounterOf Sig (ArraySizeOf Sig (LayoutState.restore D)) r s
        Sig.m_Desc.NumResources) ∧
    (∀ s, (RestoredLayout Sig D).m_DynamicCBSlotsMask s =
      DynamicCBSlotsMaskOf Sig (ArraySizeOf Sig (LayoutState.restore D)) s 0
        Sig.m_Desc.NumResources) ∧
    ((RestoredLayout Sig D).DevCheckErrors = [] ↔
      (∀ k, k < Sig.m_Desc.NumImmutableSamplers →
        (D.pImmutableSamplers k).BindPoints.eqb
          (ImmutableSamplerBindPointsOf Sig (ArraySizeOf Sig (LayoutState.restore D)) k) = true) ∧
      ∀ i, i < Sig.m_Desc.NumResources →
        AttribsCheck Sig
          (ComputedBindPoints Sig (ArraySizeOf Sig (LayoutState.restore D))
            D.pImmutableSamplers i)
          (D.pResourceAttribs i) i) := by
  obtain ⟨h1, _, h3, h4, h5, _, h7⟩ :=
    resState_spec Sig true (LayoutState.restore D) rfl Sig.m_Desc.NumResources (Nat.le_refl _)
  obtain ⟨_, _, _, _, _, g6, _, _, g9⟩ :=
    immState_spec Sig true (LayoutState.restore D) rfl Sig.m_Desc.NumImmutableSamplers
  obtain ⟨h7a, h7b⟩ := h7 rfl
  obtain ⟨g9a, g9b⟩ := g9 rfl
  have hcomp : ∀ i, ComputedBindPoints Sig (ArraySizeOf Sig (LayoutState.restore D))
      (ImmutableSamplersState Sig true (LayoutState.restore D)
        Sig.m_Desc.NumImmutableSamplers).m_pImmutableSamplerAttribs i =
      ComputedBindPoints Sig (ArraySizeOf Sig (LayoutState.restore D))
        D.pImmutableSamplers i := by
    intro i
    unfold ComputedBindPoints
    cases ImmutableSamplerIndOf Sig i with
    | none => rfl
    | some k => exact g9a k
  refine ⟨?_, ?_, h7a, h3, h4, h5, ?_⟩
  · intro k
    have : (RestoredLayout Sig D).m_pImmutableSamplerAttribs = _ := h1
    rw [this, g6]
  · intro k
    have : (RestoredLayout Sig D).m_pImmutableSamplerAttribs = _ := h1
    rw [this, g9a]
    rfl
  · have : (RestoredLayout Sig D).DevCheckErrors = [] ↔ _ := h7b
    rw [this, g9b]
    constructor
    · rintro ⟨⟨_, ha⟩, hb⟩
      exact ⟨ha, fun i hi => by rw [← hcomp i]; exact hb i hi⟩
    · rintro ⟨ha, hb⟩
      exact ⟨⟨rfl, ha⟩, fun i hi => by rw [hcomp i]; exact hb i hi⟩

theorem fresh_final (Sig : PipelineResourceSignatureD3D11Impl)
    (U : Nat → PipelineResourceAttribsD3D11) :
    (∀ k, ((FreshLayout Sig U).m_pImmutableSamplerAttribs k).ArraySize = FreshArraySize Sig k) ∧
    (∀ k, k < Sig.m_Desc.NumImmutableSamplers →
      ((FreshLayout Sig U).m_pImmutableSamplerAttribs k).BindPoints =
        ImmutableSamplerBindPointsOf Sig (FreshArraySize Sig) k) ∧
    (∀ i, i < Sig.m_Desc.NumResources →
      (FreshLayout Sig U).m_pResourceAttribs i =
        ComputedAttribs Sig (FreshArraySize Sig) (FreshLayout Sig U).m_pImmutableSamplerAttribs
          i) := by
  obtain ⟨a, bp, _, _, _, hat, _⟩ := fresh_state Sig U Sig.m_Desc.NumResources (Nat.le_refl _)
  refine ⟨a, ?_, ?_⟩
  · intro k hk
    have : ((FreshLayout Sig U).m_pImmutableSamplerAttribs k).BindPoints = _ := bp k
    rw [this]
    simp [hk]
  · intro i hi
    have : (FreshLayout Sig U).m_pResourceAttribs i = _ := hat i
    rw [this]
    simp only [hi, if_true]
    rfl

/-- C8 (amended): if `CreateLayout` on the restore path finishes with no failed deserialization
check and the immutable sampler array sizes held by the restored signature are those of fresh
construction, then the bind-point table (active stages and the slot of every stage of the
backend), the sampler index and the immutable sampler flag of every resource and the bind-point
table of every immutable sampler equal the values fresh construction computes from the same
description. -/
theorem restore_without_failed_check_matches_fresh
    (Sig : PipelineResourceSignatureD3D11Impl)
    (InternalData : PipelineResourceSignatureInternalDataD3D11)
    (Uninit : Nat → PipelineResourceAttribsD3D11)
    (hsz : ∀ k, k < Sig.m_Desc.NumImmutableSamplers →
      ((RestoredLayout Sig InternalData).m_pImmutableSamplerAttribs k).ArraySize =
        ((FreshLayout Sig Uninit).m_pImmutableSamplerAttribs k).ArraySize)
    (hok : (RestoredLayout Sig InternalData).DevCheckErrors = []) :
    (∀ k, k < Sig.m_Desc.NumImmutableSamplers →
      ((RestoredLayout Sig InternalData).m_pImmutableSamplerAttribs k).BindPoints.ActiveStages =
        ((FreshLayout Sig Uninit).m_pImmutableSamplerAttribs k).BindPoints.ActiveStages ∧
      ∀ s, s < NumShaderTypes →
        ((RestoredLayout Sig InternalData).m_pImmutableSamplerAttribs k).BindPoints.Bindings s =
          ((FreshLayout Sig Uninit).m_pImmutableSamplerAttribs k).BindPoints.Bindings s) ∧
    (∀ i, i < Sig.m_Desc.NumResources →
      ((RestoredLayout Sig InternalData).m_pResourceAttribs i).BindPoints.ActiveStages =
        ((FreshLayout Sig Uninit).m_pResourceAttribs i).BindPoints.ActiveStages ∧
      (∀ s, s < NumShaderTypes →
        ((RestoredLayout Sig InternalData).m_pResourceAttribs i).BindPoints.Bindings s =
          ((FreshLayout Sig Uninit).m_pResourceAttribs i).BindPoints.Bindings s) ∧
      ((RestoredLayout Sig InternalData).m_pResourceAttribs i).SamplerInd =
        ((FreshLayout Sig Uninit).m_pResourceAttribs i).SamplerInd ∧
      ((RestoredLayout Sig InternalData).m_pResourceAttribs i).IsImmutableSamplerAssigned =
        ((FreshLayout Sig Uninit).m_pResourceAttribs i).IsImmutableSamplerAssigned) := by
  obtain ⟨ra, rbp, rat, _, _, _, rok⟩ := restored_state Sig InternalData
  obtain ⟨fa, fbp, fat⟩ := fresh_final Sig Uninit
  have hsz' : ∀ k, k < Sig.m_Desc.NumImmutableSamplers →
      ArraySizeOf Sig (LayoutState.restore InternalData) k = FreshArraySize Sig k := by
    intro k hk
    rw [← ra k, ← fa k]
    exact hsz k hk
  obtain ⟨hki, hri⟩ := rok.1 hok
  have himm : ∀ k, k < Sig.m_Desc.NumImmutableSamplers →
      ((RestoredLayout Sig InternalData).m_pImmutableSamplerAttribs k).BindPoints.eqb
        ((FreshLayout Sig Uninit).m_pImmutableSamplerAttribs k).BindPoints = true := by
    intro k hk
    rw [rbp, fbp k hk, ← immBindPoints_congr Sig _ _ hsz' k hk]
    exact hki k hk
  refine ⟨?_, ?_⟩
  · intro k hk
    exact (eqb_iff _ _).1 (himm k hk)
  · intro i hi
    obtain ⟨c1, c2, c3⟩ := hri i hi
    rw [rat, fat i hi]
    have hbp : (InternalData.pResourceAttribs i).BindPoints.eqb
        (ComputedBindPoints Sig (FreshArraySize Sig)
          (FreshLayout Sig Uninit).m_pImmutableSamplerAttribs i) = true := by
      unfold ComputedBindPoints at c1 ⊢
      cases hd : ImmutableSamplerIndOf Sig i with
      | none =>
        simp only [hd] at c1 ⊢
        rw [← resBindPoints_congr Sig _ _ hsz' i]
        exact c1
      | some k =>
        simp only [hd] at c1 ⊢
        have hk := immutableSamplerIndOf_lt Sig i k hd
        have := himm k hk
        rw [rbp] at this
        exact eqb_trans _ _ _ c1 this
    obtain ⟨e1, e2⟩ := (eqb_iff _ _).1 hbp
    exact ⟨e1, e2, c2, c3⟩

theorem raised_fixed (Sig : PipelineResourceSignatureD3D11Impl) (k a : Nat) : ∀ n,
    (∀ i, i < n → ImmutableSamplerIndOf Sig i = some k →
      (Sig.m_Desc.GetResourceDesc i).ArraySize ≤ a) →
    RaisedArraySize Sig k a n = a := by
  intro n
  induction n with
  | zero => intro _; rfl
  | succ n ih =>
    intro h
    have hn := ih (fun i hi => h i (by omega))
    by_cases hd : ImmutableSamplerIndOf Sig n = some k
    · simp only [RaisedArraySize, hd, if_true, hn]
      have := h n (by omega) hd
      omega
    · simp only [RaisedArraySize, hd, if_false, hn]

theorem restore_of_fresh_arraySize (Sig : PipelineResourceSignatureD3D11Impl)
    (U : Nat → PipelineResourceAttribsD3D11) :
    ArraySizeOf Sig (LayoutState.restore (FreshLayout Sig U).InternalData) =
      FreshArraySize Sig := by
  funext k
  have ha := (fresh_final Sig U).1 k
  show RaisedArraySize Sig k ((FreshLayout Sig U).m_pImmutableSamplerAttribs k).ArraySize
    Sig.m_Desc.NumResources = FreshArraySize Sig k
  rw [ha]
  apply raised_fixed
  intro i hi hik
  exact (raised_spec Sig k ImmutableSamplerAttribsD3D11.fresh.ArraySize
    Sig.m_Desc.NumResources).2.1 i hi hik

/-- C9: serialization round trip. `CreateLayout` in restore mode on the derived data of the fresh
run for the same description (resource attributes, immutable sampler array sizes and bind
points) fails none of the deserialization checks and ends with the same counters, the same
dynamic-buffer slot mask and the same static counters as the fresh run. -/
theorem restore_of_fresh_data_round_trip (Sig : PipelineResourceSignatureD3D11Impl)
    (Uninit : Nat → PipelineResourceAttribsD3D11) :
    (RestoredLayout Sig (FreshLayout Sig Uninit).InternalData).DevCheckErrors = [] ∧
    (RestoredLayout Sig (FreshLayout Sig Uninit).InternalData).m_ResourceCounters =
      (FreshLayout Sig Uninit).m_ResourceCounters ∧
    (RestoredLayout Sig (FreshLayout Sig Uninit).InternalData).m_DynamicCBSlotsMask =
      (FreshLayout Sig Uninit).m_DynamicCBSlotsMask ∧
    (RestoredLayout Sig (FreshLayout Sig Uninit).InternalData).StaticResCounters =
      (FreshLayout Sig Uninit).StaticResCounters := by
  obtain ⟨_, _, _, rc, rs, rm, rok⟩ := restored_state Sig (FreshLayout Sig Uninit).InternalData
  obtain ⟨_, _, fc, fs, fm, _, _⟩ :=
    fresh_state Sig Uninit Sig.m_Desc.NumResources (Nat.le_refl _)
  obtain ⟨fa, fbp, fat⟩ := fresh_final Sig Uninit
  rw [restore_of_fresh_arraySize] at rc rs rm rok
  refine ⟨?_, ?_, ?_, ?_⟩
  · rw [rok]
    refine ⟨?_, ?_⟩
    · intro k hk
      have : ((FreshLayout Sig Uninit).InternalData.pImmutableSamplers k).BindPoints =
          ImmutableSamplerBindPointsOf Sig (FreshArraySize Sig) k := fbp k hk
      rw [this]
      exact eqb_refl _
    · intro i hi
      have : (FreshLayout Sig Uninit).InternalData.pResourceAttribs i =
          ComputedAttribs Sig (FreshArraySize Sig)
            (FreshLayout Sig Uninit).m_pImmutableSamplerAttribs i := fat i hi
      rw [this]
      exact ⟨eqb_refl _, rfl, rfl⟩
  · funext r s
    rw [rc]
    exact (fc r s).symm
  · funext s
    rw [rm]
    exact (fm s).symm
  · funext r s
    rw [rs]
    exact (fs r s).symm

theorem immAttribs_ext (a b : ImmutableSamplerAttribsD3D11) (h1 : a.ArraySize = b.ArraySize)
    (h2 : a.BindPoints = b.BindPoints) : a = b := by
  cases a; cases b
  simp only [ImmutableSamplerAttribsD3D11.mk.injEq]
  exact ⟨h1, h2⟩

/-- C10: determinism. Two fresh runs of `CreateLayout` on the same description, started from
zeroed counters and from arbitrary contents of the not yet constructed attribute memory, end
with identical counters, static counters, dynamic-buffer mask, immutable sampler attributes and
resource attributes; the sampler index of a resource is the one the description determines. -/
theorem fresh_layout_deterministic (Sig : PipelineResourceSignatureD3D11Impl)
    (Uninit₁ Uninit₂ : Nat → PipelineResourceAttribsD3D11) :
    (FreshLayout Sig Uninit₁).m_ResourceCounters = (FreshLayout Sig Uninit₂).m_ResourceCounters ∧
    (FreshLayout Sig Uninit₁).StaticResCounters = (FreshLayout Sig Uninit₂).StaticResCounters ∧
    (FreshLayout Sig Uninit₁).m_DynamicCBSlotsMask =
      (FreshLayout Sig Uninit₂).m_DynamicCBSlotsMask ∧
    (FreshLayout Sig Uninit₁).m_pImmutableSamplerAttribs =
      (FreshLayout Sig Uninit₂).m_pImmutableSamplerAttribs ∧
    (∀ i, i < Sig.m_Desc.NumResources →
      (FreshLayout Sig Uninit₁).m_pResourceAttribs i =
        (FreshLayout Sig Uninit₂).m_pResourceAttribs i) ∧
    (∀ i, i < Sig.m_Desc.NumResources →
      ((FreshLayout Sig Uninit₁).m_pResourceAttribs i).SamplerInd = AssignedSamplerIndOf Sig i) := by
  obtain ⟨a1, b1, c1, s1, m1, _, _⟩ :=
    fresh_state Sig Uninit₁ Sig.m_Desc.NumResources (Nat.le_refl _)
  obtain ⟨a2, b2, c2, s2, m2, _, _⟩ :=
    fresh_state Sig Uninit₂ Sig.m_Desc.NumResources (Nat.le_refl _)
  have himm : (FreshLayout Sig Uninit₁).m_pImmutableSamplerAttribs =
      (FreshLayout Sig Uninit₂).m_pImmutableSamplerAttribs := by
    funext k
    apply immAttribs_ext
    · exact (a1 k).trans (a2 k).symm
    · exact (b1 k).trans (b2 k).symm
  refine ⟨?_, ?_, ?_, himm, ?_, ?_⟩
  · funext r s; exact (c1 r s).trans (c2 r s).symm
  · funext r s; exact (s1 r s).trans (s2 r s).symm
  · funext s; exact (m1 s).trans (m2 s).symm
  · intro i hi
    rw [(fresh_final Sig Uninit₁).2.2 i hi, (fresh_final Sig Uninit₂).2.2 i hi, himm]
  · intro i hi
    rw [(fresh_final Sig Uninit₁).2.2 i hi]
    rfl

/-! ## Static counters -/

theorem staticCounterOf_spec (Sig : PipelineResourceSignatureD3D11Impl) (sz : Nat → Nat)
    (R : D3D11_RESOURCE_RANGE) (s : Nat) : ∀ n,
    (∀ i, i < n → IsDirectStatic Sig R s i →
      CounterOf Sig sz R s (i + 1) ≤ StaticCounterOf Sig sz R s n) ∧
    ((∀ i, i < n → ¬ IsDirectStatic Sig R s i) → StaticCounterOf Sig sz R s n = 0) ∧
    ((∃ i, i < n ∧ IsDirectStatic Sig R s i) →
      ∃ i, i < n ∧ IsDirectStatic Sig R s i ∧
        StaticCounterOf Sig sz R s n = CounterOf Sig sz R s (i + 1)) := by
  intro n
  induction n with
  | zero =>
    refine ⟨fun i hi => absurd hi (Nat.not_lt_zero _), fun _ => rfl, ?_⟩
    rintro ⟨i, hi, _⟩
    exact absurd hi (Nat.not_lt_zero _)
  | succ n ih =>
    obtain ⟨ih1, ih2, ih3⟩ := ih
    by_cases hq : IsDirectStatic Sig R s n
    · have hstep : StaticCounterOf Sig sz R s (n + 1) =
          max (StaticCounterOf Sig sz R s n) (CounterOf Sig sz R s (n + 1)) := by
        have hq' := hq
        unfold IsDirectStatic at hq'
        show (if _ then _ else _) = _
        rw [if_pos hq']
      refine ⟨?_, ?_, ?_⟩
      · intro i hi hqi
        rw [hstep]
        by_cases hin : i = n
        · subst hin; exact Nat.le_max_right _ _
        · exact Nat.le_trans (ih1 i (by omega) hqi) (Nat.le_max_left _ _)
      · intro hnone
        exact absurd hq (hnone n (Nat.lt_succ_self n))
      · intro _
        rw [hstep]
        by_cases hle : StaticCounterOf Sig sz R s n ≤ CounterOf Sig sz R s (n + 1)
        · exact ⟨n, Nat.lt_succ_self n, hq, Nat.max_eq_right hle⟩
        · have hne : ∃ i, i < n ∧ IsDirectStatic Sig R s i := by
            by_contra hcon
            have : StaticCounterOf Sig sz R s n = 0 :=
              ih2 (fun i hi hqi => hcon ⟨i, hi, hqi⟩)
            omega
          obtain ⟨i, hi, hqi, he⟩ := ih3 hne
          exact ⟨i, by omega, hqi, by rw [Nat.max_eq_left (by omega)]; exact he⟩
    · have hstep : StaticCounterOf Sig sz R s (n + 1) = StaticCounterOf Sig sz R s n := by
        have hq' := hq
        unfold IsDirectStatic at hq'
        show (if _ then _ else _) = _
        rw [if_neg hq']
      rw [hstep]
      refine ⟨?_, ?_, ?_⟩
      · intro i hi hqi
        by_cases hin : i = n
        · subst hin; exact absurd hqi hq
        · exact ih1 i (by omega) hqi
      · intro hnone
        exact ih2 (fun i hi => hnone i (by omega))
      · rintro ⟨i, hi, hqi⟩
        have hin : i ≠ n := fun h => hq (h ▸ hqi)
        obtain ⟨j, hj, hqj, he⟩ := ih3 ⟨i, by omega, hqi⟩
        exact ⟨j, by omega, hqj, he⟩

/-- The end of the slots of a directly allocated static resource is the main counter right after
the resource, when the slots of (`R`, `s`) fit the counter. -/
theorem fresh_slot_end (Sig : PipelineResourceSignatureD3D11Impl)
    (U : Nat → PipelineResourceAttribsD3D11) (R : D3D11_RESOURCE_RANGE) (s : Nat)
    (h : ImmutableSamplerTotal Sig (FreshArraySize Sig) R s +
      sumTo (ResourceSlots Sig R s) Sig.m_Desc.NumResources < 2 ^ CounterBits)
    (i : Nat) (hi : i < Sig.m_Desc.NumResources) (hq : IsDirectStatic Sig R s i) :
    ((FreshLayout Sig U).m_pResourceAttribs i).BindPoints.Bindings s =
      ImmutableSamplerTotal Sig (FreshArraySize Sig) R s + sumTo (ResourceSlots Sig R s) i ∧
    ((FreshLayout Sig U).m_pResourceAttribs i).BindPoints.Bindings s +
        (Sig.m_Desc.GetResourceDesc i).ArraySize =
      CounterOf Sig (FreshArraySize Sig) R s (i + 1) := by
  obtain ⟨hd, hr, _, ht⟩ := hq
  obtain ⟨_, hx, _⟩ := fresh_exact Sig U R s h
  obtain ⟨hb, hw⟩ := hx i hi hd hr ht
  refine ⟨hb, ?_⟩
  rw [hb, ← hw]
  unfold CounterOf
  rw [sumTo_succ, Nat.mod_eq_of_lt]
  · omega
  · have := sumTo_le (ResourceSlots Sig R s) (i + 1) _ hi
    rw [sumTo_succ] at this
    omega

/-- C11: after `CreateLayout` on a fresh signature, when the slots of (`R`, `s`) fit the 8-bit
counter, the static counter of (`R`, `s`) handed to the static cache is the maximum of slot +
array size over the directly allocated static resources of range `R` visible in `s`: it bounds
each of them, it is attained by one of them when there is one, and it is 0 when there is none;
hence every slot such a resource occupies lies below the static counter. -/
theorem static_counter_is_max_slot_end (Sig : PipelineResourceSignatureD3D11Impl)
    (Uninit : Nat → PipelineResourceAttribsD3D11) (R : D3D11_RESOURCE_RANGE) (s : Nat)
    (h : ImmutableSamplerTotal Sig (FreshArraySize Sig) R s +
      sumTo (ResourceSlots Sig R s) Sig.m_Desc.NumResources < 2 ^ CounterBits) :
    (∀ i, i < Sig.m_Desc.NumResources → IsDirectStatic Sig R s i →
      ((FreshLayout Sig Uninit).m_pResourceAttribs i).BindPoints.Bindings s +
          (Sig.m_Desc.GetResourceDesc i).ArraySize ≤
        (FreshLayout Sig Uninit).StaticResCounters R s) ∧
    ((∃ i, i < Sig.m_Desc.NumResources ∧ IsDirectStatic Sig R s i) →
      ∃ i, i < Sig.m_Desc.NumResources ∧ IsDirectStatic Sig R s i ∧
        (FreshLayout Sig Uninit).StaticResCounters R s =
          ((FreshLayout Sig Uninit).m_pResourceAttribs i).BindPoints.Bindings s +
            (Sig.m_Desc.GetResourceDesc i).ArraySize) ∧
    ((∀ i, i < Sig.m_Desc.NumResources → ¬ IsDirectStatic Sig R s i) →
      (FreshLayout Sig Uninit).StaticResCounters R s = 0) ∧
    (∀ i n, i < Sig.m_Desc.NumResources → IsDirectStatic Sig R s i →
      ((FreshLayout Sig Uninit).m_pResourceAttribs i).BindPoints.Bindings s ≤ n →
      n < ((FreshLayout Sig Uninit).m_pResourceAttribs i).BindPoints.Bindings s +
        (Sig.m_Desc.GetResourceDesc i).ArraySize →
      n < (FreshLayout Sig Uninit).StaticResCounters R s) := by
  obtain ⟨_, _, _, hs, _⟩ := fresh_state Sig Uninit Sig.m_Desc.NumResources (Nat.le_refl _)
  have hS : (FreshLayout Sig Uninit).StaticResCounters R s =
      StaticCounterOf Sig (FreshArraySize Sig) R s Sig.m_Desc.NumResources := hs R s
  obtain ⟨h1, h2, h3⟩ :=
    staticCounterOf_spec Sig (FreshArraySize Sig) R s Sig.m_Desc.NumResources
  have hbound : ∀ i, i < Sig.m_Desc.NumResources → IsDirectStatic Sig R s i →
      ((FreshLayout Sig Uninit).m_pResourceAttribs i).BindPoints.Bindings s +
          (Sig.m_Desc.GetResourceDesc i).ArraySize ≤
        (FreshLayout Sig Uninit).StaticResCounters R s := by
    intro i hi hq
    rw [hS, (fresh_slot_end Sig Uninit R s h i hi hq).2]
    exact h1 i hi hq
  refine ⟨hbound, ?_, ?_, ?_⟩
  · intro hex
    obtain ⟨i, hi, hq, he⟩ := h3 hex
    exact ⟨i, hi, hq, by rw [hS, he, (fresh_slot_end Sig Uninit R s h i hi hq).2]⟩
  · intro hnone
    rw [hS]
    exact h2 hnone
  · intro i n hi hq _ hn
    exact Nat.lt_of_lt_of_le hn (hbound i hi hq)

theorem sorted_pairwise (Sig : PipelineResourceSignatureD3D11Impl) (hs : SortedByVarType Sig)
    (i : Nat) : ∀ j, i ≤ j → j < Sig.m_Desc.NumResources →
      (Sig.m_Desc.GetResourceDesc i).VarType.toNat ≤
        (Sig.m_Desc.GetResourceDesc j).VarType.toNat := by
  intro j
  induction j with
  | zero =>
    intro h _
    have : i = 0 := by omega
    subst this
    exact Nat.le_refl _
  | succ j ih =>
    intro h hj
    by_cases he : i = j + 1
    · subst he; exact Nat.le_refl _
    · have h1 := ih (by omega) (by omega)
      rcases hs (j + 1) hj with h0 | h2
      · omega
      · rw [Nat.add_sub_cancel] at h2
        exact Nat.le_trans h1 h2

theorem varType_static_iff (v : SHADER_RESOURCE_VARIABLE_TYPE) : v = .STATIC ↔ v.toNat = 0 := by
  cases v <;> simp [SHADER_RESOURCE_VARIABLE_TYPE.toNat]

/-- C12 (amended): after `CreateLayout` on a fresh signature whose resources are sorted by
variable type, when the slots of (`R`, `s`) fit the 8-bit counter, every slot `n` below the
static counter of (`R`, `s`) that is not one of the slots of the immutable samplers (the first
slots of the sampler range; the other ranges have none) is occupied by a directly allocated
static resource of range `R` visible in `s`. -/
theorem static_counter_slots_occupied (Sig : PipelineResourceSignatureD3D11Impl)
    (Uninit : Nat → PipelineResourceAttribsD3D11) (R : D3D11_RESOURCE_RANGE) (s : Nat)
    (hsort : SortedByVarType Sig)
    (h : ImmutableSamplerTotal Sig (FreshArraySize Sig) R s +
      sumTo (ResourceSlots Sig R s) Sig.m_Desc.NumResources < 2 ^ CounterBits) :
    ∀ n, ImmutableSamplerTotal Sig (FreshArraySize Sig) R s ≤ n →
      n < (FreshLayout Sig Uninit).StaticResCounters R s →
      ∃ i, i < Sig.m_Desc.NumResources ∧ IsDirectStatic Sig R s i ∧
        ((FreshLayout Sig Uninit).m_pResourceAttribs i).BindPoints.Bindings s ≤ n ∧
        n < ((FreshLayout Sig Uninit).m_pResourceAttribs i).BindPoints.Bindings s +
          (Sig.m_Desc.GetResourceDesc i).ArraySize := by
  intro n hlo hn
  obtain ⟨_, _, _, hs, _⟩ := fresh_state Sig Uninit Sig.m_Desc.NumResources (Nat.le_refl _)
  have hS : (FreshLayout Sig Uninit).StaticResCounters R s =
      StaticCounterOf Sig (FreshArraySize Sig) R s Sig.m_Desc.NumResources := hs R s
  obtain ⟨_, h2, h3⟩ :=
    staticCounterOf_spec Sig (FreshArraySize Sig) R s Sig.m_Desc.NumResources
  have hex : ∃ i, i < Sig.m_Desc.NumResources ∧ IsDirectStatic Sig R s i := by
    by_contra hcon
    have := h2 (fun i hi hq => hcon ⟨i, hi, hq⟩)
    omega
  obtain ⟨m, hm, hqm, he⟩ := h3 hex
  have hend := (fresh_slot_end Sig Uninit R s h m hm hqm)
  have hcnt : CounterOf Sig (FreshArraySize Sig) R s (m + 1) =
      ImmutableSamplerTotal Sig (FreshArraySize Sig) R s +
        sumTo (ResourceSlots Sig R s) (m + 1) := by
    unfold CounterOf
    apply Nat.mod_eq_of_lt
    have := sumTo_le (ResourceSlots Sig R s) (m + 1) _ hm
    omega
  have hlt : n - ImmutableSamplerTotal Sig (FreshArraySize Sig) R s <
      sumTo (ResourceSlots Sig R s) (m + 1) := by
    rw [hS, he, hcnt] at hn
    omega
  obtain ⟨k, hk, hk1, hk2⟩ := sumTo_cover (ResourceSlots Sig R s) _ (m + 1) hlt
  have hkN : k < Sig.m_Desc.NumResources := by omega
  have hpos : 0 < ResourceSlots Sig R s k := by omega
  have hcond : ImmutableSamplerIndOf Sig k = none ∧
      ShaderResourceTypeToRange (Sig.m_Desc.GetResourceDesc k).ResourceType = R ∧
      (Sig.m_Desc.GetResourceDesc k).ShaderStages.testBit s = true := by
    by_contra hc
    have : ResourceSlots Sig R s k = 0 := by
      unfold ResourceSlots
      rw [if_neg hc]
    omega
  have hstat : (Sig.m_Desc.GetResourceDesc k).VarType = .STATIC := by
    rw [varType_static_iff]
    have h1 := sorted_pairwise Sig hsort k m (by omega) hm
    have h2 := (varType_static_iff _).1 hqm.2.2.1
    omega
  have hqk : IsDirectStatic Sig R s k := ⟨hcond.1, hcond.2.1, hstat, hcond.2.2⟩
  obtain ⟨_, hx, _⟩ := fresh_exact Sig Uninit R s h
  obtain ⟨hb, hw⟩ := hx k hkN hcond.1 hcond.2.1 hcond.2.2
  refine ⟨k, hkN, hqk, ?_, ?_⟩
  · rw [hb]; omega
  · rw [hb, ← hw]; omega

/-! ## The dynamic-buffer mask and the attributes of textures -/

theorem setSlotBits_testBit (bp m n : Nat) (hn : n < DynamicCBSlotsMaskBits) : ∀ A,
    bp + A ≤ 32 →
    (SetSlotBits bp A m).testBit n = (m.testBit n || decide (bp ≤ n ∧ n < bp + A)) := by
  intro A
  induction A with
  | zero =>
    intro _
    have : ¬ (bp ≤ n ∧ n < bp + 0) := by omega
    simp [SetSlotBits, forLoop, this]
  | succ A ih =>
    intro hA
    have hstep : SetSlotBits bp (A + 1) m =
        (SetSlotBits bp A m ||| 1 <<< ((bp + A) % 32)) % 2 ^ DynamicCBSlotsMaskBits := rfl
    have hmod : (bp + A) % 32 = bp + A := Nat.mod_eq_of_lt (by omega)
    rw [hstep, hmod, Nat.testBit_mod_two_pow, Nat.testBit_or, Nat.one_shiftLeft,
      Nat.testBit_two_pow, ih (by omega)]
    by_cases h1 : bp + A = n
    · have : bp ≤ n ∧ n < bp + (A + 1) := by omega
      simp [hn, h1, this]
    · by_cases h2 : bp ≤ n ∧ n < bp + A
      · have : bp ≤ n ∧ n < bp + (A + 1) := by omega
        simp [hn, h1, h2, this]
      · have : ¬ (bp ≤ n ∧ n < bp + (A + 1)) := by omega
        simp [hn, h1, h2, this]

theorem immutableSamplerIndOf_of_not_sampler (Sig : PipelineResourceSignatureD3D11Impl)
    (i : Nat) (h : (Sig.m_Desc.GetResourceDesc i).ResourceType ≠ .SAMPLER) :
    ImmutableSamplerIndOf Sig i = none := by
  unfold ImmutableSamplerIndOf
  rw [if_neg h]

theorem range_CBV_not_sampler (t : SHADER_RESOURCE_TYPE)
    (h : ShaderResourceTypeToRange t = .CBV) : t ≠ .SAMPLER := by
  intro ht
  subst ht
  simp [ShaderResourceTypeToRange] at h

theorem dynamicCBSlotsMaskOf_testBit (Sig : PipelineResourceSignatureD3D11Impl)
    (sz : Nat → Nat) (s n : Nat) (hn : n < DynamicCBSlotsMaskBits) : ∀ k,
    (∀ i, i < k → IsDynamicCB Sig s i →
      CounterOf Sig sz .CBV s i + (Sig.m_Desc.GetResourceDesc i).ArraySize ≤ 32) →
    ((DynamicCBSlotsMaskOf Sig sz s 0 k).testBit n = true ↔
      ∃ i, i < k ∧ IsDynamicCB Sig s i ∧ CounterOf Sig sz .CBV s i ≤ n ∧
        n < CounterOf Sig sz .CBV s i + (Sig.m_Desc.GetResourceDesc i).ArraySize) := by
  intro k
  induction k with
  | zero =>
    intro _
    constructor
    · intro h
      simp [DynamicCBSlotsMaskOf] at h
    · rintro ⟨i, hi, _⟩
      exact absurd hi (Nat.not_lt_zero _)
  | succ k ih =>
    intro hfit
    have ih := ih (fun i hi hq => hfit i (Nat.lt_succ_of_lt hi) hq)
    by_cases hq : IsDynamicCB Sig s k
    · have hd : ImmutableSamplerIndOf Sig k = none :=
        immutableSamplerIndOf_of_not_sampler Sig k (range_CBV_not_sampler _ hq.1)
      have hstep : DynamicCBSlotsMaskOf Sig sz s 0 (k + 1) =
          SetSlotBits (CounterOf Sig sz .CBV s k) (Sig.m_Desc.GetResourceDesc k).ArraySize
            (DynamicCBSlotsMaskOf Sig sz s 0 k) := by
        show (if _ then _ else _) = _
        rw [if_pos ⟨hd, hq.1, hq.2.1, hq.2.2⟩]
      rw [hstep, setSlotBits_testBit _ _ _ hn _ (hfit k (Nat.lt_succ_self k) hq),
        Bool.or_eq_true, ih, decide_eq_true_iff]
      constructor
      · rintro (⟨i, hi, h1⟩ | h2)
        · exact ⟨i, by omega, h1⟩
        · exact ⟨k, Nat.lt_succ_self k, hq, h2.1, h2.2⟩
      · rintro ⟨i, hi, hqi, h1, h2⟩
        by_cases hik : i = k
        · subst hik; exact Or.inr ⟨h1, h2⟩
        · exact Or.inl ⟨i, by omega, hqi, h1, h2⟩
    · have hstep : DynamicCBSlotsMaskOf Sig sz s 0 (k + 1) =
          DynamicCBSlotsMaskOf Sig sz s 0 k := by
        show (if _ then _ else _) = _
        rw [if_neg (fun hc => hq ⟨hc.2.1, hc.2.2.1, hc.2.2.2⟩)]
      rw [hstep, ih]
      constructor
      · rintro ⟨i, hi, h1⟩
        exact ⟨i, by omega, h1⟩
      · rintro ⟨i, hi, hqi, h1, h2⟩
        have hik : i ≠ k := fun hc => hq (hc ▸ hqi)
        exact ⟨i, by omega, hqi, h1, h2⟩

theorem fresh_slot_counterOf (Sig : PipelineResourceSignatureD3D11Impl)
    (U : Nat → PipelineResourceAttribsD3D11) (i s : Nat) (hi : i < Sig.m_Desc.NumResources)
    (hd : ImmutableSamplerIndOf Sig i = none)
    (ht : (Sig.m_Desc.GetResourceDesc i).ShaderStages.testBit s = true) :
    ((FreshLayout Sig U).m_pResourceAttribs i).BindPoints.Bindings s =
      CounterOf Sig (FreshArraySize Sig)
        (ShaderResourceTypeToRange (Sig.m_Desc.GetResourceDesc i).ResourceType) s i := by
  rw [fresh_bindPoints_direct Sig U i hi hd]
  simp [ResourceBindPointsOf, ht, CounterOf]

/-- C13: after `CreateLayout` on a fresh signature, for every stage `s` in which the slots of
the constant buffers without the `NO_DYNAMIC_BUFFERS` flag end at or below 32 (so that every
shift `1u << slot` made for the stage is defined) and every slot `n` below the width of a mask
entry, bit `n` of the dynamic constant buffer slot mask of `s` is set if and only if some
constant buffer without the `NO_DYNAMIC_BUFFERS` flag that is visible in `s` occupies slot `n`
in `s`. -/
theorem dynamic_cb_mask_bit_iff_slot_occupied (Sig : PipelineResourceSignatureD3D11Impl)
    (Uninit : Nat → PipelineResourceAttribsD3D11) (s n : Nat)
    (hn : n < DynamicCBSlotsMaskBits)
    (hdef : ∀ i, i < Sig.m_Desc.NumResources → IsDynamicCB Sig s i →
      ((FreshLayout Sig Uninit).m_pResourceAttribs i).BindPoints.Bindings s +
        (Sig.m_Desc.GetResourceDesc i).ArraySize ≤ 32) :
    ((FreshLayout Sig Uninit).m_DynamicCBSlotsMask s).testBit n = true ↔
      ∃ i, i < Sig.m_Desc.NumResources ∧ IsDynamicCB Sig s i ∧
        ((FreshLayout Sig Uninit).m_pResourceAttribs i).BindPoints.Bindings s ≤ n ∧
        n < ((FreshLayout Sig Uninit).m_pResourceAttribs i).BindPoints.Bindings s +
          (Sig.m_Desc.GetResourceDesc i).ArraySize := by
  obtain ⟨_, _, _, _, hm, _⟩ := fresh_state Sig Uninit Sig.m_Desc.NumResources (Nat.le_refl _)
  have hM : (FreshLayout Sig Uninit).m_DynamicCBSlotsMask s =
      DynamicCBSlotsMaskOf Sig (FreshArraySize Sig) s 0 Sig.m_Desc.NumResources := hm s
  have hslot : ∀ i, i < Sig.m_Desc.NumResources → IsDynamicCB Sig s i →
      ((FreshLayout Sig Uninit).m_pResourceAttribs i).BindPoints.Bindings s =
        CounterOf Sig (FreshArraySize Sig) .CBV s i := by
    intro i hi hq
    have := fresh_slot_counterOf Sig Uninit i s hi
      (immutableSamplerIndOf_of_not_sampler Sig i (range_CBV_not_sampler _ hq.1)) hq.2.2
    rw [hq.1] at this
    exact this
  rw [hM, dynamicCBSlotsMaskOf_testBit Sig _ s n hn _
    (fun i hi hq => by rw [← hslot i hi hq]; exact hdef i hi hq)]
  constructor
  · rintro ⟨i, hi, hq, h1, h2⟩
    exact ⟨i, hi, hq, by rw [hslot i hi hq]; exact h1, by rw [hslot i hi hq]; exact h2⟩
  · rintro ⟨i, hi, hq, h1, h2⟩
    rw [hslot i hi hq] at h1 h2
    exact ⟨i, hi, hq, h1, h2⟩

/-- C20: after `CreateLayout` on a fresh signature, a texture SRV has the result of
`FindAssignedSampler` as its sampler index, has the immutable sampler flag set exactly when an
assigned sampler was found and that resource was resolved to an immutable sampler, and is
allocated SRV slots of its own (in every stage of its mask the slot is the SRV counter before
the resource, which then advances by the array size within the 8-bit counter); a resource that
is neither a texture SRV nor a sampler has no sampler index and the flag is not set. -/
theorem texture_srv_sampler_index_and_flag (Sig : PipelineResourceSignatureD3D11Impl)
    (Uninit : Nat → PipelineResourceAttribsD3D11) :
    (∀ i, i < Sig.m_Desc.NumResources →
      (Sig.m_Desc.GetResourceDesc i).ResourceType = .TEXTURE_SRV →
      ((FreshLayout Sig Uninit).m_pResourceAttribs i).SamplerInd =
          Sig.FindAssignedSampler (Sig.m_Desc.GetResourceDesc i) ∧
        (((FreshLayout Sig Uninit).m_pResourceAttribs i).IsImmutableSamplerAssigned = true ↔
          ∃ a k, Sig.FindAssignedSampler (Sig.m_Desc.GetResourceDesc i) = some a ∧
            a < Sig.m_Desc.NumResources ∧ ImmutableSamplerIndOf Sig a = some k) ∧
        ∀ s, (Sig.m_Desc.GetResourceDesc i).ShaderStages.testBit s = true →
          ((FreshLayout Sig Uninit).m_pResourceAttribs i).BindPoints.Bindings s =
              (ResourcesState Sig false (LayoutState.fresh Uninit) i).m_ResourceCounters
                .SRV s ∧
            ((FreshLayout Sig Uninit).m_pResourceAttribs i).BindPoints.IsStageActive s = true ∧
            (ResourcesState Sig false (LayoutState.fresh Uninit) (i + 1)).m_ResourceCounters
                .SRV s =
              ((ResourcesState Sig false (LayoutState.fresh Uninit) i).m_ResourceCounters
                  .SRV s + (Sig.m_Desc.GetResourceDesc i).ArraySize) % 2 ^ CounterBits) ∧
    (∀ i, i < Sig.m_Desc.NumResources →
      (Sig.m_Desc.GetResourceDesc i).ResourceType ≠ .TEXTURE_SRV →
      (Sig.m_Desc.GetResourceDesc i).ResourceType ≠ .SAMPLER →
      ((FreshLayout Sig Uninit).m_pResourceAttribs i).SamplerInd = none ∧
        ((FreshLayout Sig Uninit).m_pResourceAttribs i).IsImmutableSamplerAssigned = false) := by
  obtain ⟨_, _, hA⟩ := fresh_final Sig Uninit
  constructor
  · intro i hi ht
    have hns : (Sig.m_Desc.GetResourceDesc i).ResourceType ≠ .SAMPLER := by
      rw [ht]; decide
    have hd : ImmutableSamplerIndOf Sig i = none :=
      immutableSamplerIndOf_of_not_sampler Sig i hns
    refine ⟨?_, ?_, ?_⟩
    · rw [hA i hi]
      simp [ComputedAttribs, AssignedSamplerIndOf, ht]
    · rw [hA i hi]
      simp only [PipelineResourceAttribsD3D11.IsImmutableSamplerAssigned, ComputedAttribs,
        SrcImmutableSamplerInd, SrcImmutableSamplerIndOf, ht, if_true]
      cases hfa : Sig.FindAssignedSampler (Sig.m_Desc.GetResourceDesc i) with
      | none =>
        simp [hi, hd]
      | some a =>
        by_cases ha : a < Sig.m_Desc.NumResources
        · simp only [ha, if_true]
          constructor
          · intro h
            obtain ⟨k, hk⟩ := Option.isSome_iff_exists.1 h
            exact ⟨a, k, rfl, ha, hk⟩
          · rintro ⟨a', k, h1, _, h3⟩
            cases h1
            rw [h3]; rfl
        · simp only [ha, if_false]
          constructor
          · intro h; simp at h
          · rintro ⟨a', k, h1, h2, _⟩
            cases h1
            exact absurd h2 ha
    · intro s hs
      obtain ⟨_, _, c0, _⟩ := fresh_state Sig Uninit i (Nat.le_of_lt hi)
      obtain ⟨_, _, c1, _⟩ := fresh_state Sig Uninit (i + 1) (by omega)
      have hr : ShaderResourceTypeToRange (Sig.m_Desc.GetResourceDesc i).ResourceType =
          .SRV := by rw [ht]; rfl
      have hw : ResourceSlots Sig .SRV s i = (Sig.m_Desc.GetResourceDesc i).ArraySize := by
        simp [ResourceSlots, hd, hs, hr]
      have hb := fresh_slot_counterOf Sig Uninit i s hi hd hs
      rw [hr] at hb
      refine ⟨by rw [hb, c0], ?_, by rw [c0, c1, counterOf_succ, hw]⟩
      rw [fresh_bindPoints_direct Sig Uninit i hi hd]
      simp [D3D11ResourceBindPoints.IsStageActive, ResourceBindPointsOf, hs]
  · intro i hi ht hs
    have hd : ImmutableSamplerIndOf Sig i = none :=
      immutableSamplerIndOf_of_not_sampler Sig i hs
    rw [hA i hi]
    simp [PipelineResourceAttribsD3D11.IsImmutableSamplerAssigned, ComputedAttribs,
      AssignedSamplerIndOf, SrcImmutableSamplerInd, SrcImmutableSamplerIndOf, ht, hi, hd]

/-! ## The binding map -/

theorem and_shift_ne_zero_iff (m s : Nat) : m &&& (1 <<< s) ≠ 0 ↔ m.testBit s = true := by
  rw [ne_zero_iff_exists_testBit]
  constructor
  · rintro ⟨j, hj⟩
    rw [Nat.testBit_and, Nat.one_shiftLeft, Nat.testBit_two_pow] at hj
    simp only [Bool.and_eq_true, decide_eq_true_eq] at hj
    rw [hj.2]; exact hj.1
  · intro h
    refine ⟨s, ?_⟩
    rw [Nat.testBit_and, Nat.one_shiftLeft, Nat.testBit_two_pow]
    simp [h]

theorem getShaderTypeIndex_shift (s : Nat) : GetShaderTypeIndex (1 <<< s) = s := by
  have h0 : (1 <<< s) ≠ 0 := by
    rw [Nat.one_shiftLeft]; exact Nat.pos_iff_ne_zero.1 (Nat.two_pow_pos s)
  have h := lowestSetBit_testBit (1 <<< s) (1 <<< s) h0 (Nat.le_refl _)
  unfold GetShaderTypeIndex
  rw [Nat.one_shiftLeft] at h ⊢
  rw [Nat.testBit_two_pow] at h
  simp only [decide_eq_true_eq] at h
  exact h.symm

theorem emplace_keeps (m : ResourceBinding.TMap) (k : String) (v : ResourceBinding.BindInfo)
    (key : String) (x : ResourceBinding.BindInfo) (h : m key = some x) :
    (ResourceBinding.emplace m k v).1 key = some x := by
  unfold ResourceBinding.emplace
  cases hk : m k with
  | some e => exact h
  | none =>
    show (if key = k then some v else m key) = some x
    have : key ≠ k := by
      intro hc; rw [hc, hk] at h; cases h
    rw [if_neg this]; exact h

theorem emplace_present (m : ResourceBinding.TMap) (k : String) (v e : ResourceBinding.BindInfo)
    (h : m k = some e) : ResourceBinding.emplace m k v = (m, false) := by
  unfold ResourceBinding.emplace
  rw [h]

theorem emplace_absent (m : ResourceBinding.TMap) (k : String) (v : ResourceBinding.BindInfo)
    (h : m k = none) :
    ResourceBinding.emplace m k v = (fun key => if key = k then some v else m key, true) := by
  unfold ResourceBinding.emplace
  rw [h]

theorem bindingMapResourcesState_succ (Sig : PipelineResourceSignatureD3D11Impl)
    (st : LayoutState) (M : ResourceBinding.TMap) (Stage : Nat)
    (B : D3D11ShaderResourceCounters) (n : Nat) :
    BindingMapResourcesState Sig st M Stage B (n + 1) =
      BindingMapResourceStep Sig st Stage B n (BindingMapResourcesState Sig st M Stage B n) :=
  rfl

theorem bindingMapSamplersState_succ (Sig : PipelineResourceSignatureD3D11Impl)
    (st : LayoutState) (M : ResourceBinding.TMap) (Stage : Nat)
    (B : D3D11ShaderResourceCounters) (n : Nat) :
    BindingMapSamplersState Sig st M Stage B (n + 1) =
      BindingMapImmutableSamplerStep Sig st Stage B n
        (BindingMapSamplersState Sig st M Stage B n) :=
  rfl

theorem resourceStep_hidden (Sig : PipelineResourceSignatureD3D11Impl)
    (st : LayoutState) (Stage : Nat) (B : D3D11ShaderResourceCounters) (r : Nat)
    (acc : BindingMapState)
    (h : ¬ ((Sig.m_Desc.GetResourceDesc r).ShaderStages &&& Stage ≠ 0)) :
    BindingMapResourceStep Sig st Stage B r acc = acc := by
  unfold BindingMapResourceStep
  simp only []
  rw [if_neg h]

theorem resourceStep_map (Sig : PipelineResourceSignatureD3D11Impl)
    (st : LayoutState) (Stage : Nat) (B : D3D11ShaderResourceCounters) (r : Nat)
    (acc : BindingMapState)
    (h : (Sig.m_Desc.GetResourceDesc r).ShaderStages &&& Stage ≠ 0) :
    (BindingMapResourceStep Sig st Stage B r acc).ResourceMap =
        (ResourceBinding.emplace acc.ResourceMap (Sig.m_Desc.GetResourceDesc r).Name
          (ResourceBindInfo Sig st B (GetShaderTypeIndex Stage) r)).1 ∧
      (BindingMapResourceStep Sig st Stage B r acc).VerifyFailures =
        (acc.VerifyFailures ++
          (if (st.m_pResourceAttribs r).BindPoints.IsStageActive (GetShaderTypeIndex Stage)
            then [] else [BindingMapVerifyFailure.ResourceStageNotActive r])) ++
          (if (ResourceBinding.emplace acc.ResourceMap (Sig.m_Desc.GetResourceDesc r).Name
              (ResourceBindInfo Sig st B (GetShaderTypeIndex Stage) r)).2 then []
            else [BindingMapVerifyFailure.ResourceNotUnique r]) := by
  unfold BindingMapResourceStep
  simp only []
  rw [if_pos h]
  exact ⟨rfl, rfl⟩

theorem samplerStep_map (Sig : PipelineResourceSignatureD3D11Impl)
    (st : LayoutState) (Stage : Nat) (B : D3D11ShaderResourceCounters) (samp : Nat)
    (acc : BindingMapState) :
    (BindingMapImmutableSamplerStep Sig st Stage B samp acc).ResourceMap =
      if (Sig.m_Desc.GetImmutableSamplerDesc samp).ShaderStages &&& Stage ≠ 0 then
        (ResourceBinding.emplace acc.ResourceMap (SampName Sig samp)
          (ImmutableSamplerBindInfo st B (GetShaderTypeIndex Stage) samp)).1
      else acc.ResourceMap := by
  unfold BindingMapImmutableSamplerStep
  simp only []
  split <;> rfl

theorem bindingMapResources_spec (Sig : PipelineResourceSignatureD3D11Impl)
    (st : LayoutState) (M : ResourceBinding.TMap) (s : Nat) (B : D3D11ShaderResourceCounters)
    (hnew : ∀ r, r < Sig.m_Desc.NumResources → M (Sig.m_Desc.GetResourceDesc r).Name = none)
    (huniq : ∀ r₁ r₂, r₁ < Sig.m_Desc.NumResources → r₂ < Sig.m_Desc.NumResources →
      (Sig.m_Desc.GetResourceDesc r₁).ShaderStages.testBit s = true →
      (Sig.m_Desc.GetResourceDesc r₂).ShaderStages.testBit s = true →
      (Sig.m_Desc.GetResourceDesc r₁).Name = (Sig.m_Desc.GetResourceDesc r₂).Name → r₁ = r₂) :
    ∀ n, n ≤ Sig.m_Desc.NumResources →
      (∀ r, r < n → (Sig.m_Desc.GetResourceDesc r).ShaderStages.testBit s = true →
        (BindingMapResourcesState Sig st M (1 <<< s) B n).ResourceMap
            (Sig.m_Desc.GetResourceDesc r).Name =
          some (ResourceBindInfo Sig st B s r)) ∧
      (∀ key, (∀ r, r < n → (Sig.m_Desc.GetResourceDesc r).ShaderStages.testBit s = true →
          (Sig.m_Desc.GetResourceDesc r).Name ≠ key) →
        (BindingMapResourcesState Sig st M (1 <<< s) B n).ResourceMap key = M key) := by
  intro n
  induction n with
  | zero =>
    intro _
    exact ⟨fun r hr => absurd hr (Nat.not_lt_zero _), fun key _ => rfl⟩
  | succ n ih =>
    intro hn
    obtain ⟨iha, ihb⟩ := ih (by omega)
    rw [bindingMapResourcesState_succ]
    by_cases hv : (Sig.m_Desc.GetResourceDesc n).ShaderStages.testBit s = true
    · have hv' := (and_shift_ne_zero_iff _ s).2 hv
      have habs : (BindingMapResourcesState Sig st M (1 <<< s) B n).ResourceMap
          (Sig.m_Desc.GetResourceDesc n).Name = none := by
        rw [ihb]
        · exact hnew n (by omega)
        · intro r hr hvr hname
          have := huniq r n (by omega) (by omega) hvr hv hname
          omega
      have hmap := (resourceStep_map Sig st (1 <<< s) B n
        (BindingMapResourcesState Sig st M (1 <<< s) B n) hv').1
      rw [emplace_absent _ _ _ habs, getShaderTypeIndex_shift] at hmap
      rw [hmap]
      refine ⟨?_, ?_⟩
      · intro r hr hvr
        by_cases hrn : r = n
        · subst hrn; simp
        · have hne : (Sig.m_Desc.GetResourceDesc r).Name ≠ (Sig.m_Desc.GetResourceDesc n).Name := by
            intro hname
            exact hrn (huniq r n (by omega) (by omega) hvr hv hname)
          simp only [hne, if_false]
          exact iha r (by omega) hvr
      · intro key hkey
        have hne : key ≠ (Sig.m_Desc.GetResourceDesc n).Name :=
          fun hc => hkey n (Nat.lt_succ_self n) hv hc.symm
        simp only [hne, if_false]
        exact ihb key (fun r hr hvr => hkey r (by omega) hvr)
    · have hv' : ¬ ((Sig.m_Desc.GetResourceDesc n).ShaderStages &&& (1 <<< s) ≠ 0) :=
        fun hc => hv ((and_shift_ne_zero_iff _ s).1 hc)
      rw [resourceStep_hidden _ _ _ _ _ _ hv']
      refine ⟨?_, ?_⟩
      · intro r hr hvr
        by_cases hrn : r = n
        · subst hrn; exact absurd hvr hv
        · exact iha r (by omega) hvr
      · intro key hkey
        exact ihb key (fun r hr hvr => hkey r (by omega) hvr)

theorem samplerStep_keeps (Sig : PipelineResourceSignatureD3D11Impl)
    (st : LayoutState) (Stage : Nat) (B : D3D11ShaderResourceCounters) (samp : Nat)
    (acc : BindingMapState) (key : String) (x : ResourceBinding.BindInfo)
    (h : acc.ResourceMap key = some x) :
    (BindingMapImmutableSamplerStep Sig st Stage B samp acc).ResourceMap key = some x := by
  rw [samplerStep_map]
  split
  · exact emplace_keeps _ _ _ _ _ h
  · exact h

theorem bindingMapSamplers_keeps (Sig : PipelineResourceSignatureD3D11Impl)
    (st : LayoutState) (M : ResourceBinding.TMap) (Stage : Nat)
    (B : D3D11ShaderResourceCounters) (key : String) (x : ResourceBinding.BindInfo)
    (m : Nat) (h : (BindingMapSamplersState Sig st M Stage B m).ResourceMap key = some x) :
    ∀ n, m ≤ n → (BindingMapSamplersState Sig st M Stage B n).ResourceMap key = some x := by
  intro n
  induction n with
  | zero =>
    intro hmn
    have : m = 0 := by omega
    subst this; exact h
  | succ n ih =>
    intro hmn
    by_cases he : m = n + 1
    · subst he; exact h
    · rw [bindingMapSamplersState_succ]
      exact samplerStep_keeps _ _ _ _ _ _ _ _ (ih (by omega))

/-- C14: `UpdateShaderResourceBindingMap` for the single stage `s`, applied to a map that holds
none of the resource names of the signature, when the resources visible in `s` have pairwise
different names: the final map holds, under the name of every resource visible in `s`, the entry
(`BaseBindings[range][s]` + slot of the resource in `s`, register space 0, array size, resource
type); the iteration for a resource that is not visible in `s` leaves the map and the log as
they were. -/
theorem UpdateShaderResourceBindingMap_adds_visible_resources
    (Sig : PipelineResourceSignatureD3D11Impl) (st : LayoutState)
    (ResourceMap : ResourceBinding.TMap) (s : Nat) (BaseBindings : D3D11ShaderResourceCounters)
    (hnew : ∀ r, r < Sig.m_Desc.NumResources →
      ResourceMap (Sig.m_Desc.GetResourceDesc r).Name = none)
    (huniq : ∀ r₁ r₂, r₁ < Sig.m_Desc.NumResources → r₂ < Sig.m_Desc.NumResources →
      (Sig.m_Desc.GetResourceDesc r₁).ShaderStages.testBit s = true →
      (Sig.m_Desc.GetResourceDesc r₂).ShaderStages.testBit s = true →
      (Sig.m_Desc.GetResourceDesc r₁).Name = (Sig.m_Desc.GetResourceDesc r₂).Name → r₁ = r₂) :
    (∀ r, r < Sig.m_Desc.NumResources →
      (Sig.m_Desc.GetResourceDesc r).ShaderStages.testBit s = true →
      (UpdateShaderResourceBindingMap Sig st ResourceMap (1 <<< s) BaseBindings).ResourceMap
          (Sig.m_Desc.GetResourceDesc r).Name =
        some
          { BindPoint :=
              BaseBindings
                  (ShaderResourceTypeToRange (Sig.m_Desc.GetResourceDesc r).ResourceType) s +
                (st.m_pResourceAttribs r).BindPoints.Bindings s
            Space := 0
            ArraySize := (Sig.m_Desc.GetResourceDesc r).ArraySize
            ResType := (Sig.m_Desc.GetResourceDesc r).ResourceType }) ∧
    (∀ r, r < Sig.m_Desc.NumResources →
      (Sig.m_Desc.GetResourceDesc r).ShaderStages.testBit s = false →
      BindingMapResourcesState Sig st ResourceMap (1 <<< s) BaseBindings (r + 1) =
        BindingMapResourcesState Sig st ResourceMap (1 <<< s) BaseBindings r) := by
  constructor
  · intro r hr hv
    have h := (bindingMapResources_spec Sig st ResourceMap s BaseBindings hnew huniq
      Sig.m_Desc.NumResources (Nat.le_refl _)).1 r hr hv
    exact bindingMapSamplers_keeps Sig st ResourceMap (1 <<< s) BaseBindings _ _ 0 h _
      (Nat.zero_le _)
  · intro r _ hv
    rw [bindingMapResourcesState_succ]
    apply resourceStep_hidden
    intro hc
    rw [(and_shift_ne_zero_iff _ s).1 hc] at hv
    cases hv

/-- C15: `UpdateShaderResourceBindingMap` for the single stage `s` leaves the map holding an
entry under the exported name of every immutable sampler visible in `s`; when that name is
absent at the time the immutable sampler is processed, the entry is
(`BaseBindings[sampler range][s]` + slot of the immutable sampler in `s`, register space 0, array
size of the immutable sampler, sampler type); the iteration for an immutable sampler that is not
visible in `s` leaves the map as it was; the exported name is the name of the immutable sampler
with the combined sampler suffix appended exactly when combined samplers are in use. -/
theorem UpdateShaderResourceBindingMap_adds_visible_immutable_samplers
    (Sig : PipelineResourceSignatureD3D11Impl) (st : LayoutState)
    (ResourceMap : ResourceBinding.TMap) (s : Nat)
    (BaseBindings : D3D11ShaderResourceCounters) :
    (∀ samp, samp < Sig.m_Desc.NumImmutableSamplers →
      (Sig.m_Desc.GetImmutableSamplerDesc samp).ShaderStages.testBit s = true →
      (∃ e, (UpdateShaderResourceBindingMap Sig st ResourceMap (1 <<< s)
          BaseBindings).ResourceMap (SampName Sig samp) = some e) ∧
      ((BindingMapSamplersState Sig st ResourceMap (1 <<< s) BaseBindings samp).ResourceMap
          (SampName Sig samp) = none →
        (UpdateShaderResourceBindingMap Sig st ResourceMap (1 <<< s)
            BaseBindings).ResourceMap (SampName Sig samp) =
          some
            { BindPoint :=
                BaseBindings .SAMPLER s +
                  (st.m_pImmutableSamplerAttribs samp).BindPoints.Bindings s
              Space := 0
              ArraySize := (st.m_pImmutableSamplerAttribs samp).ArraySize
              ResType := .SAMPLER })) ∧
    (∀ samp, samp < Sig.m_Desc.NumImmutableSamplers →
      (Sig.m_Desc.GetImmutableSamplerDesc samp).ShaderStages.testBit s = false →
      (BindingMapSamplersState Sig st ResourceMap (1 <<< s) BaseBindings
          (samp + 1)).ResourceMap =
        (BindingMapSamplersState Sig st ResourceMap (1 <<< s) BaseBindings
          samp).ResourceMap) ∧
    (∀ samp,
      (Sig.m_Desc.UseCombinedTextureSamplers = true →
        SampName Sig samp =
          (Sig.m_Desc.GetImmutableSamplerDesc samp).SamplerOrTextureName ++
            Sig.m_Desc.CombinedSamplerSuffix) ∧
      (Sig.m_Desc.UseCombinedTextureSamplers = false →
        SampName Sig samp = (Sig.m_Desc.GetImmutableSamplerDesc samp).SamplerOrTextureName)) := by
  refine ⟨?_, ?_, ?_⟩
  · intro samp hs hv
    have hv' := (and_shift_ne_zero_iff _ s).2 hv
    have hstep : (BindingMapSamplersState Sig st ResourceMap (1 <<< s) BaseBindings
        (samp + 1)).ResourceMap =
        (ResourceBinding.emplace
          (BindingMapSamplersState Sig st ResourceMap (1 <<< s) BaseBindings samp).ResourceMap
          (SampName Sig samp) (ImmutableSamplerBindInfo st BaseBindings s samp)).1 := by
      rw [bindingMapSamplersState_succ, samplerStep_map, if_pos hv', getShaderTypeIndex_shift]
    have hfin : ∀ x, (BindingMapSamplersState Sig st ResourceMap (1 <<< s) BaseBindings
        (samp + 1)).ResourceMap (SampName Sig samp) = some x →
        (UpdateShaderResourceBindingMap Sig st ResourceMap (1 <<< s)
          BaseBindings).ResourceMap (SampName Sig samp) = some x := by
      intro x hx
      exact bindingMapSamplers_keeps Sig st ResourceMap (1 <<< s) BaseBindings _ _ _ hx _
        (by show samp + 1 ≤ Sig.m_Desc.NumImmutableSamplers; omega)
    constructor
    · cases hb : (BindingMapSamplersState Sig st ResourceMap (1 <<< s) BaseBindings
          samp).ResourceMap (SampName Sig samp) with
      | some e =>
        exact ⟨e, hfin e (by rw [hstep]; exact emplace_keeps _ _ _ _ _ hb)⟩
      | none =>
        refine ⟨_, hfin (ImmutableSamplerBindInfo st BaseBindings s samp) ?_⟩
        rw [hstep, emplace_absent _ _ _ hb]
        simp
    · intro hb
      apply hfin
      rw [hstep, emplace_absent _ _ _ hb]
      simp [ImmutableSamplerBindInfo]
  · intro samp _ hv
    rw [bindingMapSamplersState_succ, samplerStep_map, if_neg]
    intro hc
    rw [(and_shift_ne_zero_iff _ s).1 hc] at hv
    cases hv
  · intro samp
    constructor
    · intro h
      simp [SampName, PipelineResourceSignatureD3D11Impl.IsUsingCombinedSamplers,
        PipelineResourceSignatureD3D11Impl.GetCombinedSamplerSuffix, h]
    · intro h
      simp [SampName, PipelineResourceSignatureD3D11Impl.IsUsingCombinedSamplers, h]

/-- C16 (amended): a name that is already present in the map keeps its entry. When the name of
a visible resource is already present, `UpdateShaderResourceBindingMap` fails the uniqueness
assertion. When the exported name of a visible immutable sampler is already present, no
uniqueness assertion is made: besides the two assertions on the attributes of the immutable
sampler, the only assertions that can fail compare the existing entry with the immutable
sampler: its bind point must be the same and its array size must not be smaller. -/
theorem UpdateShaderResourceBindingMap_duplicate_names
    (Sig : PipelineResourceSignatureD3D11Impl) (st : LayoutState)
    (ResourceMap : ResourceBinding.TMap) (ShaderStage : Nat)
    (BaseBindings : D3D11ShaderResourceCounters) :
    (∀ r e, r < Sig.m_Desc.NumResources →
      (Sig.m_Desc.GetResourceDesc r).ShaderStages &&& ShaderStage ≠ 0 →
      (BindingMapResourcesState Sig st ResourceMap ShaderStage BaseBindings r).ResourceMap
          (Sig.m_Desc.GetResourceDesc r).Name = some e →
      (BindingMapResourcesState Sig st ResourceMap ShaderStage BaseBindings
            (r + 1)).ResourceMap =
          (BindingMapResourcesState Sig st ResourceMap ShaderStage BaseBindings
            r).ResourceMap ∧
        BindingMapVerifyFailure.ResourceNotUnique r ∈
          (BindingMapResourcesState Sig st ResourceMap ShaderStage BaseBindings
            (r + 1)).VerifyFailures) ∧
    (∀ samp e, samp < Sig.m_Desc.NumImmutableSamplers →
      (Sig.m_Desc.GetImmutableSamplerDesc samp).ShaderStages &&& ShaderStage ≠ 0 →
      (BindingMapSamplersState Sig st ResourceMap ShaderStage BaseBindings samp).ResourceMap
          (SampName Sig samp) = some e →
      (BindingMapSamplersState Sig st ResourceMap ShaderStage BaseBindings
            (samp + 1)).ResourceMap =
          (BindingMapSamplersState Sig st ResourceMap ShaderStage BaseBindings
            samp).ResourceMap ∧
        (BindingMapSamplersState Sig st ResourceMap ShaderStage BaseBindings
            (samp + 1)).VerifyFailures =
          ((((BindingMapSamplersState Sig st ResourceMap ShaderStage BaseBindings
                samp).VerifyFailures ++
              (if (st.m_pImmutableSamplerAttribs samp).IsAllocated then []
                else [BindingMapVerifyFailure.SamplerNotAllocated samp])) ++
              (if (st.m_pImmutableSamplerAttribs samp).BindPoints.IsStageActive
                  (GetShaderTypeIndex ShaderStage) then []
                else [BindingMapVerifyFailure.SamplerStageNotActive samp])) ++
              (if e.BindPoint =
                  BaseBindings .SAMPLER (GetShaderTypeIndex ShaderStage) +
                    (st.m_pImmutableSamplerAttribs samp).BindPoints.Bindings
                      (GetShaderTypeIndex ShaderStage) then []
                else [BindingMapVerifyFailure.SamplerBindPointInconsistent samp])) ++
            (if (st.m_pImmutableSamplerAttribs samp).ArraySize ≤ e.ArraySize then []
              else [BindingMapVerifyFailure.SamplerArraySizeSmaller samp])) := by
  constructor
  · intro r e _ hv hp
    rw [bindingMapResourcesState_succ]
    obtain ⟨hm, hf⟩ := resourceStep_map Sig st ShaderStage BaseBindings r
      (BindingMapResourcesState Sig st ResourceMap ShaderStage BaseBindings r) hv
    rw [emplace_present _ _ _ _ hp] at hm hf
    refine ⟨hm, ?_⟩
    rw [hf]
    simp
  · intro samp e _ hv hp
    rw [bindingMapSamplersState_succ]
    unfold BindingMapImmutableSamplerStep
    simp only []
    rw [if_pos hv, emplace_present _ _ _ _ hp]
    simp only [hp, ImmutableSamplerBindInfo]
    exact ⟨trivial, rfl⟩

/-! ## The copy of the static resources -/

theorem countP_static_iff (l : List PipelineResourceDesc)
    (hs : ∀ i j, i ≤ j → j < l.length →
      (l.getD i default).VarType.toNat ≤ (l.getD j default).VarType.toNat) :
    ∀ r, r < l.countP (fun d => decide (d.VarType.toNat ≤ 0)) ↔
      r < l.length ∧ (l.getD r default).VarType.toNat ≤ 0 := by
  induction l with
  | nil => intro r; simp
  | cons a l ih =>
    have hs' : ∀ i j, i ≤ j → j < l.length →
        (l.getD i default).VarType.toNat ≤ (l.getD j default).VarType.toNat := by
      intro i j hij hj
      have := hs (i + 1) (j + 1) (by omega) (by simp; omega)
      simpa using this
    have ih' := ih hs'
    intro r
    by_cases ha : a.VarType.toNat ≤ 0
    · rw [List.countP_cons_of_pos _ _ (by simpa using ha)]
      cases r with
      | zero => simp [ha]
      | succ r =>
        have := ih' r
        simp only [List.length_cons, List.getD_cons_succ]
        omega
    · rw [List.countP_cons_of_neg _ _ (by simpa using ha)]
      have hall : ∀ j, j < (a :: l).length → ¬ ((a :: l).getD j default).VarType.toNat ≤ 0 := by
        intro j hj
        have := hs 0 j (Nat.zero_le _) hj
        simp only [List.getD_cons_zero] at this
        omega
      have hzero : l.countP (fun d => decide (d.VarType.toNat ≤ 0)) = 0 := by
        by_contra hc
        have h0 := (ih' 0).1 (by omega)
        have := hall 1 (by simp; omega)
        simp only [List.getD_cons_succ] at this
        exact this h0.2
      rw [hzero]
      constructor
      · intro h; omega
      · rintro ⟨h1, h2⟩
        exact absurd h2 (hall r h1)

theorem staticRange_fst (Sig : PipelineResourceSignatureD3D11Impl) :
    (Sig.GetResourceIndexRange .STATIC).1 = 0 := by
  unfold PipelineResourceSignatureD3D11Impl.GetResourceIndexRange
  simp [SHADER_RESOURCE_VARIABLE_TYPE.toNat]

theorem staticRange_snd_le (Sig : PipelineResourceSignatureD3D11Impl) :
    (Sig.GetResourceIndexRange .STATIC).2 ≤ Sig.m_Desc.NumResources := by
  unfold PipelineResourceSignatureD3D11Impl.GetResourceIndexRange
  exact List.countP_le_length _

theorem staticRange_snd_iff (Sig : PipelineResourceSignatureD3D11Impl)
    (hs : SortedByVarType Sig) (r : Nat) :
    r < (Sig.GetResourceIndexRange .STATIC).2 ↔
      r < Sig.m_Desc.NumResources ∧ (Sig.m_Desc.GetResourceDesc r).VarType = .STATIC := by
  have h := countP_static_iff Sig.m_Desc.Resources
    (fun i j hij hj => sorted_pairwise Sig hs i j hij hj) r
  rw [varType_static_iff]
  have h0 : ∀ d : PipelineResourceDesc,
      d.VarType.toNat ≤ SHADER_RESOURCE_VARIABLE_TYPE.STATIC.toNat ↔ d.VarType.toNat ≤ 0 :=
    fun d => Iff.rfl
  unfold PipelineResourceSignatureD3D11Impl.GetResourceIndexRange
  show r < List.countP (fun d => decide (d.VarType.toNat ≤ 0)) Sig.m_Desc.Resources ↔ _
  rw [h]
  show _ ∧ (Sig.m_Desc.GetResourceDesc r).VarType.toNat ≤ 0 ↔ _
  constructor
  · rintro ⟨h1, h2⟩; exact ⟨h1, by omega⟩
  · rintro ⟨h1, h2⟩; exact ⟨h1, by omega⟩

theorem copyElements_spec {Cache : Type} (Ops : ShaderResourceCacheD3D11 Cache)
    (st : LayoutState) (Src D0 : Cache) (T : ResourceCacheContentType)
    (Range : D3D11_RESOURCE_RANGE) (r : Nat) (cs : CopyState Cache)
    (Rg : Nat → D3D11_RESOURCE_RANGE) : ∀ m,
    (∀ r' a, (forLoop (CopyStaticResourceElement Ops Src T Range r (st.m_pResourceAttribs r))
          m cs).CopyResourceCalls.countP (fun c => decide (c.Resource = r' ∧ c.ArrInd = a)) =
        cs.CopyResourceCalls.countP (fun c => decide (c.Resource = r' ∧ c.ArrInd = a)) +
          (if r' = r ∧ a < m then 1 else 0)) ∧
    (cs.DstResourceCache = ReplayCopyResourceCalls Ops st Src cs.CopyResourceCalls D0 →
      (forLoop (CopyStaticResourceElement Ops Src T Range r (st.m_pResourceAttribs r))
          m cs).DstResourceCache =
        ReplayCopyResourceCalls Ops st Src
          (forLoop (CopyStaticResourceElement Ops Src T Range r (st.m_pResourceAttribs r))
            m cs).CopyResourceCalls D0) ∧
    (cs.LoggedErrors =
        (if T = .SRB then
          (cs.CopyResourceCalls.filter (fun c => !c.Copied)).map (fun c => (c.Resource, c.ArrInd))
        else []) →
      (forLoop (CopyStaticResourceElement Ops Src T Range r (st.m_pResourceAttribs r))
          m cs).LoggedErrors =
        (if T = .SRB then
          ((forLoop (CopyStaticResourceElement Ops Src T Range r (st.m_pResourceAttribs r))
            m cs).CopyResourceCalls.filter (fun c => !c.Copied)).map
              (fun c => (c.Resource, c.ArrInd))
        else [])) ∧
    ((∀ c, c ∈ cs.CopyResourceCalls → c.Range = Rg c.Resource) →
      Range = Rg r →
      ∀ c, c ∈ (forLoop (CopyStaticResourceElement Ops Src T Range r (st.m_pResourceAttribs r))
          m cs).CopyResourceCalls → c.Range = Rg c.Resource) := by
  intro m
  induction m with
  | zero =>
    refine ⟨?_, fun h => h, fun h => h, fun h _ => h⟩
    intro r' a
    have : ¬ (r' = r ∧ a < 0) := by omega
    simp [forLoop, this]
  | succ m ih =>
    obtain ⟨ih1, ih2, ih3, ih4⟩ := ih
    have hstep : forLoop (CopyStaticResourceElement Ops Src T Range r (st.m_pResourceAttribs r))
        (m + 1) cs =
        CopyStaticResourceElement Ops Src T Range r (st.m_pResourceAttribs r) m
          (forLoop (CopyStaticResourceElement Ops Src T Range r (st.m_pResourceAttribs r))
            m cs) := rfl
    rw [hstep]
    generalize forLoop (CopyStaticResourceElement Ops Src T Range r (st.m_pResourceAttribs r))
      m cs = cm at ih1 ih2 ih3 ih4
    refine ⟨?_, ?_, ?_, ?_⟩
    · intro r' a
      simp only [CopyStaticResourceElement, List.countP_append, ih1 r' a, List.countP_cons,
        List.countP_nil, decide_eq_true_eq]
      split_ifs <;> omega
    · intro h0
      have := ih2 h0
      simp only [CopyStaticResourceElement, ReplayCopyResourceCalls, List.foldl_append,
        List.foldl_cons, List.foldl_nil]
      rw [this]
      rfl
    · intro h0
      have h := ih3 h0
      simp only [CopyStaticResourceElement]
      by_cases hT : T = .SRB
      · subst hT
        rw [if_pos rfl] at h
        rw [if_pos rfl]
        cases hc : (Ops.CopyResource Range cm.DstResourceCache Src
          ((st.m_pResourceAttribs r).BindPoints.add m)).2
        · simp [h, List.filter_append]
        · simp [h, List.filter_append]
      · rw [if_neg hT] at h
        rw [if_neg hT, if_neg (fun hc => hT hc.2)]
        exact h
    · intro h0 hR c hc
      simp only [CopyStaticResourceElement, List.mem_append, List.mem_singleton] at hc
      rcases hc with hc | hc
      · exact ih4 h0 hR c hc
      · subst hc; exact hR

theorem verifyBound_spec {Cache : Type} (Ops : ShaderResourceCacheD3D11 Cache) (r : Nat)
    (ResAttr : PipelineResourceAttribsD3D11) (cs : CopyState Cache) : ∀ m,
    (forLoop (VerifyImmutableSamplerBound Ops r ResAttr) m cs).DstResourceCache =
        cs.DstResourceCache ∧
      (forLoop (VerifyImmutableSamplerBound Ops r ResAttr) m cs).CopyResourceCalls =
        cs.CopyResourceCalls ∧
      (forLoop (VerifyImmutableSamplerBound Ops r ResAttr) m cs).LoggedErrors =
        cs.LoggedErrors := by
  intro m
  induction m with
  | zero => exact ⟨rfl, rfl, rfl⟩
  | succ m ih => exact ih


theorem copyStep_copyable {Cache : Type} (Ops : ShaderResourceCacheD3D11 Cache)
    (Sig : PipelineResourceSignatureD3D11Impl) (st : LayoutState) (Src : Cache)
    (T : ResourceCacheContentType) (r : Nat) (cs : CopyState Cache)
    (h1 : ShaderResourceTypeToRange (Sig.m_Desc.GetResourceDesc r).ResourceType ≠ .UNKNOWN)
    (h2 : ¬ (ShaderResourceTypeToRange (Sig.m_Desc.GetResourceDesc r).ResourceType = .SAMPLER ∧
      (st.m_pResourceAttribs r).IsImmutableSamplerAssigned = true)) :
    CopyStaticResourceStep Ops Sig st Src T r cs =
      forLoop
        (CopyStaticResourceElement Ops Src T
          (ShaderResourceTypeToRange (Sig.m_Desc.GetResourceDesc r).ResourceType) r
          (st.m_pResourceAttribs r))
        (Sig.m_Desc.GetResourceDesc r).ArraySize
        { cs with
          VerifyFailures :=
            if (Sig.m_Desc.GetResourceDesc r).VarType = .STATIC then cs.VerifyFailures
            else cs.VerifyFailures ++ [.NotStatic r] } := by
  unfold CopyStaticResourceStep
  simp only []
  cases hR : ShaderResourceTypeToRange (Sig.m_Desc.GetResourceDesc r).ResourceType with
  | CBV => rfl
  | SRV => rfl
  | UAV => rfl
  | UNKNOWN => exact absurd hR h1
  | SAMPLER =>
    have : (st.m_pResourceAttribs r).IsImmutableSamplerAssigned = false := by
      cases hb : (st.m_pResourceAttribs r).IsImmutableSamplerAssigned
      · rfl
      · exact absurd ⟨hR, hb⟩ h2
    simp only [this, if_true]

theorem copyStep_skip {Cache : Type} (Ops : ShaderResourceCacheD3D11 Cache)
    (Sig : PipelineResourceSignatureD3D11Impl) (st : LayoutState) (Src : Cache)
    (T : ResourceCacheContentType) (r : Nat) (cs : CopyState Cache)
    (h : ShaderResourceTypeToRange (Sig.m_Desc.GetResourceDesc r).ResourceType = .UNKNOWN ∨
      (ShaderResourceTypeToRange (Sig.m_Desc.GetResourceDesc r).ResourceType = .SAMPLER ∧
        (st.m_pResourceAttribs r).IsImmutableSamplerAssigned = true)) :
    (CopyStaticResourceStep Ops Sig st Src T r cs).DstResourceCache = cs.DstResourceCache ∧
      (CopyStaticResourceStep Ops Sig st Src T r cs).CopyResourceCalls =
        cs.CopyResourceCalls ∧
      (CopyStaticResourceStep Ops Sig st Src T r cs).LoggedErrors = cs.LoggedErrors := by
  unfold CopyStaticResourceStep
  simp only []
  rcases h with hR | ⟨hR, hb⟩
  · rw [hR]
    exact ⟨rfl, rfl, rfl⟩
  · rw [hR]
    simp only [hb, Bool.true_eq_false, if_false]
    by_cases hT : T = .SRB
    · rw [if_pos hT]
      exact verifyBound_spec Ops r _ _ _
    · rw [if_neg hT]
      exact ⟨rfl, rfl, rfl⟩

theorem copyState_succ {Cache : Type} (Ops : ShaderResourceCacheD3D11 Cache)
    (Sig : PipelineResourceSignatureD3D11Impl) (st : LayoutState) (Src Dst : Cache) (n : Nat) :
    CopyStaticResourcesState Ops Sig st Src Dst (n + 1) =
      CopyStaticResourceStep Ops Sig st Src (Ops.GetContentType Dst) n
        (CopyStaticResourcesState Ops Sig st Src Dst n) := by
  unfold CopyStaticResourcesState
  rw [staticRange_fst]
  simp only [Nat.zero_add]
  rfl

theorem copyState_spec {Cache : Type} (Ops : ShaderResourceCacheD3D11 Cache)
    (Sig : PipelineResourceSignatureD3D11Impl) (st : LayoutState) (Src Dst : Cache) : ∀ n,
    (∀ r a, (CopyStaticResourcesState Ops Sig st Src Dst n).CopyResourceCalls.countP
          (fun c => decide (c.Resource = r ∧ c.ArrInd = a)) =
        if r < n ∧
            ShaderResourceTypeToRange (Sig.m_Desc.GetResourceDesc r).ResourceType ≠ .UNKNOWN ∧
            ¬ (ShaderResourceTypeToRange (Sig.m_Desc.GetResourceDesc r).ResourceType =
                .SAMPLER ∧
              (st.m_pResourceAttribs r).IsImmutableSamplerAssigned = true) ∧
            a < (Sig.m_Desc.GetResourceDesc r).ArraySize then 1
        else 0) ∧
    (CopyStaticResourcesState Ops Sig st Src Dst n).DstResourceCache =
      ReplayCopyResourceCalls Ops st Src
        (CopyStaticResourcesState Ops Sig st Src Dst n).CopyResourceCalls Dst ∧
    (CopyStaticResourcesState Ops Sig st Src Dst n).LoggedErrors =
      (if Ops.GetContentType Dst = .SRB then
        ((CopyStaticResourcesState Ops Sig st Src Dst n).CopyResourceCalls.filter
          (fun c => !c.Copied)).map (fun c => (c.Resource, c.ArrInd))
      else []) ∧
    (∀ c, c ∈ (CopyStaticResourcesState Ops Sig st Src Dst n).CopyResourceCalls →
      c.Range = ShaderResourceTypeToRange (Sig.m_Desc.GetResourceDesc c.Resource).ResourceType) := by
  intro n
  induction n with
  | zero =>
    refine ⟨?_, rfl, ?_, ?_⟩
    · intro r a
      have : ¬ r < 0 := Nat.not_lt_zero r
      simp [CopyStaticResourcesState, forLoop, CopyState.enter]
    · simp [CopyStaticResourcesState, forLoop, CopyState.enter]
    · intro c hc
      simp [CopyStaticResourcesState, forLoop, CopyState.enter] at hc
  | succ n ih =>
    obtain ⟨ih1, ih2, ih3, ih4⟩ := ih
    rw [copyState_succ]
    generalize CopyStaticResourcesState Ops Sig st Src Dst n = cs at ih1 ih2 ih3 ih4
    by_cases hc : ShaderResourceTypeToRange (Sig.m_Desc.GetResourceDesc n).ResourceType ≠
        .UNKNOWN ∧
        ¬ (ShaderResourceTypeToRange (Sig.m_Desc.GetResourceDesc n).ResourceType = .SAMPLER ∧
          (st.m_pResourceAttribs n).IsImmutableSamplerAssigned = true)
    · rw [copyStep_copyable Ops Sig st Src _ n cs hc.1 hc.2]
      obtain ⟨e1, e2, e3, e4⟩ := copyElements_spec Ops st Src Dst (Ops.GetContentType Dst)
        (ShaderResourceTypeToRange (Sig.m_Desc.GetResourceDesc n).ResourceType) n
        { cs with
          VerifyFailures :=
            if (Sig.m_Desc.GetResourceDesc n).VarType = .STATIC then cs.VerifyFailures
            else cs.VerifyFailures ++ [.NotStatic n] }
        (fun r => ShaderResourceTypeToRange (Sig.m_Desc.GetResourceDesc r).ResourceType)
        (Sig.m_Desc.GetResourceDesc n).ArraySize
      refine ⟨?_, e2 ih2, e3 ih3, e4 ih4 rfl⟩
      intro r a
      rw [e1 r a]
      show List.countP _ cs.CopyResourceCalls + _ = _
      rw [ih1 r a]
      by_cases hrn : r = n
      · subst hrn
        have : ¬ r < r := Nat.lt_irrefl r
        simp only [this, false_and, if_false, true_and, Nat.lt_succ_self, hc.1, hc.2,
          ne_eq, not_false_eq_true, Nat.zero_add]
      · have h1 : (r < n + 1) = (r < n) := by
          apply propext; omega
        simp only [hrn, false_and, if_false, Nat.add_zero, h1]
    · have hc' : ShaderResourceTypeToRange (Sig.m_Desc.GetResourceDesc n).ResourceType =
          .UNKNOWN ∨
          (ShaderResourceTypeToRange (Sig.m_Desc.GetResourceDesc n).ResourceType = .SAMPLER ∧
            (st.m_pResourceAttribs n).IsImmutableSamplerAssigned = true) := by
        by_contra hcon
        exact hc ⟨fun h => hcon (Or.inl h), fun h => hcon (Or.inr h)⟩
      obtain ⟨s1, s2, s3⟩ := copyStep_skip Ops Sig st Src (Ops.GetContentType Dst) n cs hc'
      rw [s1, s2, s3]
      refine ⟨?_, ih2, ih3, ih4⟩
      intro r a
      rw [ih1 r a]
      by_cases hrn : r = n
      · subst hrn
        have h0 : ¬ r < r := Nat.lt_irrefl r
        have h1 : ¬ (r < r + 1 ∧
            ShaderResourceTypeToRange (Sig.m_Desc.GetResourceDesc r).ResourceType ≠ .UNKNOWN ∧
            ¬ (ShaderResourceTypeToRange (Sig.m_Desc.GetResourceDesc r).ResourceType =
                .SAMPLER ∧
              (st.m_pResourceAttribs r).IsImmutableSamplerAssigned = true) ∧
            a < (Sig.m_Desc.GetResourceDesc r).ArraySize) :=
          fun h => hc ⟨h.2.1, h.2.2.1⟩
        rw [if_neg h1, if_neg (fun h => h0 h.1)]
      · have h1 : (r < n + 1) = (r < n) := by
          apply propext; omega
        simp only [h1]

theorem copyStaticResources_some {Cache : Type} (Ops : ShaderResourceCacheD3D11 Cache)
    (Sig : PipelineResourceSignatureD3D11Impl) (st : LayoutState) (Src Dst : Cache) :
    CopyStaticResources Ops Sig st (some Src) Dst =
      CopyStaticResourcesState Ops Sig st Src Dst (Sig.GetResourceIndexRange .STATIC).2 := by
  show CopyStaticResourcesState Ops Sig st Src Dst
    ((Sig.GetResourceIndexRange .STATIC).2 - (Sig.GetResourceIndexRange .STATIC).1) = _
  rw [staticRange_fst, Nat.sub_zero]

theorem copyStaticResources_loggedErrors {Cache : Type}
    (Ops : ShaderResourceCacheD3D11 Cache) (Sig : PipelineResourceSignatureD3D11Impl)
    (st : LayoutState) (m_pStaticResCache : Option Cache) (DstResourceCache : Cache) :
    (CopyStaticResources Ops Sig st m_pStaticResCache DstResourceCache).LoggedErrors =
      (if Ops.GetContentType DstResourceCache = .SRB then
        ((CopyStaticResources Ops Sig st m_pStaticResCache
          DstResourceCache).CopyResourceCalls.filter (fun c => !c.Copied)).map
            (fun c => (c.Resource, c.ArrInd))
      else []) := by
  cases m_pStaticResCache with
  | none => simp [CopyStaticResources]
  | some Src =>
    rw [copyStaticResources_some]
    exact (copyState_spec Ops Sig st Src DstResourceCache _).2.2.1

/-- C17: when a static cache exists and the resources are sorted by variable type,
`CopyStaticResources` calls `CopyResource` exactly once for every array element of every static
resource with a supported range that is not a sampler with an immutable sampler assigned,
whatever the cache operations return; every call is made with the range of its resource, and
the destination cache is the result of making the recorded calls in their order, each at the
bind points of its resource moved by the array element. -/
theorem CopyStaticResources_copies_each_static_element_once {Cache : Type}
    (Ops : ShaderResourceCacheD3D11 Cache) (Sig : PipelineResourceSignatureD3D11Impl)
    (st : LayoutState) (SrcResourceCache DstResourceCache : Cache) (r ArrInd : Nat)
    (hsort : SortedByVarType Sig) (hr : IsCopiedStatic Sig st r)
    (ha : ArrInd < (Sig.m_Desc.GetResourceDesc r).ArraySize) :
    (CopyStaticResources Ops Sig st (some SrcResourceCache)
        DstResourceCache).CopyResourceCalls.countP
      (fun c => decide (c.Resource = r ∧ c.ArrInd = ArrInd)) = 1 ∧
    (∀ c, c ∈ (CopyStaticResources Ops Sig st (some SrcResourceCache)
        DstResourceCache).CopyResourceCalls →
      c.Range = ShaderResourceTypeToRange (Sig.m_Desc.GetResourceDesc c.Resource).ResourceType) ∧
    (CopyStaticResources Ops Sig st (some SrcResourceCache) DstResourceCache).DstResourceCache =
      ReplayCopyResourceCalls Ops st SrcResourceCache
        (CopyStaticResources Ops Sig st (some SrcResourceCache)
          DstResourceCache).CopyResourceCalls DstResourceCache := by
  rw [copyStaticResources_some]
  obtain ⟨h1, h2, _, h4⟩ := copyState_spec Ops Sig st SrcResourceCache DstResourceCache
    (Sig.GetResourceIndexRange .STATIC).2
  refine ⟨?_, h4, h2⟩
  rw [h1 r ArrInd]
  obtain ⟨hN, hst, hu, hs⟩ := hr
  have hlt := (staticRange_snd_iff Sig hsort r).2 ⟨hN, hst⟩
  rw [if_pos ⟨hlt, hu, hs, ha⟩]

theorem replay_append {Cache : Type} (Ops : ShaderResourceCacheD3D11 Cache)
    (st : LayoutState) (Src D0 : Cache) (L : List CopyResourceCall) (c : CopyResourceCall) :
    ReplayCopyResourceCalls Ops st Src (L ++ [c]) D0 =
      (Ops.CopyResource c.Range (ReplayCopyResourceCalls Ops st Src L D0) Src
        ((st.m_pResourceAttribs c.Resource).BindPoints.add c.ArrInd)).1 := by
  simp [ReplayCopyResourceCalls, List.foldl_append]

theorem copyElements_faithful {Cache : Type} (Ops : ShaderResourceCacheD3D11 Cache)
    (st : LayoutState) (Src D0 : Cache) (T : ResourceCacheContentType)
    (Range : D3D11_RESOURCE_RANGE) (r : Nat) (cs : CopyState Cache)
    (h0 : cs.DstResourceCache = ReplayCopyResourceCalls Ops st Src cs.CopyResourceCalls D0)
    (hf : ∀ j c, cs.CopyResourceCalls[j]? = some c →
      c.Copied = (Ops.CopyResource c.Range
        (ReplayCopyResourceCalls Ops st Src (cs.CopyResourceCalls.take j) D0) Src
        ((st.m_pResourceAttribs c.Resource).BindPoints.add c.ArrInd)).2) : ∀ m,
    ∀ j c, (forLoop (CopyStaticResourceElement Ops Src T Range r (st.m_pResourceAttribs r))
        m cs).CopyResourceCalls[j]? = some c →
      c.Copied = (Ops.CopyResource c.Range
        (ReplayCopyResourceCalls Ops st Src
          ((forLoop (CopyStaticResourceElement Ops Src T Range r (st.m_pResourceAttribs r))
            m cs).CopyResourceCalls.take j) D0) Src
        ((st.m_pResourceAttribs c.Resource).BindPoints.add c.ArrInd)).2 := by
  intro m
  induction m with
  | zero => exact hf
  | succ m ih =>
    have hd := (copyElements_spec Ops st Src D0 T Range r cs (fun _ => Range) m).2.1 h0
    have hstep : forLoop (CopyStaticResourceElement Ops Src T Range r (st.m_pResourceAttribs r))
        (m + 1) cs =
        CopyStaticResourceElement Ops Src T Range r (st.m_pResourceAttribs r) m
          (forLoop (CopyStaticResourceElement Ops Src T Range r (st.m_pResourceAttribs r))
            m cs) := rfl
    rw [hstep]
    generalize forLoop (CopyStaticResourceElement Ops Src T Range r (st.m_pResourceAttribs r))
      m cs = cm at ih hd
    intro j c hj
    simp only [CopyStaticResourceElement] at hj ⊢
    by_cases hlt : j < cm.CopyResourceCalls.length
    · rw [List.getElem?_append_left hlt] at hj
      rw [List.take_append_of_le_length (Nat.le_of_lt hlt)]
      exact ih j c hj
    · by_cases heq : j = cm.CopyResourceCalls.length
      · subst heq
        rw [List.getElem?_append_right (Nat.le_refl _)] at hj
        simp only [Nat.sub_self, List.getElem?_cons_zero, Option.some.injEq] at hj
        subst hj
        rw [List.take_append_of_le_length (Nat.le_refl _), List.take_length, ← hd]
      · rw [List.getElem?_append_right (by omega)] at hj
        have : j - cm.CopyResourceCalls.length ≠ 0 := by omega
        obtain ⟨k, hk⟩ := Nat.exists_eq_succ_of_ne_zero this
        rw [hk] at hj
        simp at hj

theorem copyState_faithful {Cache : Type} (Ops : ShaderResourceCacheD3D11 Cache)
    (Sig : PipelineResourceSignatureD3D11Impl) (st : LayoutState) (Src Dst : Cache) : ∀ n,
    ∀ j c, (CopyStaticResourcesState Ops Sig st Src Dst n).CopyResourceCalls[j]? = some c →
      c.Copied = (Ops.CopyResource c.Range
        (ReplayCopyResourceCalls Ops st Src
          ((CopyStaticResourcesState Ops Sig st Src Dst n).CopyResourceCalls.take j) Dst) Src
        ((st.m_pResourceAttribs c.Resource).BindPoints.add c.ArrInd)).2 := by
  intro n
  induction n with
  | zero =>
    intro j c hj
    simp [CopyStaticResourcesState, forLoop, CopyState.enter] at hj
  | succ n ih =>
    have hd := (copyState_spec Ops Sig st Src Dst n).2.1
    rw [copyState_succ]
    generalize CopyStaticResourcesState Ops Sig st Src Dst n = cs at ih hd
    by_cases hc : ShaderResourceTypeToRange (Sig.m_Desc.GetResourceDesc n).ResourceType ≠
        .UNKNOWN ∧
        ¬ (ShaderResourceTypeToRange (Sig.m_Desc.GetResourceDesc n).ResourceType = .SAMPLER ∧
          (st.m_pResourceAttribs n).IsImmutableSamplerAssigned = true)
    · rw [copyStep_copyable Ops Sig st Src _ n cs hc.1 hc.2]
      exact copyElements_faithful Ops st Src Dst (Ops.GetContentType Dst) _ n
        { cs with
          VerifyFailures :=
            if (Sig.m_Desc.GetResourceDesc n).VarType = .STATIC then cs.VerifyFailures
            else cs.VerifyFailures ++ [.NotStatic n] }
        hd ih _
    · have hc' : ShaderResourceTypeToRange (Sig.m_Desc.GetResourceDesc n).ResourceType =
          .UNKNOWN ∨
          (ShaderResourceTypeToRange (Sig.m_Desc.GetResourceDesc n).ResourceType = .SAMPLER ∧
            (st.m_pResourceAttribs n).IsImmutableSamplerAssigned = true) := by
        by_contra hcon
        exact hc ⟨fun h => hcon (Or.inl h), fun h => hcon (Or.inr h)⟩
      obtain ⟨_, s2, _⟩ := copyStep_skip Ops Sig st Src (Ops.GetContentType Dst) n cs hc'
      rw [s2]
      exact ih

/-- C18: every recorded call of `CopyResource` carries what `CopyResource` returned when it was
made: its `Copied` field is the result of the call on the destination cache reached by the calls
before it. When the destination is the cache of a shader resource binding, the messages
`CopyStaticResources` logs are, in order, the (resource, array element) pairs of the calls of
`CopyResource` that returned that nothing was copied, so their number is the number of failed
copies; when the destination is the cache of a signature nothing is logged, whatever the calls
return; without a static cache nothing is logged. -/
theorem CopyStaticResources_reports_failed_copies {Cache : Type}
    (Ops : ShaderResourceCacheD3D11 Cache) (Sig : PipelineResourceSignatureD3D11Impl)
    (st : LayoutState) (SrcResourceCache DstResourceCache : Cache) :
    (∀ j c,
      (CopyStaticResources Ops Sig st (some SrcResourceCache)
        DstResourceCache).CopyResourceCalls[j]? = some c →
      c.Copied = (Ops.CopyResource c.Range
        (ReplayCopyResourceCalls Ops st SrcResourceCache
          ((CopyStaticResources Ops Sig st (some SrcResourceCache)
            DstResourceCache).CopyResourceCalls.take j) DstResourceCache)
        SrcResourceCache
        ((st.m_pResourceAttribs c.Resource).BindPoints.add c.ArrInd)).2) ∧
    (Ops.GetContentType DstResourceCache = .SRB →
      (CopyStaticResources Ops Sig st (some SrcResourceCache) DstResourceCache).LoggedErrors =
          ((CopyStaticResources Ops Sig st (some SrcResourceCache)
            DstResourceCache).CopyResourceCalls.filter (fun c => !c.Copied)).map
              (fun c => (c.Resource, c.ArrInd)) ∧
        (CopyStaticResources Ops Sig st (some SrcResourceCache)
            DstResourceCache).LoggedErrors.length =
          (CopyStaticResources Ops Sig st (some SrcResourceCache)
            DstResourceCache).CopyResourceCalls.countP (fun c => !c.Copied)) ∧
    (Ops.GetContentType DstResourceCache = .Signature →
      (CopyStaticResources Ops Sig st (some SrcResourceCache) DstResourceCache).LoggedErrors =
        []) ∧
    (CopyStaticResources Ops Sig st none DstResourceCache).LoggedErrors = [] := by
  have key := copyStaticResources_loggedErrors Ops Sig st (some SrcResourceCache)
    DstResourceCache
  refine ⟨?_, ?_, ?_, rfl⟩
  · rw [copyStaticResources_some]
    exact copyState_faithful Ops Sig st SrcResourceCache DstResourceCache _
  · intro hT
    rw [if_pos hT] at key
    refine ⟨key, ?_⟩
    rw [key, List.length_map, List.countP_eq_length_filter]
  · intro hT
    rw [if_neg (by rw [hT]; decide)] at key
    exact key

/-- C19: for a sampler resource `r` with an immutable sampler assigned, the iteration of
`CopyStaticResources` for `r` leaves the destination cache, the calls of `CopyResource` and the
logged messages as they were, and the whole operation makes no call of `CopyResource` and logs
no message for `r`. -/
theorem CopyStaticResources_skips_immutable_samplers {Cache : Type}
    (Ops : ShaderResourceCacheD3D11 Cache) (Sig : PipelineResourceSignatureD3D11Impl)
    (st : LayoutState) (SrcResourceCache DstResourceCache : Cache) (r : Nat)
    (hs : ShaderResourceTypeToRange (Sig.m_Desc.GetResourceDesc r).ResourceType = .SAMPLER)
    (hi : (st.m_pResourceAttribs r).IsImmutableSamplerAssigned = true) :
    ((CopyStaticResourcesState Ops Sig st SrcResourceCache DstResourceCache
          (r + 1)).DstResourceCache =
        (CopyStaticResourcesState Ops Sig st SrcResourceCache DstResourceCache
          r).DstResourceCache ∧
      (CopyStaticResourcesState Ops Sig st SrcResourceCache DstResourceCache
          (r + 1)).CopyResourceCalls =
        (CopyStaticResourcesState Ops Sig st SrcResourceCache DstResourceCache
          r).CopyResourceCalls ∧
      (CopyStaticResourcesState Ops Sig st SrcResourceCache DstResourceCache
          (r + 1)).LoggedErrors =
        (CopyStaticResourcesState Ops Sig st SrcResourceCache DstResourceCache
          r).LoggedErrors) ∧
    (∀ c, c ∈ (CopyStaticResources Ops Sig st (some SrcResourceCache)
        DstResourceCache).CopyResourceCalls → c.Resource ≠ r) ∧
    (∀ e, e ∈ (CopyStaticResources Ops Sig st (some SrcResourceCache)
        DstResourceCache).LoggedErrors → e.1 ≠ r) := by
  have hcalls : ∀ c, c ∈ (CopyStaticResources Ops Sig st (some SrcResourceCache)
      DstResourceCache).CopyResourceCalls → c.Resource ≠ r := by
    intro c hc hcr
    rw [copyStaticResources_some] at hc
    have h1 := (copyState_spec Ops Sig st SrcResourceCache DstResourceCache
      (Sig.GetResourceIndexRange .STATIC).2).1 r c.ArrInd
    rw [if_neg (fun h => h.2.2.1 ⟨hs, hi⟩)] at h1
    have hpos : 0 < List.countP (fun c' => decide (c'.Resource = r ∧ c'.ArrInd = c.ArrInd))
        (CopyStaticResourcesState Ops Sig st SrcResourceCache DstResourceCache
          (Sig.GetResourceIndexRange .STATIC).2).CopyResourceCalls :=
      List.countP_pos_iff.2 ⟨c, hc, by simp [hcr]⟩
    omega
  refine ⟨?_, hcalls, ?_⟩
  · rw [copyState_succ]
    exact copyStep_skip Ops Sig st SrcResourceCache _ r _ (Or.inr ⟨hs, hi⟩)
  · intro e he her
    have key := copyStaticResources_loggedErrors Ops Sig st (some SrcResourceCache)
      DstResourceCache
    rw [key] at he
    split at he
    · obtain ⟨c, hc, hce⟩ := List.mem_map.1 he
      have := hcalls c (List.mem_filter.1 hc).1
      rw [← hce] at her
      exact this her
    · cases he

/-! ## The unreachable branch of the classifier and the swap chain -/

/-- C24: for every resource kind other than constant buffer, texture SRV, buffer SRV, texture
UAV, buffer UAV, sampler and input attachment, `ShaderResourceTypeToRange` reaches `UNEXPECTED`
and returns the unknown range, which is none of the four valid ranges. -/
theorem ShaderResourceTypeToRange_unsupported_kind (t : SHADER_RESOURCE_TYPE)
    (h1 : t ≠ .CONSTANT_BUFFER) (h2 : t ≠ .TEXTURE_SRV) (h3 : t ≠ .BUFFER_SRV)
    (h4 : t ≠ .TEXTURE_UAV) (h5 : t ≠ .BUFFER_UAV) (h6 : t ≠ .SAMPLER)
    (h7 : t ≠ .INPUT_ATTACHMENT) :
    ShaderResourceTypeToRangeWithUnexpected t = (.UNKNOWN, true) ∧
    ShaderResourceTypeToRange t = .UNKNOWN ∧
    (ShaderResourceTypeToRangeWithUnexpected t).1 = ShaderResourceTypeToRange t ∧
    ShaderResourceTypeToRange t ≠ .CBV ∧ ShaderResourceTypeToRange t ≠ .SRV ∧
    ShaderResourceTypeToRange t ≠ .SAMPLER ∧ ShaderResourceTypeToRange t ≠ .UAV := by
  cases t <;> first
    | exact absurd rfl h1
    | exact absurd rfl h2
    | exact absurd rfl h3
    | exact absurd rfl h4
    | exact absurd rfl h5
    | exact absurd rfl h6
    | exact absurd rfl h7
    | exact ⟨rfl, rfl, rfl, by decide, by decide, by decide, by decide⟩

/-- C26: whatever pretransform is desired when the pretransform block of the constructor of
`SwapChainGLImpl` runs, afterwards the desired pretransform is `OPTIMAL` and the pretransform of
the swap chain description is `IDENTITY`; a warning is logged exactly when the desired
pretransform was neither `OPTIMAL` nor `IDENTITY`, and the block finishes in either case. -/
theorem SwapChainGLImpl_pretransform (sc : SwapChainGLImpl) :
    sc.SetPreTransform.m_DesiredPreTransform = .OPTIMAL ∧
    sc.SetPreTransform.m_SwapChainDesc.PreTransform = .IDENTITY ∧
    (sc.m_DesiredPreTransform ≠ .OPTIMAL ∧ sc.m_DesiredPreTransform ≠ .IDENTITY →
      sc.SetPreTransform.Warnings =
        sc.Warnings ++ [.PreTransformNotAllowed sc.m_DesiredPreTransform]) ∧
    (sc.m_DesiredPreTransform = .OPTIMAL ∨ sc.m_DesiredPreTransform = .IDENTITY →
      sc.SetPreTransform.Warnings = sc.Warnings) ∧
    (∀ SCDesc : SwapChainDesc,
      ((SwapChainGLImpl.fromDesc SCDesc).SetPreTransform.Warnings =
          [.PreTransformNotAllowed SCDesc.PreTransform] ↔
        SCDesc.PreTransform ≠ .OPTIMAL ∧ SCDesc.PreTransform ≠ .IDENTITY) ∧
      ((SwapChainGLImpl.fromDesc SCDesc).SetPreTransform.Warnings = [] ↔
        SCDesc.PreTransform = .OPTIMAL ∨ SCDesc.PreTransform = .IDENTITY)) := by
  refine ⟨rfl, rfl, ?_, ?_, ?_⟩
  · intro h
    show (if _ then _ else _) = _
    rw [if_pos h]
  · intro h
    show (if _ then _ else _) = _
    rw [if_neg]
    rintro ⟨h1, h2⟩
    rcases h with h | h
    · exact h1 h
    · exact h2 h
  · intro SCDesc
    cases SCDesc with
    | mk t =>
      cases t <;> simp [SwapChainGLImpl.fromDesc, SwapChainGLImpl.SetPreTransform]

/-! ## The end-to-end example, assigned samplers and the counter width -/

theorem endToEnd_hidden_stage (s : Nat) (hs : 2 ≤ s) :
    (EndToEndSignature.m_Desc.GetResourceDesc 0).ShaderStages.testBit s = false ∧
    (EndToEndSignature.m_Desc.GetResourceDesc 1).ShaderStages.testBit s = false := by
  have h2 : (2 : Nat) ^ 2 ≤ 2 ^ s := Nat.pow_le_pow_right (by decide) hs
  have e0 : (EndToEndSignature.m_Desc.GetResourceDesc 0).ShaderStages = 3 := by decide
  have e1 : (EndToEndSignature.m_Desc.GetResourceDesc 1).ShaderStages = 2 := by decide
  rw [e0, e1]
  exact ⟨Nat.testBit_lt_two_pow (by omega), Nat.testBit_lt_two_pow (by omega)⟩

/-- C22: the end-to-end example. For one static constant buffer (vertex and pixel stage, array
size 1) and one sampler (pixel stage, array size 1) that matches an immutable sampler of the
pixel stage, `CreateLayout` gives the constant buffer CBV slot 0 in the vertex stage and in the
pixel stage, gives the sampler the bind points of the immutable sampler (sampler slot 0 in the
pixel stage) with the sampler counter of the pixel stage at 1 before and after the sampler, and
ends with static counters 1 for CBV in the vertex stage, 1 for CBV in the pixel stage and 0
everywhere else. -/
theorem end_to_end_example_layout (Uninit : Nat → PipelineResourceAttribsD3D11) :
    (((FreshLayout EndToEndSignature Uninit).m_pResourceAttribs 0).BindPoints.Bindings VSInd =
        0 ∧
      ((FreshLayout EndToEndSignature Uninit).m_pResourceAttribs 0).BindPoints.Bindings PSInd =
        0) ∧
    (((FreshLayout EndToEndSignature Uninit).m_pResourceAttribs 1).BindPoints =
        ((FreshLayout EndToEndSignature Uninit).m_pImmutableSamplerAttribs 0).BindPoints ∧
      ((FreshLayout EndToEndSignature Uninit).m_pResourceAttribs 1).BindPoints.Bindings PSInd =
        0 ∧
      ((FreshLayout EndToEndSignature Uninit).m_pResourceAttribs 1).BindPoints.IsStageActive
        PSInd = true) ∧
    ((ResourcesState EndToEndSignature false (LayoutState.fresh Uninit) 1).m_ResourceCounters
        .SAMPLER PSInd = 1 ∧
      (ResourcesState EndToEndSignature false (LayoutState.fresh Uninit) 2).m_ResourceCounters
        .SAMPLER PSInd = 1 ∧
      (FreshLayout EndToEndSignature Uninit).m_ResourceCounters .SAMPLER PSInd = 1) ∧
    (∀ r s, (FreshLayout EndToEndSignature Uninit).StaticResCounters r s =
      if r = .CBV ∧ (s = VSInd ∨ s = PSInd) then 1 else 0) := by
  have hN : EndToEndSignature.m_Desc.NumResources = 2 := rfl
  obtain ⟨_, hbp, hc2, hs2, _⟩ := fresh_state EndToEndSignature Uninit 2 (by decide)
  obtain ⟨_, _, hc1, _⟩ := fresh_state EndToEndSignature Uninit 1 (by decide)
  have hd0 : ImmutableSamplerIndOf EndToEndSignature 0 = none := by decide
  have hd1 : ImmutableSamplerIndOf EndToEndSignature 1 = some 0 := by decide
  have hb0 := fresh_bindPoints_direct EndToEndSignature Uninit 0 (by decide) hd0
  have hb1 := fresh_bindPoints_reuse EndToEndSignature Uninit 1 0 (by decide) hd1
  have hi0 : ((FreshLayout EndToEndSignature Uninit).m_pImmutableSamplerAttribs 0).BindPoints =
      ImmutableSamplerBindPointsOf EndToEndSignature (FreshArraySize EndToEndSignature) 0 := by
    have := hbp 0
    exact this
  refine ⟨⟨?_, ?_⟩, ⟨hb1, ?_, ?_⟩, ⟨?_, ?_, ?_⟩, ?_⟩
  · rw [hb0]; decide
  · rw [hb0]; decide
  · rw [hb1, hi0]; decide
  · rw [hb1, hi0]; decide
  · rw [hc1]; decide
  · rw [hc2]; decide
  · exact (hc2 _ _).trans (by decide)
  · intro r s
    have hS : (FreshLayout EndToEndSignature Uninit).StaticResCounters r s =
        StaticCounterOf EndToEndSignature (FreshArraySize EndToEndSignature) r s 2 := hs2 r s
    rw [hS]
    by_cases hs : s < 2
    · interval_cases s <;> cases r <;> decide
    · obtain ⟨h0, h1⟩ := endToEnd_hidden_stage s (by omega)
      have hne : ¬ (r = D3D11_RESOURCE_RANGE.CBV ∧ (s = VSInd ∨ s = PSInd)) := by
        rintro ⟨_, h | h⟩
        · rw [h] at hs; exact hs (by decide)
        · rw [h] at hs; exact hs (by decide)
      rw [if_neg hne]
      simp [StaticCounterOf, h0, h1]

/-- C25 (amended): after `CreateLayout` on a fresh signature, for every texture SRV `i` whose
assigned sampler `a` is resolved to immutable sampler `k`, the array size of immutable sampler
`k` is at least the array size of the sampler resource `a`; the texture records `a` as its
sampler index and has the immutable sampler flag set. -/
theorem immutable_sampler_array_size_covers_assigned_sampler
    (Sig : PipelineResourceSignatureD3D11Impl) (Uninit : Nat → PipelineResourceAttribsD3D11)
    (i a k : Nat) (hi : i < Sig.m_Desc.NumResources)
    (ht : (Sig.m_Desc.GetResourceDesc i).ResourceType = .TEXTURE_SRV)
    (ha : Sig.FindAssignedSampler (Sig.m_Desc.GetResourceDesc i) = some a)
    (haN : a < Sig.m_Desc.NumResources) (hk : ImmutableSamplerIndOf Sig a = some k) :
    (Sig.m_Desc.GetResourceDesc a).ArraySize ≤
        ((FreshLayout Sig Uninit).m_pImmutableSamplerAttribs k).ArraySize ∧
      ((FreshLayout Sig Uninit).m_pResourceAttribs i).SamplerInd = some a ∧
      ((FreshLayout Sig Uninit).m_pResourceAttribs i).IsImmutableSamplerAssigned = true := by
  obtain ⟨hA, _, hR⟩ := fresh_final Sig Uninit
  refine ⟨?_, ?_, ?_⟩
  · rw [hA k]
    exact (raised_spec Sig k _ Sig.m_Desc.NumResources).2.1 a haN hk
  · rw [hR i hi]
    simp [ComputedAttribs, AssignedSamplerIndOf, ht, ha]
  · rw [hR i hi]
    simp [PipelineResourceAttribsD3D11.IsImmutableSamplerAssigned, ComputedAttribs,
      SrcImmutableSamplerInd, SrcImmutableSamplerIndOf, ht, ha, haN, hk]

theorem freshArraySize_pos (Sig : PipelineResourceSignatureD3D11Impl) (k : Nat) :
    1 ≤ FreshArraySize Sig k :=
  (raised_spec Sig k ImmutableSamplerAttribsD3D11.fresh.ArraySize Sig.m_Desc.NumResources).1

/-- C30: after fresh construction the counter of (`R`, `s`) after `n` resources is the sum of
the array sizes allocated there modulo `2 ^ 8`; when the sum over all resources fits the 8-bit
counter, no counter wraps: every counter on the way and the final counter equal the exact sums,
every assigned slot equals the exact sum of the array sizes allocated before it, and no slot of
an immutable sampler or of a resource with an array size of at least 1 equals the sentinel. -/
theorem counters_exact_within_width (Sig : PipelineResourceSignatureD3D11Impl)
    (Uninit : Nat → PipelineResourceAttribsD3D11) (R : D3D11_RESOURCE_RANGE) (s : Nat) :
    (∀ n, n ≤ Sig.m_Desc.NumResources →
      (ResourcesState Sig false (LayoutState.fresh Uninit) n).m_ResourceCounters R s =
        (ImmutableSamplerTotal Sig (FreshArraySize Sig) R s +
          sumTo (ResourceSlots Sig R s) n) % 2 ^ CounterBits) ∧
    (ImmutableSamplerTotal Sig (FreshArraySize Sig) R s +
        sumTo (ResourceSlots Sig R s) Sig.m_Desc.NumResources < 2 ^ CounterBits →
      (∀ n, n ≤ Sig.m_Desc.NumResources →
        (ResourcesState Sig false (LayoutState.fresh Uninit) n).m_ResourceCounters R s =
          ImmutableSamplerTotal Sig (FreshArraySize Sig) R s +
            sumTo (ResourceSlots Sig R s) n) ∧
      (FreshLayout Sig Uninit).m_ResourceCounters R s =
        ImmutableSamplerTotal Sig (FreshArraySize Sig) R s +
          sumTo (ResourceSlots Sig R s) Sig.m_Desc.NumResources ∧
      (∀ i, i < Sig.m_Desc.NumResources → ImmutableSamplerIndOf Sig i = none →
        ShaderResourceTypeToRange (Sig.m_Desc.GetResourceDesc i).ResourceType = R →
        (Sig.m_Desc.GetResourceDesc i).ShaderStages.testBit s = true →
        ((FreshLayout Sig Uninit).m_pResourceAttribs i).BindPoints.Bindings s =
            ImmutableSamplerTotal Sig (FreshArraySize Sig) R s +
              sumTo (ResourceSlots Sig R s) i ∧
          (1 ≤ (Sig.m_Desc.GetResourceDesc i).ArraySize →
            ((FreshLayout Sig Uninit).m_pResourceAttribs i).BindPoints.Bindings s ≠
              InvalidBindPoint)) ∧
      (R = .SAMPLER → ∀ k, k < Sig.m_Desc.NumImmutableSamplers →
        (Sig.m_Desc.GetImmutableSamplerDesc k).ShaderStages.testBit s = true →
        ((FreshLayout Sig Uninit).m_pImmutableSamplerAttribs k).BindPoints.Bindings s =
            sumTo (ImmutableSamplerSlots Sig (FreshArraySize Sig) s) k ∧
          ((FreshLayout Sig Uninit).m_pImmutableSamplerAttribs k).BindPoints.Bindings s ≠
            InvalidBindPoint)) := by
  have h256 : (2 : Nat) ^ CounterBits = 256 := by decide
  have h255 : InvalidBindPoint = 255 := rfl
  constructor
  · intro n hn
    obtain ⟨_, _, c, _⟩ := fresh_state Sig Uninit n hn
    exact c R s
  · intro h
    obtain ⟨e1, e2, e3⟩ := fresh_exact Sig Uninit R s h
    refine ⟨e1, e1 _ (Nat.le_refl _), ?_, ?_⟩
    · intro i hi hd hr ht
      obtain ⟨hb, hw⟩ := e2 i hi hd hr ht
      refine ⟨hb, ?_⟩
      intro hsz
      have := sumTo_step_le (ResourceSlots Sig R s) i _ hi
      rw [hb]
      omega
    · intro hR k hk ht
      obtain ⟨hb, hw⟩ := e3 hR k hk ht
      refine ⟨hb, ?_⟩
      have hpos := freshArraySize_pos Sig k
      have hslots : ImmutableSamplerSlots Sig (FreshArraySize Sig) s k = FreshArraySize Sig k := by
        simp [ImmutableSamplerSlots, ht]
      have := sumTo_step_le (ImmutableSamplerSlots Sig (FreshArraySize Sig) s) k _ hk
      have hT : ImmutableSamplerTotal Sig (FreshArraySize Sig) R s =
          sumTo (ImmutableSamplerSlots Sig (FreshArraySize Sig) s)
            Sig.m_Desc.NumImmutableSamplers := by
        simp [ImmutableSamplerTotal, hR]
      rw [hb]
      omega

/-! ## The failed assertions of the resource loop -/

/-- The failures a step may add beside the two this development tracks one by one. -/
theorem dynLoop_failures (i : Nat) (bp : D3D11ResourceBindPoints) (ShaderInd : Nat) :
    ∀ (A : Nat) (acc : (Nat → Nat) × List VerifyFailure),
      ∃ L, (forLoop
          (fun elem (acc : (Nat → Nat) × List VerifyFailure) =>
            ((fun s =>
                if s = ShaderInd then
                  (acc.1 s ||| 1 <<< ((bp.Bindings ShaderInd + elem) % 32)) %
                    2 ^ DynamicCBSlotsMaskBits
                else acc.1 s),
              if bp.Bindings ShaderInd + elem < DynamicCBSlotsMaskBits then acc.2
              else acc.2 ++ [VerifyFailure.DynamicCBSlotOutOfRange i ShaderInd elem]))
          A acc).2 = acc.2 ++ L ∧
        ∀ f, f ∈ L → ∃ s e, f = VerifyFailure.DynamicCBSlotOutOfRange i s e := by
  intro A
  induction A with
  | zero => intro acc; exact ⟨[], by simp [forLoop], by simp⟩
  | succ A ih =>
    intro acc
    obtain ⟨L, hL, hf⟩ := ih acc
    simp only [forLoop]
    by_cases hc : bp.Bindings ShaderInd + A < DynamicCBSlotsMaskBits
    · rw [if_pos hc]
      exact ⟨L, hL, hf⟩
    · rw [if_neg hc, hL]
      refine ⟨L ++ [VerifyFailure.DynamicCBSlotOutOfRange i ShaderInd A], by simp, ?_⟩
      intro f hfm
      rcases List.mem_append.1 hfm with h | h
      · exact hf f h
      · exact ⟨ShaderInd, A, by simpa using h⟩

theorem dynFold_failures (i : Nat) (bp : D3D11ResourceBindPoints) (A : Nat) (Ls : List Nat) :
    ∀ (acc : (Nat → Nat) × List VerifyFailure),
      ∃ L, (Ls.foldl (fun (acc : (Nat → Nat) × List VerifyFailure) ShaderInd =>
          forLoop (fun elem (acc : (Nat → Nat) × List VerifyFailure) =>
            ((fun s =>
                if s = ShaderInd then
                  (acc.1 s ||| 1 <<< ((bp.Bindings ShaderInd + elem) % 32)) %
                    2 ^ DynamicCBSlotsMaskBits
                else acc.1 s),
              if bp.Bindings ShaderInd + elem < DynamicCBSlotsMaskBits then acc.2
              else acc.2 ++ [VerifyFailure.DynamicCBSlotOutOfRange i ShaderInd elem]))
            A acc) acc).2 = acc.2 ++ L ∧
        ∀ f, f ∈ L → ∃ s e, f = VerifyFailure.DynamicCBSlotOutOfRange i s e := by
  induction Ls with
  | nil => intro acc; exact ⟨[], by simp, by simp⟩
  | cons x rest ih =>
    intro acc
    obtain ⟨L1, h1, hf1⟩ := dynLoop_failures i bp x A acc
    obtain ⟨L2, h2, hf2⟩ := ih (forLoop (fun elem (acc : (Nat → Nat) × List VerifyFailure) =>
            ((fun s =>
                if s = x then
                  (acc.1 s ||| 1 <<< ((bp.Bindings x + elem) % 32)) %
                    2 ^ DynamicCBSlotsMaskBits
                else acc.1 s),
              if bp.Bindings x + elem < DynamicCBSlotsMaskBits then acc.2
              else acc.2 ++ [VerifyFailure.DynamicCBSlotOutOfRange i x elem]))
            A acc)
    refine ⟨L1 ++ L2, ?_, ?_⟩
    · rw [List.foldl_cons, h2, h1, List.append_assoc]
    · intro f hfm
      rcases List.mem_append.1 hfm with h | h
      · exact hf1 f h
      · exact hf2 f h

theorem setDynamicCBSlots_failures (i : Nat) (bp : D3D11ResourceBindPoints) (M A : Nat)
    (Mask : Nat → Nat) (F : List VerifyFailure) :
    ∃ L, (SetDynamicCBSlots i bp M A Mask F).2 = F ++ L ∧
      ∀ f, f ∈ L → ∃ s e, f = VerifyFailure.DynamicCBSlotOutOfRange i s e := by
  unfold SetDynamicCBSlots
  rw [forEachStage_eq_foldl]
  exact dynFold_failures i bp A (stagesOf M) (Mask, F)

theorem allocateResource_failures (i : Nat) (d : PipelineResourceDesc) (st : LayoutState) :
    ∃ L, (AllocateResource i d st).1.VerifyFailures = st.VerifyFailures ++ L ∧
      ∀ f, f ∈ L → ∃ s e, f = VerifyFailure.DynamicCBSlotOutOfRange i s e := by
  unfold AllocateResource
  simp only []
  split
  · exact setDynamicCBSlots_failures _ _ _ _ _ _
  · exact ⟨[], by simp, by simp⟩

theorem storeOrCheck_failures (b : Bool) (i : Nat) (bp : D3D11ResourceBindPoints)
    (a s : Option Nat) (st : LayoutState) :
    (StoreOrCheckAttribs b i bp a s st).VerifyFailures = st.VerifyFailures := by
  unfold StoreOrCheckAttribs
  split <;> rfl

/-- The failures one iteration of the resource loop adds: the two head checks, then either
out-of-range slots of the dynamic-buffer mask or the two checks of the reuse branch. -/
theorem resourceStep_failures (Sig : PipelineResourceSignatureD3D11Impl) (b : Bool) (i : Nat)
    (st : LayoutState) :
    ∃ L, (CreateLayoutResourceStep Sig b i st).VerifyFailures =
        ((st.VerifyFailures ++
          (if i = 0 ∨ (Sig.m_Desc.GetResourceDesc (i - 1)).VarType.toNat ≤
              (Sig.m_Desc.GetResourceDesc i).VarType.toNat then []
            else [VerifyFailure.NotSortedByVarType i])) ++
          (if (Sig.m_Desc.GetResourceDesc i).ResourceType = .TEXTURE_SRV ∧
              st.ResourceToImmutableSamplerInd i ≠ none then
              [VerifyFailure.TexSRVHasImmutableSampler i]
            else [])) ++ L ∧
      ((∀ f, f ∈ L → ∃ s e, f = VerifyFailure.DynamicCBSlotOutOfRange i s e) ∨
        ∃ k, (Sig.m_Desc.GetResourceDesc i).ResourceType = .SAMPLER ∧
          SrcImmutableSamplerIndOf Sig st.ResourceToImmutableSamplerInd i = some k ∧
          L = (if AssignedSamplerIndOf Sig i = none then []
              else [VerifyFailure.SamplerAssignedToSampler i]) ++
            (if (st.m_pImmutableSamplerAttribs k).BindPoints.IsEmpty then
              [VerifyFailure.EmptyBindPoints i] else [])) := by
  unfold CreateLayoutResourceStep
  simp only []
  rw [storeOrCheck_failures]
  unfold ResourceBindPointsStep
  have hhead : (VerifyResourceHead Sig i st).ResourceToImmutableSamplerInd =
      st.ResourceToImmutableSamplerInd := rfl
  rw [hhead]
  have hVF : (VerifyResourceHead Sig i st).VerifyFailures =
      (st.VerifyFailures ++
          (if i = 0 ∨ (Sig.m_Desc.GetResourceDesc (i - 1)).VarType.toNat ≤
              (Sig.m_Desc.GetResourceDesc i).VarType.toNat then []
            else [VerifyFailure.NotSortedByVarType i])) ++
          (if (Sig.m_Desc.GetResourceDesc i).ResourceType = .TEXTURE_SRV ∧
              st.ResourceToImmutableSamplerInd i ≠ none then
              [VerifyFailure.TexSRVHasImmutableSampler i]
            else []) := rfl
  cases hs : SrcImmutableSamplerIndOf Sig st.ResourceToImmutableSamplerInd i with
  | none =>
    simp only []
    obtain ⟨L, hL, hf⟩ := allocateResource_failures i (Sig.m_Desc.GetResourceDesc i)
      (VerifyResourceHead Sig i st)
    exact ⟨L, by rw [hL, hVF], Or.inl hf⟩
  | some k =>
    simp only []
    by_cases ht : (Sig.m_Desc.GetResourceDesc i).ResourceType = .SAMPLER
    · rw [if_pos ht]
      refine ⟨_, ?_, Or.inr ⟨k, ht, rfl, rfl⟩⟩
      show ((VerifyResourceHead Sig i st).VerifyFailures ++ _) ++ _ = _
      rw [hVF, List.append_assoc]
      rfl
    · rw [if_neg ht]
      obtain ⟨L, hL, hf⟩ := allocateResource_failures i (Sig.m_Desc.GetResourceDesc i)
        (VerifyResourceHead Sig i st)
      exact ⟨L, by rw [hL, hVF], Or.inl hf⟩

theorem resourceStep_notSorted (Sig : PipelineResourceSignatureD3D11Impl) (b : Bool) (i : Nat)
    (st : LayoutState) (j : Nat) :
    VerifyFailure.NotSortedByVarType j ∈ (CreateLayoutResourceStep Sig b i st).VerifyFailures ↔
      VerifyFailure.NotSortedByVarType j ∈ st.VerifyFailures ∨
        (j = i ∧ ¬ (i = 0 ∨ (Sig.m_Desc.GetResourceDesc (i - 1)).VarType.toNat ≤
          (Sig.m_Desc.GetResourceDesc i).VarType.toNat)) := by
  obtain ⟨L, hL, hcase⟩ := resourceStep_failures Sig b i st
  rw [hL]
  have hnL : VerifyFailure.NotSortedByVarType j ∉ L := by
    intro hm
    rcases hcase with hf | ⟨k, _, _, hk⟩
    · obtain ⟨s, e, he⟩ := hf _ hm
      cases he
    · rw [hk] at hm
      rcases List.mem_append.1 hm with h | h
      · split at h <;> simp at h
      · split at h <;> simp at h
  have hnT : VerifyFailure.NotSortedByVarType j ∉
      (if (Sig.m_Desc.GetResourceDesc i).ResourceType = .TEXTURE_SRV ∧
          st.ResourceToImmutableSamplerInd i ≠ none then
          [VerifyFailure.TexSRVHasImmutableSampler i]
        else []) := by
    intro h
    split at h <;> simp at h
  simp only [List.mem_append, hnL, hnT, or_false]
  by_cases hc : i = 0 ∨ (Sig.m_Desc.GetResourceDesc (i - 1)).VarType.toNat ≤
      (Sig.m_Desc.GetResourceDesc i).VarType.toNat
  · simp [hc]
  · simp [hc]

theorem resourceStep_emptyBindPoints (Sig : PipelineResourceSignatureD3D11Impl) (b : Bool)
    (i : Nat) (st : LayoutState) (j : Nat)
    (h : VerifyFailure.EmptyBindPoints j ∈ (CreateLayoutResourceStep Sig b i st).VerifyFailures) :
    VerifyFailure.EmptyBindPoints j ∈ st.VerifyFailures ∨
      (j = i ∧ (Sig.m_Desc.GetResourceDesc i).ResourceType = .SAMPLER ∧
        ∃ k, SrcImmutableSamplerIndOf Sig st.ResourceToImmutableSamplerInd i = some k ∧
          (st.m_pImmutableSamplerAttribs k).BindPoints.IsEmpty = true) := by
  obtain ⟨L, hL, hcase⟩ := resourceStep_failures Sig b i st
  rw [hL] at h
  rcases List.mem_append.1 h with h | h
  · rcases List.mem_append.1 h with h | h
    · rcases List.mem_append.1 h with h | h
      · exact Or.inl h
      · split at h <;> simp at h
    · split at h <;> simp at h
  · rcases hcase with hf | ⟨k, ht, hs, hk⟩
    · obtain ⟨s, e, he⟩ := hf _ h
      cases he
    · rw [hk] at h
      rcases List.mem_append.1 h with h | h
      · split at h <;> simp at h
      · by_cases hE : (st.m_pImmutableSamplerAttribs k).BindPoints.IsEmpty = true
        · rw [if_pos hE] at h
          simp only [List.mem_singleton, VerifyFailure.EmptyBindPoints.injEq] at h
          exact Or.inr ⟨h, ht, k, hs, hE⟩
        · rw [if_neg hE] at h
          simp at h

theorem immState_failures (Sig : PipelineResourceSignatureD3D11Impl) (b : Bool)
    (st : LayoutState) : ∀ n,
    (ImmutableSamplersState Sig b st n).VerifyFailures = st.VerifyFailures := by
  intro n
  induction n with
  | zero => exact (resolvedState_spec Sig st _).2.2.2.2.2.1
  | succ n ih =>
    show (AllocImmutableSamplerStep Sig b n (ImmutableSamplersState Sig b st n)).VerifyFailures = _
    unfold AllocImmutableSamplerStep
    simp only []
    split <;> exact ih

theorem resourcesState_succ (Sig : PipelineResourceSignatureD3D11Impl) (b : Bool)
    (st : LayoutState) (n : Nat) :
    ResourcesState Sig b st (n + 1) =
      CreateLayoutResourceStep Sig b n (ResourcesState Sig b st n) := rfl

theorem resourcesState_notSorted (Sig : PipelineResourceSignatureD3D11Impl) (b : Bool)
    (st : LayoutState) (j : Nat) : ∀ n,
    VerifyFailure.NotSortedByVarType j ∈ (ResourcesState Sig b st n).VerifyFailures ↔
      VerifyFailure.NotSortedByVarType j ∈ st.VerifyFailures ∨
        (j < n ∧ ¬ (j = 0 ∨ (Sig.m_Desc.GetResourceDesc (j - 1)).VarType.toNat ≤
          (Sig.m_Desc.GetResourceDesc j).VarType.toNat)) := by
  intro n
  induction n with
  | zero =>
    show _ ∈ (ImmutableSamplersState Sig b st _).VerifyFailures ↔ _
    rw [immState_failures]
    constructor
    · intro h; exact Or.inl h
    · rintro (h | ⟨h, _⟩)
      · exact h
      · exact absurd h (Nat.not_lt_zero _)
  | succ n ih =>
    rw [resourcesState_succ, resourceStep_notSorted, ih]
    constructor
    · rintro ((h | ⟨h1, h2⟩) | ⟨h1, h2⟩)
      · exact Or.inl h
      · exact Or.inr ⟨by omega, h2⟩
      · subst h1; exact Or.inr ⟨Nat.lt_succ_self _, h2⟩
    · rintro (h | ⟨h1, h2⟩)
      · exact Or.inl (Or.inl h)
      · by_cases hjn : j = n
        · subst hjn; exact Or.inr ⟨rfl, h2⟩
        · exact Or.inl (Or.inr ⟨by omega, h2⟩)

/-- C29: the ordering check of `CreateLayout` fails at resource `i` exactly when `i > 0` and
the variable type of `i` is below the variable type of resource `i - 1`; for resources sorted by
variable type it never fails; the resources are processed in the supplied order and never
sorted again: iteration `n` handles resource `n`, and the slot of a directly allocated resource
counts the resources before it in the supplied order, whether sorted or not. -/
theorem sort_check_fails_iff_unsorted (Sig : PipelineResourceSignatureD3D11Impl)
    (IsSerialized : Bool) (st : LayoutState) (Uninit : Nat → PipelineResourceAttribsD3D11) :
    (∀ i, VerifyFailure.NotSortedByVarType i ∈
        (CreateLayout Sig IsSerialized st).VerifyFailures ↔
      VerifyFailure.NotSortedByVarType i ∈ st.VerifyFailures ∨
        (i < Sig.m_Desc.NumResources ∧ 0 < i ∧
          (Sig.m_Desc.GetResourceDesc i).VarType.toNat <
            (Sig.m_Desc.GetResourceDesc (i - 1)).VarType.toNat)) ∧
    (SortedByVarType Sig →
      ∀ i, VerifyFailure.NotSortedByVarType i ∈
          (CreateLayout Sig IsSerialized st).VerifyFailures →
        VerifyFailure.NotSortedByVarType i ∈ st.VerifyFailures) ∧
    (∀ n, ResourcesState Sig IsSerialized st (n + 1) =
      CreateLayoutResourceStep Sig IsSerialized n (ResourcesState Sig IsSerialized st n)) ∧
    (∀ i s, i < Sig.m_Desc.NumResources → ImmutableSamplerIndOf Sig i = none →
      (Sig.m_Desc.GetResourceDesc i).ShaderStages.testBit s = true →
      ((FreshLayout Sig Uninit).m_pResourceAttribs i).BindPoints.Bindings s =
        (ImmutableSamplerTotal Sig (FreshArraySize Sig)
            (ShaderResourceTypeToRange (Sig.m_Desc.GetResourceDesc i).ResourceType) s +
          sumTo (ResourceSlots Sig
            (ShaderResourceTypeToRange (Sig.m_Desc.GetResourceDesc i).ResourceType) s) i) %
          2 ^ CounterBits) := by
  have key : ∀ i, VerifyFailure.NotSortedByVarType i ∈
        (CreateLayout Sig IsSerialized st).VerifyFailures ↔
      VerifyFailure.NotSortedByVarType i ∈ st.VerifyFailures ∨
        (i < Sig.m_Desc.NumResources ∧ 0 < i ∧
          (Sig.m_Desc.GetResourceDesc i).VarType.toNat <
            (Sig.m_Desc.GetResourceDesc (i - 1)).VarType.toNat) := by
    intro i
    have h := resourcesState_notSorted Sig IsSerialized st i Sig.m_Desc.NumResources
    show _ ∈ (ResourcesState Sig IsSerialized st Sig.m_Desc.NumResources).VerifyFailures ↔ _
    rw [h]
    constructor
    · rintro (h | ⟨h1, h2⟩)
      · exact Or.inl h
      · exact Or.inr ⟨h1, by omega, by omega⟩
    · rintro (h | ⟨h1, h2, h3⟩)
      · exact Or.inl h
      · exact Or.inr ⟨h1, by omega⟩
  refine ⟨key, ?_, fun _ => rfl, ?_⟩
  · intro hs i hi
    rcases (key i).1 hi with h | ⟨h1, h2, h3⟩
    · exact h
    · rcases hs i h1 with h0 | hle
      · omega
      · omega
  · intro i s hi hd ht
    rw [fresh_bindPoints_direct Sig Uninit i hi hd]
    simp [ResourceBindPointsOf, ht]

theorem findFrom_overlap (uc : Bool) (suf : String) (M : Nat) (name : String) :
    ∀ (l : List ImmutableSamplerDesc) (s0 k : Nat),
      FindImmutableSamplerFrom uc suf M name l s0 = some k →
        (l.getD (k - s0) default).ShaderStages &&& M ≠ 0 := by
  intro l
  induction l with
  | nil => intro s0 k h; simp [FindImmutableSamplerFrom] at h
  | cons Sam rest ih =>
    intro s0 k h
    unfold FindImmutableSamplerFrom at h
    split at h
    · rename_i hc
      simp only [Option.some.injEq] at h
      subst h
      simpa using hc.1
    · have hb := findFrom_bounds uc suf M name rest (s0 + 1) k h
      have := ih _ _ h
      have e : k - s0 = (k - (s0 + 1)) + 1 := by omega
      rw [e, List.getD_cons_succ]
      exact this

theorem findFrom_zero (uc : Bool) (suf : String) (name : String) :
    ∀ (l : List ImmutableSamplerDesc) (s0 : Nat),
      FindImmutableSamplerFrom uc suf 0 name l s0 = none := by
  intro l
  induction l with
  | nil => intro s0; rfl
  | cons Sam rest ih =>
    intro s0
    unfold FindImmutableSamplerFrom
    rw [if_neg]
    · exact ih _
    · rintro ⟨h, _⟩
      exact h (Nat.and_zero _)

theorem immutableSamplerIndOf_stages (Sig : PipelineResourceSignatureD3D11Impl) (i k : Nat)
    (h : ImmutableSamplerIndOf Sig i = some k) :
    (Sig.m_Desc.GetImmutableSamplerDesc k).ShaderStages &&&
      (Sig.m_Desc.GetResourceDesc i).ShaderStages ≠ 0 := by
  unfold ImmutableSamplerIndOf at h
  split at h
  · have := findFrom_overlap _ _ _ _ _ _ _ h
    rw [Nat.sub_zero] at this
    exact this
  · cases h

theorem immutableSamplerIndOf_empty_mask (Sig : PipelineResourceSignatureD3D11Impl) (i : Nat)
    (h : (Sig.m_Desc.GetResourceDesc i).ShaderStages = SHADER_TYPE_UNKNOWN) :
    ImmutableSamplerIndOf Sig i = none := by
  unfold ImmutableSamplerIndOf
  split
  · rw [h]
    exact findFrom_zero _ _ _ _ _
  · rfl

theorem and_ne_zero_left (a b : Nat) (h : a &&& b ≠ 0) : a ≠ 0 := by
  intro ha
  rw [ha, Nat.zero_and] at h
  exact h rfl

theorem fresh_immutableSampler_nonempty (Sig : PipelineResourceSignatureD3D11Impl)
    (U : Nat → PipelineResourceAttribsD3D11) (i k n : Nat)
    (hn : n ≤ Sig.m_Desc.NumResources) (h : ImmutableSamplerIndOf Sig i = some k) :
    ((ResourcesState Sig false (LayoutState.fresh U) n).m_pImmutableSamplerAttribs
        k).BindPoints.IsEmpty = false ∧
    ∃ s, ((ResourcesState Sig false (LayoutState.fresh U) n).m_pImmutableSamplerAttribs
        k).BindPoints.IsStageActive s = true ∧
      (Sig.m_Desc.GetResourceDesc i).ShaderStages.testBit s = true := by
  obtain ⟨_, hbp, _⟩ := fresh_state Sig U n hn
  have hk := immutableSamplerIndOf_lt Sig i k h
  have hB : ((ResourcesState Sig false (LayoutState.fresh U) n).m_pImmutableSamplerAttribs
      k).BindPoints = ImmutableSamplerBindPointsOf Sig (FreshArraySize Sig) k := by
    rw [hbp k, if_pos hk]
  rw [hB]
  have hov := immutableSamplerIndOf_stages Sig i k h
  constructor
  · have hne := and_ne_zero_left _ _ hov
    simp [D3D11ResourceBindPoints.IsEmpty, ImmutableSamplerBindPointsOf, SHADER_TYPE_UNKNOWN,
      hne]
  · obtain ⟨s, hs⟩ := (ne_zero_iff_exists_testBit _).1 hov
    rw [Nat.testBit_and, Bool.and_eq_true] at hs
    exact ⟨s, by simpa [D3D11ResourceBindPoints.IsStageActive, ImmutableSamplerBindPointsOf]
      using hs.1, hs.2⟩

theorem resourcesState_emptyBindPoints (Sig : PipelineResourceSignatureD3D11Impl) (b : Bool)
    (st : LayoutState) (j : Nat) : ∀ n,
    VerifyFailure.EmptyBindPoints j ∈ (ResourcesState Sig b st n).VerifyFailures →
      VerifyFailure.EmptyBindPoints j ∈ st.VerifyFailures ∨
        (j < n ∧ (Sig.m_Desc.GetResourceDesc j).ResourceType = .SAMPLER ∧
          ∃ k, SrcImmutableSamplerIndOf Sig
              (ResourcesState Sig b st j).ResourceToImmutableSamplerInd j = some k ∧
            ((ResourcesState Sig b st j).m_pImmutableSamplerAttribs k).BindPoints.IsEmpty =
              true) := by
  intro n
  induction n with
  | zero =>
    intro h
    have h' : _ ∈ (ImmutableSamplersState Sig b st _).VerifyFailures := h
    rw [immState_failures] at h'
    exact Or.inl h'
  | succ n ih =>
    intro h
    rw [resourcesState_succ] at h
    rcases resourceStep_emptyBindPoints Sig b n _ j h with h1 | ⟨h1, h2, h3⟩
    · rcases ih h1 with h0 | ⟨h0, hr⟩
      · exact Or.inl h0
      · exact Or.inr ⟨by omega, hr⟩
    · subst h1
      exact Or.inr ⟨Nat.lt_succ_self _, h2, h3⟩

/-- C27: on the fresh path the check that reused bind points are not empty never fails. A
sampler resource `i` resolved to immutable sampler `k` finds the bind points of `k` non-empty
when it is processed, its own bind-point table is non-empty, and some stage that is active in
it lies in the visibility masks of both the resource and the immutable sampler. -/
theorem reused_bind_points_are_not_empty (Sig : PipelineResourceSignatureD3D11Impl)
    (Uninit : Nat → PipelineResourceAttribsD3D11) :
    (∀ i, VerifyFailure.EmptyBindPoints i ∉ (FreshLayout Sig Uninit).VerifyFailures) ∧
    (∀ i k, i < Sig.m_Desc.NumResources → ImmutableSamplerIndOf Sig i = some k →
      ((ResourcesState Sig false (LayoutState.fresh Uninit) i).m_pImmutableSamplerAttribs
          k).BindPoints.IsEmpty = false ∧
        ((FreshLayout Sig Uninit).m_pResourceAttribs i).BindPoints.IsEmpty = false ∧
        ∃ s, ((FreshLayout Sig Uninit).m_pResourceAttribs i).BindPoints.IsStageActive s = true ∧
          (Sig.m_Desc.GetResourceDesc i).ShaderStages.testBit s = true ∧
          (Sig.m_Desc.GetImmutableSamplerDesc k).ShaderStages.testBit s = true) := by
  constructor
  · intro i hmem
    rcases resourcesState_emptyBindPoints Sig false (LayoutState.fresh Uninit) i
        Sig.m_Desc.NumResources hmem with h | ⟨hi, ht, k, hs, hE⟩
    · cases h
    · obtain ⟨_, hR, _⟩ := resState_spec Sig false (LayoutState.fresh Uninit) rfl i
        (Nat.le_of_lt hi)
      rw [srcInd_eq Sig _ i hR, srcInd_of_sampler Sig i hi ht] at hs
      have := (fresh_immutableSampler_nonempty Sig Uninit i k i (Nat.le_of_lt hi) hs).1
      rw [this] at hE
      cases hE
  · intro i k hi hk
    have h1 := fresh_immutableSampler_nonempty Sig Uninit i k i (Nat.le_of_lt hi) hk
    have h2 := fresh_immutableSampler_nonempty Sig Uninit i k Sig.m_Desc.NumResources
      (Nat.le_refl _) hk
    have hb := fresh_bindPoints_reuse Sig Uninit i k hi hk
    refine ⟨h1.1, ?_, ?_⟩
    · rw [hb]; exact h2.1
    · obtain ⟨s, hs1, hs2⟩ := h2.2
      refine ⟨s, by rw [hb]; exact hs1, hs2, ?_⟩
      obtain ⟨_, hbp, _⟩ := fresh_state Sig Uninit Sig.m_Desc.NumResources (Nat.le_refl _)
      have hkk := immutableSamplerIndOf_lt Sig i k hk
      have hB : ((ResourcesState Sig false (LayoutState.fresh Uninit)
          Sig.m_Desc.NumResources).m_pImmutableSamplerAttribs k).BindPoints =
          ImmutableSamplerBindPointsOf Sig (FreshArraySize Sig) k := by
        rw [hbp k, if_pos hkk]
      rw [hB] at hs1
      simpa [D3D11ResourceBindPoints.IsStageActive, ImmutableSamplerBindPointsOf] using hs1

theorem allocateResource_empty_mask (i : Nat) (d : PipelineResourceDesc) (st : LayoutState)
    (h : d.ShaderStages = SHADER_TYPE_UNKNOWN) :
    AllocateResource i d st = (st, D3D11ResourceBindPoints.empty) := by
  unfold AllocateResource AllocBindPoints RaiseStaticCounters SetDynamicCBSlots
  simp only [h, SHADER_TYPE_UNKNOWN, forEachStage_zero, ite_self]

/-- C21: a resource `i` with an empty visibility mask contributes no slots. For counters that
start at zero, on either path, the iteration of the resource loop for `i` leaves every main
counter, every static counter and the dynamic-buffer mask unchanged, and fails no assertion
other than the ordering check, which does not depend on the mask; after fresh construction the
bind-point table of `i` has no active stage (every stage holds the sentinel) and the layout is
built with no failed check. -/
theorem empty_mask_resource_allocates_nothing (Sig : PipelineResourceSignatureD3D11Impl)
    (IsSerialized : Bool) (st : LayoutState) (Uninit : Nat → PipelineResourceAttribsD3D11)
    (i : Nat) (hz : st.m_ResourceCounters = D3D11ShaderResourceCounters.zero)
    (hi : i < Sig.m_Desc.NumResources)
    (he : (Sig.m_Desc.GetResourceDesc i).ShaderStages = SHADER_TYPE_UNKNOWN) :
    ((ResourcesState Sig IsSerialized st (i + 1)).m_ResourceCounters =
        (ResourcesState Sig IsSerialized st i).m_ResourceCounters ∧
      (ResourcesState Sig IsSerialized st (i + 1)).StaticResCounters =
        (ResourcesState Sig IsSerialized st i).StaticResCounters ∧
      (ResourcesState Sig IsSerialized st (i + 1)).m_DynamicCBSlotsMask =
        (ResourcesState Sig IsSerialized st i).m_DynamicCBSlotsMask) ∧
    (ResourcesState Sig IsSerialized st (i + 1)).VerifyFailures =
      (ResourcesState Sig IsSerialized st i).VerifyFailures ++
        (if i = 0 ∨ (Sig.m_Desc.GetResourceDesc (i - 1)).VarType.toNat ≤
            (Sig.m_Desc.GetResourceDesc i).VarType.toNat then []
          else [VerifyFailure.NotSortedByVarType i]) ∧
    (((FreshLayout Sig Uninit).m_pResourceAttribs i).BindPoints.ActiveStages =
        SHADER_TYPE_UNKNOWN ∧
      ((FreshLayout Sig Uninit).m_pResourceAttribs i).BindPoints.IsEmpty = true ∧
      (∀ s, ((FreshLayout Sig Uninit).m_pResourceAttribs i).BindPoints.Bindings s =
          InvalidBindPoint ∧
        ((FreshLayout Sig Uninit).m_pResourceAttribs i).BindPoints.IsStageActive s = false) ∧
      (FreshLayout Sig Uninit).DevCheckErrors = []) := by
  have hd := immutableSamplerIndOf_empty_mask Sig i he
  obtain ⟨_, hR, _⟩ := resState_spec Sig IsSerialized st hz i (Nat.le_of_lt hi)
  have hstep : ResourceBindPointsStep Sig i
      (VerifyResourceHead Sig i (ResourcesState Sig IsSerialized st i)) =
      (VerifyResourceHead Sig i (ResourcesState Sig IsSerialized st i),
        D3D11ResourceBindPoints.empty) := by
    rw [bindPointsStep_direct Sig i
      (VerifyResourceHead Sig i (ResourcesState Sig IsSerialized st i)) hi (fun j => hR j) hd]
    exact allocateResource_empty_mask i _ _ he
  have hS : ResourcesState Sig IsSerialized st (i + 1) =
      StoreOrCheckAttribs IsSerialized i D3D11ResourceBindPoints.empty
        (AssignedSamplerIndOf Sig i)
        (SrcImmutableSamplerIndOf Sig
          (ResourcesState Sig IsSerialized st i).ResourceToImmutableSamplerInd i)
        (VerifyResourceHead Sig i (ResourcesState Sig IsSerialized st i)) := by
    rw [resourcesState_succ]
    unfold CreateLayoutResourceStep
    simp only []
    rw [hstep]
  refine ⟨?_, ?_, ?_⟩
  · rw [hS]
    unfold StoreOrCheckAttribs
    split <;> exact ⟨rfl, rfl, rfl⟩
  · rw [hS, storeOrCheck_failures]
    show (_ ++ _) ++ _ = _
    have hnone : (ResourcesState Sig IsSerialized st i).ResourceToImmutableSamplerInd i =
        none := by
      rw [hR i, if_pos hi, hd]
    rw [hnone]
    simp
  · have hb := fresh_bindPoints_direct Sig Uninit i hi hd
    have hF := (fresh_state Sig Uninit Sig.m_Desc.NumResources (Nat.le_refl _)).2.2.2.2.2.2
    rw [hb]
    refine ⟨he, ?_, ?_, hF⟩
    · simp [D3D11ResourceBindPoints.IsEmpty, ResourceBindPointsOf, he]
    · intro s
      simp [D3D11ResourceBindPoints.IsStageActive, ResourceBindPointsOf, he,
        SHADER_TYPE_UNKNOWN]

/-! ## Immutable samplers in the cache of a shader resource binding -/

theorem setResourceFold_cells (Range : D3D11_RESOURCE_RANGE) (bp : D3D11ResourceBindPoints)
    (p : Option Nat) (L : List Nat) : ∀ (c : ExampleCache) (r : D3D11_RESOURCE_RANGE) (s b : Nat),
    (L.foldl
        (fun (acc : ExampleCache) ShaderInd =>
          { acc with
            Resources := fun r s b =>
              if r = Range ∧ s = ShaderInd ∧ b = bp.Bindings ShaderInd then p
              else acc.Resources r s b })
        c).Resources r s b =
      if r = Range ∧ s ∈ L ∧ b = bp.Bindings s then p else c.Resources r s b := by
  induction L with
  | nil => intro c r s b; simp
  | cons x rest ih =>
    intro c r s b
    rw [List.foldl_cons, ih]
    by_cases h1 : r = Range ∧ s ∈ rest ∧ b = bp.Bindings s
    · have h2 : r = Range ∧ s ∈ x :: rest ∧ b = bp.Bindings s :=
        ⟨h1.1, List.mem_cons_of_mem _ h1.2.1, h1.2.2⟩
      rw [if_pos h1, if_pos h2]
    · rw [if_neg h1]
      by_cases h3 : r = Range ∧ s = x ∧ b = bp.Bindings x
      · have h2 : r = Range ∧ s ∈ x :: rest ∧ b = bp.Bindings s := by
          obtain ⟨e1, e2, e3⟩ := h3
          subst e2
          exact ⟨e1, List.mem_cons_self _ _, e3⟩
        rw [if_pos h2]
        show (if _ then _ else _) = _
        rw [if_pos h3]
      · have h2 : ¬ (r = Range ∧ s ∈ x :: rest ∧ b = bp.Bindings s) := by
          rintro ⟨e1, e2, e3⟩
          rcases List.mem_cons.1 e2 with e | e
          · subst e; exact h3 ⟨e1, rfl, e3⟩
          · exact h1 ⟨e1, e, e3⟩
        rw [if_neg h2]
        show (if _ then _ else _) = _
        rw [if_neg h3]

theorem setResource_cells (c : ExampleCache) (Range : D3D11_RESOURCE_RANGE)
    (bp : D3D11ResourceBindPoints) (p : Option Nat) (r : D3D11_RESOURCE_RANGE) (s b : Nat) :
    (c.SetResource Range bp p).Resources r s b =
      if r = Range ∧ bp.ActiveStages.testBit s = true ∧ b = bp.Bindings s then p
      else c.Resources r s b := by
  unfold ExampleCache.SetResource
  rw [forEachStage_eq_foldl]
  have h := setResourceFold_cells Range bp p (stagesOf bp.ActiveStages) c r s b
  simp only [mem_stagesOf] at h
  exact h

theorem copyResourceFold_cells (Range : D3D11_RESOURCE_RANGE) (bp : D3D11ResourceBindPoints)
    (Src : ExampleCache) (L : List Nat) :
    ∀ (acc : ExampleCache × Bool) (r : D3D11_RESOURCE_RANGE) (s b : Nat),
    (L.foldl
        (fun (acc : ExampleCache × Bool) ShaderInd =>
          ({ acc.1 with
              Resources := fun r s b =>
                if r = Range ∧ s = ShaderInd ∧ b = bp.Bindings ShaderInd then
                  Src.Resources r s b
                else acc.1.Resources r s b },
            acc.2 && (Src.Resources Range ShaderInd (bp.Bindings ShaderInd)).isSome))
        acc).1.Resources r s b =
      if r = Range ∧ s ∈ L ∧ b = bp.Bindings s then Src.Resources r s b
      else acc.1.Resources r s b := by
  induction L with
  | nil => intro acc r s b; simp
  | cons x rest ih =>
    intro acc r s b
    rw [List.foldl_cons, ih]
    by_cases h1 : r = Range ∧ s ∈ rest ∧ b = bp.Bindings s
    · have h2 : r = Range ∧ s ∈ x :: rest ∧ b = bp.Bindings s :=
        ⟨h1.1, List.mem_cons_of_mem _ h1.2.1, h1.2.2⟩
      rw [if_pos h1, if_pos h2]
    · rw [if_neg h1]
      by_cases h3 : r = Range ∧ s = x ∧ b = bp.Bindings x
      · have h2 : r = Range ∧ s ∈ x :: rest ∧ b = bp.Bindings s := by
          obtain ⟨e1, e2, e3⟩ := h3
          subst e2
          exact ⟨e1, List.mem_cons_self _ _, e3⟩
        rw [if_pos h2]
        show (if _ then _ else _) = _
        rw [if_pos h3]
      · have h2 : ¬ (r = Range ∧ s ∈ x :: rest ∧ b = bp.Bindings s) := by
          rintro ⟨e1, e2, e3⟩
          rcases List.mem_cons.1 e2 with e | e
          · subst e; exact h3 ⟨e1, rfl, e3⟩
          · exact h1 ⟨e1, e, e3⟩
        rw [if_neg h2]
        show (if _ then _ else _) = _
        rw [if_neg h3]

theorem copyResource_cells (Range : D3D11_RESOURCE_RANGE) (Dst Src : ExampleCache)
    (bp : D3D11ResourceBindPoints) (r : D3D11_RESOURCE_RANGE) (s b : Nat) :
    (ExampleCacheOps.CopyResource Range Dst Src bp).1.Resources r s b =
      if r = Range ∧ bp.ActiveStages.testBit s = true ∧ b = bp.Bindings s then
        Src.Resources r s b
      else Dst.Resources r s b := by
  show (forEachStage _ bp.ActiveStages (Dst, true)).1.Resources r s b = _
  rw [forEachStage_eq_foldl]
  have h := copyResourceFold_cells Range bp Src (stagesOf bp.ActiveStages) (Dst, true) r s b
  simp only [mem_stagesOf] at h
  exact h

theorem isResourceBound_iff (Range : D3D11_RESOURCE_RANGE) (c : ExampleCache)
    (bp : D3D11ResourceBindPoints) :
    ExampleCacheOps.IsResourceBound Range c bp = true ↔
      ∀ s, bp.ActiveStages.testBit s = true →
        (c.Resources Range s (bp.Bindings s)).isSome = true := by
  show (stagesOf bp.ActiveStages).all _ = true ↔ _
  rw [List.all_eq_true]
  simp only [mem_stagesOf]

theorem setLoop_spec (bp : D3D11ResourceBindPoints) (p : Option Nat)
    (hp : p.isSome = true) : ∀ (A : Nat) (c : ExampleCache),
    (∀ r s b, (c.Resources r s b).isSome = true →
      ((forLoop (fun ArrInd (c : ExampleCache) => c.SetResource .SAMPLER (bp.add ArrInd) p)
        A c).Resources r s b).isSome = true) ∧
    (∀ a s, a < A → bp.ActiveStages.testBit s = true →
      ((forLoop (fun ArrInd (c : ExampleCache) => c.SetResource .SAMPLER (bp.add ArrInd) p)
        A c).Resources .SAMPLER s ((bp.add a).Bindings s)).isSome = true) := by
  intro A
  induction A with
  | zero =>
    intro c
    exact ⟨fun r s b h => h, fun a s ha => absurd ha (Nat.not_lt_zero _)⟩
  | succ A ih =>
    intro c
    obtain ⟨ih1, ih2⟩ := ih c
    have hstep : forLoop (fun ArrInd (c : ExampleCache) =>
          c.SetResource .SAMPLER (bp.add ArrInd) p) (A + 1) c =
        (forLoop (fun ArrInd (c : ExampleCache) =>
          c.SetResource .SAMPLER (bp.add ArrInd) p) A c).SetResource .SAMPLER (bp.add A) p :=
      rfl
    rw [hstep]
    constructor
    · intro r s b h
      rw [setResource_cells]
      split
      · exact hp
      · exact ih1 r s b h
    · intro a s ha hs
      rw [setResource_cells]
      split
      · exact hp
      · rename_i hc
        by_cases haA : a = A
        · subst haA
          exact absurd ⟨rfl, hs, rfl⟩ hc
        · exact ih2 a s (by omega) hs

theorem initSRB_after_succ (st : LayoutState) (m : Nat → Option Nat) (c : ExampleCache)
    (n : Nat) :
    InitSRBState.after st m c (n + 1) =
      InitSRBImmutableSamplerStep st m n (InitSRBState.after st m c n) := rfl

theorem initSRB_bound (st : LayoutState) (m : Nat → Option Nat) (c : ExampleCache) : ∀ n,
    (∀ k, k < n → (m k).isSome = true) →
    ImmutableSamplersBound st n (InitSRBState.after st m c n).ResourceCache := by
  intro n
  induction n with
  | zero => intro _ k a s hk; exact absurd hk (Nat.not_lt_zero _)
  | succ n ih =>
    intro hm
    have ihn := ih (fun k hk => hm k (by omega))
    rw [initSRB_after_succ]
    obtain ⟨h1, h2⟩ := setLoop_spec (st.m_pImmutableSamplerAttribs n).BindPoints (m n)
      (hm n (Nat.lt_succ_self n)) (st.m_pImmutableSamplerAttribs n).ArraySize
      (InitSRBState.after st m c n).ResourceCache
    intro k a s hk ha hs
    show ((forLoop (fun ArrInd (c : ExampleCache) =>
        c.SetResource .SAMPLER ((st.m_pImmutableSamplerAttribs n).BindPoints.add ArrInd) (m n))
      (st.m_pImmutableSamplerAttribs n).ArraySize
      (InitSRBState.after st m c n).ResourceCache).Resources _ _ _).isSome = true
    by_cases hkn : k = n
    · subst hkn
      exact h2 a s ha hs
    · exact h1 _ _ _ (ihn k a s (by omega) ha hs)

theorem copyElementsExample_frame (Src : ExampleCache) (T : ResourceCacheContentType)
    (Range : D3D11_RESOURCE_RANGE) (r : Nat) (attr : PipelineResourceAttribsD3D11)
    (cs : CopyState ExampleCache) : ∀ m,
    (forLoop (CopyStaticResourceElement ExampleCacheOps Src T Range r attr) m cs).VerifyFailures =
        cs.VerifyFailures ∧
    ∀ r' s b,
      (∀ a, a < m → ¬ (r' = Range ∧ attr.BindPoints.ActiveStages.testBit s = true ∧
        b = (attr.BindPoints.add a).Bindings s)) →
      (forLoop (CopyStaticResourceElement ExampleCacheOps Src T Range r attr) m
          cs).DstResourceCache.Resources r' s b =
        cs.DstResourceCache.Resources r' s b := by
  intro m
  induction m with
  | zero => exact ⟨rfl, fun _ _ _ _ => rfl⟩
  | succ m ih =>
    obtain ⟨ih1, ih2⟩ := ih
    have hstep : forLoop (CopyStaticResourceElement ExampleCacheOps Src T Range r attr)
        (m + 1) cs =
        CopyStaticResourceElement ExampleCacheOps Src T Range r attr m
          (forLoop (CopyStaticResourceElement ExampleCacheOps Src T Range r attr) m cs) := rfl
    rw [hstep]
    constructor
    · exact ih1
    · intro r' s b hno
      show (ExampleCacheOps.CopyResource Range _ Src (attr.BindPoints.add m)).1.Resources
        r' s b = _
      rw [copyResource_cells]
      have hc : ¬ (r' = Range ∧ (attr.BindPoints.add m).ActiveStages.testBit s = true ∧
          b = (attr.BindPoints.add m).Bindings s) := hno m (Nat.lt_succ_self m)
      rw [if_neg hc]
      exact ih2 r' s b (fun a ha => hno a (by omega))

theorem verifyLoop_failures (r : Nat) (attr : PipelineResourceAttribsD3D11)
    (cs : CopyState ExampleCache) : ∀ m,
    (∀ a, a < m →
      ExampleCacheOps.IsResourceBound .SAMPLER cs.DstResourceCache (attr.BindPoints.add a) =
        true) →
    (forLoop (VerifyImmutableSamplerBound ExampleCacheOps r attr) m cs).VerifyFailures =
      cs.VerifyFailures := by
  intro m
  induction m with
  | zero => intro _; rfl
  | succ m ih =>
    intro h
    have ihm := ih (fun a ha => h a (by omega))
    have hD := (verifyBound_spec ExampleCacheOps r attr cs m).1
    show (if ExampleCacheOps.IsResourceBound .SAMPLER
        (forLoop (VerifyImmutableSamplerBound ExampleCacheOps r attr) m cs).DstResourceCache
        (attr.BindPoints.add m) = true then _ else _) = _
    rw [hD, if_pos (h m (Nat.lt_succ_self m))]
    exact ihm

theorem range_sampler_iff (t : SHADER_RESOURCE_TYPE) :
    ShaderResourceTypeToRange t = .SAMPLER ↔ t = .SAMPLER := by
  cases t <;> simp [ShaderResourceTypeToRange]

/-- One iteration of the copy loop keeps the immutable samplers bound and fails no
bound-sampler assertion, when the samplers with an immutable sampler assigned lie within the
slots of the immutable samplers and the other samplers lie outside them. -/
theorem copyStep_keeps_bound (Sig : PipelineResourceSignatureD3D11Impl) (st : LayoutState)
    (Src : ExampleCache) (T : ResourceCacheContentType) (r : Nat)
    (h1 : (Sig.m_Desc.GetResourceDesc r).ResourceType = .SAMPLER →
      (st.m_pResourceAttribs r).IsImmutableSamplerAssigned = true →
      ∀ a c, a < (Sig.m_Desc.GetResourceDesc r).ArraySize →
        ImmutableSamplersBound st Sig.m_Desc.NumImmutableSamplers c →
        ExampleCacheOps.IsResourceBound .SAMPLER c
          ((st.m_pResourceAttribs r).BindPoints.add a) = true)
    (h2 : (Sig.m_Desc.GetResourceDesc r).ResourceType = .SAMPLER →
      (st.m_pResourceAttribs r).IsImmutableSamplerAssigned = false →
      ∀ a s k a', a < (Sig.m_Desc.GetResourceDesc r).ArraySize →
        (st.m_pResourceAttribs r).BindPoints.ActiveStages.testBit s = true →
        k < Sig.m_Desc.NumImmutableSamplers →
        a' < (st.m_pImmutableSamplerAttribs k).ArraySize →
        (st.m_pImmutableSamplerAttribs k).BindPoints.IsStageActive s = true →
        ((st.m_pImmutableSamplerAttribs k).BindPoints.add a').Bindings s ≠
          ((st.m_pResourceAttribs r).BindPoints.add a).Bindings s)
    (cs : CopyState ExampleCache)
    (hB : ImmutableSamplersBound st Sig.m_Desc.NumImmutableSamplers cs.DstResourceCache)
    (hF : ∀ r' a, CopyVerifyFailure.ImmutableSamplerNotBound r' a ∉ cs.VerifyFailures) :
    ImmutableSamplersBound st Sig.m_Desc.NumImmutableSamplers
        (CopyStaticResourceStep ExampleCacheOps Sig st Src T r cs).DstResourceCache ∧
      ∀ r' a, CopyVerifyFailure.ImmutableSamplerNotBound r' a ∉
        (CopyStaticResourceStep ExampleCacheOps Sig st Src T r cs).VerifyFailures := by
  have hF0 : ∀ r' a, CopyVerifyFailure.ImmutableSamplerNotBound r' a ∉
      (if (Sig.m_Desc.GetResourceDesc r).VarType = .STATIC then cs.VerifyFailures
        else cs.VerifyFailures ++ [CopyVerifyFailure.NotStatic r]) := by
    intro r' a hm
    split at hm
    · exact hF r' a hm
    · rcases List.mem_append.1 hm with h | h
      · exact hF r' a h
      · simp at h
  -- the element loops of the ranges other than the sampler range
  have other : ∀ Range : D3D11_RESOURCE_RANGE, Range ≠ .SAMPLER →
      ImmutableSamplersBound st Sig.m_Desc.NumImmutableSamplers
          (forLoop (CopyStaticResourceElement ExampleCacheOps Src T Range r
            (st.m_pResourceAttribs r)) (Sig.m_Desc.GetResourceDesc r).ArraySize
            { cs with
              VerifyFailures :=
                if (Sig.m_Desc.GetResourceDesc r).VarType = .STATIC then cs.VerifyFailures
                else cs.VerifyFailures ++ [.NotStatic r] }).DstResourceCache ∧
        ∀ r' a, CopyVerifyFailure.ImmutableSamplerNotBound r' a ∉
          (forLoop (CopyStaticResourceElement ExampleCacheOps Src T Range r
            (st.m_pResourceAttribs r)) (Sig.m_Desc.GetResourceDesc r).ArraySize
            { cs with
              VerifyFailures :=
                if (Sig.m_Desc.GetResourceDesc r).VarType = .STATIC then cs.VerifyFailures
                else cs.VerifyFailures ++ [.NotStatic r] }).VerifyFailures := by
    intro Range hR
    obtain ⟨e1, e2⟩ := copyElementsExample_frame Src T Range r (st.m_pResourceAttribs r)
      { cs with
        VerifyFailures :=
          if (Sig.m_Desc.GetResourceDesc r).VarType = .STATIC then cs.VerifyFailures
          else cs.VerifyFailures ++ [.NotStatic r] }
      (Sig.m_Desc.GetResourceDesc r).ArraySize
    refine ⟨?_, ?_⟩
    · intro k a s hk ha hs
      rw [e2 _ _ _ (fun a' _ hc => hR hc.1.symm)]
      exact hB k a s hk ha hs
    · intro r' a
      rw [e1]
      exact hF0 r' a
  unfold CopyStaticResourceStep
  simp only []
  cases hR : ShaderResourceTypeToRange (Sig.m_Desc.GetResourceDesc r).ResourceType with
  | CBV => exact other .CBV (by decide)
  | SRV => exact other .SRV (by decide)
  | UAV => exact other .UAV (by decide)
  | UNKNOWN =>
    refine ⟨hB, ?_⟩
    intro r' a hm
    rcases List.mem_append.1 hm with h | h
    · exact hF0 r' a h
    · simp at h
  | SAMPLER =>
    have ht := (range_sampler_iff _).1 hR
    simp only []
    by_cases hb : (st.m_pResourceAttribs r).IsImmutableSamplerAssigned = false
    · rw [if_pos hb]
      obtain ⟨e1, e2⟩ := copyElementsExample_frame Src T .SAMPLER r (st.m_pResourceAttribs r)
        { cs with
          VerifyFailures :=
            if (Sig.m_Desc.GetResourceDesc r).VarType = .STATIC then cs.VerifyFailures
            else cs.VerifyFailures ++ [.NotStatic r] }
        (Sig.m_Desc.GetResourceDesc r).ArraySize
      refine ⟨?_, ?_⟩
      · intro k a s hk ha hs
        rw [e2 _ _ _ (fun a' ha' hc => h2 ht hb a' s k a ha' hc.2.1 hk ha hs hc.2.2)]
        exact hB k a s hk ha hs
      · intro r' a
        rw [e1]
        exact hF0 r' a
    · have hb' : (st.m_pResourceAttribs r).IsImmutableSamplerAssigned = true := by
        cases h : (st.m_pResourceAttribs r).IsImmutableSamplerAssigned
        · exact absurd h hb
        · rfl
      rw [if_neg hb]
      by_cases hT : T = .SRB
      · rw [if_pos hT]
        obtain ⟨v1, _, _⟩ := verifyBound_spec ExampleCacheOps r (st.m_pResourceAttribs r)
          { cs with
            VerifyFailures :=
              if (Sig.m_Desc.GetResourceDesc r).VarType = .STATIC then cs.VerifyFailures
              else cs.VerifyFailures ++ [.NotStatic r] }
          (Sig.m_Desc.GetResourceDesc r).ArraySize
        have v2 := verifyLoop_failures r (st.m_pResourceAttribs r)
          { cs with
            VerifyFailures :=
              if (Sig.m_Desc.GetResourceDesc r).VarType = .STATIC then cs.VerifyFailures
              else cs.VerifyFailures ++ [.NotStatic r] }
          (Sig.m_Desc.GetResourceDesc r).ArraySize
          (fun a ha => h1 ht hb' a _ ha hB)
        refine ⟨?_, ?_⟩
        · rw [v1]; exact hB
        · intro r' a
          rw [v2]
          exact hF0 r' a
      · rw [if_neg hT]
        exact ⟨hB, hF0⟩

theorem copyState_keeps_bound (Sig : PipelineResourceSignatureD3D11Impl) (st : LayoutState)
    (Src Dst : ExampleCache)
    (h1 : ∀ r, r < Sig.m_Desc.NumResources →
      (Sig.m_Desc.GetResourceDesc r).ResourceType = .SAMPLER →
      (st.m_pResourceAttribs r).IsImmutableSamplerAssigned = true →
      ∀ a c, a < (Sig.m_Desc.GetResourceDesc r).ArraySize →
        ImmutableSamplersBound st Sig.m_Desc.NumImmutableSamplers c →
        ExampleCacheOps.IsResourceBound .SAMPLER c
          ((st.m_pResourceAttribs r).BindPoints.add a) = true)
    (h2 : ∀ r, r < Sig.m_Desc.NumResources →
      (Sig.m_Desc.GetResourceDesc r).ResourceType = .SAMPLER →
      (st.m_pResourceAttribs r).IsImmutableSamplerAssigned = false →
      ∀ a s k a', a < (Sig.m_Desc.GetResourceDesc r).ArraySize →
        (st.m_pResourceAttribs r).BindPoints.ActiveStages.testBit s = true →
        k < Sig.m_Desc.NumImmutableSamplers →
        a' < (st.m_pImmutableSamplerAttribs k).ArraySize →
        (st.m_pImmutableSamplerAttribs k).BindPoints.IsStageActive s = true →
        ((st.m_pImmutableSamplerAttribs k).BindPoints.add a').Bindings s ≠
          ((st.m_pResourceAttribs r).BindPoints.add a).Bindings s)
    (hB : ImmutableSamplersBound st Sig.m_Desc.NumImmutableSamplers Dst) :
    ∀ n, n ≤ Sig.m_Desc.NumResources →
      ImmutableSamplersBound st Sig.m_Desc.NumImmutableSamplers
          (CopyStaticResourcesState ExampleCacheOps Sig st Src Dst n).DstResourceCache ∧
        ∀ r' a, CopyVerifyFailure.ImmutableSamplerNotBound r' a ∉
          (CopyStaticResourcesState ExampleCacheOps Sig st Src Dst n).VerifyFailures := by
  intro n
  induction n with
  | zero =>
    intro _
    refine ⟨hB, ?_⟩
    intro r' a hm
    have hm' : _ ∈ (if ExampleCacheOps.GetContentType Src = .Signature then []
        else [CopyVerifyFailure.SrcCacheNotSignature]) := hm
    split at hm' <;> simp at hm'
  | succ n ih =>
    intro hn
    obtain ⟨i1, i2⟩ := ih (by omega)
    rw [copyState_succ]
    exact copyStep_keeps_bound Sig st Src _ n (h1 n (by omega)) (h2 n (by omega)) _ i1 i2

theorem fresh_flag_sampler (Sig : PipelineResourceSignatureD3D11Impl)
    (U : Nat → PipelineResourceAttribsD3D11) (r : Nat) (hr : r < Sig.m_Desc.NumResources)
    (ht : (Sig.m_Desc.GetResourceDesc r).ResourceType = .SAMPLER) :
    ((FreshLayout Sig U).m_pResourceAttribs r).IsImmutableSamplerAssigned =
      (ImmutableSamplerIndOf Sig r).isSome := by
  obtain ⟨_, _, hA⟩ := fresh_final Sig U
  rw [hA r hr]
  show (SrcImmutableSamplerInd Sig r).isSome = _
  rw [srcInd_of_sampler Sig r hr ht]

theorem fresh_reused_bound (Sig : PipelineResourceSignatureD3D11Impl)
    (U : Nat → PipelineResourceAttribsD3D11) (r : Nat) (hr : r < Sig.m_Desc.NumResources)
    (ht : (Sig.m_Desc.GetResourceDesc r).ResourceType = .SAMPLER)
    (hf : ((FreshLayout Sig U).m_pResourceAttribs r).IsImmutableSamplerAssigned = true)
    (a : Nat) (c : ExampleCache) (ha : a < (Sig.m_Desc.GetResourceDesc r).ArraySize)
    (hB : ImmutableSamplersBound (FreshLayout Sig U) Sig.m_Desc.NumImmutableSamplers c) :
    ExampleCacheOps.IsResourceBound .SAMPLER c
      (((FreshLayout Sig U).m_pResourceAttribs r).BindPoints.add a) = true := by
  rw [fresh_flag_sampler Sig U r hr ht] at hf
  obtain ⟨k, hk⟩ := Option.isSome_iff_exists.1 hf
  have hkN := immutableSamplerIndOf_lt Sig r k hk
  obtain ⟨hA, _, _⟩ := fresh_final Sig U
  have hsz : a < ((FreshLayout Sig U).m_pImmutableSamplerAttribs k).ArraySize := by
    rw [hA k]
    exact Nat.lt_of_lt_of_le ha
      ((raised_spec Sig k _ Sig.m_Desc.NumResources).2.1 r hr hk)
  rw [isResourceBound_iff, fresh_bindPoints_reuse Sig U r k hr hk]
  intro s hs
  exact hB k a s hkN hsz hs

theorem fresh_direct_sampler_apart (Sig : PipelineResourceSignatureD3D11Impl)
    (U : Nat → PipelineResourceAttribsD3D11)
    (hov : ∀ s, ImmutableSamplerTotal Sig (FreshArraySize Sig) .SAMPLER s +
      sumTo (ResourceSlots Sig .SAMPLER s) Sig.m_Desc.NumResources < 2 ^ CounterBits)
    (r : Nat) (hr : r < Sig.m_Desc.NumResources)
    (ht : (Sig.m_Desc.GetResourceDesc r).ResourceType = .SAMPLER)
    (hf : ((FreshLayout Sig U).m_pResourceAttribs r).IsImmutableSamplerAssigned = false)
    (a s k a' : Nat) (ha : a < (Sig.m_Desc.GetResourceDesc r).ArraySize)
    (hs : ((FreshLayout Sig U).m_pResourceAttribs r).BindPoints.ActiveStages.testBit s = true)
    (hk : k < Sig.m_Desc.NumImmutableSamplers)
    (ha' : a' < ((FreshLayout Sig U).m_pImmutableSamplerAttribs k).ArraySize)
    (hks : ((FreshLayout Sig U).m_pImmutableSamplerAttribs k).BindPoints.IsStageActive s =
      true) :
    (((FreshLayout Sig U).m_pImmutableSamplerAttribs k).BindPoints.add a').Bindings s ≠
      (((FreshLayout Sig U).m_pResourceAttribs r).BindPoints.add a).Bindings s := by
  have h256 : (2 : Nat) ^ CounterBits = 256 := by decide
  rw [fresh_flag_sampler Sig U r hr ht] at hf
  have hd : ImmutableSamplerIndOf Sig r = none := by
    cases h : ImmutableSamplerIndOf Sig r with
    | none => rfl
    | some k => rw [h] at hf; cases hf
  obtain ⟨_, hIB, _⟩ := fresh_final Sig U
  have hrs : (Sig.m_Desc.GetResourceDesc r).ShaderStages.testBit s = true := by
    rw [fresh_bindPoints_direct Sig U r hr hd] at hs
    exact hs
  have hkst : (Sig.m_Desc.GetImmutableSamplerDesc k).ShaderStages.testBit s = true := by
    have h := hks
    rw [hIB k hk] at h
    exact h
  have hR : ShaderResourceTypeToRange (Sig.m_Desc.GetResourceDesc r).ResourceType =
      .SAMPLER := by rw [ht]; rfl
  obtain ⟨_, e2, e3⟩ := fresh_exact Sig U .SAMPLER s (hov s)
  obtain ⟨hb, hw⟩ := e2 r hr hd hR hrs
  obtain ⟨hkb, hkw⟩ := e3 rfl k hk hkst
  have hT : ImmutableSamplerTotal Sig (FreshArraySize Sig) .SAMPLER s =
      sumTo (ImmutableSamplerSlots Sig (FreshArraySize Sig) s)
        Sig.m_Desc.NumImmutableSamplers := by
    simp [ImmutableSamplerTotal]
  have i1 := sumTo_step_le (ImmutableSamplerSlots Sig (FreshArraySize Sig) s) k _ hk
  have i2 := sumTo_step_le (ResourceSlots Sig .SAMPLER s) r _ hr
  have i3 := hov s
  have hks' : ((FreshLayout Sig U).m_pImmutableSamplerAttribs k).BindPoints.ActiveStages.testBit
      s = true := hks
  show (if _ then _ else _) ≠ (if _ then _ else _)
  rw [if_pos hks', if_pos hs, hb, hkb]
  rw [← hkw] at ha'
  rw [← hw] at ha
  rw [h256] at i3 ⊢
  rw [Nat.mod_eq_of_lt (by omega), Nat.mod_eq_of_lt (by omega)]
  omega

/-- C28: when every immutable sampler object exists, after `InitSRBResourceCache` every slot of
every immutable sampler is bound in the cache; hence after fresh construction every element of
a sampler resource with an immutable sampler assigned is bound in that cache; and when the
sampler slots of every stage fit the 8-bit counter, `CopyStaticResources` into that cache never
fails its assertion that such an element is bound. -/
theorem InitSRBResourceCache_binds_immutable_samplers
    (Sig : PipelineResourceSignatureD3D11Impl) (st : LayoutState)
    (Uninit : Nat → PipelineResourceAttribsD3D11) (m_pImmutableSamplers : Nat → Option Nat)
    (ResourceCache : ExampleCache) (m_pStaticResCache : Option ExampleCache)
    (hs : ∀ k, k < Sig.m_Desc.NumImmutableSamplers → (m_pImmutableSamplers k).isSome = true) :
    ImmutableSamplersBound st Sig.m_Desc.NumImmutableSamplers
      (InitSRBResourceCache Sig st m_pImmutableSamplers ResourceCache).ResourceCache ∧
    (∀ r a, r < Sig.m_Desc.NumResources →
      (Sig.m_Desc.GetResourceDesc r).ResourceType = .SAMPLER →
      ((FreshLayout Sig Uninit).m_pResourceAttribs r).IsImmutableSamplerAssigned = true →
      a < (Sig.m_Desc.GetResourceDesc r).ArraySize →
      ExampleCacheOps.IsResourceBound .SAMPLER
        (InitSRBResourceCache Sig (FreshLayout Sig Uninit) m_pImmutableSamplers
          ResourceCache).ResourceCache
        (((FreshLayout Sig Uninit).m_pResourceAttribs r).BindPoints.add a) = true) ∧
    ((∀ s, ImmutableSamplerTotal Sig (FreshArraySize Sig) .SAMPLER s +
        sumTo (ResourceSlots Sig .SAMPLER s) Sig.m_Desc.NumResources < 2 ^ CounterBits) →
      ∀ r a, CopyVerifyFailure.ImmutableSamplerNotBound r a ∉
        (CopyStaticResources ExampleCacheOps Sig (FreshLayout Sig Uninit) m_pStaticResCache
          (InitSRBResourceCache Sig (FreshLayout Sig Uninit) m_pImmutableSamplers
            ResourceCache).ResourceCache).VerifyFailures) := by
  have hinit : ∀ st' : LayoutState,
      ImmutableSamplersBound st' Sig.m_Desc.NumImmutableSamplers
        (InitSRBResourceCache Sig st' m_pImmutableSamplers ResourceCache).ResourceCache :=
    fun st' => initSRB_bound st' m_pImmutableSamplers ResourceCache _ hs
  refine ⟨hinit st, ?_, ?_⟩
  · intro r a hr ht hf ha
    exact fresh_reused_bound Sig Uninit r hr ht hf a _ ha (hinit _)
  · intro hov r a
    cases m_pStaticResCache with
    | none =>
      intro h
      cases h
    | some Src =>
      rw [copyStaticResources_some]
      exact (copyState_keeps_bound Sig (FreshLayout Sig Uninit) Src _
        (fun r hr ht hf a c ha hB => fresh_reused_bound Sig Uninit r hr ht hf a c ha hB)
        (fun r hr ht hf a s k a' ha hs hk ha' hks =>
          fresh_direct_sampler_apart Sig Uninit hov r hr ht hf a s k a' ha hs hk ha' hks)
        (hinit _) _ (staticRange_snd_le Sig)).2 r a

/-! ## The static counters below the main counters, and the frame of one resource -/

theorem staticCounterOf_le (Sig : PipelineResourceSignatureD3D11Impl) (sz : Nat → Nat)
    (R : D3D11_RESOURCE_RANGE) (s : Nat)
    (h : ImmutableSamplerTotal Sig sz R s +
      sumTo (ResourceSlots Sig R s) Sig.m_Desc.NumResources < 2 ^ CounterBits) :
    StaticCounterOf Sig sz R s Sig.m_Desc.NumResources ≤
      CounterOf Sig sz R s Sig.m_Desc.NumResources := by
  obtain ⟨_, h2, h3⟩ := staticCounterOf_spec Sig sz R s Sig.m_Desc.NumResources
  by_cases hex : ∃ i, i < Sig.m_Desc.NumResources ∧ IsDirectStatic Sig R s i
  · obtain ⟨i, hi, _, he⟩ := h3 hex
    rw [he]
    unfold CounterOf
    have hle := sumTo_le (ResourceSlots Sig R s) (i + 1) Sig.m_Desc.NumResources hi
    rw [Nat.mod_eq_of_lt h, Nat.mod_eq_of_lt (by omega)]
    omega
  · have : ∀ i, i < Sig.m_Desc.NumResources → ¬ IsDirectStatic Sig R s i :=
      fun i hi hq => hex ⟨i, hi, hq⟩
    rw [h2 this]
    exact Nat.zero_le _

/-- C33: after `CreateLayout` (on either path, for counters that start at zero), when the slots
of (`R`, `s`) fit the 8-bit counter, the static counter of (`R`, `s`) is at most the final main
counter of (`R`, `s`); hence every slot below the static counter, which is valid in the static
cache, is below the main counter, and so valid in a cache sized from the main counters. -/
theorem static_counter_le_main_counter (Sig : PipelineResourceSignatureD3D11Impl)
    (IsSerialized : Bool) (st : LayoutState)
    (hz : st.m_ResourceCounters = D3D11ShaderResourceCounters.zero)
    (R : D3D11_RESOURCE_RANGE) (s : Nat)
    (h : ImmutableSamplerTotal Sig (ArraySizeOf Sig st) R s +
      sumTo (ResourceSlots Sig R s) Sig.m_Desc.NumResources < 2 ^ CounterBits) :
    (CreateLayout Sig IsSerialized st).StaticResCounters R s ≤
        (CreateLayout Sig IsSerialized st).m_ResourceCounters R s ∧
      ∀ n, n < (CreateLayout Sig IsSerialized st).StaticResCounters R s →
        n < (CreateLayout Sig IsSerialized st).m_ResourceCounters R s := by
  obtain ⟨_, _, hc, hs, _⟩ :=
    resState_spec Sig IsSerialized st hz Sig.m_Desc.NumResources (Nat.le_refl _)
  have hC : (CreateLayout Sig IsSerialized st).m_ResourceCounters R s =
      CounterOf Sig (ArraySizeOf Sig st) R s Sig.m_Desc.NumResources := hc R s
  have hS : (CreateLayout Sig IsSerialized st).StaticResCounters R s =
      StaticCounterOf Sig (ArraySizeOf Sig st) R s Sig.m_Desc.NumResources := hs R s
  have hle := staticCounterOf_le Sig (ArraySizeOf Sig st) R s h
  rw [hC, hS]
  exact ⟨hle, fun n hn => Nat.lt_of_lt_of_le hn hle⟩

/-- C34: the iteration of the resource loop of `CreateLayout` for resource `i` (on either path,
for counters that start at zero) leaves the main counter and the static counter of every other
range and of every stage outside the visibility mask of the resource unchanged; a resource that
is not static (mutable or dynamic) changes no static counter; a resource that is not a constant
buffer or carries the `NO_DYNAMIC_BUFFERS` flag changes no entry of the dynamic-buffer mask, and
no resource changes the mask entry of a stage outside its visibility mask. -/
theorem resource_step_changes_only_its_counters (Sig : PipelineResourceSignatureD3D11Impl)
    (IsSerialized : Bool) (st : LayoutState)
    (hz : st.m_ResourceCounters = D3D11ShaderResourceCounters.zero) (i : Nat)
    (hi : i < Sig.m_Desc.NumResources) :
    (∀ r s,
      (r ≠ ShaderResourceTypeToRange (Sig.m_Desc.GetResourceDesc i).ResourceType ∨
        (Sig.m_Desc.GetResourceDesc i).ShaderStages.testBit s = false) →
      (ResourcesState Sig IsSerialized st (i + 1)).m_ResourceCounters r s =
          (ResourcesState Sig IsSerialized st i).m_ResourceCounters r s ∧
        (ResourcesState Sig IsSerialized st (i + 1)).StaticResCounters r s =
          (ResourcesState Sig IsSerialized st i).StaticResCounters r s) ∧
    ((Sig.m_Desc.GetResourceDesc i).VarType ≠ .STATIC →
      (ResourcesState Sig IsSerialized st (i + 1)).StaticResCounters =
        (ResourcesState Sig IsSerialized st i).StaticResCounters) ∧
    ((ShaderResourceTypeToRange (Sig.m_Desc.GetResourceDesc i).ResourceType ≠ .CBV ∨
        (Sig.m_Desc.GetResourceDesc i).Flags &&& PIPELINE_RESOURCE_FLAG_NO_DYNAMIC_BUFFERS ≠
          0) →
      (ResourcesState Sig IsSerialized st (i + 1)).m_DynamicCBSlotsMask =
        (ResourcesState Sig IsSerialized st i).m_DynamicCBSlotsMask) ∧
    (∀ s, (Sig.m_Desc.GetResourceDesc i).ShaderStages.testBit s = false →
      (ResourcesState Sig IsSerialized st (i + 1)).m_DynamicCBSlotsMask s =
        (ResourcesState Sig IsSerialized st i).m_DynamicCBSlotsMask s) := by
  obtain ⟨_, _, c0, s0, m0, _⟩ := resState_spec Sig IsSerialized st hz i (Nat.le_of_lt hi)
  obtain ⟨_, _, c1, s1, m1, _⟩ := resState_spec Sig IsSerialized st hz (i + 1) hi
  refine ⟨?_, ?_, ?_, ?_⟩
  · intro r s hrs
    constructor
    · rw [c1, c0, counterOf_succ]
      have hslots : ResourceSlots Sig r s i = 0 := by
        unfold ResourceSlots
        rw [if_neg]
        rintro ⟨_, hr, ht⟩
        rcases hrs with h | h
        · exact h hr.symm
        · rw [ht] at h; cases h
      rw [hslots, Nat.add_zero]
      exact Nat.mod_eq_of_lt (counterOf_lt Sig _ r s i)
    · rw [s1, s0]
      show (if _ then _ else _) = _
      rw [if_neg]
      rintro ⟨_, hr, _, ht⟩
      rcases hrs with h | h
      · exact h hr.symm
      · rw [ht] at h; cases h
  · intro hv
    funext r s
    rw [s1, s0]
    show (if _ then _ else _) = _
    rw [if_neg]
    rintro ⟨_, _, hv', _⟩
    exact hv hv'
  · intro hcb
    funext s
    rw [m1, m0]
    show (if _ then _ else _) = _
    rw [if_neg]
    rintro ⟨_, hr, hf, _⟩
    rcases hcb with h | h
    · exact h hr
    · exact h hf
  · intro s hs
    rw [m1, m0]
    show (if _ then _ else _) = _
    rw [if_neg]
    rintro ⟨_, _, _, ht⟩
    rw [ht] at hs; cases hs

/-! ## The entry of a sampler resource beside the entry of its immutable sampler -/

theorem fresh_reused_entry (Sig : PipelineResourceSignatureD3D11Impl)
    (U : Nat → PipelineResourceAttribsD3D11) (B : D3D11ShaderResourceCounters) (s r k : Nat)
    (hr : r < Sig.m_Desc.NumResources) (hd : ImmutableSamplerIndOf Sig r = some k) :
    (ResourceBindInfo Sig (FreshLayout Sig U) B s r).BindPoint =
        (ImmutableSamplerBindInfo (FreshLayout Sig U) B s k).BindPoint ∧
      (ResourceBindInfo Sig (FreshLayout Sig U) B s r).ArraySize =
        (Sig.m_Desc.GetResourceDesc r).ArraySize ∧
      (ImmutableSamplerBindInfo (FreshLayout Sig U) B s k).ArraySize = FreshArraySize Sig k ∧
      (Sig.m_Desc.GetResourceDesc r).ArraySize ≤ FreshArraySize Sig k := by
  refine ⟨?_, rfl, (fresh_final Sig U).1 k, ?_⟩
  · unfold ResourceBindInfo ImmutableSamplerBindInfo
    simp only []
    rw [fresh_bindPoints_reuse Sig U r k hr hd, immutableSamplerIndOf_sampler Sig r k hd]
    rfl
  · exact (raised_spec Sig k ImmutableSamplerAttribsD3D11.fresh.ArraySize
      Sig.m_Desc.NumResources).2.1 r hr hd

/-- The two debug checks on an immutable sampler whose exported name is already in the map with
the entry of a sampler resource resolved to it, after fresh construction: the bind points agree,
the array size of the existing entry is at most that of the immutable sampler, and the only
assertion the iteration can fail is the array size check, which it fails exactly when the
sampler resource is smaller than the immutable sampler. -/
theorem fresh_duplicate_sampler_checks (Sig : PipelineResourceSignatureD3D11Impl)
    (U : Nat → PipelineResourceAttribsD3D11) (M : ResourceBinding.TMap)
    (B : D3D11ShaderResourceCounters) (s r k : Nat)
    (hr : r < Sig.m_Desc.NumResources) (hd : ImmutableSamplerIndOf Sig r = some k)
    (hv : (Sig.m_Desc.GetImmutableSamplerDesc k).ShaderStages.testBit s = true)
    (hp : (BindingMapSamplersState Sig (FreshLayout Sig U) M (1 <<< s) B k).ResourceMap
      (SampName Sig k) = some (ResourceBindInfo Sig (FreshLayout Sig U) B s r)) :
    (ResourceBindInfo Sig (FreshLayout Sig U) B s r).BindPoint =
        (ImmutableSamplerBindInfo (FreshLayout Sig U) B s k).BindPoint ∧
      (ResourceBindInfo Sig (FreshLayout Sig U) B s r).ArraySize ≤
        (ImmutableSamplerBindInfo (FreshLayout Sig U) B s k).ArraySize ∧
      (BindingMapSamplersState Sig (FreshLayout Sig U) M (1 <<< s) B (k + 1)).VerifyFailures =
        (BindingMapSamplersState Sig (FreshLayout Sig U) M (1 <<< s) B k).VerifyFailures ++
          (if FreshArraySize Sig k ≤ (Sig.m_Desc.GetResourceDesc r).ArraySize then []
            else [BindingMapVerifyFailure.SamplerArraySizeSmaller k]) := by
  obtain ⟨e1, e2, e3, e4⟩ := fresh_reused_entry Sig U B s r k hr hd
  have hk := immutableSamplerIndOf_lt Sig r k hd
  have hbp := (fresh_final Sig U).2.1 k hk
  refine ⟨e1, by rw [e2, e3]; exact e4, ?_⟩
  have hvis : (Sig.m_Desc.GetImmutableSamplerDesc k).ShaderStages &&& (1 <<< s) ≠ 0 :=
    (and_shift_ne_zero_iff _ _).2 hv
  have hne : (Sig.m_Desc.GetImmutableSamplerDesc k).ShaderStages ≠ 0 :=
    and_ne_zero_left _ _ hvis
  have halloc : ((FreshLayout Sig U).m_pImmutableSamplerAttribs k).IsAllocated = true := by
    unfold ImmutableSamplerAttribsD3D11.IsAllocated D3D11ResourceBindPoints.IsEmpty
    rw [hbp]
    simp [ImmutableSamplerBindPointsOf, SHADER_TYPE_UNKNOWN, hne]
  have hact : ((FreshLayout Sig U).m_pImmutableSamplerAttribs k).BindPoints.IsStageActive
      (GetShaderTypeIndex (1 <<< s)) = true := by
    rw [getShaderTypeIndex_shift, hbp]
    exact hv
  rw [bindingMapSamplersState_succ]
  unfold BindingMapImmutableSamplerStep
  simp only []
  rw [if_pos hvis, emplace_present _ _ _ _ hp]
  simp only [hp, halloc, hact, if_true, List.append_nil, Bool.false_eq_true, if_false]
  rw [getShaderTypeIndex_shift, if_pos e1, List.append_nil, e2, e3]

/-! ## The properties at concrete signatures -/

/-- C1 at the end-to-end example: the constant buffer is allocated directly and its pixel-stage
slot is the CBV counter of the pixel stage before it is processed. -/
theorem CreateLayout_assigns_counter_then_advances_witness :
    (0 < EndToEndSignature.m_Desc.NumResources ∧
      ImmutableSamplerIndOf EndToEndSignature 0 = none) ∧
    ((FreshLayout EndToEndSignature UninitializedAttribs).m_pResourceAttribs
        0).BindPoints.Bindings PSInd =
      (ResourcesState EndToEndSignature false
        (LayoutState.fresh UninitializedAttribs) 0).m_ResourceCounters .CBV PSInd :=
  ⟨⟨by decide, by decide⟩,
    ((CreateLayout_assigns_counter_then_advances EndToEndSignature UninitializedAttribs 0 PSInd
      (by decide) (by decide)).1 (by decide)).1⟩

/-- C2 as stated fails: for the texture with an immutable sampler that is not defined as a
resource, the final sampler counter of the pixel stage is 1, so slot 0 lies in
`[0, finalCounter)`, yet no resource of the signature has the sampler range. -/
theorem tight_packing_over_resources_counterexample :
    (FreshLayout TextureWithImmutableSamplerSignature UninitializedAttribs).m_ResourceCounters
        .SAMPLER PSInd = 1 ∧
    (∀ i, i < TextureWithImmutableSamplerSignature.m_Desc.NumResources →
      ShaderResourceTypeToRange
        (TextureWithImmutableSamplerSignature.m_Desc.GetResourceDesc i).ResourceType ≠
          .SAMPLER) := by
  decide

/-- C2 (amended) at the end-to-end example: the sampler slots of the pixel stage fit the counter
and slot 0 lies below the final counter, covered by the immutable sampler. -/
theorem CreateLayout_tight_packing_witness :
    (ImmutableSamplerTotal EndToEndSignature (FreshArraySize EndToEndSignature) .SAMPLER PSInd +
      sumTo (ResourceSlots EndToEndSignature .SAMPLER PSInd)
        EndToEndSignature.m_Desc.NumResources < 2 ^ CounterBits) ∧
    (0 < (FreshLayout EndToEndSignature UninitializedAttribs).m_ResourceCounters
      .SAMPLER PSInd) :=
  ⟨by decide,
    ((CreateLayout_tight_packing EndToEndSignature UninitializedAttribs .SAMPLER PSInd
      (by decide)).1 0).2 (Or.inl ⟨rfl, 0, by decide, by decide, by decide, by decide⟩)⟩

/-- C5 at the end-to-end example: the sampler resolves to immutable sampler 0 and has its
bind points. -/
theorem immutable_sampler_resource_reuses_bind_points_witness :
    ((LayoutState.fresh UninitializedAttribs).m_ResourceCounters =
        D3D11ShaderResourceCounters.zero ∧
      1 < EndToEndSignature.m_Desc.NumResources ∧
      (EndToEndSignature.m_Desc.GetResourceDesc 1).ResourceType = .SAMPLER ∧
      EndToEndSignature.FindImmutableSampler
        (EndToEndSignature.m_Desc.GetResourceDesc 1).ShaderStages
        (EndToEndSignature.m_Desc.GetResourceDesc 1).Name = some 0) ∧
    ((FreshLayout EndToEndSignature UninitializedAttribs).m_pResourceAttribs 1).BindPoints =
      ((FreshLayout EndToEndSignature UninitializedAttribs).m_pImmutableSamplerAttribs
        0).BindPoints :=
  ⟨⟨rfl, by decide, by decide, by decide⟩,
    (immutable_sampler_resource_reuses_bind_points EndToEndSignature false
      (LayoutState.fresh UninitializedAttribs) UninitializedAttribs 1 0 rfl (by decide)
      (by decide) (by decide)).2.2.2⟩

/-- C6 at the example of the specification: sampler A with array size 1 in the vertex stage and
sampler B with array size 4 in the pixel stage match the same immutable sampler, whose array
size becomes 4. -/
theorem immutable_sampler_array_size_is_max_witness :
    ((∀ i, i < TwoSamplersSignature.m_Desc.NumResources →
        1 ≤ (TwoSamplersSignature.m_Desc.GetResourceDesc i).ArraySize) ∧
      (∃ i, i < TwoSamplersSignature.m_Desc.NumResources ∧
        ImmutableSamplerIndOf TwoSamplersSignature i = some 0)) ∧
    ((FreshLayout TwoSamplersSignature UninitializedAttribs).m_pImmutableSamplerAttribs
      0).ArraySize = 4 ∧
    (∀ i, i < TwoSamplersSignature.m_Desc.NumResources →
      ImmutableSamplerIndOf TwoSamplersSignature i = some 0 →
      (TwoSamplersSignature.m_Desc.GetResourceDesc i).ArraySize ≤
        ((FreshLayout TwoSamplersSignature UninitializedAttribs).m_pImmutableSamplerAttribs
          0).ArraySize) :=
  ⟨⟨by decide, ⟨0, by decide, by decide⟩⟩, by decide,
    (immutable_sampler_array_size_is_max TwoSamplersSignature UninitializedAttribs 0
      (by decide) ⟨0, by decide, by decide⟩).1⟩

/-- C7 at a sampler array of size 5 resolved to the first of two immutable samplers: the second
immutable sampler starts at slot 5 in the pixel stage. -/
theorem immutable_samplers_allocated_first_witness :
    (sumTo (ImmutableSamplerSlots (SamplerArraySignature 5)
          (fun k => ((FreshLayout (SamplerArraySignature 5)
            UninitializedAttribs).m_pImmutableSamplerAttribs k).ArraySize) PSInd)
          (SamplerArraySignature 5).m_Desc.NumImmutableSamplers +
        sumTo (ResourceSlots (SamplerArraySignature 5) .SAMPLER PSInd)
          (SamplerArraySignature 5).m_Desc.NumResources < 2 ^ CounterBits) ∧
    ((FreshLayout (SamplerArraySignature 5) UninitializedAttribs).m_pImmutableSamplerAttribs
      1).BindPoints.Bindings PSInd = 5 :=
  ⟨by decide,
    ((immutable_samplers_allocated_first (SamplerArraySignature 5) UninitializedAttribs PSInd
      (by decide)).1 1 (by decide) (by decide)).trans (by decide)⟩

/-- C8 as stated fails: the derived data of a signature whose sampler array has size 5 is
restored with a description whose sampler array has size 1. No deserialization check fails,
yet the restored second immutable sampler sits at pixel-stage slot 5 while fresh construction
from the same description puts it at slot 1. -/
theorem restore_mismatched_array_size_counterexample :
    (RestoredLayout (SamplerArraySignature 1)
      (FreshLayout (SamplerArraySignature 5)
        UninitializedAttribs).InternalData).DevCheckErrors = [] ∧
    ((RestoredLayout (SamplerArraySignature 1)
      (FreshLayout (SamplerArraySignature 5)
        UninitializedAttribs).InternalData).m_pImmutableSamplerAttribs
          1).BindPoints.Bindings PSInd = 5 ∧
    ((FreshLayout (SamplerArraySignature 1) UninitializedAttribs).m_pImmutableSamplerAttribs
        1).BindPoints.Bindings PSInd = 1 := by
  decide

/-- C8 (amended) at the end-to-end example restored from its own derived data: the array sizes
agree, no check fails, and the restored vertex-stage slot of the constant buffer is the fresh
one. -/
theorem restore_without_failed_check_matches_fresh_witness :
    ((∀ k, k < EndToEndSignature.m_Desc.NumImmutableSamplers →
        ((RestoredLayout EndToEndSignature
            (FreshLayout EndToEndSignature
              UninitializedAttribs).InternalData).m_pImmutableSamplerAttribs k).ArraySize =
          ((FreshLayout EndToEndSignature UninitializedAttribs).m_pImmutableSamplerAttribs
            k).ArraySize) ∧
      (RestoredLayout EndToEndSignature
        (FreshLayout EndToEndSignature UninitializedAttribs).InternalData).DevCheckErrors =
          []) ∧
    ((RestoredLayout EndToEndSignature
        (FreshLayout EndToEndSignature UninitializedAttribs).InternalData).m_pResourceAttribs
          0).BindPoints.Bindings VSInd =
      ((FreshLayout EndToEndSignature UninitializedAttribs).m_pResourceAttribs
        0).BindPoints.Bindings VSInd :=
  ⟨⟨by decide, by decide⟩,
    ((restore_without_failed_check_matches_fresh EndToEndSignature
      (FreshLayout EndToEndSignature UninitializedAttribs).InternalData UninitializedAttribs
      (by decide) (by decide)).2 0 (by decide)).2.1 VSInd (by decide)⟩

/-- C11 at the end-to-end example: the static constant buffer ends below or at the static CBV
counter of the pixel stage. -/
theorem static_counter_is_max_slot_end_witness :
    (ImmutableSamplerTotal EndToEndSignature (FreshArraySize EndToEndSignature) .CBV PSInd +
      sumTo (ResourceSlots EndToEndSignature .CBV PSInd)
        EndToEndSignature.m_Desc.NumResources < 2 ^ CounterBits) ∧
    ((FreshLayout EndToEndSignature UninitializedAttribs).m_pResourceAttribs
          0).BindPoints.Bindings PSInd +
        (EndToEndSignature.m_Desc.GetResourceDesc 0).ArraySize ≤
      (FreshLayout EndToEndSignature UninitializedAttribs).StaticResCounters .CBV PSInd :=
  ⟨by decide,
    (static_counter_is_max_slot_end EndToEndSignature UninitializedAttribs .CBV PSInd
      (by decide)).1 0 (by decide) (by decide)⟩

/-- C12 as stated fails: with a static sampler beside an immutable sampler that no resource
matches, the resources are sorted, the static sampler counter of the pixel stage is 2, so slot 0
lies below it, yet no resource of the sampler range has a slot at or below 0 in the pixel stage:
slot 0 belongs to the immutable sampler. -/
theorem static_counter_covers_immutable_sampler_counterexample :
    SortedByVarType StaticSamplerBesideImmutableSamplerSignature ∧
    (FreshLayout StaticSamplerBesideImmutableSamplerSignature
      UninitializedAttribs).StaticResCounters .SAMPLER PSInd = 2 ∧
    (∀ i, i < StaticSamplerBesideImmutableSamplerSignature.m_Desc.NumResources →
      ¬ (ShaderResourceTypeToRange
            (StaticSamplerBesideImmutableSamplerSignature.m_Desc.GetResourceDesc
              i).ResourceType = .SAMPLER ∧
          ((FreshLayout StaticSamplerBesideImmutableSamplerSignature
            UninitializedAttribs).m_pResourceAttribs i).BindPoints.Bindings PSInd ≤ 0)) := by
  decide

/-- C12 (amended) at the same signature: slot 1 is not a slot of the immutable sampler, lies
below the static sampler counter and is occupied by the static sampler. -/
theorem static_counter_slots_occupied_witness :
    (SortedByVarType StaticSamplerBesideImmutableSamplerSignature ∧
      ImmutableSamplerTotal StaticSamplerBesideImmutableSamplerSignature
          (FreshArraySize StaticSamplerBesideImmutableSamplerSignature) .SAMPLER PSInd +
        sumTo (ResourceSlots StaticSamplerBesideImmutableSamplerSignature .SAMPLER PSInd)
          StaticSamplerBesideImmutableSamplerSignature.m_Desc.NumResources < 2 ^ CounterBits ∧
      ImmutableSamplerTotal StaticSamplerBesideImmutableSamplerSignature
        (FreshArraySize StaticSamplerBesideImmutableSamplerSignature) .SAMPLER PSInd ≤ 1 ∧
      1 < (FreshLayout StaticSamplerBesideImmutableSamplerSignature
        UninitializedAttribs).StaticResCounters .SAMPLER PSInd) ∧
    ∃ i, i < StaticSamplerBesideImmutableSamplerSignature.m_Desc.NumResources ∧
      IsDirectStatic StaticSamplerBesideImmutableSamplerSignature .SAMPLER PSInd i ∧
      ((FreshLayout StaticSamplerBesideImmutableSamplerSignature
        UninitializedAttribs).m_pResourceAttribs i).BindPoints.Bindings PSInd ≤ 1 ∧
      1 < ((FreshLayout StaticSamplerBesideImmutableSamplerSignature
          UninitializedAttribs).m_pResourceAttribs i).BindPoints.Bindings PSInd +
        (StaticSamplerBesideImmutableSamplerSignature.m_Desc.GetResourceDesc i).ArraySize :=
  ⟨⟨by decide, by decide, by decide, by decide⟩,
    static_counter_slots_occupied StaticSamplerBesideImmutableSamplerSignature
      UninitializedAttribs .SAMPLER PSInd (by decide) (by decide) 1 (by decide) (by decide)⟩

/-- C13 at the end-to-end example: the constant buffer occupies slot 0 of the pixel stage and
bit 0 of the mask of the pixel stage is set. -/
theorem dynamic_cb_mask_bit_iff_slot_occupied_witness :
    (0 < DynamicCBSlotsMaskBits ∧
      ∀ i, i < EndToEndSignature.m_Desc.NumResources → IsDynamicCB EndToEndSignature PSInd i →
        ((FreshLayout EndToEndSignature UninitializedAttribs).m_pResourceAttribs
            i).BindPoints.Bindings PSInd +
          (EndToEndSignature.m_Desc.GetResourceDesc i).ArraySize ≤ 32) ∧
    ((FreshLayout EndToEndSignature UninitializedAttribs).m_DynamicCBSlotsMask PSInd).testBit
      0 = true :=
  ⟨⟨by decide, by decide⟩,
    (dynamic_cb_mask_bit_iff_slot_occupied EndToEndSignature UninitializedAttribs PSInd 0
      (by decide) (by decide)).2 ⟨0, by decide, by decide, by decide, by decide⟩⟩

/-- C14 at the end-to-end example, exported for the pixel stage into the empty map with zero
base bindings: the constant buffer is found under its name at bind point 0. -/
theorem UpdateShaderResourceBindingMap_adds_visible_resources_witness :
    ((∀ r, r < EndToEndSignature.m_Desc.NumResources →
        EmptyResourceMap (EndToEndSignature.m_Desc.GetResourceDesc r).Name = none) ∧
      (∀ r₁ r₂, r₁ < EndToEndSignature.m_Desc.NumResources →
        r₂ < EndToEndSignature.m_Desc.NumResources →
        (EndToEndSignature.m_Desc.GetResourceDesc r₁).ShaderStages.testBit PSInd = true →
        (EndToEndSignature.m_Desc.GetResourceDesc r₂).ShaderStages.testBit PSInd = true →
        (EndToEndSignature.m_Desc.GetResourceDesc r₁).Name =
          (EndToEndSignature.m_Desc.GetResourceDesc r₂).Name → r₁ = r₂)) ∧
    (UpdateShaderResourceBindingMap EndToEndSignature
        (FreshLayout EndToEndSignature UninitializedAttribs) EmptyResourceMap (1 <<< PSInd)
        D3D11ShaderResourceCounters.zero).ResourceMap "g_Constants" =
      some { BindPoint := 0, Space := 0, ArraySize := 1, ResType := .CONSTANT_BUFFER } :=
  have huniq : ∀ r₁ r₂, r₁ < EndToEndSignature.m_Desc.NumResources →
      r₂ < EndToEndSignature.m_Desc.NumResources →
      (EndToEndSignature.m_Desc.GetResourceDesc r₁).ShaderStages.testBit PSInd = true →
      (EndToEndSignature.m_Desc.GetResourceDesc r₂).ShaderStages.testBit PSInd = true →
      (EndToEndSignature.m_Desc.GetResourceDesc r₁).Name =
        (EndToEndSignature.m_Desc.GetResourceDesc r₂).Name → r₁ = r₂ := by
    intro r₁ r₂ h₁ h₂ _ _ hn
    have h₁' : r₁ < 2 := h₁
    have h₂' : r₂ < 2 := h₂
    interval_cases r₁ <;> interval_cases r₂
    · rfl
    · exact absurd hn (by decide)
    · exact absurd hn (by decide)
    · rfl
  ⟨⟨fun _ _ => rfl, huniq⟩,
    ((UpdateShaderResourceBindingMap_adds_visible_resources EndToEndSignature
      (FreshLayout EndToEndSignature UninitializedAttribs) EmptyResourceMap PSInd
      D3D11ShaderResourceCounters.zero (fun _ _ => rfl) huniq).1 0 (by decide)
      (by decide)).trans (by decide)⟩

/-- C16 as stated fails: in the end-to-end example exported for the pixel stage, the immutable
sampler is visible, its exported name is already in the map when it is about to be inserted
(the sampler resource of the same name was added by the resource loop), and the whole run fails
no assertion. -/
theorem duplicate_immutable_sampler_name_accepted_counterexample :
    (EndToEndSignature.m_Desc.GetImmutableSamplerDesc 0).ShaderStages &&& SHADER_TYPE_PIXEL ≠
      0 ∧
    ((BindingMapSamplersState EndToEndSignature
      (FreshLayout EndToEndSignature UninitializedAttribs) EmptyResourceMap SHADER_TYPE_PIXEL
      D3D11ShaderResourceCounters.zero 0).ResourceMap (SampName EndToEndSignature 0)).isSome =
        true ∧
    (UpdateShaderResourceBindingMap EndToEndSignature
      (FreshLayout EndToEndSignature UninitializedAttribs) EmptyResourceMap SHADER_TYPE_PIXEL
      D3D11ShaderResourceCounters.zero).VerifyFailures = [] := by
  decide

/-- C17 at the end-to-end example, copied from an empty static cache into an empty cache of a
shader resource binding: element 0 of the constant buffer is copied exactly once. -/
theorem CopyStaticResources_copies_each_static_element_once_witness :
    (SortedByVarType EndToEndSignature ∧
      IsCopiedStatic EndToEndSignature (FreshLayout EndToEndSignature UninitializedAttribs) 0 ∧
      0 < (EndToEndSignature.m_Desc.GetResourceDesc 0).ArraySize) ∧
    (CopyStaticResources ExampleCacheOps EndToEndSignature
        (FreshLayout EndToEndSignature UninitializedAttribs) (some (EmptyCache .Signature))
        (EmptyCache .SRB)).CopyResourceCalls.countP
      (fun c => decide (c.Resource = 0 ∧ c.ArrInd = 0)) = 1 :=
  ⟨⟨by decide, by decide, by decide⟩,
    (CopyStaticResources_copies_each_static_element_once ExampleCacheOps EndToEndSignature
      (FreshLayout EndToEndSignature UninitializedAttribs) (EmptyCache .Signature)
      (EmptyCache .SRB) 0 0 (by decide) (by decide) (by decide)).1⟩

/-- C19 at the end-to-end example: the iteration for the sampler, which has an immutable sampler
assigned, makes no call of `CopyResource`. -/
theorem CopyStaticResources_skips_immutable_samplers_witness :
    (ShaderResourceTypeToRange (EndToEndSignature.m_Desc.GetResourceDesc 1).ResourceType =
        .SAMPLER ∧
      ((FreshLayout EndToEndSignature UninitializedAttribs).m_pResourceAttribs
        1).IsImmutableSamplerAssigned = true) ∧
    (CopyStaticResourcesState ExampleCacheOps EndToEndSignature
        (FreshLayout EndToEndSignature UninitializedAttribs) (EmptyCache .Signature)
        (EmptyCache .SRB) 2).CopyResourceCalls =
      (CopyStaticResourcesState ExampleCacheOps EndToEndSignature
        (FreshLayout EndToEndSignature UninitializedAttribs) (EmptyCache .Signature)
        (EmptyCache .SRB) 1).CopyResourceCalls :=
  ⟨⟨by decide, by decide⟩,
    (CopyStaticResources_skips_immutable_samplers ExampleCacheOps EndToEndSignature
      (FreshLayout EndToEndSignature UninitializedAttribs) (EmptyCache .Signature)
      (EmptyCache .SRB) 1 (by decide) (by decide)).1.2.1⟩

/-- C21 at a constant buffer with an empty mask between two constant buffers of the pixel stage:
its iteration leaves the counters unchanged and its bind-point table is empty. -/
theorem empty_mask_resource_allocates_nothing_witness :
    ((LayoutState.fresh UninitializedAttribs).m_ResourceCounters =
        D3D11ShaderResourceCounters.zero ∧
      1 < EmptyMaskSignature.m_Desc.NumResources ∧
      (EmptyMaskSignature.m_Desc.GetResourceDesc 1).ShaderStages = SHADER_TYPE_UNKNOWN) ∧
    ((ResourcesState EmptyMaskSignature false (LayoutState.fresh UninitializedAttribs)
        2).m_ResourceCounters =
      (ResourcesState EmptyMaskSignature false (LayoutState.fresh UninitializedAttribs)
        1).m_ResourceCounters) ∧
    ((FreshLayout EmptyMaskSignature UninitializedAttribs).m_pResourceAttribs
      1).BindPoints.IsEmpty = true :=
  ⟨⟨rfl, by decide, by decide⟩,
    (empty_mask_resource_allocates_nothing EmptyMaskSignature false
      (LayoutState.fresh UninitializedAttribs) UninitializedAttribs 1 rfl (by decide)
      (by decide)).1.1,
    (empty_mask_resource_allocates_nothing EmptyMaskSignature false
      (LayoutState.fresh UninitializedAttribs) UninitializedAttribs 1 rfl (by decide)
      (by decide)).2.2.2.1⟩

/-- C24 at the acceleration structure kind: the unreachable branch is taken and the range is
unknown. -/
theorem ShaderResourceTypeToRange_unsupported_kind_witness :
    (SHADER_RESOURCE_TYPE.ACCEL_STRUCT ≠ .CONSTANT_BUFFER ∧
      SHADER_RESOURCE_TYPE.ACCEL_STRUCT ≠ .TEXTURE_SRV ∧
      SHADER_RESOURCE_TYPE.ACCEL_STRUCT ≠ .BUFFER_SRV ∧
      SHADER_RESOURCE_TYPE.ACCEL_STRUCT ≠ .TEXTURE_UAV ∧
      SHADER_RESOURCE_TYPE.ACCEL_STRUCT ≠ .BUFFER_UAV ∧
      SHADER_RESOURCE_TYPE.ACCEL_STRUCT ≠ .SAMPLER ∧
      SHADER_RESOURCE_TYPE.ACCEL_STRUCT ≠ .INPUT_ATTACHMENT) ∧
    ShaderResourceTypeToRangeWithUnexpected .ACCEL_STRUCT = (.UNKNOWN, true) :=
  ⟨⟨by decide, by decide, by decide, by decide, by decide, by decide, by decide⟩,
    (ShaderResourceTypeToRange_unsupported_kind .ACCEL_STRUCT (by decide) (by decide)
      (by decide) (by decide) (by decide) (by decide) (by decide)).1⟩

/-- C25 as stated fails: a texture array of size 4 has the sampler `g_Texture_sampler` of array
size 1 assigned, the sampler is resolved to immutable sampler 0 and the texture has the
immutable sampler flag set, yet the array size of the immutable sampler is 1, below the array
size 4 of the texture. -/
theorem immutable_sampler_array_size_below_texture_counterexample :
    (TextureArrayWithAssignedSamplerSignature.m_Desc.GetResourceDesc 0).ResourceType =
      .TEXTURE_SRV ∧
    TextureArrayWithAssignedSamplerSignature.FindAssignedSampler
      (TextureArrayWithAssignedSamplerSignature.m_Desc.GetResourceDesc 0) = some 1 ∧
    ImmutableSamplerIndOf TextureArrayWithAssignedSamplerSignature 1 = some 0 ∧
    ((FreshLayout TextureArrayWithAssignedSamplerSignature
      UninitializedAttribs).m_pResourceAttribs 0).IsImmutableSamplerAssigned = true ∧
    ((FreshLayout TextureArrayWithAssignedSamplerSignature
      UninitializedAttribs).m_pImmutableSamplerAttribs 0).ArraySize = 1 ∧
    (TextureArrayWithAssignedSamplerSignature.m_Desc.GetResourceDesc 0).ArraySize = 4 := by
  decide

/-- C25 (amended) at the same signature: the array size of the immutable sampler covers the
array size of the assigned sampler. -/
theorem immutable_sampler_array_size_covers_assigned_sampler_witness :
    (0 < TextureArrayWithAssignedSamplerSignature.m_Desc.NumResources ∧
      (TextureArrayWithAssignedSamplerSignature.m_Desc.GetResourceDesc 0).ResourceType =
        .TEXTURE_SRV ∧
      TextureArrayWithAssignedSamplerSignature.FindAssignedSampler
        (TextureArrayWithAssignedSamplerSignature.m_Desc.GetResourceDesc 0) = some 1 ∧
      1 < TextureArrayWithAssignedSamplerSignature.m_Desc.NumResources ∧
      ImmutableSamplerIndOf TextureArrayWithAssignedSamplerSignature 1 = some 0) ∧
    (TextureArrayWithAssignedSamplerSignature.m_Desc.GetResourceDesc 1).ArraySize ≤
      ((FreshLayout TextureArrayWithAssignedSamplerSignature
        UninitializedAttribs).m_pImmutableSamplerAttribs 0).ArraySize :=
  ⟨⟨by decide, by decide, by decide, by decide, by decide⟩,
    (immutable_sampler_array_size_covers_assigned_sampler
      TextureArrayWithAssignedSamplerSignature UninitializedAttribs 0 1 0 (by decide)
      (by decide) (by decide) (by decide) (by decide)).1⟩

/-- C28 at a static sampler that matches an immutable sampler: after `InitSRBResourceCache` its
element 0 is bound. -/
theorem InitSRBResourceCache_binds_immutable_samplers_witness :
    (∀ k, k < StaticSamplersSignature.m_Desc.NumImmutableSamplers →
      (AllImmutableSamplers k).isSome = true) ∧
    ExampleCacheOps.IsResourceBound .SAMPLER
      (InitSRBResourceCache StaticSamplersSignature
        (FreshLayout StaticSamplersSignature UninitializedAttribs) AllImmutableSamplers
        (EmptyCache .SRB)).ResourceCache
      (((FreshLayout StaticSamplersSignature UninitializedAttribs).m_pResourceAttribs
        1).BindPoints.add 0) = true :=
  ⟨fun _ _ => rfl,
    (InitSRBResourceCache_binds_immutable_samplers StaticSamplersSignature
      (FreshLayout StaticSamplersSignature UninitializedAttribs) UninitializedAttribs
      AllImmutableSamplers (EmptyCache .SRB) none (fun _ _ => rfl)).2.1 1 0 (by decide)
      (by decide) (by decide) (by decide)⟩

/-- C32: the array size check on a duplicate name fails on a layout of `CreateLayout`: in the
example of two samplers (array size 1 in the vertex stage, 4 in the pixel stage) resolved to one
immutable sampler, exported for the vertex stage, the exported name of the immutable sampler is
already in the map with the entry of the vertex-stage sampler resolved to it; the array size 1
of that entry is smaller than the array size 4 of the immutable sampler, and the run fails the
array size assertion, after a fresh construction that failed none. -/
theorem duplicate_sampler_array_size_check_fails :
    ImmutableSamplerIndOf TwoSamplersSignature 0 = some 0 ∧
    (BindingMapSamplersState TwoSamplersSignature
      (FreshLayout TwoSamplersSignature UninitializedAttribs) EmptyResourceMap SHADER_TYPE_VERTEX
      D3D11ShaderResourceCounters.zero 0).ResourceMap (SampName TwoSamplersSignature 0) =
        some (ResourceBindInfo TwoSamplersSignature
          (FreshLayout TwoSamplersSignature UninitializedAttribs)
          D3D11ShaderResourceCounters.zero VSInd 0) ∧
    (ResourceBindInfo TwoSamplersSignature
      (FreshLayout TwoSamplersSignature UninitializedAttribs)
      D3D11ShaderResourceCounters.zero VSInd 0).ArraySize = 1 ∧
    (ImmutableSamplerBindInfo (FreshLayout TwoSamplersSignature UninitializedAttribs)
      D3D11ShaderResourceCounters.zero VSInd 0).ArraySize = 4 ∧
    (FreshLayout TwoSamplersSignature UninitializedAttribs).VerifyFailures = [] ∧
    (UpdateShaderResourceBindingMap TwoSamplersSignature
      (FreshLayout TwoSamplersSignature UninitializedAttribs) EmptyResourceMap SHADER_TYPE_VERTEX
      D3D11ShaderResourceCounters.zero).VerifyFailures =
        [BindingMapVerifyFailure.SamplerArraySizeSmaller 0] := by
  decide

/-- C33 at the end-to-end example: the static counter of the constant buffers in the pixel stage
is at most the main counter. -/
theorem static_counter_le_main_counter_witness :
    ((LayoutState.fresh UninitializedAttribs).m_ResourceCounters =
        D3D11ShaderResourceCounters.zero ∧
      ImmutableSamplerTotal EndToEndSignature
          (ArraySizeOf EndToEndSignature (LayoutState.fresh UninitializedAttribs)) .CBV PSInd +
        sumTo (ResourceSlots EndToEndSignature .CBV PSInd)
          EndToEndSignature.m_Desc.NumResources < 2 ^ CounterBits) ∧
    (CreateLayout EndToEndSignature false
        (LayoutState.fresh UninitializedAttribs)).StaticResCounters .CBV PSInd ≤
      (CreateLayout EndToEndSignature false
        (LayoutState.fresh UninitializedAttribs)).m_ResourceCounters .CBV PSInd :=
  ⟨⟨rfl, by decide⟩,
    (static_counter_le_main_counter EndToEndSignature false
      (LayoutState.fresh UninitializedAttribs) rfl .CBV PSInd (by decide)).1⟩

/-- C34 at the end-to-end example: the iteration for the constant buffer leaves the sampler
counter of the pixel stage unchanged. -/
theorem resource_step_changes_only_its_counters_witness :
    ((LayoutState.fresh UninitializedAttribs).m_ResourceCounters =
        D3D11ShaderResourceCounters.zero ∧
      0 < EndToEndSignature.m_Desc.NumResources ∧
      (D3D11_RESOURCE_RANGE.SAMPLER ≠
          ShaderResourceTypeToRange
            (EndToEndSignature.m_Desc.GetResourceDesc 0).ResourceType ∨
        (EndToEndSignature.m_Desc.GetResourceDesc 0).ShaderStages.testBit PSInd = false)) ∧
    (ResourcesState EndToEndSignature false (LayoutState.fresh UninitializedAttribs)
        (0 + 1)).m_ResourceCounters .SAMPLER PSInd =
      (ResourcesState EndToEndSignature false (LayoutState.fresh UninitializedAttribs)
        0).m_ResourceCounters .SAMPLER PSInd :=
  ⟨⟨rfl, by decide, Or.inl (by decide)⟩,
    ((resource_step_changes_only_its_counters EndToEndSignature false
      (LayoutState.fresh UninitializedAttribs) rfl 0 (by decide)).1 .SAMPLER PSInd
      (Or.inl (by decide))).1⟩

end Diligent
